import Mathlib

/-!
# Asteroids: a shallow embedding of the simulation core

The C sources `asteroids.c` and `simple.c` are embedded as pure functions on an explicit
game state.

Conventions of the embedding:

* a C `double` is an exact rational (`ℚ`): rounding of floating point is not modelled, and a
  division by zero yields `0` as in Lean's field convention (C would give an infinity or NaN);
* a C `int` is an unbounded `Int`; the only place where the conversion between the two number
  types matters is the `(int)` truncation `cInt`;
* the C library functions `sin`, `cos`, `atan` and `sqrt` are parameters (a `LibM` record): every
  theorem holds for every choice of them;
* `rand()` reads the next entry of an arbitrary stream of naturals carried by the state, so a
  statement over all states is a statement over every outcome of the random draws. Where one C
  expression calls `myRandom` several times the draws are taken left to right;
* a pool (a fixed C array) is a function from the slot index; the loops only visit the indices
  below the capacity of the pool;
* a loop `for(i = 0; i < MAX; i++)` is a structural recursion on the number of iterations that
  are left, and the idiom `i = MAX` inside a body ends the recursion;
* the calls of OpenGL and `printf` do not touch the variables of the simulation and are left
  out;
* `updateRespawn` and `updateLevelText` return, next to the new state, a flag that tells whether
  the call went through `changeState(STATE_TITLE)`, respectively `nextLevel`, so that the
  number of such calls in a run can be counted.
-/

namespace Asteroids

/-! ## Constants (`simple.h`, `asteroids.c` lines 1-20) -/

def M_PI : ℚ := 314159265358979323846 / 100000000000000000000

def STATE_TITLE : Int := 0
def STATE_ASTEROIDS : Int := 1
def STATE_HELP : Int := 2
def STATE_SHIPSELECT : Int := 3
def STATE_SYSTEM : Int := 4

def MAX_PHOTONS : Nat := 8
def MAX_ASTEROIDS : Nat := 16
def MAX_VERTICES : Nat := 16
def MAX_STARS : Nat := 6
def MAX_DEBRIS : Nat := 25
def MAX_DUST : Nat := 100
def MAX_POINTS : Nat := 10
def MAX_ASTEROID_VARIANCE : Int := 3
def MIN_ASTEROID_VARIANCE : Int := 2

def ASTEROID_LARGE : Int := 5
def ASTEROID_MEDIUM : Int := 3
def ASTEROID_SMALL : Int := 2

/-! ## Numbers, library functions and the random source -/

/-- The conversion of a `double` to an `int`: truncation toward zero. The result has no bound
here; in C the conversion is defined only when the truncated value is in the range of `int`
(see `fitsInt`), so a statement about the code needs its values to stay in that range. -/
def cInt (q : ℚ) : Int := if 0 ≤ q then ⌊q⌋ else ⌈q⌉

/-- The functions of `math.h` that the game calls and that have no rational model. -/
structure LibM where
  sin : ℚ → ℚ
  cos : ℚ → ℚ
  atan : ℚ → ℚ
  sqrt : ℚ → ℚ

/-- The state of `rand()`: an arbitrary stream of outcomes and the number of draws made. -/
structure Rng where
  draws : Nat → Nat
  pos : Nat

/-- One call of `rand()`. -/
def rand (g : Rng) : Nat × Rng := (g.draws g.pos, { g with pos := g.pos + 1 })

/-- The value `myRandom(min, max)` computes from the outcome `r` of its `rand()` call
(`simple.c`, lines 1027-1037). -/
def myRandomOf (min max : ℚ) (r : Nat) : ℚ :=
  let d : ℚ := min + (max - min) * (((r % 0x7fff : Nat) : ℚ)) / 32767
  ((⌈d * 1000000⌉ : Int) : ℚ) / 1000000

/-- The function `myRandom` of `simple.c`. -/
def myRandom (min max : ℚ) (g : Rng) : ℚ × Rng :=
  (myRandomOf min max (rand g).1, (rand g).2)

/-! ## Data model (`asteroids.c`, lines 22-110) -/

structure Coords where
  x : ℚ := 0
  y : ℚ := 0

structure Ship where
  LDmg : Int := 0
  RDmg : Int := 0
  BDmg : Int := 0
  type : Int := 0
  shipUpgrade : Int := 0
  x : ℚ := 0
  y : ℚ := 0
  phi : ℚ := 0
  dx : ℚ := 0
  dy : ℚ := 0
  size : ℚ := 0
  LHp : ℚ := 0
  RHp : ℚ := 0
  BHp : ℚ := 0
  shipSpeed : ℚ := 0
  shipControl : ℚ := 0

structure Photon where
  active : Int := 0
  x : ℚ := 0
  y : ℚ := 0
  dx : ℚ := 0
  dy : ℚ := 0

structure Asteroid where
  active : Int := 0
  nVertices : Int := 0
  size : Int := 0
  x : ℚ := 0
  y : ℚ := 0
  phi : ℚ := 0
  dx : ℚ := 0
  dy : ℚ := 0
  dphi : ℚ := 0
  coords : Nat → Coords := fun _ => {}

structure Dust where
  active : Int := 0
  lifetime : Int := 0
  x : ℚ := 0
  y : ℚ := 0
  dx : ℚ := 0
  dy : ℚ := 0

structure Debris where
  active : Int := 0
  lifetime : Int := 0
  type : Int := 0
  x : ℚ := 0
  y : ℚ := 0
  phi : ℚ := 0
  dx : ℚ := 0
  dy : ℚ := 0
  dphi : ℚ := 0
  coords : Nat → Coords := fun _ => {}

structure Points where
  active : Int := 0
  amount : Int := 0
  lifetime : Int := 0
  x : ℚ := 0
  y : ℚ := 0

structure Text where
  active : Int := 0
  lifetime : Int := 0
  x : ℚ := 0
  y : ℚ := 0
  msg : String := ""

structure BackgroundStar where
  active : Int := 0
  x : ℚ := 0
  y : ℚ := 0
  flicker : ℚ := 0
  flickerRate : ℚ := 0

/-- The global variables of `asteroids.c` and `simple.h` that the simulation reads or writes,
with the state of `rand()`. -/
structure Game where
  xMax : ℚ := 0
  yMax : ℚ := 0
  state : Int := 0
  up : Int := 0
  down : Int := 0
  left : Int := 0
  right : Int := 0
  level : Int := 0
  maxLevel : Int := 0
  respawn : Int := 0
  cooldown : Int := 0
  currentCooldown : Int := 0
  photonUpgrade : Int := 0
  selectedOption : Int := 0
  oscillating : ℚ := 0
  photonSize : ℚ := 0
  photonSpeed : ℚ := 0
  scoreDigits : Int := 0
  scoreAL : Int := 0
  scoreAM : Int := 0
  scoreAS : Int := 0
  debrisM : Int := 0
  debrisA : Int := 0
  metalCount : Int := 0
  alloyCount : Int := 0
  ship : Ship := {}
  levelTextLifetime : Int := 0
  photons : Nat → Photon := fun _ => {}
  asteroids : Nat → Asteroid := fun _ => {}
  debris : Nat → Debris := fun _ => {}
  dust : Nat → Dust := fun _ => {}
  points : Nat → Points := fun _ => {}
  upgradeText : Text := {}
  rng : Rng := ⟨fun _ => 0, 0⟩
  w : ℚ := 0
  h : ℚ := 0
  maxOption : Int := 0
  playerCooldown : Int := 0
  playerCurrentCooldown : Int := 0
  launchedShipPath : ℚ := 0
  backgroundStars : Nat → BackgroundStar := fun _ => {}

/-- The session score, as `addScore` and `updateHighscore` compute it from the counters. -/
def sessionScore (s : Game) : Int :=
  s.scoreAL * 5 + s.scoreAM * 3 + s.scoreAS * 2 + s.debrisM * 10 + s.debrisA * 100

/-! ## Segment intersection (`asteroids.c`, lines 2808-2884) -/

/-- One orientation of `lineCollision`: the cross product is stored in an `int` variable, then
replaced by `1` when positive and by `2` when negative. -/
def orientation (cross : ℚ) : Int :=
  let ori := cInt cross
  if ori > 0 then 1 else if ori < 0 then 2 else ori

/-- The bounding-box test `lineCollision` applies to a point `P` and a segment `QR`. -/
def onSegmentBox (Px Py Qx Qy Rx Ry : ℚ) : Bool :=
  (decide (Px ≤ Qx) || decide (Px ≤ Rx)) && (decide (Px ≥ Qx) || decide (Px ≥ Rx)) &&
  ((decide (Py ≤ Qy) || decide (Py ≤ Ry)) && (decide (Py ≥ Qy) || decide (Py ≥ Ry)))

/-- The function `lineCollision`. -/
def lineCollision (Ax Ay Bx By Cx Cy Dx Dy : ℚ) : Int :=
  let oriD := orientation ((By - Ay) * (Cx - Bx) - (Bx - Ax) * (Cy - By))
  let oriC := orientation ((By - Ay) * (Dx - Bx) - (Bx - Ax) * (Dy - By))
  let oriB := orientation ((Dy - Cy) * (Ax - Dx) - (Dx - Cx) * (Ay - Dy))
  let oriA := orientation ((Dy - Cy) * (Bx - Dx) - (Dx - Cx) * (By - Dy))
  let collision : Int := 0
  let collision := if oriD ≠ oriC ∧ oriB ≠ oriA then 1 else collision
  let collision := if oriD = 0 ∧ onSegmentBox Cx Cy Ax Ay Bx By = true then 1 else collision
  let collision := if oriC = 0 ∧ onSegmentBox Dx Dy Ax Ay Bx By = true then 1 else collision
  let collision := if oriB = 0 ∧ onSegmentBox Ax Ay Cx Cy Dx Dy = true then 1 else collision
  let collision := if oriA = 0 ∧ onSegmentBox Bx By Cx Cy Dx Dy = true then 1 else collision
  collision

/-- The closed segments `AB` and `CD` have a point in common (the wording of the specification,
not a translation of code). -/
def segmentsMeet (Ax Ay Bx By Cx Cy Dx Dy : ℚ) : Prop :=
  ∃ t u : ℚ, 0 ≤ t ∧ t ≤ 1 ∧ 0 ≤ u ∧ u ≤ 1 ∧
    Ax + t * (Bx - Ax) = Cx + u * (Dx - Cx) ∧ Ay + t * (By - Ay) = Cy + u * (Dy - Cy)

/-! ## Helpers of the embedding -/

/-- The `rand()` state after `n` further draws. -/
def Rng.skip (g : Rng) (n : Nat) : Rng := { g with pos := g.pos + n }

/-- The value of the `k`-th next call (counting from `0`) when that call is
`myRandom(min, max)`. -/
def myRandomAt (min max : ℚ) (g : Rng) (k : Nat) : ℚ := (myRandom min max (g.skip k)).1

/-- The outcome of the `k`-th next call (counting from `0`) when that call is `rand()`. -/
def randAt (g : Rng) (k : Nat) : Nat := (rand (g.skip k)).1

/-- A C comparison used as a number: `1` when it holds and `0` otherwise. -/
def cBool (p : Prop) [Decidable p] : Int := if p then 1 else 0

/-- The number of indices `k` with `i ≤ k < i + n` that satisfy `p`. -/
def countFrom (p : Nat → Bool) : Nat → Nat → Nat
  | _, 0 => 0
  | i, n + 1 => (if p i then 1 else 0) + countFrom p (i + 1) n

/-! ## Scoring popup (`asteroids.c`, lines 2759-2785) -/

/-- The loop of `addScore` over the points pool; `n` iterations are left and `i` is the index. -/
def addScoreLoop (p : Int) (x y : ℚ) : Nat → Nat → (Nat → Points) → (Nat → Points)
  | 0, _, points => points
  | n + 1, i, points =>
    if (points i).active = 0 then
      Function.update points i
        { points i with active := 1, amount := p, x := x, y := y, lifetime := 30 }
    else addScoreLoop p x y n (i + 1) points

/-- The function `addScore`. Its first loop counts the digits of the session score in a local
variable that is only printed, so it leaves the state alone. -/
def addScore (p : Int) (x y : ℚ) (s : Game) : Game :=
  { s with points := addScoreLoop p x y MAX_POINTS 0 s.points }

/-! ## Firing (`asteroids.c`, lines 2638-2700) -/

/-- The photon a ship of type 0 writes into a free slot (lines 2652-2656). -/
def photonShot0 (m : LibM) (s : Game) (old : Photon) : Photon :=
  { old with
    active := 1
    x := s.ship.x + s.photonSize * m.sin s.ship.phi
    y := s.ship.y + s.photonSize * m.cos s.ship.phi
    dx := s.photonSpeed * m.sin s.ship.phi
    dy := s.photonSpeed * m.cos s.ship.phi }

/-- The loop of `firePhoton` for a ship of type 0. -/
def firePhotonLoop0 (m : LibM) (s : Game) : Nat → Nat → (Nat → Photon) → (Nat → Photon)
  | 0, _, photons => photons
  | n + 1, i, photons =>
    if (photons i).active = 0 then Function.update photons i (photonShot0 m s (photons i))
    else firePhotonLoop0 m s n (i + 1) photons

/-- The photon a ship of type 1 writes into a free slot when `fired` photons of the volley
exist already (lines 2667-2671). -/
def photonShot1 (m : LibM) (s : Game) (fired : Int) (old : Photon) : Photon :=
  { old with
    active := 1
    x := s.ship.x + s.photonSize * m.sin (fired * M_PI / 2)
    y := s.ship.y + s.photonSize * m.cos (fired * M_PI / 2)
    dx := s.photonSpeed * m.sin (fired * M_PI / 2)
    dy := s.photonSpeed * m.cos (fired * M_PI / 2) }

/-- The loop of `firePhoton` for a ship of type 1; the state of the loop is the photon pool,
`currentCooldown` and `fired`. -/
def firePhotonLoop1 (m : LibM) (s : Game) :
    Nat → Nat → (Nat → Photon) × Int × Int → (Nat → Photon) × Int × Int
  | 0, _, st => st
  | n + 1, i, (photons, currentCooldown, fired) =>
    if (photons i).active = 0 then
      let currentCooldown := currentCooldown + s.cooldown
      let photons := Function.update photons i (photonShot1 m s fired (photons i))
      let fired := fired + 1
      if fired ≥ 4 then (photons, currentCooldown, fired)
      else firePhotonLoop1 m s n (i + 1) (photons, currentCooldown, fired)
    else firePhotonLoop1 m s n (i + 1) (photons, currentCooldown, fired)

/-- The photon a ship of type 2 writes into a free slot when `fired` photons of the volley
exist already (lines 2685-2691). -/
def photonShot2 (m : LibM) (s : Game) (fired : Int) (old : Photon) : Photon :=
  { old with
    active := 1
    x := s.ship.x + cBool (fired = 0) * s.ship.size * m.sin s.ship.phi
          + cBool (fired = 1) * s.ship.size * m.cos (s.ship.phi + 330 * M_PI / 180)
          - cBool (fired = 2) * s.ship.size * m.cos (s.ship.phi + 30 * M_PI / 180)
          + s.photonSize * m.sin s.ship.phi
    y := s.ship.y + cBool (fired = 0) * s.ship.size * m.cos s.ship.phi
          - cBool (fired = 1) * s.ship.size * m.sin (s.ship.phi + 330 * M_PI / 180)
          + cBool (fired = 2) * s.ship.size * m.sin (s.ship.phi + 30 * M_PI / 180)
          + s.photonSize * m.cos s.ship.phi
    dx := s.photonSpeed * m.sin s.ship.phi
    dy := s.photonSpeed * m.cos s.ship.phi }

/-- The loop of `firePhoton` for a ship of type 2. -/
def firePhotonLoop2 (m : LibM) (s : Game) :
    Nat → Nat → (Nat → Photon) × Int × Int → (Nat → Photon) × Int × Int
  | 0, _, st => st
  | n + 1, i, (photons, currentCooldown, fired) =>
    if (photons i).active = 0 then
      let currentCooldown := currentCooldown + s.cooldown
      let photons := Function.update photons i (photonShot2 m s fired (photons i))
      let fired := fired + 1
      if fired ≥ 3 then (photons, currentCooldown, fired)
      else firePhotonLoop2 m s n (i + 1) (photons, currentCooldown, fired)
    else firePhotonLoop2 m s n (i + 1) (photons, currentCooldown, fired)

/-- The function `firePhoton`. -/
def firePhoton (m : LibM) (s : Game) : Game :=
  if s.ship.type = 0 then
    { s with photons := firePhotonLoop0 m s MAX_PHOTONS 0 s.photons }
  else if s.ship.type = 1 then
    if s.currentCooldown ≤ 0 then
      let r := firePhotonLoop1 m s MAX_PHOTONS 0 (s.photons, s.currentCooldown, 0)
      { s with photons := r.1, currentCooldown := r.2.1 }
    else s
  else if s.ship.type = 2 then
    if s.currentCooldown ≤ 0 then
      let r := firePhotonLoop2 m s MAX_PHOTONS 0 (s.photons, s.currentCooldown, 0)
      { s with photons := r.1, currentCooldown := r.2.1 }
    else s
  else s

/-- The number of photons of one volley as the specification gives it: one for a ship of type
0, four for type 1 and three for type 2, the last two only when `currentCooldown <= 0`. -/
def volleySize (s : Game) : Nat :=
  if s.ship.type = 0 then 1
  else if s.ship.type = 1 then (if s.currentCooldown ≤ 0 then 4 else 0)
  else if s.ship.type = 2 then (if s.currentCooldown ≤ 0 then 3 else 0)
  else 0

/-- The number of inactive photon slots. -/
def freePhotons (s : Game) : Nat :=
  countFrom (fun j => decide ((s.photons j).active = 0)) 0 MAX_PHOTONS

/-! ## Dust (`asteroids.c`, lines 291-321) -/

/-- The loop of `initDust`; the state of the loop is `dustCount`, the dust pool and the state of
`rand()`. -/
def initDustLoop (x y dx dy : ℚ) :
    Nat → Nat → Int → (Nat → Dust) × Rng → (Nat → Dust) × Rng
  | 0, _, _, st => st
  | n + 1, i, dustCount, (dust, g) =>
    if (dust i).active ≠ 1 then
      let dust := Function.update dust i
        { dust i with
          x := x
          y := y
          dx := myRandomAt (-1.3) 1.3 g 0 * dx
          dy := myRandomAt (-1.3) 1.3 g 1 * dy
          active := 1
          lifetime := 100 }
      let dustCount := dustCount - 1
      if dustCount ≤ 0 then (dust, g.skip 2)
      else initDustLoop x y dx dy n (i + 1) dustCount (dust, g.skip 2)
    else initDustLoop x y dx dy n (i + 1) dustCount (dust, g)

/-- The function `initDust`, on the values of the two asteroids it reads. -/
def initDust (a b : Asteroid) (s : Game) : Game :=
  let x := (a.x + b.x) / 2
  let y := (a.y + b.y) / 2
  let dx := (a.dx + b.dx) / 2.0
  let dy := (a.dy + b.dy) / 2.0
  let dustCount := a.size + b.size
  let r := initDustLoop x y dx dy MAX_DUST 0 dustCount (s.dust, s.rng)
  { s with dust := r.1, rng := r.2 }

/-! ## Destruction of an asteroid (`asteroids.c`, lines 606-767) -/

/-- The assignment `asteroids[i] = f(asteroids[i])`. -/
def Game.setAst (s : Game) (i : Nat) (f : Asteroid → Asteroid) : Game :=
  { s with asteroids := Function.update s.asteroids i (f (s.asteroids i)) }

/-- The debris piece the `ASTEROID_SMALL` branch writes into a free slot (lines 642-659) when
`debrisCount` pieces are still to be made; it takes fourteen draws. -/
def smallDebrisPiece (m : LibM) (a : Asteroid) (debrisCount : Int) (g : Rng) (old : Debris) :
    Debris :=
  let dx := (myRandomAt 0.25 0.55 g 1 * a.dx + myRandomAt (-0.1) 0.1 g 2)
    * m.sin (debrisCount * 2 * M_PI / 3)
  let dy := (myRandomAt 0.25 0.55 g 3 * a.dy + myRandomAt (-0.1) 0.1 g 4)
    * m.cos (debrisCount * 2 * M_PI / 3)
  { old with
    active := 1
    type := 1 + cBool (myRandomAt 0.0 1.0 g 0 > 0.9)
    dx := dx
    dy := dy
    x := a.x + dx * 3
    y := a.y + dx * 3
    phi := myRandomAt 0.0 M_PI g 5
    dphi := myRandomAt (-0.2) 0.2 g 6
    coords := fun k =>
      if k = 0 then ⟨0.0 + myRandomAt (-0.5) 0.5 g 7, 2.0 + myRandomAt (-0.5) 0.5 g 8⟩
      else if k = 1 then
        ⟨-m.sqrt 2.0 + myRandomAt (-0.5) 0.5 g 9, -m.sqrt 2.0 + myRandomAt (-0.5) 0.5 g 10⟩
      else if k = 2 then
        ⟨m.sqrt 2.0 + myRandomAt (-0.5) 0.5 g 11, -m.sqrt 2.0 + myRandomAt (-0.5) 0.5 g 12⟩
      else old.coords k
    lifetime := cInt (125 * myRandomAt 0.75 1.25 g 13) }

/-- The debris loop of the `ASTEROID_SMALL` branch (lines 640-665); `a` is the asteroid that is
destroyed. The test `debrisCount <= 0` is made at the end of every iteration. -/
def smallDebrisLoop (m : LibM) (a : Asteroid) :
    Nat → Nat → Int → (Nat → Debris) × Rng → (Nat → Debris) × Rng
  | 0, _, _, st => st
  | n + 1, i, debrisCount, (debris, g) =>
    if (debris i).active = 0 then
      let debris := Function.update debris i (smallDebrisPiece m a debrisCount g (debris i))
      let debrisCount := debrisCount - 1
      if debrisCount ≤ 0 then (debris, g.skip 14)
      else smallDebrisLoop m a n (i + 1) debrisCount (debris, g.skip 14)
    else
      if debrisCount ≤ 0 then (debris, g)
      else smallDebrisLoop m a n (i + 1) debrisCount (debris, g)

/-- The branch on the size of the asteroid (lines 636-674): the new state and `children`. In C
`children` stays uninitialised for a size other than the three constants; it is `0` here. -/
def destroyAsteroidSize (m : LibM) (a : Nat) (s : Game) : Game × Int :=
  if (s.asteroids a).size = ASTEROID_SMALL then
    let s := initDust (s.asteroids a) (s.asteroids a) s
    let s := s.setAst a (fun c => { c with active := 0 })
    let debrisCount : Int := ⌊myRandomAt 2.5 3.5 s.rng 0⌋
    let r := smallDebrisLoop m (s.asteroids a) MAX_DEBRIS 0 debrisCount (s.debris, s.rng.skip 1)
    ({ s with debris := r.1, rng := r.2 }, 0)
  else if (s.asteroids a).size = ASTEROID_MEDIUM then
    let s := s.setAst a (fun c => { c with size := ASTEROID_SMALL })
    ({ s with rng := s.rng.skip 1 }, ⌊myRandomAt 1.2 2.2 s.rng 0⌋)
  else if (s.asteroids a).size = ASTEROID_LARGE then
    let s := s.setAst a (fun c => { c with size := ASTEROID_MEDIUM })
    ({ s with rng := s.rng.skip 1 }, ⌊myRandomAt 2.3 3.3 s.rng 0⌋)
  else (s, 0)

/-- The vertex loop (lines 677-684 for the parent, 756-761 for a child). The locals `theta` and
`r` of `destroyAsteroid` are declared `int`, so both values are truncated. -/
def vertexLoop (m : LibM) (size nVertices : Int) :
    Nat → Nat → (Nat → Coords) × Rng → (Nat → Coords) × Rng
  | 0, _, st => st
  | n + 1, i, (coords, g) =>
    let theta : Int := cInt (2.0 * M_PI * i / nVertices)
    let r : Int := cInt (size * myRandomAt MIN_ASTEROID_VARIANCE MAX_ASTEROID_VARIANCE g 0)
    vertexLoop m size nVertices n (i + 1)
      (Function.update coords i ⟨-r * m.sin theta, r * m.cos theta⟩, g.skip 1)

/-- The reconstruction of the parent with its new size (lines 676-684). -/
def rebuildParent (m : LibM) (a : Nat) (s : Game) : Game :=
  let nVertices : Int := 3 + (s.asteroids a).size
    + Int.tmod (randAt s.rng 0) (MAX_VERTICES - 3 - (s.asteroids a).size)
  let r := vertexLoop m (s.asteroids a).size nVertices nVertices.toNat 0
    ((s.asteroids a).coords, s.rng.skip 1)
  { s.setAst a (fun c => { c with nVertices := nVertices, coords := r.1 }) with rng := r.2 }

/-- The transfer of the photon's velocity to the parent and the clamp (lines 686-701). -/
def nudgeParent (a : Nat) (p : Photon) (s : Game) : Game :=
  let s := s.setAst a (fun c =>
    { c with dx := (c.dx * c.size + p.dx * s.photonSize / 2) / c.size })
  let s := s.setAst a (fun c =>
    { c with dy := (c.dy * c.size + p.dy * s.photonSize / 2) / c.size })
  let s := if (s.asteroids a).dx > 1 then s.setAst a (fun c => { c with dx := 1 })
    else if (s.asteroids a).dx < -1 then s.setAst a (fun c => { c with dx := -1 })
    else s
  if (s.asteroids a).dy > 1 then s.setAst a (fun c => { c with dy := -1 })
  else if (s.asteroids a).dy < -1 then s.setAst a (fun c => { c with dy := -1 })
  else s

/-- The body that creates one child in slot `i` (lines 723-762). The parent is read through
its slot `a` at every use, as the C code reads it through the pointer. -/
def spawnChild (m : LibM) (a i : Nat) (p : Photon) (space children : Int) (s : Game) : Game :=
  let s := s.setAst i (fun c => { c with size := (s.asteroids a).size })
  let angle : ℚ := m.atan (p.dx / p.dy) + M_PI / 2 - space * M_PI / ((1 + children : Int) : ℚ)
  let s :=
    if p.dy < 0 then
      let s := s.setAst i (fun c =>
        { c with x := (s.asteroids a).x - m.sin angle * ((c.size + (s.asteroids a).size : Int) : ℚ) })
      s.setAst i (fun c =>
        { c with y := (s.asteroids a).y - m.cos angle * ((c.size + (s.asteroids a).size : Int) : ℚ) })
    else
      let s := s.setAst i (fun c =>
        { c with x := (s.asteroids a).x + m.sin angle * ((c.size + (s.asteroids a).size : Int) : ℚ) })
      s.setAst i (fun c =>
        { c with y := (s.asteroids a).y + m.cos angle * ((c.size + (s.asteroids a).size : Int) : ℚ) })
  let s := s.setAst i (fun c => { c with dphi := (s.asteroids a).dphi * myRandomAt 0.5 1.4 s.rng 0 })
  let s := { s with rng := s.rng.skip 1 }
  let s :=
    if (s.asteroids i).dphi > 0.2 then s.setAst i (fun c => { c with dphi := 0.2 })
    else if (s.asteroids i).dphi < -0.2 then s.setAst i (fun c => { c with dphi := -0.2 })
    else s
  let s :=
    if (s.asteroids a).y - (s.asteroids i).y ≥ 0 then
      let s := s.setAst i (fun c =>
        { c with dx := -m.sin (m.atan (((s.asteroids a).x - c.x) / ((s.asteroids a).y - c.y)))
                    / c.size + (s.asteroids a).dx })
      s.setAst i (fun c =>
        { c with dy := -m.cos (m.atan (((s.asteroids a).x - c.x) / ((s.asteroids a).y - c.y)))
                    / c.size + (s.asteroids a).dy })
    else
      let s := s.setAst i (fun c =>
        { c with dx := m.sin (m.atan (((s.asteroids a).x - c.x) / ((s.asteroids a).y - c.y)))
                    / c.size + (s.asteroids a).dx })
      s.setAst i (fun c =>
        { c with dy := m.cos (m.atan (((s.asteroids a).x - c.x) / ((s.asteroids a).y - c.y)))
                    / c.size + (s.asteroids a).dy })
  let s := s.setAst i (fun c => { c with phi := (s.asteroids a).phi })
  let s := s.setAst i (fun c =>
    { c with nVertices := 6 + Int.tmod (randAt s.rng 0) (MAX_VERTICES - 6) })
  let s := { s with rng := s.rng.skip 1 }
  let s := initDust (s.asteroids i) (s.asteroids a) s
  let s := s.setAst i (fun c => { c with active := 1 })
  let r := vertexLoop m (s.asteroids i).size (s.asteroids i).nVertices
    (s.asteroids i).nVertices.toNat 0 ((s.asteroids i).coords, s.rng)
  { s.setAst i (fun c => { c with coords := r.1 }) with rng := r.2 }

/-- The loop that creates the children (lines 722-765); the state of the loop is the game
state and `space`. -/
def childrenLoop (m : LibM) (a : Nat) (p : Photon) (children : Int) :
    Nat → Nat → Game × Int → Game × Int
  | 0, _, st => st
  | n + 1, i, (s, space) =>
    if (s.asteroids i).active = 0 then
      if space > 0 then
        childrenLoop m a p children n (i + 1) (spawnChild m a i p space children s, space - 1)
      else childrenLoop m a p children n (i + 1) (s, space)
    else childrenLoop m a p children n (i + 1) (s, space)

/-- The number of inactive asteroid slots, the first loop of lines 709-715. -/
def freeAsteroids (s : Game) : Nat :=
  countFrom (fun i => decide ((s.asteroids i).active = 0)) 0 MAX_ASTEROIDS

/-- The start of `destroyAsteroid` (lines 623-634): the photon is deactivated, the popup is
created and the counter of the asteroid's size is incremented; `a` and `p` are the slots of the
asteroid and of the photon the two pointers refer to. -/
def awardAsteroid (a p : Nat) (s : Game) : Game :=
  let s := { s with photons := Function.update s.photons p { s.photons p with active := 0 } }
  let s := addScore (s.asteroids a).size (s.asteroids a).x (s.asteroids a).y s
  if (s.asteroids a).size = ASTEROID_LARGE then { s with scoreAL := s.scoreAL + 1 }
  else if (s.asteroids a).size = ASTEROID_MEDIUM then { s with scoreAM := s.scoreAM + 1 }
  else if (s.asteroids a).size = ASTEROID_SMALL then { s with scoreAS := s.scoreAS + 1 }
  else s

/-- The first part of `destroyAsteroid` (lines 606-701), up to the clamp of the parent's
velocity: the new state and the value of `children`. -/
def destroyAsteroidParent (m : LibM) (a p : Nat) (s : Game) : Game × Int :=
  let r := destroyAsteroidSize m a (awardAsteroid a p s)
  let s := rebuildParent m a r.1
  (nudgeParent a (s.photons p) s, r.2)

/-- The function `destroyAsteroid`. The pair `cs` holds `children` and `space` after the
comparison of lines 716-720. -/
def destroyAsteroid (m : LibM) (a p : Nat) (s : Game) : Game :=
  let r := destroyAsteroidParent m a p s
  let s := r.1
  let children := r.2
  let space : Int := freeAsteroids s
  let cs : Int × Int := if children > space then (space, space) else (children, children)
  (childrenLoop m a (s.photons p) cs.1 MAX_ASTEROIDS 0 (s, cs.2)).1

/-- The value `children` receives from its draw for an asteroid of size `ASTEROID_MEDIUM`
(line 669) or `ASTEROID_LARGE` (line 672); the draw is the first one of the call. -/
def drawnChildren (a : Nat) (s : Game) : Int :=
  if (s.asteroids a).size = ASTEROID_MEDIUM then ⌊myRandomAt 1.2 2.2 s.rng 0⌋
  else ⌊myRandomAt 2.3 3.3 s.rng 0⌋

/-- The value `debrisCount` receives from its draw for an asteroid of size `ASTEROID_SMALL`
(line 640); the draw follows those of `initDust`. -/
def drawnDebrisCount (a : Nat) (s : Game) : Int :=
  ⌊myRandomAt 2.5 3.5 (initDust (s.asteroids a) (s.asteroids a) s).rng 0⌋

/-! ## Destruction of the ship (`asteroids.c`, lines 345-604) -/

/-- The search `for(i...) if(!(debris[i].active)){ piece = &debris[i]; i = MAX_DEBRIS; }`: the
slot `piece` points to afterwards, `none` for `NULL`. -/
def findFreeDebris : Nat → Nat → (Nat → Debris) → Option Nat
  | 0, _, _ => none
  | n + 1, i, debris =>
    if (debris i).active = 0 then some i else findFreeDebris n (i + 1) debris

/-- The nose of a ship of type 0, relative to its origin. -/
def shipNose (m : LibM) (ship : Ship) : Coords :=
  ⟨ship.size * m.sin ship.phi, ship.size * m.cos ship.phi⟩

/-- The back right corner of a ship of type 0, relative to its origin. -/
def shipBackRight (m : LibM) (ship : Ship) : Coords :=
  ⟨m.sqrt ship.size * m.sin (ship.phi + 135 * M_PI / 180),
   m.sqrt ship.size * m.cos (ship.phi + 135 * M_PI / 180)⟩

/-- The back left corner of a ship of type 0, relative to its origin. -/
def shipBackLeft (m : LibM) (ship : Ship) : Coords :=
  ⟨m.sqrt ship.size * m.sin (ship.phi + 225 * M_PI / 180),
   m.sqrt ship.size * m.cos (ship.phi + 225 * M_PI / 180)⟩

/-- The wreckage a ship of type 0 writes through `piece`; `c1` and `c2` are the second and
third vertex, the only values in which the six copies of this block differ. It takes six
draws. -/
def shipPiece0 (ship : Ship) (c1 c2 : Coords) (g : Rng) (old : Debris) : Debris :=
  { old with
    x := ship.x
    y := ship.y
    dx := myRandomAt (-0.25) 0.25 g 0 * ship.dx + myRandomAt (-0.1) 0.1 g 1
    dy := myRandomAt (-0.25) 0.25 g 2 * ship.dy + myRandomAt (-0.1) 0.1 g 3
    phi := ship.phi
    dphi := myRandomAt (-0.2) 0.2 g 4
    coords := fun k => if k = 0 then ⟨0.0, 0.0⟩ else if k = 1 then c1 else if k = 2 then c2
      else old.coords k
    lifetime := cInt (125 * myRandomAt 0.95 1.05 g 5)
    active := 1
    type := 0 }

/-- One block `search a free slot; if(piece != NULL){ ... }` of the type 0 branch. -/
def spawnShipPiece0 (c1 c2 : Coords) (s : Game) : Game :=
  match findFreeDebris MAX_DEBRIS 0 s.debris with
  | none => s
  | some i =>
    { s with
      debris := Function.update s.debris i (shipPiece0 s.ship c1 c2 s.rng (s.debris i))
      rng := s.rng.skip 6 }

/-- The wreckage a ship of type 1 writes into a free slot when `count` pieces exist already
(lines 547-563); it takes four draws. -/
def shipPiece1 (m : LibM) (ship : Ship) (count : Int) (g : Rng) (old : Debris) : Debris :=
  { old with
    x := ship.x
    y := ship.y
    dx := cBool (count = 0) * 0.3 - cBool (count = 2) * 0.3 + 0.5 * ship.dx
      + myRandomAt (-0.1) 0.1 g 0
    dy := cBool (count = 3) * 0.3 - cBool (count = 1) * 0.3 + 0.5 * ship.dy
      + myRandomAt (-0.1) 0.1 g 1
    coords := fun k =>
      if k = 0 then ⟨0.0, 0.0⟩
      else if k = 1 then
        ⟨m.sqrt ship.size - cBool (count = 0 ∨ count = 1) * 2 * m.sqrt ship.size,
         m.sqrt ship.size - cBool (count = 1 ∨ count = 2) * 2 * m.sqrt ship.size⟩
      else if k = 2 then
        ⟨m.sqrt ship.size - cBool (count = 1 ∨ count = 2) * 2 * m.sqrt ship.size,
         m.sqrt ship.size - cBool (count = 2 ∨ count = 3) * 2 * m.sqrt ship.size⟩
      else old.coords k
    phi := ship.phi
    dphi := myRandomAt (-0.2) 0.2 g 2
    lifetime := cInt (125 * myRandomAt 0.95 1.05 g 3)
    active := 1
    type := 0 }

/-- The loop of the type 1 branch (lines 545-569); the state of the loop is the debris pool, the
state of `rand()` and `count`. -/
def destroyShipLoop1 (m : LibM) (ship : Ship) :
    Nat → Nat → (Nat → Debris) × Rng × Int → (Nat → Debris) × Rng × Int
  | 0, _, st => st
  | n + 1, i, (debris, g, count) =>
    if (debris i).active = 0 then
      let debris := Function.update debris i (shipPiece1 m ship count g (debris i))
      let count := count + 1
      if count ≥ 4 then (debris, g.skip 4, count)
      else destroyShipLoop1 m ship n (i + 1) (debris, g.skip 4, count)
    else destroyShipLoop1 m ship n (i + 1) (debris, g, count)

/-- The wreckage a ship of type 2 writes into every slot (lines 578-591); it takes twelve
draws. -/
def shipPiece2 (m : LibM) (ship : Ship) (g : Rng) (old : Debris) : Debris :=
  let dx := myRandomAt (-0.15) 0.15 g 0 * ship.dx + myRandomAt (-0.3) 0.3 g 1
  let dy := myRandomAt (-0.15) 0.15 g 2 * ship.dy + myRandomAt (-0.3) 0.3 g 3
  { old with
    dx := dx
    dy := dy
    x := ship.x + dx * 10
    y := ship.y + dy * 10
    phi := ship.phi
    dphi := myRandomAt (-0.3) 0.3 g 4
    coords := fun k =>
      if k = 0 then ⟨0 + myRandomAt (-0.5) 0.5 g 5, 2 + myRandomAt (-0.5) 0.5 g 6⟩
      else if k = 1 then
        ⟨m.sqrt 2 + myRandomAt (-0.5) 0.5 g 7, -m.sqrt 2 + myRandomAt (-0.5) 0.5 g 8⟩
      else if k = 2 then
        ⟨-m.sqrt 2 + myRandomAt (-0.5) 0.5 g 9, -m.sqrt 2 + myRandomAt (-0.5) 0.5 g 10⟩
      else old.coords k
    lifetime := cInt (125 * myRandomAt 0.85 1.15 g 11)
    active := 1
    type := 0 }

/-- The loop of the type 2 branch (lines 576-592): every slot is overwritten. -/
def destroyShipLoop2 (m : LibM) (ship : Ship) :
    Nat → Nat → (Nat → Debris) × Rng → (Nat → Debris) × Rng
  | 0, _, st => st
  | n + 1, i, (debris, g) =>
    destroyShipLoop2 m ship n (i + 1)
      (Function.update debris i (shipPiece2 m ship g (debris i)), g.skip 12)

/-- The block that turns the left side into wreckage and marks it destroyed (lines 361-385,
and 444-468 without the test). -/
def destroyLeft (m : LibM) (s : Game) : Game :=
  let s := spawnShipPiece0 (shipNose m s.ship) (shipBackLeft m s.ship) s
  { s with ship := { s.ship with LDmg := -1 } }

/-- The block that turns the right side into wreckage and marks it destroyed (lines 388-412,
and 471-495). -/
def destroyRight (m : LibM) (s : Game) : Game :=
  let s := spawnShipPiece0 (shipNose m s.ship) (shipBackRight m s.ship) s
  { s with ship := { s.ship with RDmg := -1 } }

/-- The block that turns the back side into wreckage and marks it destroyed
(lines 415-439). -/
def destroyBack (m : LibM) (s : Game) : Game :=
  let s := spawnShipPiece0 (shipBackRight m s.ship) (shipBackLeft m s.ship) s
  { s with ship := { s.ship with BDmg := -1 } }

/-- The function `destroyShip`. In its second type 0 branch the back block (lines 498-520)
creates the wreckage and does not assign `BDmg`. -/
def destroyShip (m : LibM) (s : Game) : Game :=
  if s.ship.type = 0 then
    if s.ship.LDmg ≥ 0 ∧ s.ship.RDmg ≥ 0 ∧ s.ship.BDmg ≥ 0 then
      let s := if s.ship.LHp ≤ 0 then destroyLeft m s else s
      let s := if s.ship.RHp ≤ 0 then destroyRight m s else s
      if s.ship.BHp ≤ 0 then destroyBack m s else s
    else
      let s := if s.ship.LDmg ≥ 0 then destroyLeft m s else s
      let s := if s.ship.RDmg ≥ 0 then destroyRight m s else s
      let s :=
        if s.ship.BDmg ≥ 0 then
          spawnShipPiece0 (shipBackRight m s.ship) (shipBackLeft m s.ship) s
        else s
      { s with ship := { s.ship with LHp := 0, RHp := 0, BHp := 0 }, respawn := 200 }
  else if s.ship.type = 1 then
    let r := destroyShipLoop1 m s.ship MAX_DEBRIS 0 (s.debris, s.rng, 0)
    { s with
      debris := r.1
      rng := r.2.1
      ship := { s.ship with BHp := 0, BDmg := -1 }
      respawn := 200 }
  else if s.ship.type = 2 then
    let r := destroyShipLoop2 m s.ship MAX_DEBRIS 0 (s.debris, s.rng)
    { s with
      debris := r.1
      rng := r.2
      ship := { s.ship with BHp := 0, LHp := 0, RHp := 0, BDmg := -1, LDmg := -1 }
      respawn := 200 }
  else s

/-! ## Ship against asteroids (`asteroids.c`, lines 2166-2490) -/

/-- Vertex `k` of an asteroid in window coordinates, as the collision passes compute it: the
length of the stored offset, turned by `phi + k*(2*M_PI)/nVertices`. For a negative `k` (only
`nVertices - 1` with `nVertices <= 0`, whose value is never used) C reads before the array;
slot `0` is read here. -/
def asteroidVertex (m : LibM) (a : Asteroid) (k : Int) : Coords :=
  ⟨a.x + m.sqrt ((a.coords k.toNat).x ^ 2 + (a.coords k.toNat).y ^ 2)
      * m.sin (a.phi + k * (2 * M_PI) / a.nVertices),
   a.y + m.sqrt ((a.coords k.toNat).x ^ 2 + (a.coords k.toNat).y ^ 2)
      * m.cos (a.phi + k * (2 * M_PI) / a.nVertices)⟩

/-- The squared distance between the origins of an asteroid and of the ship. -/
def distSq (a : Asteroid) (ship : Ship) : ℚ := (a.x - ship.x) ^ 2 + (a.y - ship.y) ^ 2

/-- The response to an edge that crosses the right side of a type 0 ship (lines 2211-2217). -/
def hitRight (m : LibM) (s : Game) : Game :=
  if s.ship.RDmg = 0 ∧ s.ship.RHp > 0 then
    let s := { s with ship := { s.ship with RHp := s.ship.RHp - 20, RDmg := 50 } }
    if s.ship.RHp ≤ 0 then destroyShip m s else s
  else s

/-- The response to an edge that crosses the left side of a type 0 ship (lines 2228-2234). -/
def hitLeft (m : LibM) (s : Game) : Game :=
  if s.ship.LDmg = 0 ∧ s.ship.LHp > 0 then
    let s := { s with ship := { s.ship with LHp := s.ship.LHp - 20, LDmg := 50 } }
    if s.ship.LHp ≤ 0 then destroyShip m s else s
  else s

/-- The response to an edge that crosses the back side of a type 0 ship (lines 2246-2252). -/
def hitBack (m : LibM) (s : Game) : Game :=
  if s.ship.BDmg = 0 ∧ s.ship.BHp > 0 then
    let s := { s with ship := { s.ship with BHp := s.ship.BHp - 20, BDmg := 50 } }
    if s.ship.BHp ≤ 0 then destroyShip m s else s
  else s

/-- The test of the right side (back right corner to nose) against the edge from `(x1, y1)` to
`(x2, y2)`. -/
def crossesRight (m : LibM) (ship : Ship) (x1 y1 x2 y2 : ℚ) : Int :=
  lineCollision (ship.x + (shipBackRight m ship).x) (ship.y + (shipBackRight m ship).y)
    (ship.x + (shipNose m ship).x) (ship.y + (shipNose m ship).y) x1 y1 x2 y2

/-- The test of the left side (back left corner to nose) against the edge from `(x1, y1)` to
`(x2, y2)`. -/
def crossesLeft (m : LibM) (ship : Ship) (x1 y1 x2 y2 : ℚ) : Int :=
  lineCollision (ship.x + (shipBackLeft m ship).x) (ship.y + (shipBackLeft m ship).y)
    (ship.x + (shipNose m ship).x) (ship.y + (shipNose m ship).y) x1 y1 x2 y2

/-- The test of the back side (back left corner to back right corner) against the edge from
`(x1, y1)` to `(x2, y2)`. -/
def crossesBack (m : LibM) (ship : Ship) (x1 y1 x2 y2 : ℚ) : Int :=
  lineCollision (ship.x + (shipBackLeft m ship).x) (ship.y + (shipBackLeft m ship).y)
    (ship.x + (shipBackRight m ship).x) (ship.y + (shipBackRight m ship).y) x1 y1 x2 y2

/-- The body of the vertex loop for a type 0 ship once `x1, y1, x2, y2` are set
(lines 2203-2253): the right, the left and the back side in this order. -/
def shipEdgeStep0 (m : LibM) (x1 y1 x2 y2 : ℚ) (s : Game) : Game :=
  let s := if crossesRight m s.ship x1 y1 x2 y2 ≠ 0 then hitRight m s else s
  let s := if crossesLeft m s.ship x1 y1 x2 y2 ≠ 0 then hitLeft m s else s
  if crossesBack m s.ship x1 y1 x2 y2 ≠ 0 then hitBack m s else s

/-- The vertex loop for a type 0 ship and asteroid `i` (lines 2196-2254); the state of the loop
is the game state and `x1, y1`; `n` iterations are left and `k` is the index. -/
def edgeLoop0 (m : LibM) (i : Nat) : Nat → Nat → Game × ℚ × ℚ → Game × ℚ × ℚ
  | 0, _, st => st
  | n + 1, k, (s, x1, y1) =>
    let x2 := x1
    let y2 := y1
    let v := asteroidVertex m (s.asteroids i) k
    edgeLoop0 m i n (k + 1) (shipEdgeStep0 m v.x v.y x2 y2 s, v.x, v.y)

/-- The knock back of a ship inside the inner circle of asteroid `i`, by `f` per axis
(lines 2262-2269 with `f = 0.1`, lines 2376-2383 with `f = 0.5`). When the asteroid and the
ship have the same `x`, C divides by zero and `atan` receives an infinity (or a NaN); the
quotient is `0` here, so `ship.dx` and `ship.dy` are not those of the code in that case. -/
def knockBack (m : LibM) (i : Nat) (f : ℚ) (s : Game) : Game :=
  let angle := m.atan (((s.asteroids i).y - s.ship.y) / ((s.asteroids i).x - s.ship.x))
  if (s.asteroids i).x - s.ship.x < 0 then
    { s with ship := { s.ship with dx := s.ship.dx + f * m.cos angle,
                                   dy := s.ship.dy + f * m.sin angle } }
  else
    { s with ship := { s.ship with dx := s.ship.dx - f * m.cos angle,
                                   dy := s.ship.dy - f * m.sin angle } }

/-- The damage to the right side inside the inner circle (lines 2273-2282). -/
def grindRight (m : LibM) (s : Game) : Game :=
  if s.ship.RHp > 0 then
    let s := { s with ship := { s.ship with RHp := s.ship.RHp - 1 } }
    let s := if s.ship.RDmg = 0 then
        { s with ship := { s.ship with RHp := s.ship.RHp - 20, RDmg := 75 } }
      else s
    if s.ship.RHp ≤ 0 then destroyShip m s else s
  else s

/-- The damage to the left side inside the inner circle (lines 2283-2292). -/
def grindLeft (m : LibM) (s : Game) : Game :=
  if s.ship.LHp > 0 then
    let s := { s with ship := { s.ship with LHp := s.ship.LHp - 1 } }
    let s := if s.ship.LDmg = 0 then
        { s with ship := { s.ship with LHp := s.ship.LHp - 20, LDmg := 75 } }
      else s
    if s.ship.LHp ≤ 0 then destroyShip m s else s
  else s

/-- The damage to the back side inside the inner circle (lines 2293-2302). -/
def grindBack (m : LibM) (s : Game) : Game :=
  if s.ship.BHp > 0 then
    let s := { s with ship := { s.ship with BHp := s.ship.BHp - 1 } }
    let s := if s.ship.BDmg = 0 then
        { s with ship := { s.ship with BHp := s.ship.BHp - 20, BDmg := 75 } }
      else s
    if s.ship.BHp ≤ 0 then destroyShip m s else s
  else s

/-- The ship's origin is within the maximum radius of the asteroid plus the ship's size. -/
def inBroadCircle (a : Asteroid) (ship : Ship) : Prop :=
  distSq a ship ≤ (((a.size * MAX_ASTEROID_VARIANCE : Int) : ℚ) + ship.size) ^ 2

instance (a : Asteroid) (ship : Ship) : Decidable (inBroadCircle a ship) := by
  unfold inBroadCircle; infer_instance

/-- The ship's origin is within the minimum radius of the asteroid. -/
def inInnerCircle (a : Asteroid) (ship : Ship) : Prop :=
  distSq a ship ≤ ((a.size * MIN_ASTEROID_VARIANCE : Int) : ℚ) ^ 2

instance (a : Asteroid) (ship : Ship) : Decidable (inInnerCircle a ship) := by
  unfold inInnerCircle; infer_instance

/-- The vertex loop of a ship of type 0 against asteroid `i` with its guard
(lines 2185-2255); `x1, y1` start at the last vertex. -/
def edgePass0 (m : LibM) (i : Nat) (s : Game) : Game :=
  let v := asteroidVertex m (s.asteroids i) ((s.asteroids i).nVertices - 1)
  if (s.asteroids i).active ≠ 0 ∧ inBroadCircle (s.asteroids i) s.ship then
    (edgeLoop0 m i (s.asteroids i).nVertices.toNat 0 (s, v.x, v.y)).1
  else s

/-- The damage to a ship of type 0 whose origin is inside the inner circle of asteroid `i`
(lines 2256-2303). -/
def innerCircle0 (m : LibM) (i : Nat) (s : Game) : Game :=
  if (s.asteroids i).active ≠ 0 ∧ inInnerCircle (s.asteroids i) s.ship then
    grindBack m (grindLeft m (grindRight m (knockBack m i 0.1 s)))
  else s

/-- One iteration of the asteroid loop for a ship of type 0 (lines 2185-2303). -/
def shipAsteroid0 (m : LibM) (i : Nat) (s : Game) : Game :=
  innerCircle0 m i (edgePass0 m i s)

/-- The body of the vertex loop for a type 1 ship once `x1, y1, x2, y2` are set
(lines 2311-2361). The fourth test, which the source calls the top side, runs from
`(x + sqrt(size), y - sqrt(size))` to `(x + sqrt(size), y + sqrt(size))`. -/
def shipEdgeStep1 (m : LibM) (x1 y1 x2 y2 : ℚ) (s : Game) : Game :=
  if s.ship.BHp > 0 then
    let r := m.sqrt s.ship.size
    let hit : Game := { s with ship := { s.ship with BHp := s.ship.BHp - 20, BDmg := 30 } }
    let s :=
      if s.ship.BDmg = 0 then
        if lineCollision (s.ship.x + r) (s.ship.y + r) (s.ship.x + r) (s.ship.y - r)
            x1 y1 x2 y2 ≠ 0 then hit
        else if lineCollision (s.ship.x + r) (s.ship.y - r) (s.ship.x - r) (s.ship.y - r)
            x1 y1 x2 y2 ≠ 0 then hit
        else if lineCollision (s.ship.x - r) (s.ship.y - r) (s.ship.x - r) (s.ship.y + r)
            x1 y1 x2 y2 ≠ 0 then hit
        else if lineCollision (s.ship.x + r) (s.ship.y - r) (s.ship.x + r) (s.ship.y + r)
            x1 y1 x2 y2 ≠ 0 then hit
        else s
      else s
    if s.ship.BHp ≤ 0 then destroyShip m s else s
  else s

/-- The vertex loop for a type 1 ship and asteroid `i` (lines 2305-2362). -/
def edgeLoop1 (m : LibM) (i : Nat) : Nat → Nat → Game × ℚ × ℚ → Game × ℚ × ℚ
  | 0, _, st => st
  | n + 1, k, (s, x1, y1) =>
    let x2 := x1
    let y2 := y1
    let v := asteroidVertex m (s.asteroids i) k
    edgeLoop1 m i n (k + 1) (shipEdgeStep1 m v.x v.y x2 y2 s, v.x, v.y)

/-- One iteration of the asteroid loop for a ship of type 1 (lines 2298-2389). -/
def shipAsteroid1 (m : LibM) (i : Nat) (s : Game) : Game :=
  let v := asteroidVertex m (s.asteroids i) ((s.asteroids i).nVertices - 1)
  let s :=
    if (s.asteroids i).active ≠ 0 ∧ inBroadCircle (s.asteroids i) s.ship then
      (edgeLoop1 m i (s.asteroids i).nVertices.toNat 0 (s, v.x, v.y)).1
    else s
  if (s.asteroids i).active ≠ 0 ∧ s.ship.BDmg ≠ -1 ∧ inInnerCircle (s.asteroids i) s.ship then
    let s := { s with ship := { s.ship with BHp := s.ship.BHp - 2 } }
    let s := knockBack m i 0.5 s
    if s.ship.BHp ≤ 0 then destroyShip m s else s
  else s

/-- The dust particle written when the shield of a type 2 ship is destroyed; `count` is the
number of particles made, this one included (lines 2435-2441). It takes four draws. -/
def shieldDust (m : LibM) (ship : Ship) (count : Int) (g : Rng) (old : Dust) : Dust :=
  { old with
    active := 1
    x := ship.x + ship.size * m.sin (count * M_PI / 16) + myRandomAt (-0.2) 0.2 g 0
    y := ship.y + ship.size * m.cos (count * M_PI / 16) + myRandomAt (-0.2) 0.2 g 1
    dx := ship.dx + 0.2 * m.sin (count * M_PI / 16) + myRandomAt (-0.2) 0.2 g 2
    dy := ship.dy + 0.2 * m.cos (count * M_PI / 16) + myRandomAt (-0.2) 0.2 g 3
    lifetime := 45 }

/-- The dust loop of a destroyed shield (lines 2432-2446); the state of the loop is the dust
pool, the state of `rand()` and `count`. -/
def shieldDustLoop (m : LibM) (ship : Ship) :
    Nat → Nat → (Nat → Dust) × Rng × Int → (Nat → Dust) × Rng × Int
  | 0, _, st => st
  | n + 1, k, (dust, g, count) =>
    if (dust k).active ≠ 1 then
      let count := count + 1
      let dust := Function.update dust k (shieldDust m ship count g (dust k))
      if count ≥ 32 then (dust, g.skip 4, count)
      else shieldDustLoop m ship n (k + 1) (dust, g.skip 4, count)
    else shieldDustLoop m ship n (k + 1) (dust, g, count)

/-- The shield branch of a type 2 ship (lines 2400-2448). -/
def shieldHit (m : LibM) (i : Nat) (s : Game) : Game :=
  let s := { s with ship := { s.ship with LHp := s.ship.LHp - 1, LDmg := 100 } }
  let s : Game :=
    if distSq (s.asteroids i) s.ship
        ≤ (((s.asteroids i).size * MIN_ASTEROID_VARIANCE : Int) + s.ship.size) ^ 2 then
      let s := { s with ship := { s.ship with LHp := s.ship.LHp - 3 } }
      let s : Game :=
        if inInnerCircle (s.asteroids i) s.ship then
          { s with ship := { s.ship with LHp := s.ship.LHp - (s.asteroids i).size } }
        else s
      let s : Game :=
        if distSq (s.asteroids i) s.ship ≤ s.ship.size ^ 2 then
          let s := { s with ship := { s.ship with LHp := s.ship.LHp - (s.asteroids i).size } }
          let angle := m.atan (((s.asteroids i).y - s.ship.y) / ((s.asteroids i).x - s.ship.x))
          if (s.asteroids i).x - s.ship.x < 0 then
            s.setAst i (fun a => { a with dx := a.dx - 0.5 * m.cos angle,
                                          dy := a.dy - 0.5 * m.sin angle })
          else if (s.asteroids i).x - s.ship.x > 0 then
            s.setAst i (fun a => { a with dx := a.dx + 0.5 * m.cos angle,
                                          dy := a.dy + 0.5 * m.sin angle })
          else s
        else s
      if distSq (s.asteroids i) s.ship ≤ 1 ^ 2 then
        { s with ship := { s.ship with LHp := s.ship.LHp - (((s.asteroids i).size * 2 : Int) : ℚ) } }
      else s
    else s
  if s.ship.LHp ≤ 0 then
    let s := { s with ship := { s.ship with LHp := 0 } }
    let r := shieldDustLoop m s.ship MAX_DUST 0 (s.dust, s.rng, 0)
    { s with dust := r.1, rng := r.2.1 }
  else s

/-- The hull branch of a type 2 ship (lines 2449-2479). -/
def hullHit (m : LibM) (i : Nat) (s : Game) : Game :=
  let s : Game :=
    if distSq (s.asteroids i) s.ship
        ≤ (((s.asteroids i).size * MIN_ASTEROID_VARIANCE : Int) + s.ship.size) ^ 2 then
      let s : Game :=
        if s.ship.BDmg = 0 then
          { s with ship := { s.ship with BHp := s.ship.BHp - 20, BDmg := 40, LDmg := 100 } }
        else s
      let angle := m.atan (((s.asteroids i).y - s.ship.y) / ((s.asteroids i).x - s.ship.x))
      let size : ℚ := (s.asteroids i).size
      if (s.asteroids i).x - s.ship.x < 0 then
        let s := s.setAst i (fun a => { a with dx := a.dx - 0.2 * m.cos angle / size,
                                               dy := a.dy - 0.2 * m.sin angle / size })
        { s with ship := { s.ship with dx := s.ship.dx + 0.02 * m.cos angle * size,
                                       dy := s.ship.dy + 0.02 * m.sin angle * size } }
      else if (s.asteroids i).x - s.ship.x > 0 then
        let s := s.setAst i (fun a => { a with dx := a.dx + 0.2 * m.cos angle / size,
                                               dy := a.dy + 0.2 * m.sin angle / size })
        { s with ship := { s.ship with dx := s.ship.dx - 0.02 * m.cos angle * size,
                                       dy := s.ship.dy - 0.02 * m.sin angle * size } }
      else s
    else s
  if s.ship.BHp ≤ 0 then destroyShip m { s with ship := { s.ship with BHp := 0 } } else s

/-- One iteration of the asteroid loop for a ship of type 2 (lines 2390-2481). -/
def shipAsteroid2 (m : LibM) (i : Nat) (s : Game) : Game :=
  if s.ship.BDmg ≠ -1 ∧ (s.asteroids i).active ≠ 0 ∧ inBroadCircle (s.asteroids i) s.ship then
    if s.ship.LHp > 0 then shieldHit m i s else hullHit m i s
  else s

/-- The asteroid loop of `collisionAsteroidShip`. -/
def collisionAsteroidShipLoop (m : LibM) : Nat → Nat → Game → Game
  | 0, _, s => s
  | n + 1, i, s =>
    collisionAsteroidShipLoop m n (i + 1)
      (if s.ship.type = 0 then shipAsteroid0 m i s
       else if s.ship.type = 1 then shipAsteroid1 m i s
       else if s.ship.type = 2 then shipAsteroid2 m i s
       else s)

/-- The function `collisionAsteroidShip`. -/
def collisionAsteroidShip (m : LibM) (s : Game) : Game :=
  collisionAsteroidShipLoop m MAX_ASTEROIDS 0 s

/-! ## Invulnerability timers (`asteroids.c`, lines 1816-1846) -/

/-- The timer of the left side (lines 1823-1825). -/
def tickLeft (s : Game) : Game :=
  if s.ship.LDmg > 0 ∧ s.ship.LHp > 0 then
    { s with ship := { s.ship with LDmg := s.ship.LDmg - 1 } }
  else s

/-- The timer of the right side (lines 1826-1828). -/
def tickRight (s : Game) : Game :=
  if s.ship.RDmg > 0 ∧ s.ship.RHp > 0 then
    { s with ship := { s.ship with RDmg := s.ship.RDmg - 1 } }
  else s

/-- The timer of the back side (lines 1829-1831). -/
def tickBack (s : Game) : Game :=
  if s.ship.BDmg > 0 ∧ s.ship.BHp > 0 then
    { s with ship := { s.ship with BDmg := s.ship.BDmg - 1 } }
  else s

/-- The shield of a ship of type 2 (lines 1835-1844): a second decrement of `LDmg`, then the
recharge of `LHp` up to `RHp` once `LDmg` is `0`. -/
def shieldRegen (s : Game) : Game :=
  let s := if s.ship.LDmg > 0 then
      { s with ship := { s.ship with LDmg := s.ship.LDmg - 1 } } else s
  if s.ship.LDmg = 0 then
    let s := { s with ship := { s.ship with LHp := s.ship.LHp + s.ship.RHp / 200 } }
    if s.ship.LHp > s.ship.RHp then { s with ship := { s.ship with LHp := s.ship.RHp } }
    else s
  else s

/-- The function `updateDamage`. -/
def updateDamage (s : Game) : Game :=
  let s := tickBack (tickRight (tickLeft s))
  if s.ship.type = 2 then shieldRegen s else s

/-- The state after `n` calls of `updateDamage`. -/
def updateDamageN : Nat → Game → Game
  | 0, s => s
  | n + 1, s => updateDamageN n (updateDamage s)

/-- The number of inactive debris slots. -/
def freeDebris (s : Game) : Nat :=
  countFrom (fun i => decide ((s.debris i).active = 0)) 0 MAX_DEBRIS

/-- The part of the state that the creation of a child asteroid never writes: the state with
the asteroid pool, the dust pool and the state of `rand()` blanked. -/
def Game.frame (s : Game) : Game :=
  { s with asteroids := fun _ => {}, dust := fun _ => {}, rng := ⟨fun _ => 0, 0⟩ }

/-- A stand-in for `math.h`, to evaluate the functions on examples. -/
def demoLibM : LibM := ⟨fun _ => 0, fun _ => 1, fun _ => 0, fun x => x⟩

/-! ## Notions used to state the behaviour of one collision pass -/

/-- The far end of the `k`-th edge that the vertex loops test: the vertex before vertex `k`,
the last vertex for `k = 0`. -/
def asteroidEdgeStart (m : LibM) (a : Asteroid) (k : Nat) : Coords :=
  asteroidVertex m a (if k = 0 then a.nVertices - 1 else (k : Int) - 1)

/-- A direct hit of 20 on a side with timer `dmg` and hit points `hp` is either not applied or
leaves the side alive. -/
def sideSafe (dmg : Int) (hp : ℚ) : Prop := dmg ≠ 0 ∨ hp ≤ 0 ∨ 20 < hp

/-- The state with the six side fields of the ship blanked: what a pass that only applies
direct hits leaves unchanged. -/
def Game.hull (s : Game) : Game :=
  { s with ship := { s.ship with LDmg := 0, RDmg := 0, BDmg := 0, LHp := 0, RHp := 0, BHp := 0 } }

/-- The left side took one direct hit between the ship states `a` and `b`. -/
def LeftHit (a b : Ship) : Prop :=
  a.LDmg = 0 ∧ 0 < a.LHp ∧ b.LHp = a.LHp - 20 ∧ b.LDmg = 50

/-- The left side is unchanged or took one direct hit between the ship states `a` and `b`. -/
def LeftStep (a b : Ship) : Prop :=
  (b.LHp = a.LHp ∧ b.LDmg = a.LDmg) ∨ LeftHit a b

/-- No side of the ship can be damaged any more: every timer is non-zero and no side has hit
points left. -/
def shipDead (ship : Ship) : Prop :=
  ship.LDmg ≠ 0 ∧ ship.RDmg ≠ 0 ∧ ship.BDmg ≠ 0 ∧ ship.LHp ≤ 0 ∧ ship.RHp ≤ 0 ∧ ship.BHp ≤ 0

/-- The invariant of a pass of `collisionAsteroidShip` that started in `s0` and has only
applied direct hits that destroyed no side: nothing but the six side fields has changed, and
no side can be destroyed by a further direct hit. -/
def PassInv (s0 s : Game) : Prop :=
  s.hull = s0.hull ∧ sideSafe s.ship.LDmg s.ship.LHp ∧ sideSafe s.ship.RDmg s.ship.RHp ∧
    sideSafe s.ship.BDmg s.ship.BHp

/-! ## States used as examples -/

/-- A state whose asteroid slots all hold an active asteroid of size `ASTEROID_MEDIUM`. -/
def fullAsteroidsGame : Game :=
  { asteroids := fun _ => { active := 1, size := ASTEROID_MEDIUM } }

/-- A state with one active asteroid of size `ASTEROID_MEDIUM` in slot 0. -/
def oneMediumGame : Game :=
  { asteroids := fun i => if i = 0 then { active := 1, size := ASTEROID_MEDIUM } else {} }

/-- A state with one active asteroid of size `ASTEROID_SMALL` in slot 0 and a debris pool whose
slots are all active. -/
def fullDebrisGame : Game :=
  { asteroids := fun i => if i = 0 then { active := 1, size := ASTEROID_SMALL } else {}
    debris := fun _ => { active := 1, type := 1 } }

/-- A state with a ship of type 2 and a debris pool full of active pickups of type 1. -/
def type2ShipGame : Game :=
  { ship := { type := 2 }
    debris := fun _ => { active := 1, type := 1, lifetime := 50 } }

/-- A state with a ship of type 0 and an active pickup of type 1 in debris slot 0. -/
def type0ShipGame : Game :=
  { ship := { type := 0 }
    debris := fun i => if i = 0 then { active := 1, type := 1, lifetime := 50 } else {} }

/-- The multiple of 45 degrees nearest to the angle `t`, as a number from 0 to 7. -/
def octant (t : ℚ) : Int := ⌊t / (M_PI / 4) + 1 / 2⌋ % 8

/-- A stand-in for `math.h` that is right to four decimals where the examples below call it:
`sin` and `cos` at the multiples of 45 degrees (every angle is moved to the nearest one) and
`sqrt` at 4, 16 and 25. -/
def octantLibM : LibM where
  sin t :=
    if octant t = 1 ∨ octant t = 3 then 7071 / 10000
    else if octant t = 2 then 1
    else if octant t = 5 ∨ octant t = 7 then -7071 / 10000
    else if octant t = 6 then -1
    else 0
  cos t :=
    if octant t = 0 then 1
    else if octant t = 1 ∨ octant t = 7 then 7071 / 10000
    else if octant t = 3 ∨ octant t = 5 then -7071 / 10000
    else if octant t = 4 then -1
    else 0
  atan _ := 0
  sqrt x := if x = 4 then 2 else if x = 16 then 4 else if x = 25 then 5 else x

/-- An asteroid of size `ASTEROID_SMALL` above the ship of the examples: centre `(0, 8)`, eight
vertices, turned by `M_PI` so that vertex 0 points down; the stored offset of vertex 0 has
length 5 and the others length 4 (the collision code reads only the lengths). Vertex 0 is at
`(0, 3)`, vertex 7 at `(2.8284, 5.1716)` and vertex 1 at `(-2.8284, 5.1716)`. -/
def exampleAsteroid : Asteroid :=
  { active := 1, nVertices := 8, size := ASTEROID_SMALL, x := 0, y := 8, phi := M_PI
    coords := fun k => if k = 0 then ⟨0, 5⟩ else ⟨0, 4⟩ }

/-- A ship of type 0 at the origin with heading 0 and size 4: nose `(0, 4)`, back corners
`(1.4142, -1.4142)` and `(-1.4142, -1.4142)`; all sides intact and vulnerable. -/
def exampleShip : Ship :=
  { type := 0, x := 0, y := 0, phi := 0, size := 4, LHp := 100, RHp := 100, BHp := 100,
    LDmg := 0, RDmg := 0, BDmg := 0, shipSpeed := 1, shipControl := 0.05 }

/-- The example ship below the example asteroid, the only active one: edge 0 of the asteroid
(vertex 0 to vertex 7) crosses the right side of the ship and edge 1 (vertex 1 to vertex 0)
crosses the left side. -/
def leftHitGame : Game :=
  { respawn := -1, ship := exampleShip
    asteroids := fun i => if i = 0 then exampleAsteroid else {} }

/-- The state `leftHitGame` for a ship that has lost its back side (`BDmg = -1`, `BHp = 0`) and
whose right side is down to 20 hit points. -/
def cascadeGame : Game :=
  { respawn := -1, ship := { exampleShip with RHp := 20, BHp := 0, BDmg := -1 }
    asteroids := fun i => if i = 0 then exampleAsteroid else {} }

/-! ## Changes of the game state (`simple.c`, lines 653-955; `asteroids.c`, lines 230-289) -/

/-- A loop `for(i = ...; i < ...; i++)` whose body assigns `pool[i] = f(pool[i])`; `n`
iterations are left and `i` is the index. -/
def forEachSlot {T : Type} (f : T → T) : Nat → Nat → (Nat → T) → (Nat → T)
  | 0, _, pool => pool
  | n + 1, i, pool => forEachSlot f n (i + 1) (Function.update pool i (f (pool i)))

/-- The star `initBackground` writes for the grid cell `(i, j)` (`asteroids.c`, lines 334-338);
it takes four draws. -/
def backgroundStar (x y : ℚ) (i j : Nat) (g : Rng) (old : BackgroundStar) : BackgroundStar :=
  { old with
    x := (i + myRandomAt (-0.2) 1.2 g 0) * (x / MAX_STARS)
    y := (j + myRandomAt (-0.2) 1.2 g 1) * (y / MAX_STARS)
    active := 1
    flicker := myRandomAt 0.0 (2 * M_PI) g 2
    flickerRate := myRandomAt 0.025 0.125 g 3 }

/-- The inner loop of `initBackground`, over `j`; the state of the loop is the pool of stars,
the state of `rand()` and `starCount`. -/
def initBackgroundRow (x y : ℚ) (i : Nat) :
    Nat → Nat → (Nat → BackgroundStar) × Rng × Nat → (Nat → BackgroundStar) × Rng × Nat
  | 0, _, st => st
  | n + 1, j, (stars, g, starCount) =>
    initBackgroundRow x y i n (j + 1)
      (Function.update stars starCount (backgroundStar x y i j g (stars starCount)),
        g.skip 4, starCount + 1)

/-- The outer loop of `initBackground`, over `i`. -/
def initBackgroundLoop (x y : ℚ) :
    Nat → Nat → (Nat → BackgroundStar) × Rng × Nat → (Nat → BackgroundStar) × Rng × Nat
  | 0, _, st => st
  | n + 1, i, st => initBackgroundLoop x y n (i + 1) (initBackgroundRow x y i MAX_STARS 0 st)

/-- The function `initBackground` (`asteroids.c`, lines 324-343). -/
def initBackground (x y : ℚ) (s : Game) : Game :=
  { s with
    backgroundStars := (initBackgroundLoop x y MAX_STARS 0 (s.backgroundStars, s.rng, 0)).1
    rng := (initBackgroundLoop x y MAX_STARS 0 (s.backgroundStars, s.rng, 0)).2.1 }

/-- The function `myReshape` (`simple.c`, lines 652-685) without its OpenGL calls: the window
size is clamped to 500..4000 and fixes `xMax`; `yMax` is always 100. -/
def myReshape (newW newH : Int) (s : Game) : Game :=
  let w : ℚ := newW
  let h : ℚ := newH
  let w : ℚ := if w < 500 then 500 else if w > 4000 then 4000 else w
  let h : ℚ := if h < 500 then 500 else if h > 4000 then 4000 else h
  initBackground (100.0 * w / h) 100.0 { s with w := w, h := h, xMax := 100.0 * w / h, yMax := 100.0 }

/-- The function `initShip` (`asteroids.c`, lines 229-244). -/
def initShip (s : Game) : Game :=
  { s with ship :=
    { s.ship with
      LHp := 0, RHp := 0, BHp := 0, LDmg := -1, RDmg := -1, BDmg := -1,
      shipUpgrade := 0, shipSpeed := 1, shipControl := 0.05 } }

/-- The function `clear` (`simple.c`, lines 914-955). -/
def clear (s : Game) : Game :=
  let s := { s with level := 0, levelTextLifetime := -1, maxLevel := 3 }
  let s := { s with
    asteroids := forEachSlot (fun a => { a with active := 0 }) MAX_ASTEROIDS 0 s.asteroids
    debris := forEachSlot (fun d => { d with active := 0 }) MAX_DEBRIS 0 s.debris
    dust := forEachSlot (fun d => { d with active := 0 }) MAX_DUST 0 s.dust
    photons := forEachSlot (fun p => { p with active := 0 }) MAX_PHOTONS 0 s.photons
    points := forEachSlot (fun p => { p with active := 0 }) MAX_POINTS 0 s.points }
  let s := initShip s
  { s with
    photonSize := 1, photonSpeed := 2, photonUpgrade := 0
    respawn := -1, playerCooldown := 0, playerCurrentCooldown := 0 }

/-- The vertex loop of `initAsteroid` (lines 280-286); `theta` and `r` are of type `double`
here. -/
def initVertexLoop (m : LibM) (size nVertices : Int) :
    Nat → Nat → (Nat → Coords) × Rng → (Nat → Coords) × Rng
  | 0, _, st => st
  | n + 1, i, (coords, g) =>
    let theta : ℚ := 2.0 * M_PI * i / nVertices
    let r : ℚ := size * myRandomAt MIN_ASTEROID_VARIANCE MAX_ASTEROID_VARIANCE g 0
    initVertexLoop m size nVertices n (i + 1)
      (Function.update coords i ⟨-r * m.sin theta, r * m.cos theta⟩, g.skip 1)

/-- The asteroid `initAsteroid(a, sz)` leaves in `*a` and the state of `rand()` afterwards;
`old` is the content of the slot. The draws before the vertex loop are numbered 0 to 7. -/
def initAsteroidValue (m : LibM) (xMax yMax : ℚ) (sz : Int) (g : Rng) (old : Asteroid) :
    Asteroid × Rng :=
  let a := { old with size := sz }
  let a :=
    if randAt g 0 % 2 ≠ 0 then
      { a with x := myRandomAt 0 xMax g 1, y := ((-1 * a.size * MAX_ASTEROID_VARIANCE : Int) : ℚ) }
    else
      { a with x := ((-1 * a.size * MAX_ASTEROID_VARIANCE : Int) : ℚ), y := myRandomAt 0 yMax g 1 }
  let a := { a with dx := myRandomAt 0.2 0.8 g 2, dy := myRandomAt 0.2 0.8 g 3 }
  let a := if randAt g 4 % 2 ≠ 0 then { a with dx := a.dx * -1 } else a
  let a := if randAt g 5 % 2 ≠ 0 then { a with dy := a.dy * -1 } else a
  let a := { a with dphi := myRandomAt (-0.2) 0.2 g 6 }
  let a := { a with
    nVertices := 3 + a.size + Int.tmod (randAt g 7) (MAX_VERTICES - 3 - a.size) }
  let r := initVertexLoop m a.size a.nVertices a.nVertices.toNat 0 (a.coords, g.skip 8)
  ({ a with coords := r.1, active := 1 }, r.2)

/-- The function `initAsteroid` (`asteroids.c`, lines 246-289) applied to `&asteroids[k]`. -/
def initAsteroid (m : LibM) (k : Nat) (sz : Int) (s : Game) : Game :=
  { s with
    asteroids := Function.update s.asteroids k
      (initAsteroidValue m s.xMax s.yMax sz s.rng (s.asteroids k)).1
    rng := (initAsteroidValue m s.xMax s.yMax sz s.rng (s.asteroids k)).2 }
/-- The function `changeShip` (`asteroids.c`, lines 2702-2757). -/
def changeShip (t : Int) (s : Game) : Game :=
  let s := { s with ship := { s.ship with type := t } }
  let s := clear s
  let s := { s with
    ship := { s.ship with
      x := s.xMax / 2, y := s.yMax / 2, phi := 0, dx := 0, dy := 0,
      BHp := 100, LHp := 100, RHp := 100, BDmg := 0, LDmg := -1, RDmg := -1,
      shipSpeed := 1, shipControl := 0.05, shipUpgrade := 0 }
    respawn := -1, photonUpgrade := 0, photonSize := 1, photonSpeed := 2, currentCooldown := 0
    scoreAL := 0, scoreAM := 0, scoreAS := 0, debrisM := 0, debrisA := 0
    metalCount := 0, alloyCount := 0 }
  if s.ship.type = 0 then
    { s with ship := { s.ship with size := 4, LDmg := 0, RDmg := 0 }, cooldown := 0 }
  else if s.ship.type = 1 then
    { s with ship := { s.ship with size := 2 }, cooldown := 10 }
  else if s.ship.type = 2 then
    { s with ship := { s.ship with size := 8, LHp := 300, RHp := 300, LDmg := 0 }, cooldown := 10 }
  else s

/-- The function `setShipHelpScreen` (`asteroids.c`, lines 2541-2569). -/
def setShipHelpScreen (s : Game) : Game :=
  { s with
    ship := { s.ship with
      type := 0, x := s.xMax * 0.06, y := s.yMax * 0.74, phi := 0, dx := 0, dy := 0,
      BHp := 100, LHp := 100, RHp := 100, size := 4, LDmg := 0, RDmg := 0,
      shipSpeed := 1, shipControl := 0.05, shipUpgrade := 0 }
    cooldown := 0, respawn := -1, photonUpgrade := 0, photonSize := 1, photonSpeed := 2
    currentCooldown := 0 }

/-- The two assignments `asteroids[k].x = myRandom(0.0, xMax); asteroids[k].y =
myRandom(0.0, yMax);` that follow each `initAsteroid` of the title screen. -/
def scatterAsteroid (k : Nat) (s : Game) : Game :=
  { s with
    asteroids := Function.update s.asteroids k
      { s.asteroids k with x := myRandomAt 0.0 s.xMax s.rng 0, y := myRandomAt 0.0 s.yMax s.rng 1 }
    rng := s.rng.skip 2 }

/-- The branch `s == STATE_TITLE` of `changeState` (`simple.c`, lines 807-821). -/
def titleScreen (m : LibM) (s : Game) : Game :=
  let s := scatterAsteroid 0 (initAsteroid m 0 ASTEROID_LARGE s)
  let s := scatterAsteroid 1 (initAsteroid m 1 ASTEROID_MEDIUM s)
  let s := scatterAsteroid 2 (initAsteroid m 2 ASTEROID_SMALL s)
  { s with selectedOption := 0, maxOption := 1 }

/-- A piece of debris of the help screen (`simple.c`, lines 851-898). -/
def helpDebris (x y dphi : ℚ) (c0 c1 c2 : Coords) (type : Int) (old : Debris) : Debris :=
  { old with
    active := 1, x := x, y := y, dx := 0, dy := 0, phi := 0, dphi := dphi
    coords := fun k => if k = 0 then c0 else if k = 1 then c1 else if k = 2 then c2
      else old.coords k
    lifetime := 2, type := type }

/-- The branch `s == STATE_HELP` of `changeState` (`simple.c`, lines 826-898). -/
def helpScreen (m : LibM) (s : Game) : Game :=
  let s := initAsteroid m 0 ASTEROID_SMALL s
  let s := s.setAst 0 (fun a =>
    { a with
      x := s.xMax / 12, y := s.yMax * 0.39, phi := 0, dx := 0, dy := 0, dphi := 0.1
      size := ASTEROID_SMALL, active := 1 })
  let s := setShipHelpScreen s
  let s := { s with upgradeText := { s.upgradeText with lifetime := 0 } }
  let s := { s with
    photons := Function.update s.photons 0
      { s.photons 0 with active := 1, x := s.xMax * 0.90, y := s.yMax * 0.59 }
    photonSize := 3 }
  { s with
    debris :=
      Function.update
        (Function.update
          (Function.update s.debris 0
            (helpDebris (s.xMax * 0.03) (s.yMax * 0.07) 0.05 ⟨1.4, 0.9⟩ ⟨-1.5, -1.0⟩ ⟨-1.0, 0.9⟩ 1
              (s.debris 0)))
          1 (helpDebris (s.xMax * 0.03) (s.yMax * 0.15) 0.15 ⟨1.0, 0.8⟩ ⟨-0.5, -1.4⟩ ⟨-1.0, 0.9⟩ 1
              (s.debris 1)))
        2 (helpDebris (s.xMax * 0.92) (s.yMax * 0.14) 0.08 ⟨1.5, 1.8⟩ ⟨-1.2, -1.8⟩ ⟨-1.6, 1.3⟩ 2
              (s.debris 2)) }

/-- The values `changeState` sets for the new state `st` (`simple.c`, lines 806-909). -/
def enterState (m : LibM) (st : Int) (s : Game) : Game :=
  if st = STATE_TITLE then titleScreen m s
  else if st = STATE_ASTEROIDS then changeShip 0 s
  else if st = STATE_HELP then helpScreen m s
  else if st = STATE_SHIPSELECT then
    { s with selectedOption := 0, maxOption := 2, currentCooldown := 30, cooldown := -1 }
  else if st = STATE_SYSTEM then { s with launchedShipPath := 0 }
  else s

/-- The function `changeState` (`simple.c`, lines 773-912) without its OpenGL calls:
`myReshape` receives the window size `w`, `h` converted to `int`. -/
def changeState (m : LibM) (st : Int) (s : Game) : Game :=
  let s :=
    if s.state ≠ st then
      let s := clear s
      let s :=
        if st = STATE_TITLE ∨ st = STATE_ASTEROIDS ∨ st = STATE_HELP ∨ st = STATE_SHIPSELECT then
          myReshape (cInt s.w) (cInt s.h) s
        else s
      enterState m st s
    else s
  { s with state := st }

/-! ## Timers of the asteroids state (`asteroids.c`, lines 1757-1814) -/

/-- The function `updateRespawn`; the second component tells whether the call went through
`changeState(STATE_TITLE)`. -/
def updateRespawn (m : LibM) (s : Game) : Game × Bool :=
  if s.respawn > 0 then ({ s with respawn := s.respawn - 1 }, false)
  else if s.respawn = 0 then (changeState m STATE_TITLE s, true)
  else (s, false)

/-- The state after `n` calls of `updateRespawn` and the number of those calls that went
through `changeState(STATE_TITLE)`. -/
def updateRespawnN (m : LibM) : Nat → Game → Game × Nat
  | 0, s => (s, 0)
  | n + 1, s =>
    ((updateRespawnN m n (updateRespawn m s).1).1,
      (if (updateRespawn m s).2 then 1 else 0) + (updateRespawnN m n (updateRespawn m s).1).2)

/-- The loop of `nextLevel`: `initAsteroid(&asteroids[i], ASTEROID_LARGE)` for the `n`
remaining indices from `i` on. The index is not compared with `MAX_ASTEROIDS`. -/
def nextLevelLoop (m : LibM) : Nat → Nat → Game → Game
  | 0, _, s => s
  | n + 1, i, s => nextLevelLoop m n (i + 1) (initAsteroid m i ASTEROID_LARGE s)

/-- The function `nextLevel` (`asteroids.c`, lines 2787-2803); its loop runs `level` times, for
the value of `level` after the increment. -/
def nextLevel (m : LibM) (s : Game) : Game :=
  if s.level < s.maxLevel then
    let s := { s with level := s.level + 1 }
    nextLevelLoop m s.level.toNat 0 s
  else s

/-- The function `updateLevelText`; the second component tells whether the call went through
`nextLevel`. -/
def updateLevelText (m : LibM) (s : Game) : Game × Bool :=
  let s :=
    if s.levelTextLifetime ≥ 0 then
      let s := { s with levelTextLifetime := s.levelTextLifetime - 1 }
      if s.level ≥ s.maxLevel ∧ s.levelTextLifetime = 0 then { s with levelTextLifetime := 1 }
      else s
    else s
  if s.levelTextLifetime = 0 then (nextLevel m s, true) else (s, false)

/-- The state after `n` calls of `updateLevelText` and the number of those calls that went
through `nextLevel`. -/
def updateLevelTextN (m : LibM) : Nat → Game → Game × Nat
  | 0, s => (s, 0)
  | n + 1, s =>
    ((updateLevelTextN m n (updateLevelText m s).1).1,
      (if (updateLevelText m s).2 then 1 else 0)
        + (updateLevelTextN m n (updateLevelText m s).1).2)
/-! ## Movement (`asteroids.c`, lines 1920-2085) -/

/-- The turn of a ship of type 0 (lines 1935-1942), made when exactly one of the two turning
keys acts: a key acts when it is down and its side of the ship is intact. -/
def turnShip0 (s : Game) : Game :=
  if ¬ ((s.left ≠ 0 ∧ s.ship.LHp > 0) ∧ (s.right ≠ 0 ∧ s.ship.RHp > 0)) ∧
      ((s.left ≠ 0 ∧ s.ship.LHp > 0) ∨ (s.right ≠ 0 ∧ s.ship.RHp > 0)) then
    let s := { s with ship := { s.ship with
      phi := s.ship.phi + (cBool (s.ship.RHp > 0 ∧ s.right ≠ 0) * 2 * M_PI / 30
        + -1 * (cBool (s.ship.LHp > 0 ∧ s.left ≠ 0) * 2 * M_PI) / 30) } }
    if s.ship.phi > 2 * M_PI then { s with ship := { s.ship with phi := s.ship.phi - 2 * M_PI } }
    else if s.ship.phi < 0 then { s with ship := { s.ship with phi := s.ship.phi + 2 * M_PI } }
    else s
  else s

/-- The thrust of a ship of type 0 (lines 1951-1954); `dy` is assigned before `dx`. -/
def thrustShip0 (m : LibM) (s : Game) : Game :=
  if (s.up ≠ 0 ∨ s.down ≠ 0) ∧ s.ship.BHp > 0 then
    { s with ship := { s.ship with
      dy := (1 - s.ship.shipControl) * s.ship.dy
        + s.ship.shipControl * s.up * m.sin (s.ship.phi + 90 * M_PI / 180)
        - s.ship.shipControl * s.down * m.sin (s.ship.phi + 90 * M_PI / 180)
      dx := (1 - s.ship.shipControl) * s.ship.dx
        + s.ship.shipControl * s.up * m.cos (s.ship.phi - 90 * M_PI / 180)
        - s.ship.shipControl * s.down * m.cos (s.ship.phi - 90 * M_PI / 180) } }
  else s

/-- The sideways control of a ship of type 1 (lines 1959-1961). -/
def strafeShip1 (s : Game) : Game :=
  if (s.left ≠ 0 ∨ s.right ≠ 0) ∧ ¬ (s.left ≠ 0 ∧ s.right ≠ 0) then
    { s with ship := { s.ship with dx := s.ship.dx + (0.1 * s.right - 0.1 * s.left) } }
  else s

/-- The vertical control of a ship of type 1 (lines 1962-1964). -/
def liftShip1 (s : Game) : Game :=
  if (s.up ≠ 0 ∨ s.down ≠ 0) ∧ ¬ (s.up ≠ 0 ∧ s.down ≠ 0) then
    { s with ship := { s.ship with dy := s.ship.dy + (0.1 * s.up - 0.1 * s.down) } }
  else s

/-- The clamp of `dx` to `-1 .. 1` for a ship of type 1 (lines 1967-1971). -/
def clampShipDx (s : Game) : Game :=
  if s.ship.dx > 1 then { s with ship := { s.ship with dx := 1 } }
  else if s.ship.dx < -1 then { s with ship := { s.ship with dx := -1 } }
  else s

/-- The clamp of `dy` to `-1 .. 1` for a ship of type 1 (lines 1972-1976). -/
def clampShipDy (s : Game) : Game :=
  if s.ship.dy > 1 then { s with ship := { s.ship with dy := 1 } }
  else if s.ship.dy < -1 then { s with ship := { s.ship with dy := -1 } }
  else s

/-- The controls of a ship of type 1 (lines 1955-1976). -/
def steerShip1 (s : Game) : Game :=
  clampShipDy (clampShipDx (liftShip1 (strafeShip1 s)))

/-- The controls of a ship of type 2 (lines 1977-1991). -/
def steerShip2 (m : LibM) (s : Game) : Game :=
  let s := { s with ship := { s.ship with
    dy := (1 - s.ship.shipControl / 5) * s.ship.dy
      + s.ship.shipControl / 5 * s.up * m.sin (s.ship.phi + 90 * M_PI / 180)
      - s.ship.shipControl / 5 * s.down * m.sin (s.ship.phi + 90 * M_PI / 180) } }
  let s := { s with ship := { s.ship with
    dx := (1 - s.ship.shipControl / 5) * s.ship.dx
      + s.ship.shipControl / 5 * s.up * m.cos (s.ship.phi - 90 * M_PI / 180)
      - s.ship.shipControl / 5 * s.down * m.cos (s.ship.phi - 90 * M_PI / 180) } }
  if ¬ (s.left ≠ 0 ∧ s.right ≠ 0) ∧ (s.left ≠ 0 ∨ s.right ≠ 0) then
    let s := { s with ship := { s.ship with
      phi := s.ship.phi + (s.right * (1 + s.ship.shipControl * 10) * 2 * M_PI / 90
        + -1 * (s.left * (1 + s.ship.shipControl * 10) * 2 * M_PI) / 90) } }
    if s.ship.phi > 2 * M_PI then { s with ship := { s.ship with phi := s.ship.phi - 2 * M_PI } }
    else if s.ship.phi < 0 then { s with ship := { s.ship with phi := s.ship.phi + 2 * M_PI } }
    else s
  else s

/-- The part of `advanceShip` that depends on the type of the ship (lines 1929-1991). -/
def steerShip (m : LibM) (s : Game) : Game :=
  if s.ship.type = 0 then thrustShip0 m (turnShip0 s)
  else if s.ship.type = 1 then steerShip1 s
  else if s.ship.type = 2 then steerShip2 m s
  else s

/-- The displacement of the ship (lines 1996-1997). -/
def moveShip (s : Game) : Game :=
  let s := { s with ship := { s.ship with x := s.ship.x + s.ship.shipSpeed * s.ship.dx } }
  { s with ship := { s.ship with y := s.ship.y + s.ship.shipSpeed * s.ship.dy } }

/-- The wrap of the ship around the window (lines 2001-2010). -/
def wrapShip (s : Game) : Game :=
  let s :=
    if s.ship.x < -s.ship.size then { s with ship := { s.ship with x := s.xMax + s.ship.size } }
    else if s.ship.x > s.xMax + s.ship.size then { s with ship := { s.ship with x := -s.ship.size } }
    else s
  if s.ship.y < -s.ship.size then { s with ship := { s.ship with y := s.yMax + s.ship.size } }
  else if s.ship.y > s.yMax + s.ship.size then { s with ship := { s.ship with y := -s.ship.size } }
  else s

/-- The function `advanceShip`. -/
def advanceShip (m : LibM) (s : Game) : Game := wrapShip (moveShip (steerShip m s))

/-- The body of the first loop of `advanceAsteroid` for an active asteroid (lines 2044-2051). -/
def moveAsteroid (a : Asteroid) : Asteroid :=
  let a := { a with x := a.x + a.dx }
  let a := { a with y := a.y + a.dy }
  let a := { a with phi := a.phi + a.dphi }
  if a.phi > 2 * M_PI then { a with phi := a.phi - 2 * M_PI }
  else if a.phi < 0 then { a with phi := a.phi + 2 * M_PI }
  else a

/-- The body of the second loop of `advanceAsteroid` for an active asteroid (lines 2066-2081).
The last comparison reads `xMax`, as the source does. -/
def wrapAsteroid (xMax yMax : ℚ) (a : Asteroid) : Asteroid :=
  let a :=
    if a.x < ((-1 * MAX_ASTEROID_VARIANCE * a.size : Int) : ℚ) then
      { a with x := xMax + ((MAX_ASTEROID_VARIANCE * a.size : Int) : ℚ) }
    else if a.x > xMax + ((MAX_ASTEROID_VARIANCE * a.size : Int) : ℚ) then
      { a with x := ((-1 * MAX_ASTEROID_VARIANCE * a.size : Int) : ℚ) }
    else a
  if a.y < ((-1 * MAX_ASTEROID_VARIANCE * a.size : Int) : ℚ) then
    { a with y := yMax + ((MAX_ASTEROID_VARIANCE * a.size : Int) : ℚ) }
  else if a.y > xMax + ((MAX_ASTEROID_VARIANCE * a.size : Int) : ℚ) then
    { a with y := ((-1 * MAX_ASTEROID_VARIANCE * a.size : Int) : ℚ) }
  else a

/-- The first loop of `advanceAsteroid` (lines 2041-2053), without its flag `empty`. -/
def moveAsteroids (s : Game) : Game :=
  { s with
    asteroids := forEachSlot (fun a => if a.active ≠ 0 then moveAsteroid a else a)
      MAX_ASTEROIDS 0 s.asteroids }

/-- The start of the timer that leads to the next level (lines 2055-2062); `empty` is the flag
of the first loop. -/
def armLevelText (empty : Int) (s : Game) : Game :=
  if empty ≠ 0 ∧ s.levelTextLifetime = -1 then
    let s := { s with levelTextLifetime := 120 }
    if s.level = s.maxLevel then { s with levelTextLifetime := 360 + s.scoreDigits * 20 }
    else s
  else s

/-- The second loop of `advanceAsteroid` (lines 2064-2084). -/
def wrapAsteroids (s : Game) : Game :=
  { s with
    asteroids := forEachSlot (fun a => if a.active ≠ 0 then wrapAsteroid s.xMax s.yMax a else a)
      MAX_ASTEROIDS 0 s.asteroids }

/-- The function `advanceAsteroid` (lines 2032-2085). Its local `empty` stays `1` exactly when
the first loop meets no active asteroid. -/
def advanceAsteroid (s : Game) : Game :=
  let empty : Int := cBool (∀ i, i < MAX_ASTEROIDS → (s.asteroids i).active = 0)
  wrapAsteroids (armLevelText empty (moveAsteroids s))

/-! ## Notions and states used for the destruction of the ship, the timers and the movement -/

/-- Between the debris pools `d` and `e` every slot is either untouched or was inactive and now
holds active wreckage of the ship (type 0). -/
def WreckageOnly (d e : Nat → Debris) : Prop :=
  ∀ j, e j = d j ∨ ((d j).active = 0 ∧ (e j).active = 1 ∧ (e j).type = 0)

/-- The number of sides of the ship without hit points. -/
def deadSides (ship : Ship) : Nat :=
  (if ship.LHp ≤ 0 then 1 else 0) + (if ship.RHp ≤ 0 then 1 else 0)
    + (if ship.BHp ≤ 0 then 1 else 0)

/-- A ship of type 0 that lost its left side earlier (`LHp = 0`, `LDmg = -1`), whose back side
is intact and whose right side has just lost its last hit points to a direct hit. -/
def lostLeftGame : Game :=
  { respawn := -1, ship := { exampleShip with LHp := 0, LDmg := -1, RHp := 0, RDmg := 50 } }

/-- A ship of type 0 none of whose sides was destroyed before and whose three sides are
without hit points. -/
def allSidesDownGame : Game :=
  { respawn := -1, ship := { exampleShip with LHp := 0, RHp := -5, BHp := 0, LDmg := 50 } }

/-- A game in the asteroids state whose ship has just been destroyed: `respawn = 200`. -/
def respawningGame : Game :=
  { state := STATE_ASTEROIDS, respawn := 200, xMax := 100, yMax := 100, w := 500, h := 500,
    maxLevel := 3, level := 1,
    ship := { exampleShip with LHp := 0, RHp := 0, BHp := 0, LDmg := -1, RDmg := -1, BDmg := -1 } }

/-- The number of active asteroid slots. -/
def activeAsteroids (s : Game) : Nat :=
  countFrom (fun i => decide ((s.asteroids i).active ≠ 0)) 0 MAX_ASTEROIDS

/-- A game in the asteroids state after `clear`: level 0 of 3, no active asteroid, and the
timer of the level text armed by `advanceAsteroid`. -/
def levelStartGame : Game :=
  { state := STATE_ASTEROIDS, respawn := -1, xMax := 100, yMax := 100, maxLevel := 3, level := 0,
    levelTextLifetime := 120, ship := exampleShip }

/-- A game whose last level is cleared: level 3 of 3, no active asteroid, and the timer of the
level text armed by `advanceAsteroid`. -/
def finalLevelGame : Game :=
  { state := STATE_ASTEROIDS, respawn := -1, xMax := 100, yMax := 100, maxLevel := 3, level := 3,
    levelTextLifetime := 360, ship := exampleShip }

/-- A game in a window twice as wide as high (`myReshape(1000, 500)` gives `xMax = 200`,
`yMax = 100`) with one active asteroid of size `ASTEROID_LARGE` that drifts upwards at the upper
margin: the margin is `MAX_ASTEROID_VARIANCE * ASTEROID_LARGE = 15` and `y = 115`. -/
def wideWindowGame : Game :=
  { state := STATE_ASTEROIDS, respawn := -1, xMax := 200, yMax := 100, w := 1000, h := 500,
    maxLevel := 3, level := 1, levelTextLifetime := -1, ship := exampleShip
    asteroids := fun i =>
      if i = 0 then
        { active := 1, nVertices := 8, size := ASTEROID_LARGE, x := 50, y := 115, dx := 0.5,
          dy := 0.5 }
      else {} }

/-- A game whose ship of type 0 (size 4) is at the right margin of a 100 by 100 window,
`x = 104`, and drifts to the right with no key pressed. -/
def edgeShipGame : Game :=
  { state := STATE_ASTEROIDS, respawn := -1, xMax := 100, yMax := 100, w := 500, h := 500,
    maxLevel := 3, level := 1, levelTextLifetime := -1
    ship := { exampleShip with x := 104, y := 50, dx := 0.5, dy := 0 } }

/-- A game with a ship of type 1 as `changeShip(1)` sets it up (`cooldown = 10`), ready to fire
(`currentCooldown = 0`) and with all photon slots free. -/
def volleyGame : Game :=
  { state := STATE_ASTEROIDS, respawn := -1, xMax := 100, yMax := 100, maxLevel := 3, level := 1,
    levelTextLifetime := -1, cooldown := 10, currentCooldown := 0, photonSize := 1,
    photonSpeed := 2
    ship := { type := 1, x := 50, y := 50, size := 2, BHp := 100, LHp := 100, RHp := 100,
              BDmg := 0, LDmg := -1, RDmg := -1, shipSpeed := 1, shipControl := 0.05 } }

/-- A game with a ship of type 2 whose shield has just been destroyed by an asteroid: `LHp = 0`
and the timer of the shield is `LDmg = 100`. -/
def shieldDownGame : Game :=
  { state := STATE_ASTEROIDS, respawn := -1, xMax := 100, yMax := 100, maxLevel := 3, level := 1,
    levelTextLifetime := -1, cooldown := 10, photonSize := 1, photonSpeed := 2
    ship := { type := 2, x := 50, y := 50, size := 8, BHp := 100, LHp := 0, RHp := 300,
              BDmg := 0, LDmg := 100, RDmg := -1, shipSpeed := 1, shipControl := 0.05 } }

/-- A game with a ship of type 0 whose left side was hit 20 ticks ago (`LDmg = 30`, hit points
left) and whose right side is destroyed (`RHp = 0`, `RDmg = -1`). -/
def hitLeftSideGame : Game :=
  { state := STATE_ASTEROIDS, respawn := -1, xMax := 100, yMax := 100, maxLevel := 3, level := 1,
    levelTextLifetime := -1, photonSize := 1, photonSpeed := 2
    ship := { exampleShip with LHp := 80, LDmg := 30, RHp := 0, RDmg := -1 } }

/-- A game with a ship of type 2 whose shield holds 250 of its 300 points and whose timer is
about to run out (`LDmg = 1`). -/
def rechargingGame : Game :=
  { state := STATE_ASTEROIDS, respawn := -1, xMax := 100, yMax := 100, maxLevel := 3, level := 1,
    levelTextLifetime := -1, cooldown := 10, photonSize := 1, photonSpeed := 2
    ship := { type := 2, x := 50, y := 50, size := 8, BHp := 100, LHp := 250, RHp := 300,
              BDmg := 0, LDmg := 1, RDmg := -1, shipSpeed := 1, shipControl := 0.05 } }
/-- A turning key of a ship of type 0 acts: the left key is down and the left side has hit
points. -/
def leftActs (s : Game) : Prop := s.left ≠ 0 ∧ s.ship.LHp > 0

instance (s : Game) : Decidable (leftActs s) := by
  unfold leftActs; infer_instance

/-- The right key is down and the right side has hit points. -/
def rightActs (s : Game) : Prop := s.right ≠ 0 ∧ s.ship.RHp > 0

instance (s : Game) : Decidable (rightActs s) := by
  unfold rightActs; infer_instance

/-- A game whose ship of type 0 has lost its right side, with both turning keys held. -/
def bothKeysGame : Game :=
  { state := STATE_ASTEROIDS, respawn := -1, xMax := 100, yMax := 100, maxLevel := 3, level := 1,
    levelTextLifetime := -1, photonSize := 1, photonSpeed := 2, left := 1, right := 1
    ship := { exampleShip with x := 50, y := 50, phi := 1, RHp := 0, RDmg := -1 } }

/-- A game whose ship of type 0 is intact, with both turning keys held. -/
def bothKeysAliveGame : Game :=
  { state := STATE_ASTEROIDS, respawn := -1, xMax := 100, yMax := 100, maxLevel := 3, level := 1,
    levelTextLifetime := -1, photonSize := 1, photonSpeed := 2, left := 1, right := 1
    ship := { exampleShip with x := 50, y := 50, phi := 1 } }
/-- A state with one active asteroid of size `ASTEROID_MEDIUM` at rest in slot 0 and a photon
of velocity `(8, 8)` in slot 0, with `photonSize = 1`. -/
def fastPhotonGame : Game :=
  { asteroids := fun i => if i = 0 then { active := 1, size := ASTEROID_MEDIUM } else {}
    photons := fun i => if i = 0 then { active := 1, dx := 8, dy := 8 } else {}
    photonSize := 1 }

/-- A ship of type 1 at the origin with size 4: with `octantLibM` its square has the corners
`(2, 2)`, `(2, -2)`, `(-2, -2)` and `(-2, 2)`; it is intact and vulnerable. -/
def squareShip : Ship :=
  { type := 1, x := 0, y := 0, phi := 0, size := 4, BHp := 100, BDmg := 0 }

/-- The asteroid `exampleAsteroid` with its centre at `(0, 6)`: vertex 0 is at `(0, 1)`, inside
the square of `squareShip`, vertex 7 at `(2.8284, 3.1716)` and vertex 1 at
`(-2.8284, 3.1716)`; every other vertex has `y >= 6`. -/
def lowAsteroid : Asteroid := { exampleAsteroid with y := 6 }

/-- The ship `squareShip` below `lowAsteroid`, the only active asteroid: edge 0 (vertex 0 to
vertex 7) and edge 1 (vertex 1 to vertex 0) cross the top side of the square and no other
side. -/
def topHitGame : Game :=
  { respawn := -1, ship := squareShip
    asteroids := fun i => if i = 0 then lowAsteroid else {} }

/-! ## Photons against asteroids (`asteroids.c`, lines 2104-2164) -/

/-- The squared distance between the origins of an asteroid and of a photon. -/
def photonDistSq (a : Asteroid) (p : Photon) : ℚ := (a.x - p.x) ^ 2 + (a.y - p.y) ^ 2

/-- The photon is within the maximum radius of the asteroid plus the photon's radius
(lines 2119-2120). -/
def photonInBroadCircle (a : Asteroid) (p : Photon) (photonSize : ℚ) : Prop :=
  photonDistSq a p ≤ (((a.size * MAX_ASTEROID_VARIANCE : Int) : ℚ) + photonSize) ^ 2

instance (a : Asteroid) (p : Photon) (photonSize : ℚ) :
    Decidable (photonInBroadCircle a p photonSize) := by
  unfold photonInBroadCircle; infer_instance

/-- The photon is within the minimum radius of the asteroid plus the photon's radius
(lines 2122-2123). -/
def photonInTightCircle (a : Asteroid) (p : Photon) (photonSize : ℚ) : Prop :=
  photonDistSq a p ≤ (((a.size * MIN_ASTEROID_VARIANCE : Int) : ℚ) + photonSize) ^ 2

instance (a : Asteroid) (p : Photon) (photonSize : ℚ) :
    Decidable (photonInTightCircle a p photonSize) := by
  unfold photonInTightCircle; infer_instance

/-- The test of one edge in the polygon branch (lines 2141-2150), for the photon at `(x0, y0)`
and the edge from `(x1, y1)` to `(x2, y2)`. For an edge of length zero `lambda` is `0/0` in C,
a NaN that fails every comparison; the test is false then. -/
def photonTouchesEdge (photonSize x0 y0 x1 y1 x2 y2 : ℚ) : Prop :=
  let lambda := ((x0 - x1) * (x2 - x1) + (y0 - y1) * (y2 - y1))
    / ((x2 - x1) ^ 2 + (y2 - y1) ^ 2)
  let dist := (x1 - x0 + lambda * (x2 - x1)) ^ 2 + (y1 - y0 + lambda * (y2 - y1)) ^ 2
  (x2 - x1) ^ 2 + (y2 - y1) ^ 2 ≠ 0 ∧ lambda ≥ 0 ∧ lambda ≤ 1 ∧ dist ≤ photonSize ^ 2

instance (photonSize x0 y0 x1 y1 x2 y2 : ℚ) :
    Decidable (photonTouchesEdge photonSize x0 y0 x1 y1 x2 y2) := by
  unfold photonTouchesEdge; infer_instance

/-- The vertex loop of the polygon branch for asteroid `i` and photon `j` (lines 2134-2157);
the state of the loop is the game state and `x1, y1`; `n` iterations are left and `k` is the
index. The flag tells whether an edge was hit: the hit calls `destroyAsteroid` and ends this
loop (`k = asteroids[i].nVertices`) and the photon loop (`j = MAX_PHOTONS`). -/
def photonEdgeLoop (m : LibM) (i j : Nat) : Nat → Nat → Game × ℚ × ℚ → Game × Bool
  | 0, _, st => (st.1, false)
  | n + 1, k, (s, x1, y1) =>
    let x0 := (s.photons j).x
    let y0 := (s.photons j).y
    let x2 := x1
    let y2 := y1
    let v := asteroidVertex m (s.asteroids i) k
    if photonTouchesEdge s.photonSize x0 y0 v.x v.y x2 y2 then (destroyAsteroid m i j s, true)
    else photonEdgeLoop m i j n (k + 1) (s, v.x, v.y)

/-- The photon loop for asteroid `i` (lines 2113-2161); `n` iterations are left and `j` is the
index. The flag tells whether the asteroid loop ends as well: a hit inside the tight circle
assigns `i = MAX_ASTEROIDS` and `j = MAX_PHOTONS`, a hit in the polygon branch only
`j = MAX_PHOTONS`. -/
def photonLoop (m : LibM) (i : Nat) : Nat → Nat → Game → Game × Bool
  | 0, _, s => (s, false)
  | n + 1, j, s =>
    if (s.photons j).active ≠ 0 ∧ (s.asteroids i).active ≠ 0 then
      if photonInBroadCircle (s.asteroids i) (s.photons j) s.photonSize then
        if photonInTightCircle (s.asteroids i) (s.photons j) s.photonSize then
          (destroyAsteroid m i j s, true)
        else
          let v := asteroidVertex m (s.asteroids i) ((s.asteroids i).nVertices - 1)
          let r := photonEdgeLoop m i j (s.asteroids i).nVertices.toNat 0 (s, v.x, v.y)
          if r.2 = true then (r.1, false) else photonLoop m i n (j + 1) r.1
      else photonLoop m i n (j + 1) s
    else photonLoop m i n (j + 1) s

/-- The asteroid loop of `collisionAsteroidPhoton` (lines 2112-2162); `n` iterations are left
and `i` is the index. -/
def asteroidPhotonLoop (m : LibM) : Nat → Nat → Game → Game
  | 0, _, s => s
  | n + 1, i, s =>
    let r := photonLoop m i MAX_PHOTONS 0 s
    if r.2 = true then r.1 else asteroidPhotonLoop m n (i + 1) r.1

/-- The function `collisionAsteroidPhoton`. -/
def collisionAsteroidPhoton (m : LibM) (s : Game) : Game :=
  asteroidPhotonLoop m MAX_ASTEROIDS 0 s

/-- A state with two active asteroids of size `ASTEROID_MEDIUM`, at `(0, 0)` in slot 0 and at
`(50, 0)` in slot 1, and two active photons, each at the centre of the asteroid with its own
slot number; `photonSize = 1`, so the broad circles have radius 10. -/
def twoPairsGame : Game :=
  { asteroids := fun i =>
      if i = 0 then { active := 1, size := ASTEROID_MEDIUM, nVertices := 6 }
      else if i = 1 then { active := 1, size := ASTEROID_MEDIUM, nVertices := 6, x := 50 }
      else {}
    photons := fun j =>
      if j = 0 then { active := 1, dy := 1 }
      else if j = 1 then { active := 1, x := 50, dy := 1 }
      else {}
    photonSize := 1 }

/-! ## Pickups (`asteroids.c`, lines 2492-2523, 2570-2636) -/

/-- The function `changeUpgradeText`. -/
def changeUpgradeText (t : String) (s : Game) : Game :=
  { s with upgradeText := { s.upgradeText with msg := t, active := 1, lifetime := 250 } }

/-- The test of the `while` loop of `upgradeShip` (line 2583): the value `rand` stands for an
upgrade that has been given 10 times already. -/
def upgradeRejected (photonUpgrade shipUpgrade : Int) (rand : ℚ) : Prop :=
  (photonUpgrade ≥ 10 ∧ rand > 0.1 ∧ rand ≤ 0.4) ∨ (shipUpgrade ≥ 10 ∧ rand > 0.4 ∧ rand ≤ 0.7)

instance (photonUpgrade shipUpgrade : Int) (rand : ℚ) :
    Decidable (upgradeRejected photonUpgrade shipUpgrade rand) := by
  unfold upgradeRejected; infer_instance

/-- The draws of `upgradeShip` (lines 2579-2585): the first value of `myRandom(0.0, 1.0)` that
the `while` loop lets through, and the state of `rand()` after it. The loop has no bound in C;
`n` bounds the number of draws here and `none` stands for a loop that is still running after
`n` draws. -/
def upgradeDraw (photonUpgrade shipUpgrade : Int) : Nat → Rng → Option (ℚ × Rng)
  | 0, _ => none
  | n + 1, g =>
    if upgradeRejected photonUpgrade shipUpgrade (myRandom 0.0 1.0 g).1 then
      upgradeDraw photonUpgrade shipUpgrade n (myRandom 0.0 1.0 g).2
    else some (myRandom 0.0 1.0 g)

/-- The first branch of `upgradeShip` (lines 2587-2589). -/
def upgradeDeposit (s : Game) : Game :=
  changeUpgradeText "metal/alloy deposit"
    { s with metalCount := s.metalCount + 10, alloyCount := s.alloyCount + 1 }

/-- The second branch of `upgradeShip` (lines 2593-2597); `cooldown` is an `int`. -/
def upgradePhoton (s : Game) : Game :=
  let s := { s with photonSpeed := s.photonSpeed * 1.1 }
  let s := { s with photonSize := s.photonSize * 1.1 }
  let s := { s with cooldown := cInt (s.cooldown * 0.9) }
  let s := changeUpgradeText "Photon upgrade" s
  { s with photonUpgrade := s.photonUpgrade + 1 }

/-- The third branch of `upgradeShip` (lines 2601-2607). -/
def upgradeControl (s : Game) : Game :=
  let s := { s with ship := { s.ship with shipSpeed := s.ship.shipSpeed * 1.1 } }
  let s := { s with ship := { s.ship with shipControl := s.ship.shipControl * 1.1 } }
  let s := changeUpgradeText "Ship upgrade" s
  let s := if s.ship.shipControl > 1 then { s with ship := { s.ship with shipControl := 1 } }
    else s
  { s with ship := { s.ship with shipUpgrade := s.ship.shipUpgrade + 1 } }

/-- The fourth branch of `upgradeShip` (lines 2613-2622). -/
def upgradeHealth (s : Game) : Game :=
  let s := { s with ship := { s.ship with LHp := s.ship.LHp + 25 } }
  let s := { s with ship := { s.ship with RHp := s.ship.RHp + 25 } }
  let s := { s with ship := { s.ship with BHp := s.ship.BHp + 25 } }
  let s := { s with ship := { s.ship with LDmg := 200, RDmg := 200, BDmg := 200 } }
  let s := if s.ship.type = 2 then { s with ship := { s.ship with LDmg := 0 } } else s
  changeUpgradeText "Health boost" s

/-- The branches of `upgradeShip` on the value `rand` (lines 2586-2623). -/
def applyUpgrade (rand : ℚ) (s : Game) : Game :=
  if rand ≤ 0.1 then upgradeDeposit s
  else if rand ≤ 0.4 then upgradePhoton s
  else if rand ≤ 0.7 then upgradeControl s
  else if rand ≤ 1.0 then upgradeHealth s
  else s

/-- The function `upgradeShip`, with at most `n` draws in its `while` loop. -/
def upgradeShip (n : Nat) (s : Game) : Option Game :=
  match upgradeDraw s.photonUpgrade s.ship.shipUpgrade n s.rng with
  | none => none
  | some r => some (applyUpgrade r.1 { s with rng := r.2 })

/-- The test of `collisionDebrisShip` on one piece of debris (line 2505). -/
def debrisInReach (d : Debris) (ship : Ship) : Prop :=
  d.active ≠ 0 ∧ d.type ≠ 0 ∧ (d.x - ship.x) ^ 2 + (d.y - ship.y) ^ 2 ≤ ship.size ^ 2

instance (d : Debris) (ship : Ship) : Decidable (debrisInReach d ship) := by
  unfold debrisInReach; infer_instance

/-- The reward for a piece of type 2 after `upgradeShip` (lines 2511-2513); `alloyCount` is an
`int`. -/
def rewardAlloy (i : Nat) (s : Game) : Game :=
  let s := addScore 100 (s.debris i).x (s.debris i).y s
  let s := { s with debrisA := s.debrisA + 1 }
  { s with
    alloyCount := cInt (s.alloyCount + ⌊(myRandom 1 4.2 s.rng).1⌋)
    rng := (myRandom 1 4.2 s.rng).2 }

/-- The reward for a piece of another type (lines 2516-2518); `metalCount` is an `int`. -/
def rewardMetal (i : Nat) (s : Game) : Game :=
  let s := addScore 10 (s.debris i).x (s.debris i).y s
  let s := { s with debrisM := s.debrisM + 1 }
  { s with
    metalCount := cInt (s.metalCount + (myRandom 1.8 9.1 s.rng).1)
    rng := (myRandom 1.8 9.1 s.rng).2 }

/-- The two assignments that remove the piece in slot `i` (lines 2506-2507). -/
def takeDebris (i : Nat) (s : Game) : Game :=
  let s := { s with debris := Function.update s.debris i { s.debris i with active := 0 } }
  { s with debris := Function.update s.debris i { s.debris i with lifetime := 0 } }

/-- The body of the loop of `collisionDebrisShip` for slot `i` (lines 2505-2520). -/
def collectDebris (n : Nat) (i : Nat) (s : Game) : Option Game :=
  if debrisInReach (s.debris i) s.ship then
    let s := takeDebris i s
    if (s.debris i).type = 2 then
      match upgradeShip n s with
      | none => none
      | some s => some (rewardAlloy i s)
    else some (rewardMetal i s)
  else some s

/-- The loop of `collisionDebrisShip`; `k` iterations are left and `i` is the index. -/
def collisionDebrisShipLoop (n : Nat) : Nat → Nat → Game → Option Game
  | 0, _, s => some s
  | k + 1, i, s =>
    match collectDebris n i s with
    | none => none
    | some s => collisionDebrisShipLoop n k (i + 1) s

/-- The function `collisionDebrisShip`; every call of `upgradeShip` may take `n` draws in its
`while` loop. -/
def collisionDebrisShip (n : Nat) (s : Game) : Option Game :=
  if s.respawn = -1 then collisionDebrisShipLoop n MAX_DEBRIS 0 s else some s

/-- The part of the state that decides which pieces `collisionDebrisShip` collects and counts:
the position and size of the ship, the counters of the session score and the sequence of
outcomes of `rand()`. -/
def pickupView (s : Game) : ℚ × ℚ × ℚ × Int × Int × Int × Int × (Nat → Nat) :=
  (s.ship.x, s.ship.y, s.ship.size, s.respawn, s.scoreAL, s.scoreAM, s.scoreAS, s.rng.draws)

/-- A value of `myRandom(0.0, 1.0)` that the `while` loop of `upgradeShip` lets through
whatever upgrades were given before. -/
def upgradeAccepted (r : Nat) : Prop := myRandomOf 0.0 1.0 r ≤ 0.1 ∨ myRandomOf 0.0 1.0 r > 0.7

instance (r : Nat) : Decidable (upgradeAccepted r) := by
  unfold upgradeAccepted; infer_instance

/-- A state with a ship of size 4 at the origin that is not respawning, a piece of type 2 in
debris slot 0 and a piece of type 1 in slot 1, both within reach, and wreckage of type 0 in
slot 2 at the same place. -/
def pickupGame : Game :=
  { respawn := -1, ship := { exampleShip with type := 2 }
    debris := fun i =>
      if i = 0 then { active := 1, type := 2, lifetime := 50, x := 1 }
      else if i = 1 then { active := 1, type := 1, lifetime := 50, y := 2 }
      else if i = 2 then { active := 1, type := 0, lifetime := 50 }
      else {} }

/-! ## Notions used to state runs of `destroyAsteroid` -/

/-- A sequence of calls `destroyAsteroid(&asteroids[a], &photons[p])`, each for a slot `a` of
the pool that holds an active asteroid when the call is made; `none` when a call names a slot
that is outside the pool or inactive. -/
def destroyRun (m : LibM) : List (Nat × Nat) → Game → Option Game
  | [], s => some s
  | c :: rest, s =>
    if c.1 < MAX_ASTEROIDS ∧ (s.asteroids c.1).active ≠ 0 then
      destroyRun m rest (destroyAsteroid m c.1 c.2 s)
    else none

/-- The sum over the active asteroids of the pool of a weight that depends on the size. -/
def weightSum (w : Int → Int) (s : Game) : Int :=
  Finset.sum (Finset.range MAX_ASTEROIDS)
    (fun j => if (s.asteroids j).active ≠ 0 then w (s.asteroids j).size else 0)

/-- The least number of calls of `destroyAsteroid` that remove an asteroid of the given size
and all that comes from it: 1 for a small one, `1 + 2*1` for a medium one, `1 + 3*3` for a
large one. -/
def leastCalls (size : Int) : Int :=
  if size = ASTEROID_LARGE then 10 else if size = ASTEROID_MEDIUM then 3
  else if size = ASTEROID_SMALL then 1 else 0

/-- The greatest number of such calls: 1, `1 + 3*1` and `1 + 4*4`. -/
def mostCalls (size : Int) : Int :=
  if size = ASTEROID_LARGE then 17 else if size = ASTEROID_MEDIUM then 4
  else if size = ASTEROID_SMALL then 1 else 0

/-- The greatest number of small asteroids that come from an asteroid of the given size: 1, 3
and 12. -/
def mostPieces (size : Int) : Int :=
  if size = ASTEROID_LARGE then 12 else if size = ASTEROID_MEDIUM then 3
  else if size = ASTEROID_SMALL then 1 else 0

/-- Every active asteroid of the pool has one of the three sizes. -/
def AllSized (s : Game) : Prop :=
  ∀ j, j < MAX_ASTEROIDS → (s.asteroids j).active ≠ 0 →
    (s.asteroids j).size = ASTEROID_SMALL ∨ (s.asteroids j).size = ASTEROID_MEDIUM ∨
    (s.asteroids j).size = ASTEROID_LARGE

/-- A state with one active asteroid of size `ASTEROID_LARGE` in slot 0. -/
def oneLargeGame : Game :=
  { asteroids := fun i => if i = 0 then { active := 1, size := ASTEROID_LARGE } else {} }

/-- The `double` value `v` is a whole number in the range of the type `int` (from `INT_MIN` to
`INT_MAX` with 32 bits): its conversion to `int` is defined in C and loses nothing. -/
def fitsInt (v : ℚ) : Prop :=
  ((cInt v : Int) : ℚ) = v ∧ -2147483648 ≤ cInt v ∧ cInt v ≤ 2147483647

instance (v : ℚ) : Decidable (fitsInt v) := by
  unfold fitsInt; infer_instance

/-! ## Theorems -/

theorem cInt_pos_iff (v : ℚ) : 0 < cInt v ↔ 1 ≤ v := by
  unfold cInt
  split
  · rw [Int.lt_iff_add_one_le, zero_add, Int.le_floor]; norm_num
  · rename_i h
    push_neg at h
    constructor
    · intro h1
      have := Int.ceil_pos.mp h1
      linarith
    · intro h1; linarith

theorem cInt_neg_iff (v : ℚ) : cInt v < 0 ↔ v ≤ -1 := by
  unfold cInt
  split
  · rename_i h
    constructor
    · intro h1
      have := Int.floor_nonneg.mpr h
      omega
    · intro h1; linarith
  · have e : (⌈v⌉ < 0) ↔ ⌈v⌉ ≤ -1 := by omega
    rw [e, Int.ceil_le]; norm_num

theorem orientation_of_one_le {v : ℚ} (h : 1 ≤ v) : orientation v = 1 := by
  simp [orientation, (cInt_pos_iff v).mpr h]

theorem orientation_of_le_neg_one {v : ℚ} (h : v ≤ -1) : orientation v = 2 := by
  have h1 : cInt v < 0 := (cInt_neg_iff v).mpr h
  have h2 : ¬ 0 < cInt v := by omega
  simp [orientation, h1, h2]

theorem orientation_of_abs_lt_one {v : ℚ} (h1 : -1 < v) (h2 : v < 1) : orientation v = 0 := by
  have a : ¬ 0 < cInt v := by rw [cInt_pos_iff]; linarith
  have b : ¬ cInt v < 0 := by rw [cInt_neg_iff]; linarith
  simp only [orientation, gt_iff_lt, a, b, if_false]
  omega

/-- C1: `lineCollision` does not decide whether the closed segments `AB` and `CD` meet. The
segments from `(0,0)` to `(1/2,0)` and from `(1/4,-1/4)` to `(1/4,1/4)` cross at `(1/4,0)` and
the function returns `0`, because all four cross products lie strictly between `-1` and `1` and
are truncated to the orientation `0`; the segments from `(0,0)` to `(1,1)` and from `(1/2,3/4)`
to `(1/2,5)` are disjoint and the function returns `1`. -/
theorem lineCollision_truncation_breaks_iff :
    (lineCollision 0 0 (1/2) 0 (1/4) (-1/4) (1/4) (1/4) = 0 ∧
      segmentsMeet 0 0 (1/2) 0 (1/4) (-1/4) (1/4) (1/4)) ∧
    (lineCollision 0 0 1 1 (1/2) (3/4) (1/2) 5 = 1 ∧
      ¬ segmentsMeet 0 0 1 1 (1/2) (3/4) (1/2) 5) := by
  refine ⟨⟨?_, ?_⟩, ?_, ?_⟩
  · simp only [lineCollision]
    rw [orientation_of_abs_lt_one, orientation_of_abs_lt_one, orientation_of_abs_lt_one,
      orientation_of_abs_lt_one] <;> norm_num [onSegmentBox]
  · exact ⟨1/2, 1/2, by norm_num, by norm_num, by norm_num, by norm_num, by norm_num,
      by norm_num⟩
  · have hD : orientation ((1 - 0) * (1/2 - 1) - (1 - 0) * (3/4 - 1)) = 0 :=
      orientation_of_abs_lt_one (by norm_num) (by norm_num)
    have hC : orientation ((1 - 0) * (1/2 - 1) - (1 - 0) * (5 - 1)) = 2 :=
      orientation_of_le_neg_one (by norm_num)
    have hB : orientation ((5 - 3/4) * (0 - 1/2) - (1/2 - 1/2) * (0 - 5)) = 2 :=
      orientation_of_le_neg_one (by norm_num)
    have hA : orientation ((5 - 3/4) * (1 - 1/2) - (1/2 - 1/2) * (1 - 5)) = 1 :=
      orientation_of_one_le (by norm_num)
    simp only [lineCollision, hD, hC, hB, hA]
    norm_num [onSegmentBox]
  · rintro ⟨t, u, _, _, hu0, _, hx, hy⟩
    norm_num at hx hy
    linarith

/-! ### Counting slots and the common shape of the spawning loops -/

theorem countFrom_congr (p q : Nat → Bool) (n : Nat) :
    ∀ i, (∀ j, i ≤ j → j < i + n → p j = q j) → countFrom p i n = countFrom q i n := by
  induction n with
  | zero => intro i _; rfl
  | succ n ih =>
    intro i h
    simp only [countFrom]
    rw [h i (le_refl i) (by omega), ih (i + 1) (fun j h1 h2 => h j (by omega) (by omega))]

theorem countFrom_eq_zero (p : Nat → Bool) (n : Nat) :
    ∀ i, (∀ j, i ≤ j → j < i + n → p j = false) → countFrom p i n = 0 := by
  induction n with
  | zero => intro i _; rfl
  | succ n ih =>
    intro i h
    simp only [countFrom]
    rw [h i (le_refl i) (by omega), ih (i + 1) (fun j h1 h2 => h j (by omega) (by omega))]
    rfl

theorem countFrom_le (p : Nat → Bool) (n : Nat) : ∀ i, countFrom p i n ≤ n := by
  induction n with
  | zero => intro i; simp [countFrom]
  | succ n ih =>
    intro i
    simp only [countFrom]
    have := ih (i + 1)
    split <;> omega

theorem countFrom_pos (p : Nat → Bool) (n : Nat) :
    ∀ i j, i ≤ j → j < i + n → p j = true → 0 < countFrom p i n := by
  induction n with
  | zero => intro i j h1 h2; omega
  | succ n ih =>
    intro i j h1 h2 hp
    simp only [countFrom]
    by_cases hij : i = j
    · subst hij; rw [hp]; simp
    · have := ih (i + 1) j (by omega) (by omega) hp
      omega

/-- Every loop that fills free slots of a pool has this shape: `L n i c a pool` is the pool
after the `n` iterations that start at index `i` with a budget of `c` slots still to fill and an
auxiliary state `a`. A busy slot is skipped, a free slot is overwritten by an active entry that
satisfies `Q` and costs one unit of budget, and nothing happens once the budget is `0`; `Inv` is
a property of the pool that every such write keeps. Then every slot is either untouched or was
free and is now active with `Q`, and the number of slots that became active is the minimum of
the budget and of the number of free slots. -/
theorem spawn_loop_shape {T A : Type} (act : T → Int) (Q : T → Prop)
    (Inv : (Nat → T) → Prop) (cmax : Nat)
    (L : Nat → Nat → Nat → A → (Nat → T) → (Nat → T))
    (h0 : ∀ i c a pool, L 0 i c a pool = pool)
    (hzero : ∀ n i a pool, L n i 0 a pool = pool)
    (hbusy : ∀ n i c a pool, act (pool i) ≠ 0 → ∃ a', L (n + 1) i c a pool = L n (i + 1) c a' pool)
    (hfree : ∀ n i c a pool, c + 1 ≤ cmax → Inv pool → act (pool i) = 0 →
      ∃ t a', act t ≠ 0 ∧ Q t ∧ Inv (Function.update pool i t) ∧
        L (n + 1) i (c + 1) a pool = L n (i + 1) c a' (Function.update pool i t)) :
    ∀ n i c a pool, c ≤ cmax → Inv pool →
      (∀ j, L n i c a pool j = pool j ∨
        (i ≤ j ∧ j < i + n ∧ act (pool j) = 0 ∧ act (L n i c a pool j) ≠ 0 ∧
          Q (L n i c a pool j))) ∧
      countFrom (fun j => decide (act (pool j) = 0 ∧ act (L n i c a pool j) ≠ 0)) i n
        = min c (countFrom (fun j => decide (act (pool j) = 0)) i n) := by
  intro n
  induction n with
  | zero =>
    intro i c a pool _ _
    rw [h0]
    exact ⟨fun j => Or.inl rfl, by simp [countFrom]⟩
  | succ n ih =>
    intro i c a pool hc hinv
    cases c with
    | zero =>
      rw [hzero]
      refine ⟨fun j => Or.inl rfl, ?_⟩
      rw [countFrom_eq_zero]
      · simp
      · intro j _ _
        by_cases h : act (pool j) = 0 <;> simp [h]
    | succ c =>
      by_cases hi : act (pool i) = 0
      · obtain ⟨t, a', ht, hQ, hinv', hL⟩ := hfree n i c a pool hc hinv hi
        rw [hL]
        obtain ⟨hfr, hcnt⟩ := ih (i + 1) c a' (Function.update pool i t) (by omega) hinv'
        have hRi : L n (i + 1) c a' (Function.update pool i t) i = t := by
          rcases hfr i with h | h
          · rw [h, Function.update_same]
          · omega
        refine ⟨?_, ?_⟩
        · intro j
          by_cases hj : j = i
          · subst hj
            right
            rw [hRi]
            exact ⟨le_refl j, by omega, hi, ht, hQ⟩
          · rcases hfr j with h | h
            · left; rw [h, Function.update_noteq hj]
            · right
              rw [Function.update_noteq hj] at h
              exact ⟨by omega, by omega, h.2.2.1, h.2.2.2⟩
        · simp only [countFrom]
          have hPi : decide (act (pool i) = 0 ∧
              act (L n (i + 1) c a' (Function.update pool i t) i) ≠ 0) = true := by
            simp only [decide_eq_true_eq]
            rw [hRi]
            exact ⟨hi, ht⟩
          have hFi : decide (act (pool i) = 0) = true := by simp [hi]
          have e1 : countFrom (fun j => decide (act (pool j) = 0 ∧
                act (L n (i + 1) c a' (Function.update pool i t) j) ≠ 0)) (i + 1) n
              = countFrom (fun j => decide (act (Function.update pool i t j) = 0 ∧
                act (L n (i + 1) c a' (Function.update pool i t) j) ≠ 0)) (i + 1) n := by
            apply countFrom_congr
            intro j h1 _
            rw [Function.update_noteq (by omega : j ≠ i)]
          have e2 : countFrom (fun j => decide (act (Function.update pool i t j) = 0)) (i + 1) n
              = countFrom (fun j => decide (act (pool j) = 0)) (i + 1) n := by
            apply countFrom_congr
            intro j h1 _
            rw [Function.update_noteq (by omega : j ≠ i)]
          rw [if_pos hPi, if_pos hFi, e1, hcnt, e2]
          omega
      · obtain ⟨a', hL⟩ := hbusy n i (c + 1) a pool hi
        rw [hL]
        obtain ⟨hfr, hcnt⟩ := ih (i + 1) (c + 1) a' pool hc hinv
        refine ⟨?_, ?_⟩
        · intro j
          rcases hfr j with h | h
          · left; exact h
          · right; exact ⟨by omega, by omega, h.2.2⟩
        · simp only [countFrom]
          rw [hcnt]
          simp [hi]

/-! ### `addScore` -/

theorem addScoreLoop_full (p : Int) (x y : ℚ) (n : Nat) :
    ∀ (i : Nat) (points : Nat → Points),
      (∀ j, i ≤ j → j < i + n → (points j).active ≠ 0) →
      addScoreLoop p x y n i points = points := by
  induction n with
  | zero => intro i points _; rfl
  | succ n ih =>
    intro i points h
    have hi : (points i).active ≠ 0 := h i (le_refl i) (by omega)
    simp only [addScoreLoop, hi, if_false]
    exact ih (i + 1) points (fun j h1 h2 => h j (by omega) (by omega))

theorem addScoreLoop_first (p : Int) (x y : ℚ) (n : Nat) :
    ∀ (i k : Nat) (points : Nat → Points),
      i ≤ k → k < i + n → (points k).active = 0 →
      (∀ j, i ≤ j → j < k → (points j).active ≠ 0) →
      addScoreLoop p x y n i points = Function.update points k
        { points k with active := 1, amount := p, x := x, y := y, lifetime := 30 } := by
  induction n with
  | zero => intro i k points h1 h2; omega
  | succ n ih =>
    intro i k points h1 h2 hk hlt
    by_cases hik : i = k
    · subst hik
      simp only [addScoreLoop, hk, if_true]
    · have hi : (points i).active ≠ 0 := hlt i (le_refl i) (by omega)
      simp only [addScoreLoop, hi, if_false]
      exact ih (i + 1) k points (by omega) (by omega) hk
        (fun j h3 h4 => hlt j (by omega) h4)

/-- C7: when a points slot is inactive, `addScore p x y` turns the inactive slot of lowest index
into an active popup with amount `p`, position `(x, y)` and lifetime 30 and leaves every other
slot as it was; when all `MAX_POINTS` slots are active the pool is unchanged; the five score
counters are never changed. -/
theorem addScore_first_free_slot (p : Int) (x y : ℚ) (s : Game) :
    (∀ k, k < MAX_POINTS → (s.points k).active = 0 →
      (∀ j, j < k → (s.points j).active ≠ 0) →
      (addScore p x y s).points = Function.update s.points k
        { s.points k with active := 1, amount := p, x := x, y := y, lifetime := 30 }) ∧
    ((∀ j, j < MAX_POINTS → (s.points j).active ≠ 0) → (addScore p x y s).points = s.points) ∧
    (addScore p x y s).scoreAL = s.scoreAL ∧ (addScore p x y s).scoreAM = s.scoreAM ∧
    (addScore p x y s).scoreAS = s.scoreAS ∧ (addScore p x y s).debrisM = s.debrisM ∧
    (addScore p x y s).debrisA = s.debrisA := by
  refine ⟨?_, ?_, rfl, rfl, rfl, rfl, rfl⟩
  · intro k hk h0 hlt
    exact addScoreLoop_first p x y MAX_POINTS 0 k s.points (Nat.zero_le k) (by omega) h0
      (fun j _ h => hlt j h)
  · intro h
    exact addScoreLoop_full p x y MAX_POINTS 0 s.points (fun j _ h2 => h j (by omega))

/-- Witness of C7: in the pool where only slot 0 is active the popup goes to slot 1. -/
theorem addScore_first_free_slot_witness :
    (addScore 5 1 2 { points := fun i => if i = 0 then { active := 1 } else {} }).points 1
      = { active := 1, amount := 5, x := 1, y := 2, lifetime := 30 } := by
  have h := (addScore_first_free_slot 5 1 2
    { points := fun i => if i = 0 then { active := 1 } else {} }).1 1 (by decide) (by rfl)
    (fun j hj => by
      have : j = 0 := by omega
      subst this
      decide)
  rw [h]
  simp

/-! ### `firePhoton` -/

theorem firePhotonLoop0_full (m : LibM) (s : Game) (n : Nat) :
    ∀ (i : Nat) (photons : Nat → Photon),
      (∀ j, i ≤ j → j < i + n → (photons j).active ≠ 0) →
      firePhotonLoop0 m s n i photons = photons := by
  induction n with
  | zero => intro i photons _; rfl
  | succ n ih =>
    intro i photons h
    have hi : (photons i).active ≠ 0 := h i (le_refl i) (by omega)
    simp only [firePhotonLoop0, hi, if_false]
    exact ih (i + 1) photons (fun j h1 h2 => h j (by omega) (by omega))

theorem firePhotonLoop1_full (m : LibM) (s : Game) (n : Nat) :
    ∀ (i : Nat) (photons : Nat → Photon) (cd fired : Int),
      (∀ j, i ≤ j → j < i + n → (photons j).active ≠ 0) →
      firePhotonLoop1 m s n i (photons, cd, fired) = (photons, cd, fired) := by
  induction n with
  | zero => intro i photons cd fired _; rfl
  | succ n ih =>
    intro i photons cd fired h
    have hi : (photons i).active ≠ 0 := h i (le_refl i) (by omega)
    simp only [firePhotonLoop1, hi, if_false]
    exact ih (i + 1) photons cd fired (fun j h1 h2 => h j (by omega) (by omega))

theorem firePhotonLoop2_full (m : LibM) (s : Game) (n : Nat) :
    ∀ (i : Nat) (photons : Nat → Photon) (cd fired : Int),
      (∀ j, i ≤ j → j < i + n → (photons j).active ≠ 0) →
      firePhotonLoop2 m s n i (photons, cd, fired) = (photons, cd, fired) := by
  induction n with
  | zero => intro i photons cd fired _; rfl
  | succ n ih =>
    intro i photons cd fired h
    have hi : (photons i).active ≠ 0 := h i (le_refl i) (by omega)
    simp only [firePhotonLoop2, hi, if_false]
    exact ih (i + 1) photons cd fired (fun j h1 h2 => h j (by omega) (by omega))

theorem firePhotonLoop0_shape (m : LibM) (s : Game) (n i : Nat) (photons : Nat → Photon) :
    (∀ j, firePhotonLoop0 m s n i photons j = photons j ∨
      (i ≤ j ∧ j < i + n ∧ (photons j).active = 0 ∧
        (firePhotonLoop0 m s n i photons j).active ≠ 0 ∧ True)) ∧
    countFrom (fun j => decide ((photons j).active = 0 ∧
        (firePhotonLoop0 m s n i photons j).active ≠ 0)) i n
      = min 1 (countFrom (fun j => decide ((photons j).active = 0)) i n) := by
  have h := spawn_loop_shape Photon.active (fun _ => True) (fun _ => True) 1
    (fun n i c (_ : Unit) pool => if c = 0 then pool else firePhotonLoop0 m s n i pool)
    (fun i c a pool => by simp [firePhotonLoop0])
    (fun n i a pool => by simp)
    (fun n i c a pool hb => ⟨(), by
      by_cases hc : c = 0
      · simp [hc]
      · simp only [hc, if_false, firePhotonLoop0, hb]⟩)
    (fun n i c a pool hc _ hf => ⟨photonShot0 m s (pool i), (), by
      have hc0 : c = 0 := by omega
      subst hc0
      refine ⟨by simp [photonShot0], trivial, trivial, ?_⟩
      simp [firePhotonLoop0, hf]⟩)
    n i 1 () photons (le_refl 1) trivial
  simpa using h

theorem firePhotonLoop1_shape (m : LibM) (s : Game) (n i : Nat) (photons : Nat → Photon)
    (cd : Int) :
    (∀ j, (firePhotonLoop1 m s n i (photons, cd, 0)).1 j = photons j ∨
      (i ≤ j ∧ j < i + n ∧ (photons j).active = 0 ∧
        ((firePhotonLoop1 m s n i (photons, cd, 0)).1 j).active ≠ 0 ∧ True)) ∧
    countFrom (fun j => decide ((photons j).active = 0 ∧
        ((firePhotonLoop1 m s n i (photons, cd, 0)).1 j).active ≠ 0)) i n
      = min 4 (countFrom (fun j => decide ((photons j).active = 0)) i n) := by
  have h := spawn_loop_shape Photon.active (fun _ => True) (fun _ => True) 4
    (fun n i c (cd : Int) pool =>
      if c = 0 then pool else (firePhotonLoop1 m s n i (pool, cd, 4 - (c : Int))).1)
    (fun i c a pool => by simp [firePhotonLoop1])
    (fun n i a pool => by simp)
    (fun n i c a pool hb => ⟨a, by
      by_cases hc : c = 0
      · simp [hc]
      · simp only [hc, if_false, firePhotonLoop1, hb]⟩)
    (fun n i c a pool _ _ hf =>
      ⟨photonShot1 m s (4 - ((c + 1 : Nat) : Int)) (pool i), a + s.cooldown, by
      refine ⟨by simp [photonShot1], trivial, trivial, ?_⟩
      by_cases hc : c = 0
      · subst hc
        simp [firePhotonLoop1, hf]
      · have h4 : ¬ ((4 : Int) - ((c + 1 : Nat) : Int) + 1 ≥ 4) := by omega
        have e : (4 : Int) - ((c + 1 : Nat) : Int) + 1 = 4 - (c : Int) := by omega
        simp only [firePhotonLoop1, hf, if_true, h4, if_false, hc, Nat.add_one_ne_zero]
        rw [e]⟩)
    n i 4 cd photons (le_refl 4) trivial
  simpa using h

theorem firePhotonLoop2_shape (m : LibM) (s : Game) (n i : Nat) (photons : Nat → Photon)
    (cd : Int) :
    (∀ j, (firePhotonLoop2 m s n i (photons, cd, 0)).1 j = photons j ∨
      (i ≤ j ∧ j < i + n ∧ (photons j).active = 0 ∧
        ((firePhotonLoop2 m s n i (photons, cd, 0)).1 j).active ≠ 0 ∧ True)) ∧
    countFrom (fun j => decide ((photons j).active = 0 ∧
        ((firePhotonLoop2 m s n i (photons, cd, 0)).1 j).active ≠ 0)) i n
      = min 3 (countFrom (fun j => decide ((photons j).active = 0)) i n) := by
  have h := spawn_loop_shape Photon.active (fun _ => True) (fun _ => True) 3
    (fun n i c (cd : Int) pool =>
      if c = 0 then pool else (firePhotonLoop2 m s n i (pool, cd, 3 - (c : Int))).1)
    (fun i c a pool => by simp [firePhotonLoop2])
    (fun n i a pool => by simp)
    (fun n i c a pool hb => ⟨a, by
      by_cases hc : c = 0
      · simp [hc]
      · simp only [hc, if_false, firePhotonLoop2, hb]⟩)
    (fun n i c a pool _ _ hf =>
      ⟨photonShot2 m s (3 - ((c + 1 : Nat) : Int)) (pool i), a + s.cooldown, by
      refine ⟨by simp [photonShot2], trivial, trivial, ?_⟩
      by_cases hc : c = 0
      · subst hc
        simp [firePhotonLoop2, hf]
      · have h4 : ¬ ((3 : Int) - ((c + 1 : Nat) : Int) + 1 ≥ 3) := by omega
        have e : (3 : Int) - ((c + 1 : Nat) : Int) + 1 = 3 - (c : Int) := by omega
        simp only [firePhotonLoop2, hf, if_true, h4, if_false, hc, Nat.add_one_ne_zero]
        rw [e]⟩)
    n i 3 cd photons (le_refl 3) trivial
  simpa using h

/-- C8: `firePhoton` leaves every photon slot that was active as it was; the number of slots it
turns from inactive to active is `min n f`, with `f` the number of inactive slots and `n` the
volley size (1 for type 0; 4 for type 1 and 3 for type 2 when `currentCooldown <= 0`; 0
otherwise); and when all `MAX_PHOTONS` slots are active the whole state, `currentCooldown`
included, is unchanged. -/
theorem firePhoton_fills_min_volley_free (m : LibM) (s : Game) :
    (∀ j, (s.photons j).active ≠ 0 → (firePhoton m s).photons j = s.photons j) ∧
    countFrom (fun j => decide ((s.photons j).active = 0 ∧
        ((firePhoton m s).photons j).active ≠ 0)) 0 MAX_PHOTONS
      = min (volleySize s) (freePhotons s) ∧
    ((∀ j, j < MAX_PHOTONS → (s.photons j).active ≠ 0) → firePhoton m s = s) := by
  have hnone : countFrom (fun j => decide ((s.photons j).active = 0 ∧
      (s.photons j).active ≠ 0)) 0 MAX_PHOTONS = 0 := by
    apply countFrom_eq_zero
    intro j _ _
    by_cases h : (s.photons j).active = 0 <;> simp [h]
  by_cases h0 : s.ship.type = 0
  · obtain ⟨hfr, hcnt⟩ := firePhotonLoop0_shape m s MAX_PHOTONS 0 s.photons
    have e : firePhoton m s = { s with photons := firePhotonLoop0 m s MAX_PHOTONS 0 s.photons } := by
      simp [firePhoton, h0]
    rw [e]
    refine ⟨?_, ?_, ?_⟩
    · intro j hj
      rcases hfr j with h | h
      · exact h
      · exact absurd h.2.2.1 hj
    · simpa [volleySize, h0, freePhotons] using hcnt
    · intro hfull
      show { s with photons := firePhotonLoop0 m s MAX_PHOTONS 0 s.photons } = s
      rw [firePhotonLoop0_full m s MAX_PHOTONS 0 s.photons (fun j _ h2 => hfull j (by omega))]
  · by_cases h1 : s.ship.type = 1
    · by_cases hc : s.currentCooldown ≤ 0
      · obtain ⟨hfr, hcnt⟩ := firePhotonLoop1_shape m s MAX_PHOTONS 0 s.photons s.currentCooldown
        have e : firePhoton m s =
            { s with
              photons := (firePhotonLoop1 m s MAX_PHOTONS 0 (s.photons, s.currentCooldown, 0)).1
              currentCooldown :=
                (firePhotonLoop1 m s MAX_PHOTONS 0 (s.photons, s.currentCooldown, 0)).2.1 } := by
          simp [firePhoton, h0, h1, hc]
        rw [e]
        refine ⟨?_, ?_, ?_⟩
        · intro j hj
          rcases hfr j with h | h
          · exact h
          · exact absurd h.2.2.1 hj
        · simpa [volleySize, h0, h1, hc, freePhotons] using hcnt
        · intro hfull
          rw [firePhotonLoop1_full m s MAX_PHOTONS 0 s.photons s.currentCooldown 0
            (fun j _ h2 => hfull j (by omega))]
      · have e : firePhoton m s = s := by simp [firePhoton, h0, h1, hc]
        rw [e]
        exact ⟨fun _ _ => rfl, by simpa [volleySize, h0, h1, hc] using hnone, fun _ => rfl⟩
    · by_cases h2 : s.ship.type = 2
      · by_cases hc : s.currentCooldown ≤ 0
        · obtain ⟨hfr, hcnt⟩ :=
            firePhotonLoop2_shape m s MAX_PHOTONS 0 s.photons s.currentCooldown
          have e : firePhoton m s =
              { s with
                photons := (firePhotonLoop2 m s MAX_PHOTONS 0 (s.photons, s.currentCooldown, 0)).1
                currentCooldown :=
                  (firePhotonLoop2 m s MAX_PHOTONS 0 (s.photons, s.currentCooldown, 0)).2.1 } := by
            simp [firePhoton, h0, h1, h2, hc]
          rw [e]
          refine ⟨?_, ?_, ?_⟩
          · intro j hj
            rcases hfr j with h | h
            · exact h
            · exact absurd h.2.2.1 hj
          · simpa [volleySize, h0, h1, h2, hc, freePhotons] using hcnt
          · intro hfull
            rw [firePhotonLoop2_full m s MAX_PHOTONS 0 s.photons s.currentCooldown 0
              (fun j _ h2 => hfull j (by omega))]
        · have e : firePhoton m s = s := by simp [firePhoton, h0, h1, h2, hc]
          rw [e]
          exact ⟨fun _ _ => rfl, by simpa [volleySize, h0, h1, h2, hc] using hnone, fun _ => rfl⟩
      · have e : firePhoton m s = s := by simp [firePhoton, h0, h1, h2]
        rw [e]
        exact ⟨fun _ _ => rfl, by simpa [volleySize, h0, h1, h2] using hnone, fun _ => rfl⟩

/-! ### `destroyAsteroid` -/

theorem myRandomOf_mem (min max : ℚ) (h : min ≤ max) (r : Nat) :
    min ≤ myRandomOf min max r ∧ myRandomOf min max r < max + 1 / 1000000 := by
  unfold myRandomOf
  have hk : (((r % 0x7fff : Nat) : ℚ)) / 32767 ≤ 1 := by
    rw [div_le_one (by norm_num)]
    have : r % 0x7fff < 0x7fff := Nat.mod_lt _ (by norm_num)
    have h2 : ((r % 0x7fff : Nat) : ℚ) ≤ ((32767 : Nat) : ℚ) := by
      exact_mod_cast (by omega : r % 0x7fff ≤ 32767)
    simpa using h2
  have hk0 : (0 : ℚ) ≤ (((r % 0x7fff : Nat) : ℚ)) / 32767 := by positivity
  set k : ℚ := (((r % 0x7fff : Nat) : ℚ)) / 32767 with hkdef
  have hd : min + (max - min) * (((r % 0x7fff : Nat) : ℚ)) / 32767 = min + (max - min) * k := by
    rw [hkdef]; ring
  simp only [hd]
  have hmm : 0 ≤ max - min := by linarith
  have h1 : min ≤ min + (max - min) * k := by nlinarith
  have h2 : min + (max - min) * k ≤ max := by nlinarith
  have c1 := Int.le_ceil ((min + (max - min) * k) * 1000000)
  have c2 := Int.ceil_lt_add_one ((min + (max - min) * k) * 1000000)
  constructor
  · rw [le_div_iff₀ (by norm_num)]; linarith
  · rw [div_lt_iff₀ (by norm_num)]; linarith

theorem myRandomAt_mem (min max : ℚ) (h : min ≤ max) (g : Rng) (k : Nat) :
    min ≤ myRandomAt min max g k ∧ myRandomAt min max g k < max + 1 / 1000000 :=
  myRandomOf_mem min max h _

theorem floor_myRandomAt_small (g : Rng) (k : Nat) :
    ⌊myRandomAt 2.5 3.5 g k⌋ = 2 ∨ ⌊myRandomAt 2.5 3.5 g k⌋ = 3 := by
  obtain ⟨h1, h2⟩ := myRandomAt_mem 2.5 3.5 (by norm_num) g k
  have a : (2 : Int) ≤ ⌊myRandomAt 2.5 3.5 g k⌋ := Int.le_floor.mpr (by norm_num at h1 ⊢; linarith)
  have b : ⌊myRandomAt 2.5 3.5 g k⌋ < 4 := Int.floor_lt.mpr (by norm_num at h2 ⊢; linarith)
  omega

theorem floor_myRandomAt_medium (g : Rng) (k : Nat) :
    ⌊myRandomAt 1.2 2.2 g k⌋ = 1 ∨ ⌊myRandomAt 1.2 2.2 g k⌋ = 2 := by
  obtain ⟨h1, h2⟩ := myRandomAt_mem 1.2 2.2 (by norm_num) g k
  have a : (1 : Int) ≤ ⌊myRandomAt 1.2 2.2 g k⌋ := Int.le_floor.mpr (by norm_num at h1 ⊢; linarith)
  have b : ⌊myRandomAt 1.2 2.2 g k⌋ < 3 := Int.floor_lt.mpr (by norm_num at h2 ⊢; linarith)
  omega

theorem floor_myRandomAt_large (g : Rng) (k : Nat) :
    ⌊myRandomAt 2.3 3.3 g k⌋ = 2 ∨ ⌊myRandomAt 2.3 3.3 g k⌋ = 3 := by
  obtain ⟨h1, h2⟩ := myRandomAt_mem 2.3 3.3 (by norm_num) g k
  have a : (2 : Int) ≤ ⌊myRandomAt 2.3 3.3 g k⌋ := Int.le_floor.mpr (by norm_num at h1 ⊢; linarith)
  have b : ⌊myRandomAt 2.3 3.3 g k⌋ < 4 := Int.floor_lt.mpr (by norm_num at h2 ⊢; linarith)
  omega

theorem spawnChild_other (m : LibM) (a i : Nat) (p : Photon) (space children : Int) (s : Game)
    (j : Nat) (hj : j ≠ i) :
    (spawnChild m a i p space children s).asteroids j = s.asteroids j := by
  unfold spawnChild
  simp only [Game.setAst, initDust]
  split_ifs <;> simp [Function.update_noteq hj]

theorem spawnChild_child (m : LibM) (a i : Nat) (p : Photon) (space children : Int) (s : Game) :
    ((spawnChild m a i p space children s).asteroids i).active = 1 ∧
    ((spawnChild m a i p space children s).asteroids i).nVertices
      = 6 + Int.tmod (randAt (s.rng.skip 1) 0) (MAX_VERTICES - 6) ∧
    ((spawnChild m a i p space children s).asteroids i).size = (s.asteroids a).size := by
  unfold spawnChild
  simp only [Game.setAst, initDust]
  split_ifs <;> simp

theorem spawnChild_frame (m : LibM) (a i : Nat) (p : Photon) (space children : Int) (s : Game) :
    (spawnChild m a i p space children s).frame = s.frame := by
  unfold spawnChild
  simp only [Game.setAst, initDust, Game.frame]
  split_ifs <;> rfl

theorem child_nVertices_bounds (r : Nat) :
    6 ≤ 6 + Int.tmod (r : Int) ((MAX_VERTICES : Int) - 6) ∧
    6 + Int.tmod (r : Int) ((MAX_VERTICES : Int) - 6) ≤ (MAX_VERTICES : Int) - 1 := by
  have e : (MAX_VERTICES : Int) - 6 = 10 := by simp [MAX_VERTICES]
  rw [e, Int.tmod_eq_emod (by omega) (by omega)]
  have e2 : (MAX_VERTICES : Int) - 1 = 15 := by simp [MAX_VERTICES]
  rw [e2]
  omega

theorem childrenLoop_nonpos (m : LibM) (a : Nat) (p : Photon) (children : Int) (n : Nat) :
    ∀ (i : Nat) (s : Game) (space : Int), space ≤ 0 →
      childrenLoop m a p children n i (s, space) = (s, space) := by
  induction n with
  | zero => intro i s space _; rfl
  | succ n ih =>
    intro i s space h
    have h' : ¬ space > 0 := by omega
    simp only [childrenLoop, h', if_false, ite_self]
    exact ih (i + 1) s space h

theorem childrenLoop_frame (m : LibM) (a : Nat) (p : Photon) (children : Int) (n : Nat) :
    ∀ (i : Nat) (s : Game) (space : Int),
      (childrenLoop m a p children n i (s, space)).1.frame = s.frame := by
  induction n with
  | zero => intro i s space; rfl
  | succ n ih =>
    intro i s space
    simp only [childrenLoop]
    split_ifs
    · rw [ih, spawnChild_frame]
    · rw [ih]
    · rw [ih]

theorem childrenLoop_shape (m : LibM) (a : Nat) (p : Photon) (children : Int) (n i c : Nat)
    (s : Game) :
    (∀ j, (childrenLoop m a p children n i (s, (c : Int))).1.asteroids j = s.asteroids j ∨
      (i ≤ j ∧ j < i + n ∧ (s.asteroids j).active = 0 ∧
        ((childrenLoop m a p children n i (s, (c : Int))).1.asteroids j).active ≠ 0 ∧
        (((childrenLoop m a p children n i (s, (c : Int))).1.asteroids j).size
            = (s.asteroids a).size ∧
          6 ≤ ((childrenLoop m a p children n i (s, (c : Int))).1.asteroids j).nVertices ∧
          ((childrenLoop m a p children n i (s, (c : Int))).1.asteroids j).nVertices
            ≤ (MAX_VERTICES : Int) - 1))) ∧
    countFrom (fun j => decide ((s.asteroids j).active = 0 ∧
        ((childrenLoop m a p children n i (s, (c : Int))).1.asteroids j).active ≠ 0)) i n
      = min c (countFrom (fun j => decide ((s.asteroids j).active = 0)) i n) := by
  have h := spawn_loop_shape Asteroid.active
    (fun t => t.size = (s.asteroids a).size ∧ 6 ≤ t.nVertices ∧
      t.nVertices ≤ (MAX_VERTICES : Int) - 1)
    (fun pool => (pool a).size = (s.asteroids a).size) c
    (fun n i c (s : Game) pool =>
      if c = 0 then pool
      else (childrenLoop m a p children n i ({ s with asteroids := pool }, (c : Int))).1.asteroids)
    (fun i c a pool => by simp [childrenLoop])
    (fun n i a pool => by simp)
    (fun n i c s pool hb => ⟨s, by
      by_cases hc : c = 0
      · simp [hc]
      · simp only [hc, if_false, childrenLoop, hb]⟩)
    (fun n i c s0 pool _ hinv hf => by
      have hpos : (((c + 1 : Nat) : Int)) > 0 := by omega
      have hstep : childrenLoop m a p children (n + 1) i
            ({ s0 with asteroids := pool }, ((c + 1 : Nat) : Int))
          = childrenLoop m a p children n (i + 1)
            (spawnChild m a i p ((c + 1 : Nat) : Int) children { s0 with asteroids := pool },
              (c : Int)) := by
        have e : (((c + 1 : Nat) : Int)) - 1 = (c : Int) := by omega
        simp only [childrenLoop, hf, if_true, hpos, e]
      have hch := spawnChild_child m a i p ((c + 1 : Nat) : Int) children
        { s0 with asteroids := pool }
      have hast : (spawnChild m a i p ((c + 1 : Nat) : Int) children
            { s0 with asteroids := pool }).asteroids
          = Function.update pool i ((spawnChild m a i p ((c + 1 : Nat) : Int) children
            { s0 with asteroids := pool }).asteroids i) := by
        funext j
        by_cases hj : j = i
        · subst hj; rw [Function.update_same]
        · rw [Function.update_noteq hj, spawnChild_other _ _ _ _ _ _ _ _ hj]
      refine ⟨(spawnChild m a i p ((c + 1 : Nat) : Int) children
          { s0 with asteroids := pool }).asteroids i,
        spawnChild m a i p ((c + 1 : Nat) : Int) children { s0 with asteroids := pool },
        ?_, ?_, ?_, ?_⟩
      · rw [hch.1]; decide
      · refine ⟨?_, ?_⟩
        · rw [hch.2.2]; exact hinv
        · rw [hch.2.1]; exact child_nVertices_bounds _
      · beta_reduce
        by_cases hai : a = i
        · subst hai
          rw [Function.update_same, hch.2.2]; exact hinv
        · rw [Function.update_noteq hai]; exact hinv
      · simp only [Nat.add_one_ne_zero, if_false]
        rw [hstep, ← hast]
        by_cases hc : c = 0
        · subst hc
          simp only [if_true]
          rw [show ((0 : Nat) : Int) = 0 from rfl, childrenLoop_nonpos _ _ _ _ _ _ _ _ (le_refl 0)]
        · simp only [hc, if_false])
    n i c s s.asteroids (le_refl c) rfl
  by_cases hc : c = 0
  · subst hc
    rw [show ((0 : Nat) : Int) = 0 from rfl, childrenLoop_nonpos _ _ _ _ _ _ _ _ (le_refl 0)]
    simpa using h
  · simp only [hc, if_false] at h
    exact h

theorem nudgeParent_other (a : Nat) (p : Photon) (s : Game) (j : Nat) (hj : j ≠ a) :
    (nudgeParent a p s).asteroids j = s.asteroids j := by
  unfold nudgeParent
  simp only [Game.setAst]
  split_ifs <;> simp [Function.update_noteq hj]

theorem nudgeParent_self (a : Nat) (p : Photon) (s : Game) :
    ((nudgeParent a p s).asteroids a).active = (s.asteroids a).active ∧
    ((nudgeParent a p s).asteroids a).size = (s.asteroids a).size ∧
    ((nudgeParent a p s).asteroids a).nVertices = (s.asteroids a).nVertices := by
  unfold nudgeParent
  simp only [Game.setAst]
  split_ifs <;> simp

theorem rebuildParent_other (m : LibM) (a : Nat) (s : Game) (j : Nat) (hj : j ≠ a) :
    (rebuildParent m a s).asteroids j = s.asteroids j := by
  simp [rebuildParent, Game.setAst, Function.update_noteq hj]

theorem rebuildParent_self (m : LibM) (a : Nat) (s : Game) :
    ((rebuildParent m a s).asteroids a).active = (s.asteroids a).active ∧
    ((rebuildParent m a s).asteroids a).size = (s.asteroids a).size ∧
    ((rebuildParent m a s).asteroids a).nVertices = 3 + (s.asteroids a).size
      + Int.tmod (randAt s.rng 0) (MAX_VERTICES - 3 - (s.asteroids a).size) := by
  simp [rebuildParent, Game.setAst]

theorem rebuildParent_frame (m : LibM) (a : Nat) (s : Game) :
    (rebuildParent m a s).frame = s.frame := rfl

theorem destroyAsteroidSize_other (m : LibM) (a : Nat) (s : Game) (j : Nat) (hj : j ≠ a) :
    (destroyAsteroidSize m a s).1.asteroids j = s.asteroids j := by
  unfold destroyAsteroidSize
  simp only [Game.setAst, initDust]
  split_ifs <;> simp [Function.update_noteq hj]

theorem destroyAsteroidSize_small (m : LibM) (a : Nat) (s : Game)
    (h : (s.asteroids a).size = ASTEROID_SMALL) :
    ((destroyAsteroidSize m a s).1.asteroids a).active = 0 ∧
    ((destroyAsteroidSize m a s).1.asteroids a).size = ASTEROID_SMALL ∧
    (destroyAsteroidSize m a s).2 = 0 ∧
    (destroyAsteroidSize m a s).1.debris
      = (smallDebrisLoop m { s.asteroids a with active := 0 } MAX_DEBRIS 0
          ⌊myRandomAt 2.5 3.5 (initDust (s.asteroids a) (s.asteroids a) s).rng 0⌋
          (s.debris, (initDust (s.asteroids a) (s.asteroids a) s).rng.skip 1)).1 := by
  unfold destroyAsteroidSize
  simp [Game.setAst, initDust, h]

theorem destroyAsteroidSize_medium (m : LibM) (a : Nat) (s : Game)
    (h : (s.asteroids a).size = ASTEROID_MEDIUM) :
    ((destroyAsteroidSize m a s).1.asteroids a).active = (s.asteroids a).active ∧
    ((destroyAsteroidSize m a s).1.asteroids a).size = ASTEROID_SMALL ∧
    (destroyAsteroidSize m a s).2 = ⌊myRandomAt 1.2 2.2 s.rng 0⌋ ∧
    (destroyAsteroidSize m a s).1.frame = s.frame := by
  unfold destroyAsteroidSize
  have h1 : ¬ (ASTEROID_MEDIUM = ASTEROID_SMALL) := by decide
  simp only [Game.setAst, h, h1, if_false, if_true]
  simp [Game.frame]

theorem destroyAsteroidSize_large (m : LibM) (a : Nat) (s : Game)
    (h : (s.asteroids a).size = ASTEROID_LARGE) :
    ((destroyAsteroidSize m a s).1.asteroids a).active = (s.asteroids a).active ∧
    ((destroyAsteroidSize m a s).1.asteroids a).size = ASTEROID_MEDIUM ∧
    (destroyAsteroidSize m a s).2 = ⌊myRandomAt 2.3 3.3 s.rng 0⌋ ∧
    (destroyAsteroidSize m a s).1.frame = s.frame := by
  unfold destroyAsteroidSize
  have h1 : ¬ (ASTEROID_LARGE = ASTEROID_SMALL) := by decide
  have h2 : ¬ (ASTEROID_LARGE = ASTEROID_MEDIUM) := by decide
  simp only [Game.setAst, h, h1, h2, if_false, if_true]
  simp [Game.frame]

/-- The part of the state that `destroyAsteroidSize` leaves alone for every size. -/
theorem destroyAsteroidSize_counters (m : LibM) (a : Nat) (s : Game) :
    (destroyAsteroidSize m a s).1.photons = s.photons ∧
    (destroyAsteroidSize m a s).1.scoreAL = s.scoreAL ∧
    (destroyAsteroidSize m a s).1.scoreAM = s.scoreAM ∧
    (destroyAsteroidSize m a s).1.scoreAS = s.scoreAS ∧
    (destroyAsteroidSize m a s).1.debrisM = s.debrisM ∧
    (destroyAsteroidSize m a s).1.debrisA = s.debrisA ∧
    (destroyAsteroidSize m a s).1.points = s.points := by
  unfold destroyAsteroidSize
  simp only [Game.setAst, initDust]
  split_ifs <;> simp

theorem awardAsteroid_facts (a p : Nat) (s : Game) :
    (awardAsteroid a p s).asteroids = s.asteroids ∧
    (awardAsteroid a p s).rng = s.rng ∧
    (awardAsteroid a p s).debris = s.debris ∧
    (awardAsteroid a p s).dust = s.dust ∧
    (awardAsteroid a p s).photons
      = Function.update s.photons p { s.photons p with active := 0 } ∧
    (awardAsteroid a p s).debrisM = s.debrisM ∧
    (awardAsteroid a p s).debrisA = s.debrisA := by
  unfold awardAsteroid
  simp only [addScore]
  split_ifs <;> simp

theorem awardAsteroid_counters (a p : Nat) (s : Game) :
    (awardAsteroid a p s).scoreAL
      = s.scoreAL + (if (s.asteroids a).size = ASTEROID_LARGE then 1 else 0) ∧
    (awardAsteroid a p s).scoreAM
      = s.scoreAM + (if (s.asteroids a).size = ASTEROID_MEDIUM then 1 else 0) ∧
    (awardAsteroid a p s).scoreAS
      = s.scoreAS + (if (s.asteroids a).size = ASTEROID_SMALL then 1 else 0) := by
  unfold awardAsteroid
  simp only [addScore]
  split_ifs <;> simp_all [ASTEROID_LARGE, ASTEROID_MEDIUM, ASTEROID_SMALL]

/-- How `destroyAsteroidParent` relates to the state before the call, for the asteroid pool. -/
theorem destroyAsteroidParent_other (m : LibM) (a p : Nat) (s : Game) (j : Nat) (hj : j ≠ a) :
    (destroyAsteroidParent m a p s).1.asteroids j = s.asteroids j := by
  unfold destroyAsteroidParent
  simp only []
  rw [nudgeParent_other _ _ _ _ hj, rebuildParent_other _ _ _ _ hj,
    destroyAsteroidSize_other _ _ _ _ hj, (awardAsteroid_facts a p s).1]

/-- The fields that two states with the same `frame` share. -/
theorem frame_fields {s s' : Game} (h : s'.frame = s.frame) :
    s'.photons = s.photons ∧ s'.debris = s.debris ∧ s'.points = s.points ∧
    s'.ship = s.ship ∧ s'.scoreAL = s.scoreAL ∧ s'.scoreAM = s.scoreAM ∧
    s'.scoreAS = s.scoreAS ∧ s'.debrisM = s.debrisM ∧ s'.debrisA = s.debrisA ∧
    s'.respawn = s.respawn ∧ s'.currentCooldown = s.currentCooldown := by
  have h1 := congrArg Game.photons h
  have h2 := congrArg Game.debris h
  have h3 := congrArg Game.points h
  have h4 := congrArg Game.ship h
  have h5 := congrArg Game.scoreAL h
  have h6 := congrArg Game.scoreAM h
  have h7 := congrArg Game.scoreAS h
  have h8 := congrArg Game.debrisM h
  have h9 := congrArg Game.debrisA h
  have h10 := congrArg Game.respawn h
  have h11 := congrArg Game.currentCooldown h
  exact ⟨h1, h2, h3, h4, h5, h6, h7, h8, h9, h10, h11⟩

theorem nudgeParent_frame (a : Nat) (p : Photon) (s : Game) :
    (nudgeParent a p s).frame = s.frame := by
  unfold nudgeParent
  simp only [Game.setAst, Game.frame]
  split_ifs <;> rfl

theorem nudge_rebuild_frame (m : LibM) (a : Nat) (p : Photon) (s : Game) :
    (nudgeParent a p (rebuildParent m a s)).frame = s.frame :=
  (nudgeParent_frame a p _).trans (rebuildParent_frame m a s)

theorem destroyAsteroidParent_counters (m : LibM) (a p : Nat) (s : Game) :
    (destroyAsteroidParent m a p s).1.scoreAL
      = s.scoreAL + (if (s.asteroids a).size = ASTEROID_LARGE then 1 else 0) ∧
    (destroyAsteroidParent m a p s).1.scoreAM
      = s.scoreAM + (if (s.asteroids a).size = ASTEROID_MEDIUM then 1 else 0) ∧
    (destroyAsteroidParent m a p s).1.scoreAS
      = s.scoreAS + (if (s.asteroids a).size = ASTEROID_SMALL then 1 else 0) ∧
    (destroyAsteroidParent m a p s).1.debrisM = s.debrisM ∧
    (destroyAsteroidParent m a p s).1.debrisA = s.debrisA ∧
    (destroyAsteroidParent m a p s).1.photons
      = Function.update s.photons p { s.photons p with active := 0 } := by
  have hs := destroyAsteroidSize_counters m a (awardAsteroid a p s)
  have hc := awardAsteroid_counters a p s
  have hf := awardAsteroid_facts a p s
  have hn := frame_fields (nudge_rebuild_frame m a
    ((rebuildParent m a (destroyAsteroidSize m a (awardAsteroid a p s)).1).photons p)
    (destroyAsteroidSize m a (awardAsteroid a p s)).1)
  unfold destroyAsteroidParent
  simp only []
  refine ⟨?_, ?_, ?_, ?_, ?_, ?_⟩
  · rw [hn.2.2.2.2.1, hs.2.1, hc.1]
  · rw [hn.2.2.2.2.2.1, hs.2.2.1, hc.2.1]
  · rw [hn.2.2.2.2.2.2.1, hs.2.2.2.1, hc.2.2]
  · rw [hn.2.2.2.2.2.2.2.1, hs.2.2.2.2.1, hf.2.2.2.2.2.1]
  · rw [hn.2.2.2.2.2.2.2.2.1, hs.2.2.2.2.2.1, hf.2.2.2.2.2.2]
  · rw [hn.1, hs.1, hf.2.2.2.2.1]

theorem destroyAsteroidParent_small (m : LibM) (a p : Nat) (s : Game)
    (h : (s.asteroids a).size = ASTEROID_SMALL) :
    ((destroyAsteroidParent m a p s).1.asteroids a).active = 0 ∧
    (destroyAsteroidParent m a p s).2 = 0 ∧
    (destroyAsteroidParent m a p s).1.debris
      = (smallDebrisLoop m { s.asteroids a with active := 0 } MAX_DEBRIS 0
          ⌊myRandomAt 2.5 3.5 (initDust (s.asteroids a) (s.asteroids a) s).rng 0⌋
          (s.debris, (initDust (s.asteroids a) (s.asteroids a) s).rng.skip 1)).1 := by
  have hf := awardAsteroid_facts a p s
  have h' : ((awardAsteroid a p s).asteroids a).size = ASTEROID_SMALL := by rw [hf.1]; exact h
  have hs := destroyAsteroidSize_small m a (awardAsteroid a p s) h'
  unfold destroyAsteroidParent
  simp only []
  refine ⟨?_, hs.2.2.1, ?_⟩
  · rw [(nudgeParent_self a _ _).1, (rebuildParent_self m a _).1]; exact hs.1
  · have e := (frame_fields (nudge_rebuild_frame m a
      ((rebuildParent m a (destroyAsteroidSize m a (awardAsteroid a p s)).1).photons p)
      (destroyAsteroidSize m a (awardAsteroid a p s)).1)).2.1
    rw [e, hs.2.2.2, hf.1]
    simp only [initDust, hf.2.1, hf.2.2.2.1, hf.2.2.1]

theorem destroyAsteroidParent_medium (m : LibM) (a p : Nat) (s : Game)
    (h : (s.asteroids a).size = ASTEROID_MEDIUM) :
    ((destroyAsteroidParent m a p s).1.asteroids a).active = (s.asteroids a).active ∧
    ((destroyAsteroidParent m a p s).1.asteroids a).size = ASTEROID_SMALL ∧
    (destroyAsteroidParent m a p s).2 = ⌊myRandomAt 1.2 2.2 s.rng 0⌋ := by
  have hf := awardAsteroid_facts a p s
  have h' : ((awardAsteroid a p s).asteroids a).size = ASTEROID_MEDIUM := by rw [hf.1]; exact h
  have hs := destroyAsteroidSize_medium m a (awardAsteroid a p s) h'
  unfold destroyAsteroidParent
  simp only []
  refine ⟨?_, ?_, ?_⟩
  · rw [(nudgeParent_self a _ _).1, (rebuildParent_self m a _).1, hs.1, hf.1]
  · rw [(nudgeParent_self a _ _).2.1, (rebuildParent_self m a _).2.1, hs.2.1]
  · rw [hs.2.2.1, hf.2.1]

theorem destroyAsteroidParent_large (m : LibM) (a p : Nat) (s : Game)
    (h : (s.asteroids a).size = ASTEROID_LARGE) :
    ((destroyAsteroidParent m a p s).1.asteroids a).active = (s.asteroids a).active ∧
    ((destroyAsteroidParent m a p s).1.asteroids a).size = ASTEROID_MEDIUM ∧
    (destroyAsteroidParent m a p s).2 = ⌊myRandomAt 2.3 3.3 s.rng 0⌋ := by
  have hf := awardAsteroid_facts a p s
  have h' : ((awardAsteroid a p s).asteroids a).size = ASTEROID_LARGE := by rw [hf.1]; exact h
  have hs := destroyAsteroidSize_large m a (awardAsteroid a p s) h'
  unfold destroyAsteroidParent
  simp only []
  refine ⟨?_, ?_, ?_⟩
  · rw [(nudgeParent_self a _ _).1, (rebuildParent_self m a _).1, hs.1, hf.1]
  · rw [(nudgeParent_self a _ _).2.1, (rebuildParent_self m a _).2.1, hs.2.1]
  · rw [hs.2.2.1, hf.2.1]

theorem children_space (k f : Nat) :
    (if (k : Int) > (f : Int) then ((f : Int), (f : Int)) else ((k : Int), (k : Int))).2
      = ((min k f : Nat) : Int) := by
  split_ifs with h
  · simp only; congr 1; omega
  · simp only; congr 1; omega

/-- The children of `destroyAsteroid` relative to the state before the loop that creates
them. -/
theorem destroyAsteroid_shape (m : LibM) (a p : Nat) (s : Game)
    (hk : 0 ≤ (destroyAsteroidParent m a p s).2) :
    (∀ j, (destroyAsteroid m a p s).asteroids j = (destroyAsteroidParent m a p s).1.asteroids j ∨
      (j < MAX_ASTEROIDS ∧ ((destroyAsteroidParent m a p s).1.asteroids j).active = 0 ∧
        ((destroyAsteroid m a p s).asteroids j).active ≠ 0 ∧
        ((destroyAsteroid m a p s).asteroids j).size
          = ((destroyAsteroidParent m a p s).1.asteroids a).size ∧
        6 ≤ ((destroyAsteroid m a p s).asteroids j).nVertices ∧
        ((destroyAsteroid m a p s).asteroids j).nVertices ≤ (MAX_VERTICES : Int) - 1)) ∧
    countFrom (fun j => decide (((destroyAsteroidParent m a p s).1.asteroids j).active = 0 ∧
        ((destroyAsteroid m a p s).asteroids j).active ≠ 0)) 0 MAX_ASTEROIDS
      = min (destroyAsteroidParent m a p s).2.toNat
          (freeAsteroids (destroyAsteroidParent m a p s).1) ∧
    (destroyAsteroid m a p s).frame = (destroyAsteroidParent m a p s).1.frame := by
  unfold destroyAsteroid
  simp only []
  generalize destroyAsteroidParent m a p s = r at hk ⊢
  obtain ⟨s5, ch⟩ := r
  simp only at hk ⊢
  obtain ⟨k, hkk⟩ := Int.eq_ofNat_of_zero_le hk
  subst hkk
  simp only [children_space k (freeAsteroids s5)]
  obtain ⟨hfr, hcnt⟩ := childrenLoop_shape m a (s5.photons p)
    (if (k : Int) > ((freeAsteroids s5 : Nat) : Int)
      then (((freeAsteroids s5 : Nat) : Int), ((freeAsteroids s5 : Nat) : Int))
      else ((k : Int), (k : Int))).1
    MAX_ASTEROIDS 0 (min k (freeAsteroids s5)) s5
  have hcnt' : countFrom (fun j => decide ((s5.asteroids j).active = 0 ∧
      ((childrenLoop m a (s5.photons p)
        (if (k : Int) > ((freeAsteroids s5 : Nat) : Int)
          then (((freeAsteroids s5 : Nat) : Int), ((freeAsteroids s5 : Nat) : Int))
          else ((k : Int), (k : Int))).1
        MAX_ASTEROIDS 0 (s5, ((min k (freeAsteroids s5) : Nat) : Int))).1.asteroids j).active ≠ 0))
      0 MAX_ASTEROIDS = min (min k (freeAsteroids s5)) (freeAsteroids s5) := hcnt
  refine ⟨?_, ?_, childrenLoop_frame _ _ _ _ _ _ _ _⟩
  · intro j
    rcases hfr j with h | h
    · left; exact h
    · right; exact ⟨by omega, h.2.2⟩
  · rw [hcnt']
    simp only [Int.toNat_ofNat]
    generalize freeAsteroids s5 = f
    omega

theorem destroyAsteroid_frame (m : LibM) (a p : Nat) (s : Game) :
    (destroyAsteroid m a p s).frame = (destroyAsteroidParent m a p s).1.frame := by
  unfold destroyAsteroid
  exact childrenLoop_frame _ _ _ _ _ _ _ _

/-- What `destroyAsteroid` does to the asteroid pool when the asteroid has size
`ASTEROID_MEDIUM` or `ASTEROID_LARGE`, relative to the state before the call. -/
theorem destroyAsteroid_split (m : LibM) (a p : Nat) (s : Game)
    (hsz : (s.asteroids a).size = ASTEROID_MEDIUM ∨ (s.asteroids a).size = ASTEROID_LARGE) :
    0 ≤ drawnChildren a s ∧ drawnChildren a s ≤ 3 ∧
    (∀ j, (destroyAsteroid m a p s).asteroids j = (destroyAsteroidParent m a p s).1.asteroids j ∨
      (j < MAX_ASTEROIDS ∧ (s.asteroids j).active = 0 ∧
        ((destroyAsteroid m a p s).asteroids j).active ≠ 0 ∧
        ((destroyAsteroid m a p s).asteroids j).size
          = ((destroyAsteroidParent m a p s).1.asteroids a).size ∧
        6 ≤ ((destroyAsteroid m a p s).asteroids j).nVertices ∧
        ((destroyAsteroid m a p s).asteroids j).nVertices ≤ (MAX_VERTICES : Int) - 1)) ∧
    (∀ j, ((destroyAsteroidParent m a p s).1.asteroids j).active = (s.asteroids j).active) ∧
    countFrom (fun j => decide ((s.asteroids j).active = 0 ∧
        ((destroyAsteroid m a p s).asteroids j).active ≠ 0)) 0 MAX_ASTEROIDS
      = min (drawnChildren a s).toNat (freeAsteroids s) := by
  have hact : ((destroyAsteroidParent m a p s).1.asteroids a).active = (s.asteroids a).active ∧
      (destroyAsteroidParent m a p s).2 = drawnChildren a s := by
    rcases hsz with h | h
    · have := destroyAsteroidParent_medium m a p s h
      exact ⟨this.1, by rw [this.2.2]; simp [drawnChildren, h]⟩
    · have := destroyAsteroidParent_large m a p s h
      have hne : ¬ (ASTEROID_LARGE = ASTEROID_MEDIUM) := by decide
      exact ⟨this.1, by rw [this.2.2]; simp [drawnChildren, h, hne]⟩
  have hk : 0 ≤ drawnChildren a s ∧ drawnChildren a s ≤ 3 := by
    unfold drawnChildren
    split_ifs
    · rcases floor_myRandomAt_medium s.rng 0 with h | h <;> rw [h] <;> decide
    · rcases floor_myRandomAt_large s.rng 0 with h | h <;> rw [h] <;> decide
  have hall : ∀ j, ((destroyAsteroidParent m a p s).1.asteroids j).active
      = (s.asteroids j).active := by
    intro j
    by_cases hj : j = a
    · subst hj; exact hact.1
    · rw [destroyAsteroidParent_other m a p s j hj]
  obtain ⟨hfr, hcnt, _⟩ := destroyAsteroid_shape m a p s (by rw [hact.2]; exact hk.1)
  refine ⟨hk.1, hk.2, ?_, hall, ?_⟩
  · intro j
    rcases hfr j with h | h
    · left; exact h
    · right; exact ⟨h.1, by rw [← hall j]; exact h.2.1, h.2.2⟩
  · rw [← hact.2]
    have e1 : freeAsteroids s = freeAsteroids (destroyAsteroidParent m a p s).1 := by
      unfold freeAsteroids
      apply countFrom_congr
      intro j _ _
      rw [hall j]
    rw [e1, ← hcnt]
    apply countFrom_congr
    intro j _ _
    rw [hall j]

/-- C2 (amended): `destroyAsteroid` on an active asteroid of size `ASTEROID_MEDIUM` leaves its
slot active with size `ASTEROID_SMALL`; the child count `k` it draws is 1 or 2 and the number of
previously inactive slots it activates is `min k f`, with `f` the number of inactive slots
(hence at most 3, and at least 1 as soon as one slot is free); every slot it activates holds a
child of size `ASTEROID_SMALL` with `nVertices` in `[6, MAX_VERTICES - 1]`. -/
theorem destroyAsteroid_medium_children (m : LibM) (a p : Nat) (s : Game)
    (hact : (s.asteroids a).active ≠ 0) (hsize : (s.asteroids a).size = ASTEROID_MEDIUM) :
    ((destroyAsteroid m a p s).asteroids a).active ≠ 0 ∧
    ((destroyAsteroid m a p s).asteroids a).size = ASTEROID_SMALL ∧
    (1 ≤ (drawnChildren a s).toNat ∧ (drawnChildren a s).toNat ≤ 2) ∧
    countFrom (fun j => decide ((s.asteroids j).active = 0 ∧
        ((destroyAsteroid m a p s).asteroids j).active ≠ 0)) 0 MAX_ASTEROIDS
      = min (drawnChildren a s).toNat (freeAsteroids s) ∧
    (∀ j, (s.asteroids j).active = 0 → ((destroyAsteroid m a p s).asteroids j).active ≠ 0 →
      ((destroyAsteroid m a p s).asteroids j).size = ASTEROID_SMALL ∧
      6 ≤ ((destroyAsteroid m a p s).asteroids j).nVertices ∧
      ((destroyAsteroid m a p s).asteroids j).nVertices ≤ (MAX_VERTICES : Int) - 1) := by
  obtain ⟨_, _, hfr, hall, hcnt⟩ := destroyAsteroid_split m a p s (Or.inl hsize)
  have hp := destroyAsteroidParent_medium m a p s hsize
  have hself : (destroyAsteroid m a p s).asteroids a
      = (destroyAsteroidParent m a p s).1.asteroids a := by
    rcases hfr a with h | h
    · exact h
    · exact absurd h.2.1 hact
  have hk : 1 ≤ (drawnChildren a s).toNat ∧ (drawnChildren a s).toNat ≤ 2 := by
    simp only [drawnChildren, hsize, if_true]
    rcases floor_myRandomAt_medium s.rng 0 with h | h <;> rw [h] <;> decide
  refine ⟨?_, ?_, hk, hcnt, ?_⟩
  · rw [hself, hp.1]; exact hact
  · rw [hself, hp.2.1]
  · intro j hj0 hj1
    rcases hfr j with h | h
    · rw [h, hall j] at hj1
      exact absurd hj0 hj1
    · rw [hp.2.1] at h
      exact h.2.2.2

/-- Witness of C2 (amended): the asteroid of `oneMediumGame` is active and of size
`ASTEROID_MEDIUM`, and its slot holds a `ASTEROID_SMALL` asteroid after the call. -/
theorem destroyAsteroid_medium_children_witness :
    ((destroyAsteroid demoLibM 0 0 oneMediumGame).asteroids 0).size = ASTEROID_SMALL :=
  (destroyAsteroid_medium_children demoLibM 0 0 oneMediumGame (by decide) (by rfl)).2.1

/-- C2 (as stated, refuted): in `fullAsteroidsGame` slot 0 holds an active asteroid of size
`ASTEROID_MEDIUM` and no slot is inactive, so `destroyAsteroid` activates no previously
inactive slot instead of between 1 and 3. -/
theorem destroyAsteroid_medium_full_pool :
    (fullAsteroidsGame.asteroids 0).active ≠ 0 ∧
    (fullAsteroidsGame.asteroids 0).size = ASTEROID_MEDIUM ∧
    ¬ (1 ≤ countFrom (fun j => decide ((fullAsteroidsGame.asteroids j).active = 0 ∧
        ((destroyAsteroid demoLibM 0 0 fullAsteroidsGame).asteroids j).active ≠ 0))
        0 MAX_ASTEROIDS) := by
  refine ⟨by decide, rfl, ?_⟩
  rw [countFrom_eq_zero]
  · decide
  · intro j _ _
    have : (fullAsteroidsGame.asteroids j).active ≠ 0 := by
      show (1 : Int) ≠ 0
      decide
    simp [this]

/-- C6: for an asteroid of size `ASTEROID_MEDIUM` or `ASTEROID_LARGE` the number of slots that
`destroyAsteroid` turns from inactive to active is `min k f`, where `k` (never negative) is the
child count drawn for the size and `f` the number of inactive slots before the call, and every
slot other than the parent's that was active is left as it was. -/
theorem destroyAsteroid_children_capacity (m : LibM) (a p : Nat) (s : Game)
    (hsz : (s.asteroids a).size = ASTEROID_MEDIUM ∨ (s.asteroids a).size = ASTEROID_LARGE) :
    0 ≤ drawnChildren a s ∧
    countFrom (fun j => decide ((s.asteroids j).active = 0 ∧
        ((destroyAsteroid m a p s).asteroids j).active ≠ 0)) 0 MAX_ASTEROIDS
      = min (drawnChildren a s).toNat (freeAsteroids s) ∧
    (∀ j, j ≠ a → (s.asteroids j).active ≠ 0 →
      (destroyAsteroid m a p s).asteroids j = s.asteroids j) := by
  obtain ⟨hk0, _, hfr, _, hcnt⟩ := destroyAsteroid_split m a p s hsz
  refine ⟨hk0, hcnt, ?_⟩
  intro j hj hj1
  rcases hfr j with h | h
  · rw [h, destroyAsteroidParent_other m a p s j hj]
  · exact absurd h.2.1 hj1

/-- Witness of C6: in `oneMediumGame` the fifteen free slots do not limit the children. -/
theorem destroyAsteroid_children_capacity_witness :
    countFrom (fun j => decide ((oneMediumGame.asteroids j).active = 0 ∧
        ((destroyAsteroid demoLibM 0 0 oneMediumGame).asteroids j).active ≠ 0)) 0 MAX_ASTEROIDS
      = min (drawnChildren 0 oneMediumGame).toNat (freeAsteroids oneMediumGame) :=
  (destroyAsteroid_children_capacity demoLibM 0 0 oneMediumGame (Or.inl (by rfl))).2.1

/-- C3: `destroyAsteroid` on an asteroid of size `ASTEROID_SMALL` deactivates the slot of the
asteroid and the photon, leaves every other asteroid slot as it was, and so activates no
asteroid slot: a slot that was inactive is still inactive. -/
theorem destroyAsteroid_small_deactivates (m : LibM) (a p : Nat) (s : Game)
    (hsize : (s.asteroids a).size = ASTEROID_SMALL) :
    ((destroyAsteroid m a p s).asteroids a).active = 0 ∧
    ((destroyAsteroid m a p s).photons p).active = 0 ∧
    (∀ j, j ≠ a → (destroyAsteroid m a p s).asteroids j = s.asteroids j) ∧
    (∀ j, (s.asteroids j).active = 0 → ((destroyAsteroid m a p s).asteroids j).active = 0) := by
  have hp := destroyAsteroidParent_small m a p s hsize
  obtain ⟨hfr, hcnt, hframe⟩ := destroyAsteroid_shape m a p s (by rw [hp.2.1])
  rw [hp.2.1] at hcnt
  have hsame : ∀ j, (destroyAsteroid m a p s).asteroids j
      = (destroyAsteroidParent m a p s).1.asteroids j := by
    intro j
    rcases hfr j with h | h
    · exact h
    · exfalso
      have hpos := countFrom_pos (fun j =>
        decide (((destroyAsteroidParent m a p s).1.asteroids j).active = 0 ∧
          ((destroyAsteroid m a p s).asteroids j).active ≠ 0)) MAX_ASTEROIDS 0 j
        (Nat.zero_le j) (by omega) (by simp only [decide_eq_true_eq]; exact ⟨h.2.1, h.2.2.1⟩)
      rw [hcnt] at hpos
      simp at hpos
  have hother : ∀ j, j ≠ a → (destroyAsteroid m a p s).asteroids j = s.asteroids j := by
    intro j hj
    rw [hsame j, destroyAsteroidParent_other m a p s j hj]
  refine ⟨?_, ?_, hother, ?_⟩
  · rw [hsame a]; exact hp.1
  · rw [(frame_fields hframe).1, (destroyAsteroidParent_counters m a p s).2.2.2.2.2,
      Function.update_same]
  · intro j hj
    by_cases hja : j = a
    · subst hja; rw [hsame j]; exact hp.1
    · rw [hother j hja]; exact hj

/-- Witness of C3: the asteroid of `fullDebrisGame` has size `ASTEROID_SMALL`, and its slot is
inactive after the call. -/
theorem destroyAsteroid_small_deactivates_witness :
    ((destroyAsteroid demoLibM 0 0 fullDebrisGame).asteroids 0).active = 0 :=
  (destroyAsteroid_small_deactivates demoLibM 0 0 fullDebrisGame (by rfl)).1

/-- C5: for an asteroid of size `ASTEROID_SMALL`, `ASTEROID_MEDIUM` or `ASTEROID_LARGE`,
`destroyAsteroid` adds one to the counter of that size (`scoreAS`, `scoreAM` or `scoreAL`) and
leaves the other counters as they were, so the session score rises by the size. -/
theorem destroyAsteroid_score (m : LibM) (a p : Nat) (s : Game)
    (hsz : (s.asteroids a).size = ASTEROID_SMALL ∨ (s.asteroids a).size = ASTEROID_MEDIUM ∨
      (s.asteroids a).size = ASTEROID_LARGE) :
    (destroyAsteroid m a p s).scoreAL
      = s.scoreAL + (if (s.asteroids a).size = ASTEROID_LARGE then 1 else 0) ∧
    (destroyAsteroid m a p s).scoreAM
      = s.scoreAM + (if (s.asteroids a).size = ASTEROID_MEDIUM then 1 else 0) ∧
    (destroyAsteroid m a p s).scoreAS
      = s.scoreAS + (if (s.asteroids a).size = ASTEROID_SMALL then 1 else 0) ∧
    (destroyAsteroid m a p s).debrisM = s.debrisM ∧
    (destroyAsteroid m a p s).debrisA = s.debrisA ∧
    sessionScore (destroyAsteroid m a p s) = sessionScore s + (s.asteroids a).size := by
  have hf := frame_fields (destroyAsteroid_frame m a p s)
  have hc := destroyAsteroidParent_counters m a p s
  have h1 := hf.2.2.2.2.1.trans hc.1
  have h2 := hf.2.2.2.2.2.1.trans hc.2.1
  have h3 := hf.2.2.2.2.2.2.1.trans hc.2.2.1
  have h4 := hf.2.2.2.2.2.2.2.1.trans hc.2.2.2.1
  have h5 := hf.2.2.2.2.2.2.2.2.1.trans hc.2.2.2.2.1
  refine ⟨h1, h2, h3, h4, h5, ?_⟩
  unfold sessionScore
  rw [h1, h2, h3, h4, h5]
  rcases hsz with h | h | h <;> rw [h] <;>
    simp [ASTEROID_SMALL, ASTEROID_MEDIUM, ASTEROID_LARGE] <;> ring

/-- Witness of C5: destroying the asteroid of `oneMediumGame` raises the session score by 3. -/
theorem destroyAsteroid_score_witness :
    sessionScore (destroyAsteroid demoLibM 0 0 oneMediumGame)
      = sessionScore oneMediumGame + (oneMediumGame.asteroids 0).size :=
  (destroyAsteroid_score demoLibM 0 0 oneMediumGame (Or.inr (Or.inl (by rfl)))).2.2.2.2.2

theorem smallDebrisLoop_shape (m : LibM) (ast : Asteroid) (n i c : Nat) (g : Rng)
    (debris : Nat → Debris) (hc : c ≠ 0) :
    (∀ j, (smallDebrisLoop m ast n i (c : Int) (debris, g)).1 j = debris j ∨
      (i ≤ j ∧ j < i + n ∧ (debris j).active = 0 ∧
        ((smallDebrisLoop m ast n i (c : Int) (debris, g)).1 j).active ≠ 0 ∧
        (((smallDebrisLoop m ast n i (c : Int) (debris, g)).1 j).type = 1 ∨
          ((smallDebrisLoop m ast n i (c : Int) (debris, g)).1 j).type = 2))) ∧
    countFrom (fun j => decide ((debris j).active = 0 ∧
        ((smallDebrisLoop m ast n i (c : Int) (debris, g)).1 j).active ≠ 0)) i n
      = min c (countFrom (fun j => decide ((debris j).active = 0)) i n) := by
  have h := spawn_loop_shape Debris.active (fun t => t.type = 1 ∨ t.type = 2)
    (fun _ => True) c
    (fun n i c (g : Rng) pool =>
      if c = 0 then pool else (smallDebrisLoop m ast n i (c : Int) (pool, g)).1)
    (fun i c a pool => by simp [smallDebrisLoop])
    (fun n i a pool => by simp)
    (fun n i c g pool hb => ⟨g, by
      by_cases hc : c = 0
      · simp [hc]
      · have hc' : ¬ ((c : Int) ≤ 0) := by omega
        simp only [hc, if_false, smallDebrisLoop, hb, hc']⟩)
    (fun n i c g pool _ _ hf =>
      ⟨smallDebrisPiece m ast ((c + 1 : Nat) : Int) g (pool i), g.skip 14, by
      refine ⟨by simp [smallDebrisPiece], ?_, trivial, ?_⟩
      · simp only [smallDebrisPiece, cBool]
        split_ifs
        · right; rfl
        · left; rfl
      · have e : (((c + 1 : Nat) : Int)) - 1 = (c : Int) := by omega
        by_cases hc : c = 0
        · subst hc
          simp [smallDebrisLoop, hf]
        · have hc' : ¬ ((c : Int) ≤ 0) := by omega
          simp only [smallDebrisLoop, hf, if_true, e, hc', if_false, hc, Nat.add_one_ne_zero]⟩)
    n i c g debris (le_refl c) trivial
  simp only [hc, if_false] at h
  exact h

/-- C4 (amended): `destroyAsteroid` on an asteroid of size `ASTEROID_SMALL` draws a debris
count `k` that is 2 or 3 and turns `min k f` previously inactive debris slots into active
debris, where `f` is the number of inactive debris slots (so exactly 2 or 3 when at least three
slots are free); every piece it creates has type 1 or 2 and no active debris slot is
changed. -/
theorem destroyAsteroid_small_debris (m : LibM) (a p : Nat) (s : Game)
    (hsize : (s.asteroids a).size = ASTEROID_SMALL) :
    ((drawnDebrisCount a s).toNat = 2 ∨ (drawnDebrisCount a s).toNat = 3) ∧
    countFrom (fun j => decide ((s.debris j).active = 0 ∧
        ((destroyAsteroid m a p s).debris j).active ≠ 0)) 0 MAX_DEBRIS
      = min (drawnDebrisCount a s).toNat (freeDebris s) ∧
    (∀ j, (s.debris j).active = 0 → ((destroyAsteroid m a p s).debris j).active ≠ 0 →
      ((destroyAsteroid m a p s).debris j).type = 1 ∨
      ((destroyAsteroid m a p s).debris j).type = 2) ∧
    (∀ j, (s.debris j).active ≠ 0 → (destroyAsteroid m a p s).debris j = s.debris j) := by
  have hk : (drawnDebrisCount a s).toNat = 2 ∨ (drawnDebrisCount a s).toNat = 3 := by
    unfold drawnDebrisCount
    rcases floor_myRandomAt_small (initDust (s.asteroids a) (s.asteroids a) s).rng 0 with h | h
    · left; rw [h]; rfl
    · right; rw [h]; rfl
  have hcast : drawnDebrisCount a s = (((drawnDebrisCount a s).toNat : Nat) : Int) := by
    rcases hk with h | h <;> omega
  have hd : (destroyAsteroid m a p s).debris
      = (smallDebrisLoop m { s.asteroids a with active := 0 } MAX_DEBRIS 0
          (((drawnDebrisCount a s).toNat : Nat) : Int)
          (s.debris, (initDust (s.asteroids a) (s.asteroids a) s).rng.skip 1)).1 := by
    rw [(frame_fields (destroyAsteroid_frame m a p s)).2.1,
      (destroyAsteroidParent_small m a p s hsize).2.2, ← hcast]
    rfl
  obtain ⟨hfr, hcnt⟩ := smallDebrisLoop_shape m { s.asteroids a with active := 0 } MAX_DEBRIS 0
    (drawnDebrisCount a s).toNat ((initDust (s.asteroids a) (s.asteroids a) s).rng.skip 1)
    s.debris (by rcases hk with h | h <;> omega)
  rw [hd]
  refine ⟨hk, hcnt, ?_, ?_⟩
  · intro j hj0 hj1
    rcases hfr j with h | h
    · rw [h] at hj1; exact absurd hj0 hj1
    · exact h.2.2.2.2
  · intro j hj
    rcases hfr j with h | h
    · exact h
    · exact absurd h.2.2.1 hj

/-- Witness of C4 (amended): the asteroid of `fullDebrisGame` has size `ASTEROID_SMALL`, and
the active debris of slot 0 is unchanged by the call. -/
theorem destroyAsteroid_small_debris_witness :
    (destroyAsteroid demoLibM 0 0 fullDebrisGame).debris 0 = fullDebrisGame.debris 0 :=
  (destroyAsteroid_small_debris demoLibM 0 0 fullDebrisGame (by rfl)).2.2.2 0 (by decide)

/-- C4 (as stated, refuted): in `fullDebrisGame` the asteroid of slot 0 is active and of size
`ASTEROID_SMALL` and every debris slot is active, so `destroyAsteroid` turns no inactive debris
slot into active debris, neither 2 nor 3 of them. -/
theorem destroyAsteroid_small_full_debris :
    (fullDebrisGame.asteroids 0).active ≠ 0 ∧
    (fullDebrisGame.asteroids 0).size = ASTEROID_SMALL ∧
    countFrom (fun j => decide ((fullDebrisGame.debris j).active = 0 ∧
        ((destroyAsteroid demoLibM 0 0 fullDebrisGame).debris j).active ≠ 0)) 0 MAX_DEBRIS ≠ 2 ∧
    countFrom (fun j => decide ((fullDebrisGame.debris j).active = 0 ∧
        ((destroyAsteroid demoLibM 0 0 fullDebrisGame).debris j).active ≠ 0)) 0 MAX_DEBRIS ≠ 3 := by
  have h0 : countFrom (fun j => decide ((fullDebrisGame.debris j).active = 0 ∧
      ((destroyAsteroid demoLibM 0 0 fullDebrisGame).debris j).active ≠ 0)) 0 MAX_DEBRIS = 0 := by
    apply countFrom_eq_zero
    intro j _ _
    have : (fullDebrisGame.debris j).active ≠ 0 := by
      show (1 : Int) ≠ 0
      decide
    simp [this]
  rw [h0]
  exact ⟨by decide, rfl, by decide, by decide⟩

/-- Witness of C8: with a ship of type 1 and all photon slots active, firing changes nothing. -/
theorem firePhoton_fills_min_volley_free_witness :
    firePhoton demoLibM { ship := { type := 1 }, photons := fun _ => { active := 1 } }
      = { ship := { type := 1 }, photons := fun _ => { active := 1 } } :=
  (firePhoton_fills_min_volley_free demoLibM
    { ship := { type := 1 }, photons := fun _ => { active := 1 } }).2.2
    (fun _ _ => by show (1 : Int) ≠ 0; decide)

/-! ### `destroyShip` -/

theorem findFreeDebris_some (n : Nat) :
    ∀ (i k : Nat) (debris : Nat → Debris),
      findFreeDebris n i debris = some k → (debris k).active = 0 := by
  induction n with
  | zero => intro i k debris h; simp [findFreeDebris] at h
  | succ n ih =>
    intro i k debris h
    simp only [findFreeDebris] at h
    split_ifs at h with h0
    · cases h; exact h0
    · exact ih (i + 1) k debris h

theorem spawnShipPiece0_active (c1 c2 : Coords) (s : Game) (j : Nat)
    (hj : (s.debris j).active ≠ 0) : (spawnShipPiece0 c1 c2 s).debris j = s.debris j := by
  unfold spawnShipPiece0
  cases h : findFreeDebris MAX_DEBRIS 0 s.debris with
  | none => rfl
  | some i =>
    have hi := findFreeDebris_some _ _ _ _ h
    have hne : j ≠ i := fun e => hj (e ▸ hi)
    simp [Function.update_noteq hne]

theorem destroySide_active (m : LibM) (s : Game) (j : Nat) (hj : (s.debris j).active ≠ 0) :
    (destroyLeft m s).debris j = s.debris j ∧ (destroyRight m s).debris j = s.debris j ∧
    (destroyBack m s).debris j = s.debris j :=
  ⟨spawnShipPiece0_active _ _ s j hj, spawnShipPiece0_active _ _ s j hj,
    spawnShipPiece0_active _ _ s j hj⟩

theorem destroyShipLoop1_active (m : LibM) (ship : Ship) (n : Nat) :
    ∀ (i : Nat) (debris : Nat → Debris) (g : Rng) (count : Int) (j : Nat),
      (debris j).active ≠ 0 →
      (destroyShipLoop1 m ship n i (debris, g, count)).1 j = debris j := by
  induction n with
  | zero => intro i debris g count j _; rfl
  | succ n ih =>
    intro i debris g count j hj
    simp only [destroyShipLoop1]
    split_ifs with h0 h4
    · have hne : j ≠ i := fun e => hj (e ▸ h0)
      simp [Function.update_noteq hne]
    · have hne : j ≠ i := fun e => hj (e ▸ h0)
      rw [ih (i + 1) _ _ _ j (by rw [Function.update_noteq hne]; exact hj),
        Function.update_noteq hne]
    · exact ih (i + 1) debris g count j hj

theorem destroyShipLoop2_below (m : LibM) (ship : Ship) (n : Nat) :
    ∀ (i : Nat) (debris : Nat → Debris) (g : Rng) (k : Nat), k < i →
      (destroyShipLoop2 m ship n i (debris, g)).1 k = debris k := by
  induction n with
  | zero => intro i debris g k _; rfl
  | succ n ih =>
    intro i debris g k hk
    simp only [destroyShipLoop2]
    rw [ih (i + 1) _ _ k (by omega), Function.update_noteq (by omega)]

theorem destroyShipLoop2_overwrites (m : LibM) (ship : Ship) (n : Nat) :
    ∀ (i : Nat) (debris : Nat → Debris) (g : Rng) (j : Nat), i ≤ j → j < i + n →
      ((destroyShipLoop2 m ship n i (debris, g)).1 j).type = 0 ∧
      ((destroyShipLoop2 m ship n i (debris, g)).1 j).active = 1 := by
  induction n with
  | zero => intro i debris g j h1 h2; omega
  | succ n ih =>
    intro i debris g j h1 h2
    simp only [destroyShipLoop2]
    by_cases hj : j = i
    · subst hj
      rw [destroyShipLoop2_below m ship n (j + 1) _ _ j (by omega), Function.update_same]
      exact ⟨rfl, rfl⟩
    · exact ih (i + 1) _ _ j (by omega) (by omega)

/-- C9 (amended): for a ship of a type other than 2, `destroyShip` leaves every debris slot
that was active exactly as it was (type, lifetime, position, velocity and the other fields);
for a ship of type 2 it overwrites each of the `MAX_DEBRIS` slots with active ship wreckage of
type 0. -/
theorem destroyShip_keeps_active_debris (m : LibM) (s : Game) :
    (s.ship.type ≠ 2 → ∀ j, (s.debris j).active ≠ 0 → (destroyShip m s).debris j = s.debris j) ∧
    (s.ship.type = 2 → ∀ j, j < MAX_DEBRIS →
      ((destroyShip m s).debris j).type = 0 ∧ ((destroyShip m s).debris j).active = 1) := by
  constructor
  · intro ht j hj
    unfold destroyShip
    by_cases h0 : s.ship.type = 0
    · have hL : ∀ t : Game, t.debris j = s.debris j → (destroyLeft m t).debris j = s.debris j :=
        fun t h => ((destroySide_active m t j (by rw [h]; exact hj)).1).trans h
      have hR : ∀ t : Game, t.debris j = s.debris j → (destroyRight m t).debris j = s.debris j :=
        fun t h => ((destroySide_active m t j (by rw [h]; exact hj)).2.1).trans h
      have hB : ∀ t : Game, t.debris j = s.debris j → (destroyBack m t).debris j = s.debris j :=
        fun t h => ((destroySide_active m t j (by rw [h]; exact hj)).2.2).trans h
      have hS : ∀ (c1 c2 : Coords) (t : Game), t.debris j = s.debris j →
          (spawnShipPiece0 c1 c2 t).debris j = s.debris j :=
        fun c1 c2 t h => (spawnShipPiece0_active c1 c2 t j (by rw [h]; exact hj)).trans h
      simp only [h0, if_true]
      split_ifs <;> (try simp only []) <;>
        repeat (first | rfl | apply hB | apply hR | apply hL | apply hS)
    · by_cases h1 : s.ship.type = 1
      · simp only [h0, h1, if_true, if_false]
        exact destroyShipLoop1_active m s.ship MAX_DEBRIS 0 s.debris s.rng 0 j hj
      · simp only [h0, h1, ht, if_false]
  · intro ht j hj
    have h0 : ¬ s.ship.type = 0 := by rw [ht]; decide
    have h1 : ¬ s.ship.type = 1 := by rw [ht]; decide
    unfold destroyShip
    simp only [h0, h1, ht, if_true, if_false]
    exact destroyShipLoop2_overwrites m s.ship MAX_DEBRIS 0 s.debris s.rng j (Nat.zero_le j)
      (by omega)

/-- Witness of C9 (amended): the pickup in slot 0 of `type0ShipGame` survives the destruction
of the ship. -/
theorem destroyShip_keeps_active_debris_witness :
    (destroyShip demoLibM type0ShipGame).debris 0 = type0ShipGame.debris 0 :=
  (destroyShip_keeps_active_debris demoLibM type0ShipGame).1 (by decide) 0 (by decide)

/-- C9 (as stated, refuted): debris slot 0 of `type2ShipGame` holds an active pickup of type 1
before `destroyShip`, and ship wreckage of type 0 afterwards. -/
theorem destroyShip_type2_overwrites_active :
    (type2ShipGame.debris 0).active ≠ 0 ∧
    ((destroyShip demoLibM type2ShipGame).debris 0).type ≠ (type2ShipGame.debris 0).type := by
  refine ⟨by decide, ?_⟩
  have h : ((destroyShip demoLibM type2ShipGame).debris 0).type = 0 := by
    have h0 : ¬ type2ShipGame.ship.type = 0 := by decide
    have h1 : ¬ type2ShipGame.ship.type = 1 := by decide
    have h2 : type2ShipGame.ship.type = 2 := by decide
    unfold destroyShip
    simp only [h0, h1, h2, if_true, if_false]
    exact (destroyShipLoop2_overwrites demoLibM type2ShipGame.ship MAX_DEBRIS 0
      type2ShipGame.debris type2ShipGame.rng 0 (le_refl 0) (by decide)).1
  rw [h]
  decide

/-! ### `collisionAsteroidShip` for a ship of type 0 -/

theorem hull_fields {s s' : Game} (h : s'.hull = s.hull) :
    s'.asteroids = s.asteroids ∧ s'.ship.type = s.ship.type ∧ s'.ship.x = s.ship.x ∧
    s'.ship.y = s.ship.y ∧ s'.ship.phi = s.ship.phi ∧ s'.ship.size = s.ship.size := by
  have h1 := congrArg Game.asteroids h
  have h2 := congrArg (fun t => t.ship.type) h
  have h3 := congrArg (fun t => t.ship.x) h
  have h4 := congrArg (fun t => t.ship.y) h
  have h5 := congrArg (fun t => t.ship.phi) h
  have h6 := congrArg (fun t => t.ship.size) h
  exact ⟨h1, h2, h3, h4, h5, h6⟩

theorem crosses_congr (m : LibM) {a b : Ship} (hx : a.x = b.x) (hy : a.y = b.y)
    (hp : a.phi = b.phi) (hs : a.size = b.size) (x1 y1 x2 y2 : ℚ) :
    crossesLeft m a x1 y1 x2 y2 = crossesLeft m b x1 y1 x2 y2 ∧
    crossesRight m a x1 y1 x2 y2 = crossesRight m b x1 y1 x2 y2 ∧
    crossesBack m a x1 y1 x2 y2 = crossesBack m b x1 y1 x2 y2 := by
  simp only [crossesLeft, crossesRight, crossesBack, shipBackLeft, shipBackRight, shipNose, hx,
    hy, hp, hs, and_self]

theorem hitLeft_safe (m : LibM) (s : Game) (h : sideSafe s.ship.LDmg s.ship.LHp) :
    (hitLeft m s).hull = s.hull ∧
    (hitLeft m s).ship.RDmg = s.ship.RDmg ∧ (hitLeft m s).ship.RHp = s.ship.RHp ∧
    (hitLeft m s).ship.BDmg = s.ship.BDmg ∧ (hitLeft m s).ship.BHp = s.ship.BHp ∧
    sideSafe (hitLeft m s).ship.LDmg (hitLeft m s).ship.LHp ∧
    LeftStep s.ship (hitLeft m s).ship ∧
    (s.ship.LDmg = 0 → 0 < s.ship.LHp → LeftHit s.ship (hitLeft m s).ship) := by
  unfold hitLeft
  by_cases c : s.ship.LDmg = 0 ∧ s.ship.LHp > 0
  · have h20 : 20 < s.ship.LHp := by
      rcases h with h | h | h
      · exact absurd c.1 h
      · exact absurd c.2 (not_lt.mpr h)
      · exact h
    have hn : ¬ (s.ship.LHp - 20 ≤ 0) := by linarith
    rw [if_pos c]
    dsimp only
    rw [if_neg hn]
    refine ⟨rfl, rfl, rfl, rfl, rfl, Or.inl (by show (50 : Int) ≠ 0; decide), Or.inr ⟨c.1, c.2, rfl, rfl⟩,
      fun _ _ => ⟨c.1, c.2, rfl, rfl⟩⟩
  · rw [if_neg c]
    refine ⟨rfl, rfl, rfl, rfl, rfl, h, Or.inl ⟨rfl, rfl⟩, fun h1 h2 => absurd ⟨h1, h2⟩ c⟩

theorem hitRight_safe (m : LibM) (s : Game) (h : sideSafe s.ship.RDmg s.ship.RHp) :
    (hitRight m s).hull = s.hull ∧
    (hitRight m s).ship.LDmg = s.ship.LDmg ∧ (hitRight m s).ship.LHp = s.ship.LHp ∧
    (hitRight m s).ship.BDmg = s.ship.BDmg ∧ (hitRight m s).ship.BHp = s.ship.BHp ∧
    sideSafe (hitRight m s).ship.RDmg (hitRight m s).ship.RHp := by
  unfold hitRight
  by_cases c : s.ship.RDmg = 0 ∧ s.ship.RHp > 0
  · have h20 : 20 < s.ship.RHp := by
      rcases h with h | h | h
      · exact absurd c.1 h
      · exact absurd c.2 (not_lt.mpr h)
      · exact h
    have hn : ¬ (s.ship.RHp - 20 ≤ 0) := by linarith
    rw [if_pos c]
    dsimp only
    rw [if_neg hn]
    exact ⟨rfl, rfl, rfl, rfl, rfl, Or.inl (by show (50 : Int) ≠ 0; decide)⟩
  · rw [if_neg c]
    exact ⟨rfl, rfl, rfl, rfl, rfl, h⟩

theorem hitBack_safe (m : LibM) (s : Game) (h : sideSafe s.ship.BDmg s.ship.BHp) :
    (hitBack m s).hull = s.hull ∧
    (hitBack m s).ship.LDmg = s.ship.LDmg ∧ (hitBack m s).ship.LHp = s.ship.LHp ∧
    (hitBack m s).ship.RDmg = s.ship.RDmg ∧ (hitBack m s).ship.RHp = s.ship.RHp ∧
    sideSafe (hitBack m s).ship.BDmg (hitBack m s).ship.BHp := by
  unfold hitBack
  by_cases c : s.ship.BDmg = 0 ∧ s.ship.BHp > 0
  · have h20 : 20 < s.ship.BHp := by
      rcases h with h | h | h
      · exact absurd c.1 h
      · exact absurd c.2 (not_lt.mpr h)
      · exact h
    have hn : ¬ (s.ship.BHp - 20 ≤ 0) := by linarith
    rw [if_pos c]
    dsimp only
    rw [if_neg hn]
    exact ⟨rfl, rfl, rfl, rfl, rfl, Or.inl (by show (50 : Int) ≠ 0; decide)⟩
  · rw [if_neg c]
    exact ⟨rfl, rfl, rfl, rfl, rfl, h⟩

theorem LeftStep.trans {a b c : Ship} (h1 : LeftStep a b) (h2 : LeftStep b c) : LeftStep a c := by
  rcases h1 with ⟨e1, e2⟩ | h1
  · rcases h2 with ⟨f1, f2⟩ | h2
    · exact Or.inl ⟨f1.trans e1, f2.trans e2⟩
    · exact Or.inr ⟨e2 ▸ h2.1, e1 ▸ h2.2.1, by rw [h2.2.2.1, e1], h2.2.2.2⟩
  · rcases h2 with ⟨f1, f2⟩ | h2
    · exact Or.inr ⟨h1.1, h1.2.1, f1.trans h1.2.2.1, f2.trans h1.2.2.2⟩
    · have := h2.1
      rw [h1.2.2.2] at this
      exact absurd this (by decide)

theorem LeftHit.then_step {a b c : Ship} (h1 : LeftHit a b) (h2 : LeftStep b c) : LeftHit a c := by
  rcases h2 with ⟨f1, f2⟩ | h2
  · exact ⟨h1.1, h1.2.1, f1.trans h1.2.2.1, f2.trans h1.2.2.2⟩
  · have := h2.1
    rw [h1.2.2.2] at this
    exact absurd this (by decide)

/-- After a step the left side is hit, or it is as before and can still be hit. -/
theorem LeftStep.cases_hit {a b : Ship} (h : LeftStep a b) (h0 : a.LDmg = 0) (hp : 0 < a.LHp) :
    LeftHit a b ∨ (b.LHp = a.LHp ∧ b.LDmg = a.LDmg ∧ b.LDmg = 0 ∧ 0 < b.LHp) := by
  rcases h with ⟨e1, e2⟩ | h
  · exact Or.inr ⟨e1, e2, e2.trans h0, e1 ▸ hp⟩
  · exact Or.inl h

theorem shipEdgeStep0_safe (m : LibM) (x1 y1 x2 y2 : ℚ) (s0 s : Game) (h : PassInv s0 s) :
    PassInv s0 (shipEdgeStep0 m x1 y1 x2 y2 s) ∧
    LeftStep s.ship (shipEdgeStep0 m x1 y1 x2 y2 s).ship ∧
    (crossesLeft m s0.ship x1 y1 x2 y2 ≠ 0 → s.ship.LDmg = 0 → 0 < s.ship.LHp →
      LeftHit s.ship (shipEdgeStep0 m x1 y1 x2 y2 s).ship) := by
  obtain ⟨hh, hL, hR, hB⟩ := h
  -- the right side
  have h1 : ∀ t : Game, t = (if crossesRight m s.ship x1 y1 x2 y2 ≠ 0 then hitRight m s else s) →
      t.hull = s.hull ∧ t.ship.LDmg = s.ship.LDmg ∧ t.ship.LHp = s.ship.LHp ∧
      t.ship.BDmg = s.ship.BDmg ∧ t.ship.BHp = s.ship.BHp ∧
      sideSafe t.ship.RDmg t.ship.RHp := by
    intro t ht
    subst ht
    split_ifs
    · exact hitRight_safe m s hR
    · exact ⟨rfl, rfl, rfl, rfl, rfl, hR⟩
  generalize hs1 : (if crossesRight m s.ship x1 y1 x2 y2 ≠ 0 then hitRight m s else s) = s1 at h1
  obtain ⟨a1, a2, a3, a4, a5, a6⟩ := h1 s1 rfl
  have hL1 : sideSafe s1.ship.LDmg s1.ship.LHp := by rw [a2, a3]; exact hL
  have hB1 : sideSafe s1.ship.BDmg s1.ship.BHp := by rw [a4, a5]; exact hB
  -- the left side
  have h2 : ∀ t : Game, t = (if crossesLeft m s1.ship x1 y1 x2 y2 ≠ 0 then hitLeft m s1 else s1) →
      t.hull = s1.hull ∧ t.ship.RDmg = s1.ship.RDmg ∧ t.ship.RHp = s1.ship.RHp ∧
      t.ship.BDmg = s1.ship.BDmg ∧ t.ship.BHp = s1.ship.BHp ∧
      sideSafe t.ship.LDmg t.ship.LHp ∧ LeftStep s1.ship t.ship ∧
      (crossesLeft m s1.ship x1 y1 x2 y2 ≠ 0 → s1.ship.LDmg = 0 → 0 < s1.ship.LHp →
        LeftHit s1.ship t.ship) := by
    intro t ht
    subst ht
    split_ifs with hc
    · obtain ⟨b1, b2, b3, b4, b5, b6, b7, b8⟩ := hitLeft_safe m s1 hL1
      exact ⟨b1, b2, b3, b4, b5, b6, b7, fun _ => b8⟩
    · exact ⟨rfl, rfl, rfl, rfl, rfl, hL1, Or.inl ⟨rfl, rfl⟩, fun h => absurd h hc⟩
  generalize hs2 : (if crossesLeft m s1.ship x1 y1 x2 y2 ≠ 0 then hitLeft m s1 else s1) = s2 at h2
  obtain ⟨b1, b2, b3, b4, b5, b6, b7, b8⟩ := h2 s2 rfl
  have hR2 : sideSafe s2.ship.RDmg s2.ship.RHp := by rw [b2, b3]; exact a6
  have hB2 : sideSafe s2.ship.BDmg s2.ship.BHp := by rw [b4, b5]; exact hB1
  -- the back side
  have h3 : ∀ t : Game, t = (if crossesBack m s2.ship x1 y1 x2 y2 ≠ 0 then hitBack m s2 else s2) →
      t.hull = s2.hull ∧ t.ship.LDmg = s2.ship.LDmg ∧ t.ship.LHp = s2.ship.LHp ∧
      t.ship.RDmg = s2.ship.RDmg ∧ t.ship.RHp = s2.ship.RHp ∧
      sideSafe t.ship.BDmg t.ship.BHp := by
    intro t ht
    subst ht
    split_ifs
    · exact hitBack_safe m s2 hB2
    · exact ⟨rfl, rfl, rfl, rfl, rfl, hB2⟩
  generalize hs3 : (if crossesBack m s2.ship x1 y1 x2 y2 ≠ 0 then hitBack m s2 else s2) = s3 at h3
  obtain ⟨c1, c2, c3, c4, c5, c6⟩ := h3 s3 rfl
  have hdef : shipEdgeStep0 m x1 y1 x2 y2 s = s3 := by
    rw [← hs3, ← hs2, ← hs1]
    rfl
  rw [hdef]
  have hcr : crossesLeft m s1.ship x1 y1 x2 y2 = crossesLeft m s0.ship x1 y1 x2 y2 := by
    obtain ⟨_, _, e3, e4, e5, e6⟩ := hull_fields (a1.trans hh)
    exact (crosses_congr m e3 e4 e5 e6 x1 y1 x2 y2).1
  have hstep12 : LeftStep s.ship s2.ship := by
    rcases b7 with ⟨e1, e2⟩ | e
    · exact Or.inl ⟨e1.trans a3, e2.trans a2⟩
    · exact Or.inr ⟨a2 ▸ e.1, a3 ▸ e.2.1, by rw [e.2.2.1, a3], e.2.2.2⟩
  refine ⟨⟨(c1.trans (b1.trans a1)).trans hh, ?_, ?_, c6⟩, ?_, ?_⟩
  · rw [c2, c3]; exact b6
  · rw [c4, c5]; exact hR2
  · rcases hstep12 with ⟨e1, e2⟩ | e
    · exact Or.inl ⟨c3.trans e1, c2.trans e2⟩
    · exact Or.inr ⟨e.1, e.2.1, c3.trans e.2.2.1, c2.trans e.2.2.2⟩
  · intro hc h0 hp
    have e := b8 (by rw [hcr]; exact hc) (a2.trans h0) (by rw [a3]; exact hp)
    exact ⟨h0, hp, by rw [c3, e.2.2.1, a3], c2.trans e.2.2.2⟩

theorem edgeLoop0_safe (m : LibM) (i : Nat) (s0 : Game) (n : Nat) :
    ∀ (k : Nat) (s : Game) (x1 y1 : ℚ), PassInv s0 s →
      PassInv s0 (edgeLoop0 m i n k (s, x1, y1)).1 ∧
      LeftStep s.ship (edgeLoop0 m i n k (s, x1, y1)).1.ship ∧
      (∀ k', k ≤ k' → k' < k + n →
        crossesLeft m s0.ship (asteroidVertex m (s0.asteroids i) k').x
          (asteroidVertex m (s0.asteroids i) k').y
          (if k' = k then x1 else (asteroidVertex m (s0.asteroids i) ((k' : Int) - 1)).x)
          (if k' = k then y1 else (asteroidVertex m (s0.asteroids i) ((k' : Int) - 1)).y) ≠ 0 →
        s.ship.LDmg = 0 → 0 < s.ship.LHp →
        LeftHit s.ship (edgeLoop0 m i n k (s, x1, y1)).1.ship) := by
  induction n with
  | zero =>
    intro k s x1 y1 h
    exact ⟨h, Or.inl ⟨rfl, rfl⟩, fun k' h1 h2 => by omega⟩
  | succ n ih =>
    intro k s x1 y1 h
    have hast : s.asteroids = s0.asteroids := (hull_fields h.1).1
    simp only [edgeLoop0]
    rw [hast]
    obtain ⟨p1, p2, p3⟩ := shipEdgeStep0_safe m (asteroidVertex m (s0.asteroids i) k).x
      (asteroidVertex m (s0.asteroids i) k).y x1 y1 s0 s h
    obtain ⟨q1, q2, q3⟩ := ih (k + 1)
      (shipEdgeStep0 m (asteroidVertex m (s0.asteroids i) k).x
        (asteroidVertex m (s0.asteroids i) k).y x1 y1 s)
      (asteroidVertex m (s0.asteroids i) k).x (asteroidVertex m (s0.asteroids i) k).y p1
    refine ⟨q1, p2.trans q2, ?_⟩
    intro k' h1 h2 hc h0 hp
    by_cases hk : k' = k
    · subst hk
      simp only [if_true] at hc
      exact (p3 hc h0 hp).then_step q2
    · simp only [hk, if_false] at hc
      rcases p2.cases_hit h0 hp with e | ⟨e1, e2, e3, e4⟩
      · exact e.then_step q2
      · have hq := q3 k' (by omega) (by omega) (by
          by_cases hk1 : k' = k + 1
          · subst hk1
            simp only [if_true]
            have e : (((k + 1 : Nat) : Int)) - 1 = (k : Int) := by omega
            rw [e] at hc
            exact hc
          · simp only [hk1, if_false]
            exact hc) e3 e4
        exact ⟨h0, hp, by rw [hq.2.2.1, e1], hq.2.2.2⟩

theorem circles_congr (a : Asteroid) {b c : Ship} (hx : b.x = c.x) (hy : b.y = c.y)
    (hs : b.size = c.size) :
    (inBroadCircle a b ↔ inBroadCircle a c) ∧ (inInnerCircle a b ↔ inInnerCircle a c) := by
  simp only [inBroadCircle, inInnerCircle, distSq, hx, hy, hs, and_self]

theorem shipAsteroid0_safe (m : LibM) (i : Nat) (s0 s : Game) (h : PassInv s0 s)
    (hin : (s0.asteroids i).active ≠ 0 → ¬ inInnerCircle (s0.asteroids i) s0.ship) :
    PassInv s0 (shipAsteroid0 m i s) ∧
    LeftStep s.ship (shipAsteroid0 m i s).ship ∧
    ((s0.asteroids i).active ≠ 0 → inBroadCircle (s0.asteroids i) s0.ship →
      ∀ k, k < (s0.asteroids i).nVertices.toNat →
        crossesLeft m s0.ship (asteroidVertex m (s0.asteroids i) k).x
          (asteroidVertex m (s0.asteroids i) k).y
          (asteroidEdgeStart m (s0.asteroids i) k).x
          (asteroidEdgeStart m (s0.asteroids i) k).y ≠ 0 →
        s.ship.LDmg = 0 → 0 < s.ship.LHp → LeftHit s.ship (shipAsteroid0 m i s).ship) := by
  obtain ⟨hast, _, hx, hy, _, hsz⟩ := hull_fields h.1
  have hcirc := circles_congr (s0.asteroids i) hx hy hsz
  -- the state after the vertex loop
  have h1 : ∀ t : Game,
      t = (if (s0.asteroids i).active ≠ 0 ∧ inBroadCircle (s0.asteroids i) s.ship then
            (edgeLoop0 m i (s0.asteroids i).nVertices.toNat 0
              (s, (asteroidVertex m (s0.asteroids i) ((s0.asteroids i).nVertices - 1)).x,
                (asteroidVertex m (s0.asteroids i) ((s0.asteroids i).nVertices - 1)).y)).1
          else s) →
      PassInv s0 t ∧ LeftStep s.ship t.ship ∧
      ((s0.asteroids i).active ≠ 0 → inBroadCircle (s0.asteroids i) s0.ship →
        ∀ k, k < (s0.asteroids i).nVertices.toNat →
          crossesLeft m s0.ship (asteroidVertex m (s0.asteroids i) k).x
            (asteroidVertex m (s0.asteroids i) k).y
            (asteroidEdgeStart m (s0.asteroids i) k).x
            (asteroidEdgeStart m (s0.asteroids i) k).y ≠ 0 →
          s.ship.LDmg = 0 → 0 < s.ship.LHp → LeftHit s.ship t.ship) := by
    intro t ht
    subst ht
    split_ifs with hc
    · obtain ⟨q1, q2, q3⟩ := edgeLoop0_safe m i s0 (s0.asteroids i).nVertices.toNat 0 s
        (asteroidVertex m (s0.asteroids i) ((s0.asteroids i).nVertices - 1)).x
        (asteroidVertex m (s0.asteroids i) ((s0.asteroids i).nVertices - 1)).y h
      refine ⟨q1, q2, ?_⟩
      intro _ _ k hk hcr h0 hp
      refine q3 k (Nat.zero_le k) (by omega) ?_ h0 hp
      unfold asteroidEdgeStart at hcr
      by_cases hk0 : k = 0
      · subst hk0
        simpa using hcr
      · simp only [hk0, if_false] at hcr ⊢
        exact hcr
    · refine ⟨h, Or.inl ⟨rfl, rfl⟩, ?_⟩
      intro ha hb
      exact absurd ⟨ha, hcirc.1.mpr hb⟩ hc
  generalize hs1 : (if (s0.asteroids i).active ≠ 0 ∧ inBroadCircle (s0.asteroids i) s.ship then
      (edgeLoop0 m i (s0.asteroids i).nVertices.toNat 0
        (s, (asteroidVertex m (s0.asteroids i) ((s0.asteroids i).nVertices - 1)).x,
          (asteroidVertex m (s0.asteroids i) ((s0.asteroids i).nVertices - 1)).y)).1
      else s) = s1 at h1
  obtain ⟨p1, p2, p3⟩ := h1 s1 rfl
  obtain ⟨hast1, _, hx1, hy1, _, hsz1⟩ := hull_fields p1.1
  have hcirc1 := circles_congr (s0.asteroids i) hx1 hy1 hsz1
  have hno : ¬ ((s1.asteroids i).active ≠ 0 ∧ inInnerCircle (s1.asteroids i) s1.ship) := by
    rw [hast1]
    rintro ⟨ha, hb⟩
    exact hin ha (hcirc1.2.mp hb)
  have hdef : shipAsteroid0 m i s = s1 := by
    unfold shipAsteroid0 edgePass0
    simp only []
    rw [hast, hs1]
    unfold innerCircle0
    rw [if_neg hno]
  rw [hdef]
  exact ⟨p1, p2, p3⟩

theorem collisionLoop0_safe (m : LibM) (s0 : Game) (ht : s0.ship.type = 0) (n : Nat) :
    ∀ (i : Nat) (s : Game), PassInv s0 s →
      (∀ j, i ≤ j → j < i + n → (s0.asteroids j).active ≠ 0 →
        ¬ inInnerCircle (s0.asteroids j) s0.ship) →
      PassInv s0 (collisionAsteroidShipLoop m n i s) ∧
      LeftStep s.ship (collisionAsteroidShipLoop m n i s).ship ∧
      (∀ j, i ≤ j → j < i + n → (s0.asteroids j).active ≠ 0 →
        inBroadCircle (s0.asteroids j) s0.ship →
        ∀ k, k < (s0.asteroids j).nVertices.toNat →
          crossesLeft m s0.ship (asteroidVertex m (s0.asteroids j) k).x
            (asteroidVertex m (s0.asteroids j) k).y
            (asteroidEdgeStart m (s0.asteroids j) k).x
            (asteroidEdgeStart m (s0.asteroids j) k).y ≠ 0 →
          s.ship.LDmg = 0 → 0 < s.ship.LHp →
          LeftHit s.ship (collisionAsteroidShipLoop m n i s).ship) := by
  induction n with
  | zero =>
    intro i s h _
    exact ⟨h, Or.inl ⟨rfl, rfl⟩, fun j h1 h2 => by omega⟩
  | succ n ih =>
    intro i s h hin
    have hty : s.ship.type = 0 := (hull_fields h.1).2.1.trans ht
    simp only [collisionAsteroidShipLoop, hty, if_true]
    obtain ⟨p1, p2, p3⟩ := shipAsteroid0_safe m i s0 s h (hin i (le_refl i) (by omega))
    obtain ⟨q1, q2, q3⟩ := ih (i + 1) (shipAsteroid0 m i s) p1
      (fun j h1 h2 => hin j (by omega) (by omega))
    refine ⟨q1, p2.trans q2, ?_⟩
    intro j h1 h2 ha hb k hk hc h0 hp
    by_cases hj : j = i
    · subst hj
      exact (p3 ha hb k hk hc h0 hp).then_step q2
    · rcases p2.cases_hit h0 hp with e | ⟨e1, e2, e3, e4⟩
      · exact e.then_step q2
      · have hq := q3 j (by omega) (by omega) ha hb k hk hc e3 e4
        exact ⟨h0, hp, by rw [hq.2.2.1, e1], hq.2.2.2⟩

/-! ### The example of a ship below an asteroid -/

theorem example_vertices :
    asteroidVertex octantLibM exampleAsteroid 0 = ⟨0, 3⟩ ∧
    asteroidVertex octantLibM exampleAsteroid 1 = ⟨-7071 / 2500, 12929 / 2500⟩ ∧
    asteroidVertex octantLibM exampleAsteroid 7 = ⟨7071 / 2500, 12929 / 2500⟩ := by
  refine ⟨?_, ?_, ?_⟩
  · simp [asteroidVertex, exampleAsteroid, octantLibM, octant, M_PI]
    norm_num
  · simp [asteroidVertex, exampleAsteroid, octantLibM, octant, M_PI]
    norm_num
  · simp [asteroidVertex, exampleAsteroid, octantLibM, octant, M_PI]
    norm_num

theorem example_corners (ship : Ship) (hp : ship.phi = 0) (hs : ship.size = 4) :
    shipNose octantLibM ship = ⟨0, 4⟩ ∧
    shipBackRight octantLibM ship = ⟨7071 / 5000, -7071 / 5000⟩ ∧
    shipBackLeft octantLibM ship = ⟨-7071 / 5000, -7071 / 5000⟩ := by
  refine ⟨?_, ?_, ?_⟩
  · simp [shipNose, hp, hs, octantLibM, octant, M_PI]
    norm_num
  · simp [shipBackRight, hp, hs, octantLibM, octant, M_PI]
    norm_num
  · simp [shipBackLeft, hp, hs, octantLibM, octant, M_PI]
    norm_num

theorem example_crossings (ship : Ship) (hx : ship.x = 0) (hy : ship.y = 0) (hp : ship.phi = 0)
    (hs : ship.size = 4) :
    crossesRight octantLibM ship 0 3 (7071 / 2500) (12929 / 2500) = 1 ∧
    crossesLeft octantLibM ship (-7071 / 2500) (12929 / 2500) 0 3 = 1 := by
  obtain ⟨h1, h2, h3⟩ := example_corners ship hp hs
  constructor
  · simp only [crossesRight, h1, h2, hx, hy, lineCollision]
    rw [orientation_of_le_neg_one (by norm_num), orientation_of_one_le (by norm_num),
      orientation_of_one_le (by norm_num), orientation_of_le_neg_one (by norm_num)]
    norm_num [onSegmentBox]
  · simp only [crossesLeft, h1, h3, hx, hy, lineCollision]
    rw [orientation_of_le_neg_one (by norm_num), orientation_of_one_le (by norm_num),
      orientation_of_one_le (by norm_num), orientation_of_le_neg_one (by norm_num)]
    norm_num [onSegmentBox]

/-! ### A pass after the ship is destroyed -/

theorem spawnShipPiece0_ship (c1 c2 : Coords) (s : Game) :
    (spawnShipPiece0 c1 c2 s).ship = s.ship ∧
    (spawnShipPiece0 c1 c2 s).asteroids = s.asteroids := by
  unfold spawnShipPiece0
  cases findFreeDebris MAX_DEBRIS 0 s.debris <;> exact ⟨rfl, rfl⟩

theorem hit_dead (m : LibM) (s : Game) (h : shipDead s.ship) :
    hitRight m s = s ∧ hitLeft m s = s ∧ hitBack m s = s := by
  obtain ⟨h1, h2, h3, _, _, _⟩ := h
  refine ⟨?_, ?_, ?_⟩
  · unfold hitRight; rw [if_neg (fun c => h2 c.1)]
  · unfold hitLeft; rw [if_neg (fun c => h1 c.1)]
  · unfold hitBack; rw [if_neg (fun c => h3 c.1)]

theorem grind_dead (m : LibM) (s : Game) (h : shipDead s.ship) :
    grindRight m s = s ∧ grindLeft m s = s ∧ grindBack m s = s := by
  obtain ⟨_, _, _, h4, h5, h6⟩ := h
  refine ⟨?_, ?_, ?_⟩
  · unfold grindRight; rw [if_neg (not_lt.mpr h5)]
  · unfold grindLeft; rw [if_neg (not_lt.mpr h4)]
  · unfold grindBack; rw [if_neg (not_lt.mpr h6)]

theorem shipEdgeStep0_dead (m : LibM) (x1 y1 x2 y2 : ℚ) (s : Game) (h : shipDead s.ship) :
    shipEdgeStep0 m x1 y1 x2 y2 s = s := by
  obtain ⟨h1, h2, h3⟩ := hit_dead m s h
  unfold shipEdgeStep0
  simp only [h1, h2, h3, ite_self]

theorem edgeLoop0_dead (m : LibM) (i : Nat) (n : Nat) :
    ∀ (k : Nat) (s : Game) (x1 y1 : ℚ), shipDead s.ship →
      (edgeLoop0 m i n k (s, x1, y1)).1 = s := by
  induction n with
  | zero => intro k s x1 y1 _; rfl
  | succ n ih =>
    intro k s x1 y1 h
    simp only [edgeLoop0]
    rw [shipEdgeStep0_dead m _ _ _ _ s h]
    exact ih (k + 1) s _ _ h

theorem edgePass0_dead (m : LibM) (i : Nat) (s : Game) (h : shipDead s.ship) :
    edgePass0 m i s = s := by
  unfold edgePass0
  simp only []
  split_ifs
  · exact edgeLoop0_dead m i _ 0 s _ _ h
  · rfl

theorem innerCircle0_dead (m : LibM) (i : Nat) (s : Game) (h : shipDead s.ship) :
    shipDead (innerCircle0 m i s).ship ∧
    (innerCircle0 m i s).ship.LHp = s.ship.LHp ∧
    (innerCircle0 m i s).ship.LDmg = s.ship.LDmg ∧
    (innerCircle0 m i s).ship.type = s.ship.type := by
  unfold innerCircle0
  split_ifs
  · have hk : shipDead (knockBack m i 0.1 s).ship ∧
        (knockBack m i 0.1 s).ship.LHp = s.ship.LHp ∧
        (knockBack m i 0.1 s).ship.LDmg = s.ship.LDmg ∧
        (knockBack m i 0.1 s).ship.type = s.ship.type := by
      unfold knockBack
      simp only []
      split_ifs <;> exact ⟨h, rfl, rfl, rfl⟩
    rw [(grind_dead m _ hk.1).1, (grind_dead m _ hk.1).2.1, (grind_dead m _ hk.1).2.2]
    exact hk
  · exact ⟨h, rfl, rfl, rfl⟩

theorem collisionLoop0_dead (m : LibM) (n : Nat) :
    ∀ (i : Nat) (s : Game), s.ship.type = 0 → shipDead s.ship →
      (collisionAsteroidShipLoop m n i s).ship.LHp = s.ship.LHp ∧
      (collisionAsteroidShipLoop m n i s).ship.LDmg = s.ship.LDmg := by
  induction n with
  | zero => intro i s _ _; exact ⟨rfl, rfl⟩
  | succ n ih =>
    intro i s ht h
    simp only [collisionAsteroidShipLoop, ht, if_true]
    unfold shipAsteroid0
    rw [edgePass0_dead m i s h]
    obtain ⟨p1, p2, p3, p4⟩ := innerCircle0_dead m i s h
    obtain ⟨q1, q2⟩ := ih (i + 1) (innerCircle0 m i s) (p4.trans ht) p1
    exact ⟨q1.trans p2, q2.trans p3⟩

/-- A direct hit that destroys the right side of a ship of type 0 whose back side is gone
destroys the whole ship. -/
theorem hitRight_cascade (m : LibM) (s : Game) (ht : s.ship.type = 0) (hd : s.ship.RDmg = 0)
    (hp : 0 < s.ship.RHp) (h20 : s.ship.RHp ≤ 20) (hl : 0 ≤ s.ship.LDmg)
    (hb : s.ship.BDmg < 0) :
    shipDead (hitRight m s).ship ∧ (hitRight m s).ship.LHp = 0 ∧
    (hitRight m s).ship.LDmg = -1 ∧ (hitRight m s).ship.type = 0 ∧
    (hitRight m s).asteroids = s.asteroids ∧ (hitRight m s).ship.x = s.ship.x ∧
    (hitRight m s).ship.y = s.ship.y := by
  have hle : s.ship.RHp - 20 ≤ 0 := by linarith
  have hnb : ¬ (s.ship.BDmg ≥ 0) := by omega
  have hl' : s.ship.LDmg ≥ 0 := hl
  unfold hitRight
  rw [if_pos ⟨hd, hp⟩]
  dsimp only
  rw [if_pos hle]
  unfold destroyShip
  simp only [ht, if_true, hnb, and_false, if_false, hl', destroyLeft, destroyRight,
    (spawnShipPiece0_ship _ _ _).1, (spawnShipPiece0_ship _ _ _).2, ge_iff_le, le_refl,
    show (0 : Int) ≤ 50 from by decide]
  refine ⟨⟨?_, ?_, ?_, ?_, ?_, ?_⟩, trivial, trivial, trivial, trivial, trivial, trivial⟩
  · show (-1 : Int) ≠ 0; decide
  · show (-1 : Int) ≠ 0; decide
  · show s.ship.BDmg ≠ 0; omega
  · show (0 : ℚ) ≤ 0; exact le_refl 0
  · show (0 : ℚ) ≤ 0; exact le_refl 0
  · show (0 : ℚ) ≤ 0; exact le_refl 0

/-! ### `updateDamage` and the left side of a ship of type 0 -/

theorem updateDamage_left (s : Game) (ht : s.ship.type = 0) :
    (updateDamage s).ship.type = 0 ∧ (updateDamage s).ship.LHp = s.ship.LHp ∧
    (updateDamage s).ship.LDmg
      = if s.ship.LDmg > 0 ∧ s.ship.LHp > 0 then s.ship.LDmg - 1 else s.ship.LDmg := by
  have hL : (tickLeft s).ship.type = s.ship.type ∧ (tickLeft s).ship.LHp = s.ship.LHp ∧
      (tickLeft s).ship.LDmg
        = if s.ship.LDmg > 0 ∧ s.ship.LHp > 0 then s.ship.LDmg - 1 else s.ship.LDmg := by
    unfold tickLeft
    split_ifs <;> exact ⟨rfl, rfl, rfl⟩
  have hR : ∀ t : Game, (tickRight t).ship.type = t.ship.type ∧
      (tickRight t).ship.LHp = t.ship.LHp ∧ (tickRight t).ship.LDmg = t.ship.LDmg := by
    intro t
    unfold tickRight
    split_ifs <;> exact ⟨rfl, rfl, rfl⟩
  have hB : ∀ t : Game, (tickBack t).ship.type = t.ship.type ∧
      (tickBack t).ship.LHp = t.ship.LHp ∧ (tickBack t).ship.LDmg = t.ship.LDmg := by
    intro t
    unfold tickBack
    split_ifs <;> exact ⟨rfl, rfl, rfl⟩
  have hty : (tickBack (tickRight (tickLeft s))).ship.type = 0 :=
    ((hB _).1.trans ((hR _).1.trans hL.1)).trans ht
  have hne : ¬ (tickBack (tickRight (tickLeft s))).ship.type = 2 := by rw [hty]; decide
  unfold updateDamage
  simp only []
  rw [if_neg hne]
  exact ⟨hty, (hB _).2.1.trans ((hR _).2.1.trans hL.2.1),
    (hB _).2.2.trans ((hR _).2.2.trans hL.2.2)⟩

theorem updateDamageN_left (k : Nat) :
    ∀ s : Game, s.ship.type = 0 → 0 < s.ship.LHp → (k : Int) ≤ s.ship.LDmg →
      (updateDamageN k s).ship.LDmg = s.ship.LDmg - k ∧
      (updateDamageN k s).ship.LHp = s.ship.LHp := by
  induction k with
  | zero => intro s _ _ _; simp [updateDamageN]
  | succ k ih =>
    intro s ht hp hk
    obtain ⟨p1, p2, p3⟩ := updateDamage_left s ht
    have hpos : s.ship.LDmg > 0 ∧ s.ship.LHp > 0 := ⟨by omega, hp⟩
    rw [if_pos hpos] at p3
    obtain ⟨q1, q2⟩ := ih (updateDamage s) p1 (by rw [p2]; exact hp) (by rw [p3]; omega)
    simp only [updateDamageN]
    refine ⟨?_, q2.trans p2⟩
    rw [q1, p3]
    push_cast
    ring

theorem edgeLoop0_succ (m : LibM) (i n k : Nat) (s : Game) (x1 y1 : ℚ) :
    edgeLoop0 m i (n + 1) k (s, x1, y1)
      = edgeLoop0 m i n (k + 1)
          (shipEdgeStep0 m (asteroidVertex m (s.asteroids i) k).x
            (asteroidVertex m (s.asteroids i) k).y x1 y1 s,
            (asteroidVertex m (s.asteroids i) k).x, (asteroidVertex m (s.asteroids i) k).y) := rfl

theorem example_circles (ship : Ship) (hx : ship.x = 0) (hy : ship.y = 0) (hs : ship.size = 4) :
    inBroadCircle exampleAsteroid ship ∧ ¬ inInnerCircle exampleAsteroid ship := by
  constructor
  · simp only [inBroadCircle, distSq, hx, hy, hs, exampleAsteroid, ASTEROID_SMALL,
      MAX_ASTEROID_VARIANCE]
    norm_num
  · simp only [inInnerCircle, distSq, hx, hy, exampleAsteroid, ASTEROID_SMALL,
      MIN_ASTEROID_VARIANCE]
    norm_num

/-- In `cascadeGame` the first edge of the asteroid destroys the right side, and with it the
whole ship. -/
theorem cascade_edgePass :
    edgePass0 octantLibM 0 cascadeGame = hitRight octantLibM cascadeGame := by
  have hv := example_vertices
  have hcr := (example_crossings cascadeGame.ship rfl rfl rfl rfl).1
  have hc := hitRight_cascade octantLibM cascadeGame rfl rfl
    (show (0 : ℚ) < 20 by norm_num) (show (20 : ℚ) ≤ 20 from le_refl _)
    (show (0 : Int) ≤ 0 from le_refl _) (show (-1 : Int) < 0 by decide)
  have hbroad := (example_circles cascadeGame.ship rfl rfl rfl).1
  have hact : (exampleAsteroid).active ≠ 0 := by show (1 : Int) ≠ 0; decide
  have hstep : shipEdgeStep0 octantLibM 0 3 (7071 / 2500) (12929 / 2500) cascadeGame
      = hitRight octantLibM cascadeGame := by
    unfold shipEdgeStep0
    have h1 : (crossesRight octantLibM cascadeGame.ship 0 3 (7071 / 2500) (12929 / 2500) ≠ 0)
        := by rw [hcr]; decide
    rw [if_pos h1]
    simp only [(hit_dead octantLibM _ hc.1).2.1, (hit_dead octantLibM _ hc.1).2.2, ite_self]
  unfold edgePass0
  have ha : cascadeGame.asteroids 0 = exampleAsteroid := rfl
  simp only [ha]
  rw [if_pos ⟨hact, hbroad⟩]
  have h8 : exampleAsteroid.nVertices.toNat = 7 + 1 := rfl
  have h7 : exampleAsteroid.nVertices - 1 = 7 := rfl
  rw [h8, h7, edgeLoop0_succ, ha]
  simp only [hv.1, hv.2.2, Nat.cast_zero]
  rw [hstep]
  exact edgeLoop0_dead octantLibM 0 7 1 _ _ _ hc.1

theorem collisionLoop_succ0 (m : LibM) (n i : Nat) (s : Game) (ht : s.ship.type = 0) :
    collisionAsteroidShipLoop m (n + 1) i s
      = collisionAsteroidShipLoop m n (i + 1) (innerCircle0 m i (edgePass0 m i s)) := by
  simp only [collisionAsteroidShipLoop, ht, if_true, shipAsteroid0]

/-- C10 (amended): for a ship of type 0 whose origin is outside the inner circle of every
active asteroid and whose right and back sides cannot be destroyed by a direct hit in this pass
(so that `destroyShip` is not called):
(1) with `LDmg = 0` and `LHp = 100`, if `lineCollision` reports that the left side meets an
edge of an active asteroid whose broad circle contains the ship's origin, one pass of
`collisionAsteroidShip` ends with `LHp = 80` and `LDmg = 50`;
(2) with `LDmg > 0`, a pass changes neither `LHp` nor `LDmg`, whatever the edges do;
(3) from `LDmg = 50` with `LHp > 0`, `k <= 50` calls of `updateDamage` leave `LDmg = 50 - k`
and `LHp` unchanged, so `LDmg` is back at `0` after exactly 50 calls. -/
theorem collisionAsteroidShip_left_hit (m : LibM) (s : Game) (ht : s.ship.type = 0) :
    (s.ship.LDmg = 0 → s.ship.LHp = 100 →
      sideSafe s.ship.RDmg s.ship.RHp → sideSafe s.ship.BDmg s.ship.BHp →
      (∀ j, j < MAX_ASTEROIDS → (s.asteroids j).active ≠ 0 →
        ¬ inInnerCircle (s.asteroids j) s.ship) →
      (∃ j k, j < MAX_ASTEROIDS ∧ (s.asteroids j).active ≠ 0 ∧
        inBroadCircle (s.asteroids j) s.ship ∧ k < (s.asteroids j).nVertices.toNat ∧
        crossesLeft m s.ship (asteroidVertex m (s.asteroids j) k).x
          (asteroidVertex m (s.asteroids j) k).y (asteroidEdgeStart m (s.asteroids j) k).x
          (asteroidEdgeStart m (s.asteroids j) k).y ≠ 0) →
      (collisionAsteroidShip m s).ship.LHp = 80 ∧ (collisionAsteroidShip m s).ship.LDmg = 50) ∧
    (0 < s.ship.LDmg →
      sideSafe s.ship.RDmg s.ship.RHp → sideSafe s.ship.BDmg s.ship.BHp →
      (∀ j, j < MAX_ASTEROIDS → (s.asteroids j).active ≠ 0 →
        ¬ inInnerCircle (s.asteroids j) s.ship) →
      (collisionAsteroidShip m s).ship.LHp = s.ship.LHp ∧
      (collisionAsteroidShip m s).ship.LDmg = s.ship.LDmg) ∧
    (s.ship.LDmg = 50 → 0 < s.ship.LHp → ∀ k : Nat, k ≤ 50 →
      (updateDamageN k s).ship.LDmg = 50 - k ∧ (updateDamageN k s).ship.LHp = s.ship.LHp) := by
  refine ⟨?_, ?_, ?_⟩
  · intro h0 h100 hR hB hin ⟨j, k, hj, ha, hb, hk, hc⟩
    have hinv : PassInv s s := ⟨rfl, Or.inr (Or.inr (by rw [h100]; norm_num)), hR, hB⟩
    obtain ⟨_, _, p3⟩ := collisionLoop0_safe m s ht MAX_ASTEROIDS 0 s hinv
      (fun j _ h2 => hin j (by omega))
    have hit := p3 j (Nat.zero_le j) (by omega) ha hb k hk hc h0 (by rw [h100]; norm_num)
    unfold collisionAsteroidShip
    refine ⟨?_, hit.2.2.2⟩
    rw [hit.2.2.1, h100]
    norm_num
  · intro hpos hR hB hin
    have hinv : PassInv s s := ⟨rfl, Or.inl (by omega), hR, hB⟩
    obtain ⟨_, p2, _⟩ := collisionLoop0_safe m s ht MAX_ASTEROIDS 0 s hinv
      (fun j _ h2 => hin j (by omega))
    unfold collisionAsteroidShip
    rcases p2 with e | e
    · exact e
    · have := e.1
      omega
  · intro h50 hp k hk
    obtain ⟨q1, q2⟩ := updateDamageN_left k s ht hp (by rw [h50]; omega)
    exact ⟨by rw [q1, h50], q2⟩

/-- Witness of C10 (amended): in `leftHitGame` edge 1 of the asteroid crosses the left side of
the ship, and the pass brings the left side from 100 to 80 hit points with a timer of 50. -/
theorem collisionAsteroidShip_left_hit_witness :
    (collisionAsteroidShip octantLibM leftHitGame).ship.LHp = 80 ∧
    (collisionAsteroidShip octantLibM leftHitGame).ship.LDmg = 50 :=
  (collisionAsteroidShip_left_hit octantLibM leftHitGame rfl).1 rfl rfl
    (Or.inr (Or.inr (by show (20 : ℚ) < 100; norm_num)))
    (Or.inr (Or.inr (by show (20 : ℚ) < 100; norm_num)))
    (fun j _ ha => by
      have hj : j = 0 := by
        by_contra hne
        have : leftHitGame.asteroids j = {} := by simp [leftHitGame, hne]
        rw [this] at ha
        exact ha rfl
      subst hj
      exact (example_circles leftHitGame.ship rfl rfl rfl).2)
    ⟨0, 1, by decide, by show (1 : Int) ≠ 0; decide,
      (example_circles leftHitGame.ship rfl rfl rfl).1, by decide, by
        have hv := example_vertices
        have hcr := (example_crossings leftHitGame.ship rfl rfl rfl rfl).2
        have ha : leftHitGame.asteroids 0 = exampleAsteroid := rfl
        have he : asteroidEdgeStart octantLibM exampleAsteroid 1
            = asteroidVertex octantLibM exampleAsteroid 0 := by
          simp [asteroidEdgeStart]
        rw [ha, he]
        simp only [Nat.cast_one, hv.1, hv.2.1]
        rw [hcr]
        decide⟩

/-- C10 (as stated, refuted): in `cascadeGame` the ship has type 0, `LDmg = 0` and `LHp = 100`;
edge 1 of the active asteroid crosses its left side while its origin is outside the inner
circle of that asteroid; yet the pass ends with `LHp = 0` and `LDmg = -1`, because edge 0
destroys the right side and, the back side being gone already, `destroyShip` destroys the
whole ship. -/
theorem collisionAsteroidShip_cascade :
    cascadeGame.ship.type = 0 ∧ cascadeGame.ship.LDmg = 0 ∧ cascadeGame.ship.LHp = 100 ∧
    (cascadeGame.asteroids 0).active ≠ 0 ∧
    ¬ inInnerCircle (cascadeGame.asteroids 0) cascadeGame.ship ∧
    crossesLeft octantLibM cascadeGame.ship
      (asteroidVertex octantLibM (cascadeGame.asteroids 0) 1).x
      (asteroidVertex octantLibM (cascadeGame.asteroids 0) 1).y
      (asteroidEdgeStart octantLibM (cascadeGame.asteroids 0) 1).x
      (asteroidEdgeStart octantLibM (cascadeGame.asteroids 0) 1).y ≠ 0 ∧
    (collisionAsteroidShip octantLibM cascadeGame).ship.LHp = 0 ∧
    (collisionAsteroidShip octantLibM cascadeGame).ship.LDmg = -1 := by
  have hc := hitRight_cascade octantLibM cascadeGame rfl rfl
    (show (0 : ℚ) < 20 by norm_num) (show (20 : ℚ) ≤ 20 from le_refl _)
    (show (0 : Int) ≤ 0 from le_refl _) (show (-1 : Int) < 0 by decide)
  have hpass : (collisionAsteroidShip octantLibM cascadeGame).ship.LHp = 0 ∧
      (collisionAsteroidShip octantLibM cascadeGame).ship.LDmg = -1 := by
    have h16 : collisionAsteroidShip octantLibM cascadeGame
        = collisionAsteroidShipLoop octantLibM (15 + 1) 0 cascadeGame := rfl
    rw [h16, collisionLoop_succ0 octantLibM 15 0 cascadeGame rfl, cascade_edgePass]
    obtain ⟨p1, p2, p3, p4⟩ := innerCircle0_dead octantLibM 0 _ hc.1
    obtain ⟨q1, q2⟩ := collisionLoop0_dead octantLibM 15 1 _ (p4.trans hc.2.2.2.1) p1
    exact ⟨q1.trans (p2.trans hc.2.1), q2.trans (p3.trans hc.2.2.1)⟩
  refine ⟨rfl, rfl, rfl, by show (1 : Int) ≠ 0; decide,
    (example_circles cascadeGame.ship rfl rfl rfl).2, ?_, hpass.1, hpass.2⟩
  have hv := example_vertices
  have hcr := (example_crossings cascadeGame.ship rfl rfl rfl rfl).2
  have ha : cascadeGame.asteroids 0 = exampleAsteroid := rfl
  have he : asteroidEdgeStart octantLibM exampleAsteroid 1
      = asteroidVertex octantLibM exampleAsteroid 0 := by
    simp [asteroidEdgeStart]
  rw [ha, he]
  simp only [hv.1, hv.2.1]
  rw [hcr]
  decide

/-! ### `destroyShip`: the sides of a ship of type 0 -/

theorem spawnShipPiece0_rest (c1 c2 : Coords) (s : Game) :
    (spawnShipPiece0 c1 c2 s).ship = s.ship ∧ (spawnShipPiece0 c1 c2 s).respawn = s.respawn := by
  unfold spawnShipPiece0
  cases findFreeDebris MAX_DEBRIS 0 s.debris <;> exact ⟨rfl, rfl⟩

theorem destroySide_ship (m : LibM) (s : Game) :
    ((destroyLeft m s).ship = { s.ship with LDmg := -1 } ∧
      (destroyLeft m s).respawn = s.respawn) ∧
    ((destroyRight m s).ship = { s.ship with RDmg := -1 } ∧
      (destroyRight m s).respawn = s.respawn) ∧
    ((destroyBack m s).ship = { s.ship with BDmg := -1 } ∧
      (destroyBack m s).respawn = s.respawn) := by
  refine ⟨⟨?_, ?_⟩, ⟨?_, ?_⟩, ⟨?_, ?_⟩⟩
  · show ({ (spawnShipPiece0 _ _ s).ship with LDmg := -1 } : Ship) = _
    rw [(spawnShipPiece0_rest _ _ s).1]
  · exact (spawnShipPiece0_rest _ _ s).2
  · show ({ (spawnShipPiece0 _ _ s).ship with RDmg := -1 } : Ship) = _
    rw [(spawnShipPiece0_rest _ _ s).1]
  · exact (spawnShipPiece0_rest _ _ s).2
  · show ({ (spawnShipPiece0 _ _ s).ship with BDmg := -1 } : Ship) = _
    rw [(spawnShipPiece0_rest _ _ s).1]
  · exact (spawnShipPiece0_rest _ _ s).2

/-- The ship and `respawn` after `destroyShip` when no side of a ship of type 0 was destroyed
before. -/
theorem destroyShip_first_ship (m : LibM) (s : Game) (ht : s.ship.type = 0)
    (hL : s.ship.LDmg ≥ 0) (hR : s.ship.RDmg ≥ 0) (hB : s.ship.BDmg ≥ 0) :
    (destroyShip m s).ship =
      { s.ship with
        LDmg := if s.ship.LHp ≤ 0 then -1 else s.ship.LDmg
        RDmg := if s.ship.RHp ≤ 0 then -1 else s.ship.RDmg
        BDmg := if s.ship.BHp ≤ 0 then -1 else s.ship.BDmg } ∧
    (destroyShip m s).respawn = s.respawn := by
  unfold destroyShip
  rw [if_pos ht, if_pos ⟨hL, hR, hB⟩]
  by_cases h1 : s.ship.LHp ≤ 0 <;> by_cases h2 : s.ship.RHp ≤ 0 <;>
    by_cases h3 : s.ship.BHp ≤ 0 <;>
    simp [h1, h2, h3, (destroySide_ship m _).1, (destroySide_ship m _).2.1,
      (destroySide_ship m _).2.2]

/-- The ship and `respawn` after `destroyShip` when a side of a ship of type 0 was destroyed
before: `BDmg` is not assigned. -/
theorem destroyShip_second_ship (m : LibM) (s : Game) (ht : s.ship.type = 0)
    (hn : ¬ (s.ship.LDmg ≥ 0 ∧ s.ship.RDmg ≥ 0 ∧ s.ship.BDmg ≥ 0)) :
    (destroyShip m s).ship =
      { s.ship with
        LDmg := if s.ship.LDmg ≥ 0 then -1 else s.ship.LDmg
        RDmg := if s.ship.RDmg ≥ 0 then -1 else s.ship.RDmg
        LHp := 0, RHp := 0, BHp := 0 } ∧
    (destroyShip m s).respawn = 200 := by
  unfold destroyShip
  rw [if_pos ht, if_neg hn]
  by_cases h1 : s.ship.LDmg ≥ 0 <;> by_cases h2 : s.ship.RDmg ≥ 0 <;>
    by_cases h3 : s.ship.BDmg ≥ 0 <;>
    simp [h1, h2, h3, (destroySide_ship m _).1, (destroySide_ship m _).2.1,
      (spawnShipPiece0_rest _ _ _).1]

theorem findFreeDebris_none (n : Nat) :
    ∀ (i : Nat) (debris : Nat → Debris),
      findFreeDebris n i debris = none → ∀ j, i ≤ j → j < i + n → (debris j).active ≠ 0 := by
  induction n with
  | zero => intro i debris _ j h1 h2; omega
  | succ n ih =>
    intro i debris h j h1 h2
    simp only [findFreeDebris] at h
    split_ifs at h with h0
    by_cases hj : j = i
    · subst hj; exact h0
    · exact ih (i + 1) debris h j (by omega) (by omega)

theorem findFreeDebris_range (n : Nat) :
    ∀ (i k : Nat) (debris : Nat → Debris),
      findFreeDebris n i debris = some k → i ≤ k ∧ k < i + n := by
  induction n with
  | zero => intro i k debris h; simp [findFreeDebris] at h
  | succ n ih =>
    intro i k debris h
    simp only [findFreeDebris] at h
    split_ifs at h with h0
    · cases h; omega
    · have := ih (i + 1) k debris h
      omega

theorem countFrom_update_free {T : Type} (act : T → Int) (pool : Nat → T) (k : Nat) (t : T)
    (hk : act (pool k) = 0) (ht : act t ≠ 0) (n : Nat) :
    ∀ i, i ≤ k → k < i + n →
      countFrom (fun j => decide (act (Function.update pool k t j) = 0)) i n + 1
        = countFrom (fun j => decide (act (pool j) = 0)) i n := by
  induction n with
  | zero => intro i h1 h2; omega
  | succ n ih =>
    intro i h1 h2
    simp only [countFrom]
    by_cases hik : i = k
    · subst hik
      have e : countFrom (fun j => decide (act (Function.update pool i t j) = 0)) (i + 1) n
          = countFrom (fun j => decide (act (pool j) = 0)) (i + 1) n := by
        apply countFrom_congr
        intro j hj _
        rw [Function.update_noteq (by omega : j ≠ i)]
      rw [e]
      simp only [Function.update_same]
      simp [hk, ht]
      omega
    · have := ih (i + 1) (by omega) (by omega)
      simp only [Function.update_noteq hik]
      omega

theorem wreckageOnly_refl (d : Nat → Debris) : WreckageOnly d d := fun _ => Or.inl rfl

theorem wreckageOnly_chain {d e f : Nat → Debris} (h1 : WreckageOnly d e)
    (h2 : WreckageOnly e f) : WreckageOnly d f := by
  intro j
  rcases h2 j with h | ⟨ha, hb, hc⟩
  · rw [h]; exact h1 j
  · rcases h1 j with h | ⟨_, hb', _⟩
    · right; rw [← h]; exact ⟨ha, hb, hc⟩
    · rw [hb'] at ha; exact absurd ha (by decide)

theorem spawnShipPiece0_wreckage (c1 c2 : Coords) (s : Game) :
    WreckageOnly s.debris (spawnShipPiece0 c1 c2 s).debris ∧
    freeDebris (spawnShipPiece0 c1 c2 s) = freeDebris s - 1 := by
  unfold spawnShipPiece0
  cases h : findFreeDebris MAX_DEBRIS 0 s.debris with
  | none =>
    refine ⟨wreckageOnly_refl _, ?_⟩
    have h0 : freeDebris s = 0 := by
      unfold freeDebris
      apply countFrom_eq_zero
      intro j h1 h2
      have := findFreeDebris_none _ _ _ h j h1 h2
      simp [this]
    show freeDebris s = freeDebris s - 1
    rw [h0]
  | some i =>
    have hi := findFreeDebris_some _ _ _ _ h
    have hr := findFreeDebris_range _ _ _ _ h
    refine ⟨?_, ?_⟩
    · intro j
      by_cases hj : j = i
      · subst hj
        right
        refine ⟨hi, ?_, ?_⟩ <;> simp [shipPiece0]
      · left
        simp [Function.update_noteq hj]
    · have hc := countFrom_update_free Debris.active s.debris i
        (shipPiece0 s.ship c1 c2 s.rng (s.debris i)) hi (by simp [shipPiece0]) MAX_DEBRIS 0
        hr.1 hr.2
      have e : freeDebris s = freeDebris
          { s with
            debris := Function.update s.debris i (shipPiece0 s.ship c1 c2 s.rng (s.debris i))
            rng := s.rng.skip 6 } + 1 := hc.symm
      rw [e]
      rfl

theorem destroySide_wreckage (m : LibM) (s : Game) :
    (WreckageOnly s.debris (destroyLeft m s).debris ∧
      freeDebris (destroyLeft m s) = freeDebris s - 1) ∧
    (WreckageOnly s.debris (destroyRight m s).debris ∧
      freeDebris (destroyRight m s) = freeDebris s - 1) ∧
    (WreckageOnly s.debris (destroyBack m s).debris ∧
      freeDebris (destroyBack m s) = freeDebris s - 1) :=
  ⟨spawnShipPiece0_wreckage _ _ s, spawnShipPiece0_wreckage _ _ s,
    spawnShipPiece0_wreckage _ _ s⟩

/-- A conditional step that creates one piece of wreckage and keeps the hit points. -/
theorem wreckage_step (c : Prop) [Decidable c] (f : Game → Game) (s0 s : Game) (k : Nat)
    (h0 : WreckageOnly s0.debris s.debris ∧ freeDebris s = freeDebris s0 - k)
    (hf : WreckageOnly s.debris (f s).debris ∧ freeDebris (f s) = freeDebris s - 1) :
    WreckageOnly s0.debris (if c then f s else s).debris ∧
    freeDebris (if c then f s else s) = freeDebris s0 - (k + if c then 1 else 0) := by
  by_cases hc : c
  · rw [if_pos hc, if_pos hc]
    refine ⟨wreckageOnly_chain h0.1 hf.1, ?_⟩
    rw [hf.2, h0.2, Nat.sub_sub]
  · rw [if_neg hc, if_neg hc]
    exact ⟨h0.1, h0.2⟩

/-- C11 (the code at the failing input): the ship of `lostLeftGame` is of type 0 and lost its
left side before; `destroyShip` turns its right and back sides into wreckage and sets the three
`Hp` values to `0`, but `BDmg` keeps its value `0`: the back side has no hit points and a
counter that is not negative. -/
theorem destroyShip_back_counter_not_negative (m : LibM) :
    lostLeftGame.ship.type = 0 ∧ lostLeftGame.ship.BDmg = 0 ∧
    (destroyShip m lostLeftGame).ship.BHp = 0 ∧ (destroyShip m lostLeftGame).ship.BDmg = 0 ∧
    (destroyShip m lostLeftGame).ship.LDmg = -1 ∧ (destroyShip m lostLeftGame).ship.RDmg = -1 := by
  have h := (destroyShip_second_ship m lostLeftGame rfl (by decide)).1
  rw [h]
  exact ⟨rfl, rfl, rfl, rfl, rfl, rfl⟩

/-- C12: for a ship of type 0 whose three `Dmg` counters are all `>= 0`, `destroyShip` sets
`Dmg = -1` for the sides whose `Hp` is `<= 0` and leaves the counter of every other side, the
three `Hp` values and `respawn` unchanged; every debris slot is untouched or was inactive and now
holds an active piece of type 0, and the number of inactive slots drops by one per side without
hit points (as long as inactive slots are left). -/
theorem destroyShip_first_piece_only (m : LibM) (s : Game) (ht : s.ship.type = 0)
    (hL : s.ship.LDmg ≥ 0) (hR : s.ship.RDmg ≥ 0) (hB : s.ship.BDmg ≥ 0) :
    (destroyShip m s).ship.LDmg = (if s.ship.LHp ≤ 0 then -1 else s.ship.LDmg) ∧
    (destroyShip m s).ship.RDmg = (if s.ship.RHp ≤ 0 then -1 else s.ship.RDmg) ∧
    (destroyShip m s).ship.BDmg = (if s.ship.BHp ≤ 0 then -1 else s.ship.BDmg) ∧
    (destroyShip m s).ship.LHp = s.ship.LHp ∧ (destroyShip m s).ship.RHp = s.ship.RHp ∧
    (destroyShip m s).ship.BHp = s.ship.BHp ∧ (destroyShip m s).respawn = s.respawn ∧
    WreckageOnly s.debris (destroyShip m s).debris ∧
    freeDebris (destroyShip m s) = freeDebris s - deadSides s.ship := by
  obtain ⟨hs, hr⟩ := destroyShip_first_ship m s ht hL hR hB
  refine ⟨by rw [hs], by rw [hs], by rw [hs], by rw [hs], by rw [hs], by rw [hs], hr, ?_⟩
  have e : destroyShip m s =
      (fun s1 : Game =>
        (fun s2 : Game => if s2.ship.BHp ≤ 0 then destroyBack m s2 else s2)
          (if s1.ship.RHp ≤ 0 then destroyRight m s1 else s1))
        (if s.ship.LHp ≤ 0 then destroyLeft m s else s) := by
    unfold destroyShip
    rw [if_pos ht, if_pos ⟨hL, hR, hB⟩]
  rw [e]
  dsimp only
  have h1 := wreckage_step (s.ship.LHp ≤ 0) (destroyLeft m) s s 0
    ⟨wreckageOnly_refl _, rfl⟩ (destroySide_wreckage m s).1
  have e1 : (if s.ship.LHp ≤ 0 then destroyLeft m s else s).ship.RHp = s.ship.RHp ∧
      (if s.ship.LHp ≤ 0 then destroyLeft m s else s).ship.BHp = s.ship.BHp := by
    split_ifs
    · rw [(destroySide_ship m s).1.1]; exact ⟨rfl, rfl⟩
    · exact ⟨rfl, rfl⟩
  generalize (if s.ship.LHp ≤ 0 then destroyLeft m s else s) = s1 at h1 e1 ⊢
  have h2 := wreckage_step (s1.ship.RHp ≤ 0) (destroyRight m) s s1 _ h1
    (destroySide_wreckage m s1).2.1
  have e2 : (if s1.ship.RHp ≤ 0 then destroyRight m s1 else s1).ship.BHp = s.ship.BHp := by
    split_ifs
    · rw [(destroySide_ship m s1).2.1.1]; exact e1.2
    · exact e1.2
  generalize (if s1.ship.RHp ≤ 0 then destroyRight m s1 else s1) = s2 at h2 e2 ⊢
  have h3 := wreckage_step (s2.ship.BHp ≤ 0) (destroyBack m) s s2 _ h2
    (destroySide_wreckage m s2).2.2
  rw [e1.1] at h3
  rw [e2] at h3 ⊢
  refine ⟨h3.1, ?_⟩
  rw [h3.2]
  unfold deadSides
  rw [Nat.zero_add]

/-- Witness of C12: in `allSidesDownGame` the three counters become `-1` and the three pieces of
wreckage use three of the 25 free debris slots. -/
theorem destroyShip_first_piece_only_witness :
    (destroyShip demoLibM allSidesDownGame).ship.BDmg = -1 ∧
    (destroyShip demoLibM allSidesDownGame).respawn = -1 ∧
    freeDebris (destroyShip demoLibM allSidesDownGame) = 22 := by
  have h := destroyShip_first_piece_only demoLibM allSidesDownGame rfl (by decide) (by decide)
    (by decide)
  refine ⟨?_, h.2.2.2.2.2.2.1, ?_⟩
  · rw [h.2.2.1]
    norm_num [allSidesDownGame, exampleShip]
  · rw [h.2.2.2.2.2.2.2.2]
    have hd : deadSides allSidesDownGame.ship = 3 := by
      norm_num [deadSides, allSidesDownGame, exampleShip]
    rw [hd]
    rfl

/-- C13: for a ship of type 0 with at least one negative `Dmg` counter, `destroyShip` sets
`LHp = RHp = BHp = 0` and `respawn = 200`; and when the three `Hp` values are `<= 0` and the
three counters `>= 0`, a first call leaves `respawn` unchanged and a second call sets it to
200. -/
theorem destroyShip_respawn_on_second_call (m : LibM) (s : Game) (ht : s.ship.type = 0) :
    ((s.ship.LDmg < 0 ∨ s.ship.RDmg < 0 ∨ s.ship.BDmg < 0) →
      (destroyShip m s).ship.LHp = 0 ∧ (destroyShip m s).ship.RHp = 0 ∧
      (destroyShip m s).ship.BHp = 0 ∧ (destroyShip m s).respawn = 200) ∧
    ((s.ship.LHp ≤ 0 ∧ s.ship.RHp ≤ 0 ∧ s.ship.BHp ≤ 0) →
      (s.ship.LDmg ≥ 0 ∧ s.ship.RDmg ≥ 0 ∧ s.ship.BDmg ≥ 0) →
      (destroyShip m s).respawn = s.respawn ∧
      (destroyShip m (destroyShip m s)).respawn = 200) := by
  constructor
  · intro hneg
    have hn : ¬ (s.ship.LDmg ≥ 0 ∧ s.ship.RDmg ≥ 0 ∧ s.ship.BDmg ≥ 0) := by omega
    obtain ⟨hs, hr⟩ := destroyShip_second_ship m s ht hn
    rw [hs]
    exact ⟨rfl, rfl, rfl, hr⟩
  · intro hp hd
    obtain ⟨hs, hr⟩ := destroyShip_first_ship m s ht hd.1 hd.2.1 hd.2.2
    refine ⟨hr, ?_⟩
    have ht' : (destroyShip m s).ship.type = 0 := by rw [hs]; exact ht
    have hn : ¬ ((destroyShip m s).ship.LDmg ≥ 0 ∧ (destroyShip m s).ship.RDmg ≥ 0 ∧
        (destroyShip m s).ship.BDmg ≥ 0) := by
      rw [hs]
      simp [hp.1]
    exact (destroyShip_second_ship m (destroyShip m s) ht' hn).2

/-- Witness of C13: the ship of `lostLeftGame` goes to the respawn countdown at once, the ship of
`allSidesDownGame` at the second call. -/
theorem destroyShip_respawn_on_second_call_witness :
    (destroyShip demoLibM lostLeftGame).respawn = 200 ∧
    (destroyShip demoLibM allSidesDownGame).respawn = -1 ∧
    (destroyShip demoLibM (destroyShip demoLibM allSidesDownGame)).respawn = 200 := by
  have h1 := (destroyShip_respawn_on_second_call demoLibM lostLeftGame rfl).1
    (Or.inl (by decide))
  have h2 := (destroyShip_respawn_on_second_call demoLibM allSidesDownGame rfl).2
    (by norm_num [allSidesDownGame, exampleShip]) (by decide)
  exact ⟨h1.2.2.2, h2.1, h2.2⟩

/-! ### `updateRespawn` and the return to the title screen -/

theorem updateRespawnN_add (m : LibM) (a b : Nat) :
    ∀ s : Game, updateRespawnN m (a + b) s =
      ((updateRespawnN m b (updateRespawnN m a s).1).1,
        (updateRespawnN m a s).2 + (updateRespawnN m b (updateRespawnN m a s).1).2) := by
  induction a with
  | zero => intro s; simp [updateRespawnN]
  | succ a ih =>
    intro s
    rw [Nat.add_right_comm]
    simp only [updateRespawnN]
    rw [ih]
    simp only [Nat.add_assoc]

theorem updateRespawnN_counting (m : LibM) (k : Nat) :
    ∀ s : Game, (k : Int) ≤ s.respawn →
      updateRespawnN m k s = ({ s with respawn := s.respawn - k }, 0) := by
  induction k with
  | zero =>
    intro s _
    simp only [updateRespawnN, Nat.cast_zero, sub_zero]
  | succ k ih =>
    intro s hk
    have hpos : s.respawn > 0 := by omega
    have e : updateRespawn m s = ({ s with respawn := s.respawn - 1 }, false) := by
      unfold updateRespawn
      rw [if_pos hpos]
    simp only [updateRespawnN]
    rw [e]
    dsimp only
    rw [ih { s with respawn := s.respawn - 1 } (by show (k : Int) ≤ s.respawn - 1; omega)]
    have e2 : s.respawn - 1 - (k : Int) = s.respawn - ((k + 1 : Nat) : Int) := by
      push_cast; ring
    simp only [e2]
    rfl

theorem updateRespawnN_idle (m : LibM) (k : Nat) :
    ∀ s : Game, s.respawn < 0 → updateRespawnN m k s = (s, 0) := by
  induction k with
  | zero => intro s _; rfl
  | succ k ih =>
    intro s hs
    have e : updateRespawn m s = (s, false) := by
      unfold updateRespawn
      rw [if_neg (by omega), if_neg (by omega)]
    simp only [updateRespawnN]
    rw [e]
    dsimp only
    rw [ih s hs]
    rfl

theorem changeState_title (m : LibM) (s : Game) (hs : s.state ≠ STATE_TITLE) :
    (changeState m STATE_TITLE s).respawn = -1 ∧
    (changeState m STATE_TITLE s).state = STATE_TITLE := by
  unfold changeState
  simp only [if_pos hs, enterState, true_or, if_true]
  exact ⟨rfl, trivial⟩

/-- C14: from `respawn = 200` in the asteroids state, the first 200 calls of `updateRespawn`
only decrement `respawn` and none of them goes through `changeState`; the next call does, and
that transition leaves `respawn = -1` in the title state; after any number of calls from 201 on
the state is the one that transition produced and the count of `changeState` calls is 1. -/
theorem updateRespawn_returns_to_title_once (m : LibM) (s : Game) (hr : s.respawn = 200)
    (hs : s.state = STATE_ASTEROIDS) :
    (∀ k : Nat, k ≤ 200 → updateRespawnN m k s = ({ s with respawn := 200 - k }, 0)) ∧
    updateRespawn m (updateRespawnN m 200 s).1
      = (changeState m STATE_TITLE { s with respawn := 0 }, true) ∧
    (changeState m STATE_TITLE { s with respawn := 0 }).respawn = -1 ∧
    (changeState m STATE_TITLE { s with respawn := 0 }).state = STATE_TITLE ∧
    (∀ k : Nat, 201 ≤ k →
      updateRespawnN m k s = (changeState m STATE_TITLE { s with respawn := 0 }, 1)) := by
  have hcount : ∀ k : Nat, k ≤ 200 →
      updateRespawnN m k s = ({ s with respawn := 200 - k }, 0) := by
    intro k hk
    rw [updateRespawnN_counting m k s (by rw [hr]; omega), hr]
  have h200 : updateRespawnN m 200 s = ({ s with respawn := 0 }, 0) := by
    rw [hcount 200 (le_refl 200)]
    rfl
  have hne : ({ s with respawn := 0 } : Game).state ≠ STATE_TITLE := by
    show s.state ≠ STATE_TITLE
    rw [hs]
    decide
  have hcall : updateRespawn m { s with respawn := 0 }
      = (changeState m STATE_TITLE { s with respawn := 0 }, true) := by
    unfold updateRespawn
    rw [if_neg (by show ¬ ((0 : Int) > 0); decide), if_pos (by rfl)]
  obtain ⟨ht1, ht2⟩ := changeState_title m { s with respawn := 0 } hne
  refine ⟨hcount, by rw [h200]; exact hcall, ht1, ht2, ?_⟩
  intro k hk
  obtain ⟨j, rfl⟩ : ∃ j, k = 200 + (1 + j) := ⟨k - 201, by omega⟩
  rw [updateRespawnN_add, h200]
  dsimp only
  rw [updateRespawnN_add]
  have h1 : updateRespawnN m 1 { s with respawn := 0 }
      = (changeState m STATE_TITLE { s with respawn := 0 }, 1) := by
    simp only [updateRespawnN]
    rw [hcall]
    rfl
  rw [h1]
  dsimp only
  rw [updateRespawnN_idle m j _ (by rw [ht1]; decide)]
  rfl

/-- Witness of C14: the state `respawningGame`, in the asteroids state with `respawn = 200`. -/
theorem updateRespawn_returns_to_title_once_witness :
    updateRespawnN demoLibM 200 respawningGame = ({ respawningGame with respawn := 0 }, 0) ∧
    (updateRespawnN demoLibM 500 respawningGame).2 = 1 ∧
    (updateRespawnN demoLibM 500 respawningGame).1.respawn = -1 := by
  have h := updateRespawn_returns_to_title_once demoLibM respawningGame rfl rfl
  refine ⟨h.1 200 (le_refl 200), ?_, ?_⟩
  · rw [h.2.2.2.2 500 (by decide)]
  · rw [h.2.2.2.2 500 (by decide)]
    exact h.2.2.1

/-! ### `updateLevelText` and `nextLevel` -/

theorem countFrom_below (k n : Nat) :
    ∀ a, countFrom (fun i => decide (i < k)) a n = min (a + n) k - min a k := by
  induction n with
  | zero => intro a; simp [countFrom]
  | succ n ih =>
    intro a
    simp only [countFrom]
    rw [ih (a + 1)]
    by_cases h : a < k
    · simp only [h, decide_True, if_true]
      omega
    · simp only [h, decide_False]
      simp
      omega

theorem initAsteroidValue_fields (m : LibM) (xMax yMax : ℚ) (sz : Int) (g : Rng)
    (old : Asteroid) :
    (initAsteroidValue m xMax yMax sz g old).1.active = 1 ∧
    (initAsteroidValue m xMax yMax sz g old).1.size = sz := by
  unfold initAsteroidValue
  dsimp only
  split_ifs <;> exact ⟨rfl, rfl⟩

theorem nextLevelLoop_spec (m : LibM) (n : Nat) :
    ∀ (i : Nat) (s : Game),
      (nextLevelLoop m n i s).level = s.level ∧
      (nextLevelLoop m n i s).maxLevel = s.maxLevel ∧
      (nextLevelLoop m n i s).levelTextLifetime = s.levelTextLifetime ∧
      ∀ j, (i ≤ j → j < i + n →
          ((nextLevelLoop m n i s).asteroids j).active = 1 ∧
          ((nextLevelLoop m n i s).asteroids j).size = ASTEROID_LARGE) ∧
        (¬ (i ≤ j ∧ j < i + n) → (nextLevelLoop m n i s).asteroids j = s.asteroids j) := by
  induction n with
  | zero =>
    intro i s
    exact ⟨rfl, rfl, rfl, fun j => ⟨fun h1 h2 => by omega, fun _ => rfl⟩⟩
  | succ n ih =>
    intro i s
    obtain ⟨h1, h2, h3, h4⟩ := ih (i + 1) (initAsteroid m i ASTEROID_LARGE s)
    simp only [nextLevelLoop]
    refine ⟨h1, h2, h3, fun j => ⟨fun hj1 hj2 => ?_, fun hj => ?_⟩⟩
    · by_cases hji : j = i
      · subst hji
        rw [(h4 j).2 (by omega)]
        show (Function.update s.asteroids j _ j).active = 1 ∧
          (Function.update s.asteroids j _ j).size = ASTEROID_LARGE
        rw [Function.update_same]
        exact initAsteroidValue_fields m _ _ _ _ _
      · exact (h4 j).1 (by omega) (by omega)
    · rw [(h4 j).2 (by omega)]
      show Function.update s.asteroids i _ j = s.asteroids j
      rw [Function.update_noteq (by omega)]

theorem nextLevel_final (m : LibM) (s : Game) (h : s.level ≥ s.maxLevel) : nextLevel m s = s := by
  unfold nextLevel
  rw [if_neg (by omega)]

theorem nextLevel_spec (m : LibM) (s : Game) (h0 : 0 ≤ s.level) (h : s.level < s.maxLevel) :
    (nextLevel m s).level = s.level + 1 ∧
    (nextLevel m s).maxLevel = s.maxLevel ∧
    (nextLevel m s).levelTextLifetime = s.levelTextLifetime ∧
    ∀ j : Nat, ((j : Int) < s.level + 1 →
        ((nextLevel m s).asteroids j).active = 1 ∧
        ((nextLevel m s).asteroids j).size = ASTEROID_LARGE) ∧
      (¬ ((j : Int) < s.level + 1) → (nextLevel m s).asteroids j = s.asteroids j) := by
  unfold nextLevel
  rw [if_pos h]
  dsimp only
  obtain ⟨h1, h2, h3, h4⟩ := nextLevelLoop_spec m (s.level + 1).toNat 0
    { s with level := s.level + 1 }
  refine ⟨h1, h2, h3, fun j => ⟨fun hj => ?_, fun hj => ?_⟩⟩
  · exact (h4 j).1 (Nat.zero_le j) (by omega)
  · exact (h4 j).2 (by omega)

theorem updateLevelText_counting (m : LibM) (s : Game) (h : 2 ≤ s.levelTextLifetime) :
    updateLevelText m s = ({ s with levelTextLifetime := s.levelTextLifetime - 1 }, false) := by
  unfold updateLevelText
  have h1 : s.levelTextLifetime ≥ 0 := by omega
  have h2 : ¬ (s.levelTextLifetime - 1 = 0) := by omega
  simp only [h1, if_true, h2, and_false, if_false]

theorem updateLevelText_fire (m : LibM) (s : Game) (h : s.levelTextLifetime = 1)
    (hl : s.level < s.maxLevel) :
    updateLevelText m s = (nextLevel m { s with levelTextLifetime := 0 }, true) := by
  unfold updateLevelText
  have h2 : ¬ (s.level ≥ s.maxLevel) := by omega
  simp only [h, h2, false_and, if_false]
  rfl

theorem updateLevelText_rest (m : LibM) (s : Game) (h : s.levelTextLifetime = 0) :
    updateLevelText m s = ({ s with levelTextLifetime := -1 }, false) := by
  unfold updateLevelText
  have h1 : s.levelTextLifetime ≥ 0 := by omega
  have h2 : ¬ (s.levelTextLifetime - 1 = 0) := by omega
  have e : s.levelTextLifetime - 1 = -1 := by omega
  simp only [h1, if_true, h2, and_false, if_false]
  rw [e]

theorem updateLevelText_final (m : LibM) (s : Game) (hl : s.level ≥ s.maxLevel) :
    ∃ l : Int, updateLevelText m s = ({ s with levelTextLifetime := l }, false) ∧
      (1 ≤ s.levelTextLifetime → 1 ≤ l) := by
  unfold updateLevelText
  by_cases h0 : s.levelTextLifetime ≥ 0
  · by_cases h1 : s.levelTextLifetime - 1 = 0
    · refine ⟨1, ?_, fun _ => le_refl 1⟩
      simp only [h0, if_true, hl, h1, and_self]
      rfl
    · refine ⟨s.levelTextLifetime - 1, ?_, fun _ => by omega⟩
      simp only [h0, if_true, h1, and_false, if_false]
  · refine ⟨s.levelTextLifetime, ?_, fun _ => by omega⟩
    have h1 : ¬ (s.levelTextLifetime = 0) := by omega
    simp only [h0, if_false, h1]

theorem updateLevelTextN_counting (m : LibM) (k : Nat) :
    ∀ s : Game, (k : Int) + 1 ≤ s.levelTextLifetime →
      updateLevelTextN m k s = ({ s with levelTextLifetime := s.levelTextLifetime - k }, 0) := by
  induction k with
  | zero =>
    intro s _
    simp only [updateLevelTextN, Nat.cast_zero, sub_zero]
  | succ k ih =>
    intro s hk
    simp only [updateLevelTextN]
    rw [updateLevelText_counting m s (by omega)]
    dsimp only
    rw [ih { s with levelTextLifetime := s.levelTextLifetime - 1 }
      (by show (k : Int) + 1 ≤ s.levelTextLifetime - 1; omega)]
    have e2 : s.levelTextLifetime - 1 - (k : Int) = s.levelTextLifetime - ((k + 1 : Nat) : Int) := by
      push_cast; ring
    simp only [e2]
    rfl

theorem updateLevelTextN_succ (m : LibM) (k : Nat) :
    ∀ s : Game, updateLevelTextN m (k + 1) s =
      ((updateLevelText m (updateLevelTextN m k s).1).1,
        (updateLevelTextN m k s).2
          + if (updateLevelText m (updateLevelTextN m k s).1).2 then 1 else 0) := by
  induction k with
  | zero => intro s; simp [updateLevelTextN]
  | succ k ih =>
    intro s
    rw [updateLevelTextN, ih]
    simp only [updateLevelTextN, Nat.add_assoc]

theorem updateLevelTextN_final (m : LibM) (k : Nat) :
    ∀ s : Game, s.level ≥ s.maxLevel →
      ∃ l : Int, updateLevelTextN m k s = ({ s with levelTextLifetime := l }, 0) ∧
        (1 ≤ s.levelTextLifetime → 1 ≤ l) := by
  induction k with
  | zero => intro s _; exact ⟨s.levelTextLifetime, rfl, fun h => h⟩
  | succ k ih =>
    intro s hl
    obtain ⟨l, e, hl1⟩ := updateLevelText_final m s hl
    obtain ⟨l', e', hl2⟩ := ih { s with levelTextLifetime := l } hl
    refine ⟨l', ?_, fun h => hl2 (hl1 h)⟩
    simp only [updateLevelTextN]
    rw [e]
    dsimp only
    rw [e']
    rfl

/-- C15: with no active asteroid, `level < maxLevel`, `0 <= level < MAX_ASTEROIDS` (the new
asteroids fit the pool) and `levelTextLifetime = n >= 1`, the first `n - 1` calls of `updateLevelText` only decrement the
timer and none goes through `nextLevel`; the `n`-th call does: in the state `t` it leaves,
`level` is one higher, the active asteroid slots are exactly the slots below the new `level`,
all of size `ASTEROID_LARGE`; the call after that sets the timer to `-1`, changes nothing else
and does not go through `nextLevel`. -/
theorem updateLevelText_starts_next_level (m : LibM) (s : Game) (n : Nat)
    (hno : ∀ i, i < MAX_ASTEROIDS → (s.asteroids i).active = 0)
    (hlt : s.level < s.maxLevel) (h0 : 0 ≤ s.level) (hmax : s.level < MAX_ASTEROIDS)
    (hn : 1 ≤ n) (hl : s.levelTextLifetime = n) :
    (∀ k, k < n → updateLevelTextN m k s = ({ s with levelTextLifetime := n - k }, 0)) ∧
    ∃ t : Game,
      updateLevelText m (updateLevelTextN m (n - 1) s).1 = (t, true) ∧
      updateLevelTextN m n s = (t, 1) ∧
      t.level = s.level + 1 ∧
      (∀ i, i < MAX_ASTEROIDS → ((t.asteroids i).active ≠ 0 ↔ (i : Int) < t.level)) ∧
      (∀ i, i < MAX_ASTEROIDS → (t.asteroids i).active ≠ 0 →
        (t.asteroids i).size = ASTEROID_LARGE) ∧
      (activeAsteroids t : Int) = t.level ∧
      updateLevelTextN m (n + 1) s = ({ t with levelTextLifetime := -1 }, 1) := by
  have hcount : ∀ k, k < n →
      updateLevelTextN m k s = ({ s with levelTextLifetime := n - k }, 0) := by
    intro k hk
    rw [updateLevelTextN_counting m k s (by rw [hl]; omega), hl]
  have hprev : updateLevelTextN m (n - 1) s = ({ s with levelTextLifetime := 1 }, 0) := by
    rw [hcount (n - 1) (by omega)]
    have e : (n : Int) - ((n - 1 : Nat) : Int) = 1 := by omega
    rw [e]
  have hfire : updateLevelText m { s with levelTextLifetime := 1 }
      = (nextLevel m { s with levelTextLifetime := 0 }, true) :=
    updateLevelText_fire m { s with levelTextLifetime := 1 } rfl hlt
  obtain ⟨t1, t2, t3, t4⟩ := nextLevel_spec m { s with levelTextLifetime := 0 } h0 hlt
  have hnth : updateLevelTextN m n s = (nextLevel m { s with levelTextLifetime := 0 }, 1) := by
    obtain ⟨j, rfl⟩ : ∃ j, n = j + 1 := ⟨n - 1, by omega⟩
    rw [updateLevelTextN_succ]
    rw [show j + 1 - 1 = j from by omega] at hprev
    rw [hprev]
    dsimp only
    rw [hfire]
    rfl
  have hact : ∀ i, i < MAX_ASTEROIDS →
      (((nextLevel m { s with levelTextLifetime := 0 }).asteroids i).active ≠ 0 ↔
        (i : Int) < s.level + 1) := by
    intro i hi
    constructor
    · intro ha
      by_contra hlt'
      rw [(t4 i).2 hlt'] at ha
      exact ha (hno i hi)
    · intro hlt'
      rw [((t4 i).1 hlt').1]
      decide
  refine ⟨hcount, nextLevel m { s with levelTextLifetime := 0 }, ?_, hnth, t1, ?_, ?_, ?_, ?_⟩
  · rw [hprev]
    exact hfire
  · intro i hi
    rw [t1]
    exact hact i hi
  · intro i hi ha
    exact ((t4 i).1 ((hact i hi).1 ha)).2
  · have e : activeAsteroids (nextLevel m { s with levelTextLifetime := 0 })
        = countFrom (fun i => decide (i < (s.level + 1).toNat)) 0 MAX_ASTEROIDS := by
      unfold activeAsteroids
      apply countFrom_congr
      intro j _ hj
      have hj' : j < MAX_ASTEROIDS := by omega
      have := hact j hj'
      by_cases hc : (j : Int) < s.level + 1
      · have h1 : j < (s.level + 1).toNat := by omega
        simp [this.2 hc, h1]
      · have h1 : ¬ j < (s.level + 1).toNat := by omega
        have h2 : ((nextLevel m { s with levelTextLifetime := 0 }).asteroids j).active = 0 := by
          by_contra hne
          exact hc (this.1 hne)
        simp [h2, h1]
    rw [e, countFrom_below, t1]
    have h16 : MAX_ASTEROIDS = 16 := rfl
    rw [h16] at hmax ⊢
    have hs : ({ s with levelTextLifetime := 0 } : Game).level = s.level := rfl
    rw [hs]
    omega
  · rw [updateLevelTextN_succ, hnth]
    dsimp only
    rw [updateLevelText_rest m _ t3]
    rfl

/-- Witness of C15: from `levelStartGame` the 120th call starts level 1 with one asteroid. -/
theorem updateLevelText_starts_next_level_witness :
    ∃ t : Game, updateLevelTextN demoLibM 120 levelStartGame = (t, 1) ∧ t.level = 1 ∧
      activeAsteroids t = 1 := by
  have h := (updateLevelText_starts_next_level demoLibM levelStartGame 120 (fun _ _ => rfl)
    (by decide) (by decide) (by decide) (by decide) rfl).2
  obtain ⟨t, ht⟩ := h
  have h3 : t.level = 1 := ht.2.2.1
  refine ⟨t, ht.2.1, h3, ?_⟩
  have h6 := ht.2.2.2.2.2.1
  rw [h3] at h6
  exact_mod_cast h6

theorem nextLevel_le (m : LibM) (s : Game) (h : s.level ≤ s.maxLevel) :
    (nextLevel m s).level ≤ (nextLevel m s).maxLevel := by
  unfold nextLevel
  split_ifs with hlt
  · dsimp only
    obtain ⟨h1, h2, _⟩ := nextLevelLoop_spec m (s.level + 1).toNat 0
      { s with level := s.level + 1 }
    rw [h1, h2]
    show s.level + 1 ≤ s.maxLevel
    omega
  · exact h

theorem updateLevelText_le (m : LibM) (s : Game) (h : s.level ≤ s.maxLevel) :
    (updateLevelText m s).1.level ≤ (updateLevelText m s).1.maxLevel := by
  unfold updateLevelText
  dsimp only
  split_ifs <;> first | exact h | exact nextLevel_le m _ h

/-- C16: `nextLevel` keeps `level <= maxLevel` and changes nothing when `level >= maxLevel`, and
so does one call of `updateLevelText`; while `level >= maxLevel`, after any number `k` of
`updateLevelText` calls none went through `nextLevel` and the state differs from the start at
most in `levelTextLifetime`, which stays `>= 1` if it was. -/
theorem level_never_exceeds_maxLevel (m : LibM) (s : Game) :
    (s.level ≤ s.maxLevel →
      (nextLevel m s).level ≤ (nextLevel m s).maxLevel ∧
      (updateLevelText m s).1.level ≤ (updateLevelText m s).1.maxLevel) ∧
    (s.level ≥ s.maxLevel → nextLevel m s = s) ∧
    (s.level ≥ s.maxLevel → ∀ k : Nat, ∃ l : Int,
      updateLevelTextN m k s = ({ s with levelTextLifetime := l }, 0) ∧
      (1 ≤ s.levelTextLifetime → 1 ≤ l)) :=
  ⟨fun h => ⟨nextLevel_le m s h, updateLevelText_le m s h⟩, nextLevel_final m s,
    fun h k => updateLevelTextN_final m k s h⟩

/-- Witness of C16: on the last level 1000 calls of `updateLevelText` leave the level and the
asteroid pool of `finalLevelGame` alone and never go through `nextLevel`. -/
theorem level_never_exceeds_maxLevel_witness :
    (updateLevelTextN demoLibM 1000 finalLevelGame).2 = 0 ∧
    (updateLevelTextN demoLibM 1000 finalLevelGame).1.level = 3 ∧
    (updateLevelTextN demoLibM 1000 finalLevelGame).1.asteroids = finalLevelGame.asteroids ∧
    1 ≤ (updateLevelTextN demoLibM 1000 finalLevelGame).1.levelTextLifetime ∧
    nextLevel demoLibM finalLevelGame = finalLevelGame := by
  have h := level_never_exceeds_maxLevel demoLibM finalLevelGame
  obtain ⟨l, e, hl⟩ := h.2.2 (by decide) 1000
  rw [e]
  exact ⟨rfl, rfl, rfl, hl (by decide), h.2.1 (by decide)⟩

/-! ### Movement: `advanceAsteroid` and `advanceShip` -/

theorem forEachSlot_apply {T : Type} (f : T → T) (n : Nat) :
    ∀ (i : Nat) (pool : Nat → T) (j : Nat),
      forEachSlot f n i pool j = if i ≤ j ∧ j < i + n then f (pool j) else pool j := by
  induction n with
  | zero =>
    intro i pool j
    have h : ¬ (i ≤ j ∧ j < i + 0) := by omega
    rw [if_neg h]
    rfl
  | succ n ih =>
    intro i pool j
    simp only [forEachSlot]
    rw [ih]
    by_cases hj : j = i
    · subst hj
      have h1 : ¬ (j + 1 ≤ j ∧ j < j + 1 + n) := by omega
      have h2 : j ≤ j ∧ j < j + (n + 1) := by omega
      rw [if_neg h1, if_pos h2, Function.update_same]
    · rw [Function.update_noteq hj]
      by_cases h1 : i + 1 ≤ j ∧ j < i + 1 + n
      · have h2 : i ≤ j ∧ j < i + (n + 1) := by omega
        rw [if_pos h1, if_pos h2]
      · have h2 : ¬ (i ≤ j ∧ j < i + (n + 1)) := by omega
        rw [if_neg h1, if_neg h2]

theorem moveAsteroid_fields (a : Asteroid) :
    (moveAsteroid a).active = a.active ∧ (moveAsteroid a).size = a.size ∧
    (moveAsteroid a).x = a.x + a.dx ∧ (moveAsteroid a).y = a.y + a.dy := by
  unfold moveAsteroid
  dsimp only
  split_ifs <;> exact ⟨rfl, rfl, rfl, rfl⟩

theorem armLevelText_frame (empty : Int) (s : Game) :
    (armLevelText empty s).xMax = s.xMax ∧ (armLevelText empty s).yMax = s.yMax ∧
    (armLevelText empty s).asteroids = s.asteroids := by
  unfold armLevelText
  dsimp only
  split_ifs <;> exact ⟨rfl, rfl, rfl⟩

theorem moveAsteroids_slot (s : Game) (j : Nat) (hj : j < MAX_ASTEROIDS) :
    (moveAsteroids s).xMax = s.xMax ∧ (moveAsteroids s).yMax = s.yMax ∧
    (moveAsteroids s).asteroids j =
      if (s.asteroids j).active ≠ 0 then moveAsteroid (s.asteroids j) else s.asteroids j := by
  have hr : 0 ≤ j ∧ j < 0 + MAX_ASTEROIDS := ⟨Nat.zero_le j, by omega⟩
  refine ⟨rfl, rfl, ?_⟩
  unfold moveAsteroids
  simp only [forEachSlot_apply, if_pos hr]

theorem wrapAsteroids_slot (s : Game) (j : Nat) (hj : j < MAX_ASTEROIDS) :
    (wrapAsteroids s).xMax = s.xMax ∧ (wrapAsteroids s).yMax = s.yMax ∧
    (wrapAsteroids s).asteroids j =
      if (s.asteroids j).active ≠ 0 then wrapAsteroid s.xMax s.yMax (s.asteroids j)
      else s.asteroids j := by
  have hr : 0 ≤ j ∧ j < 0 + MAX_ASTEROIDS := ⟨Nat.zero_le j, by omega⟩
  refine ⟨rfl, rfl, ?_⟩
  unfold wrapAsteroids
  simp only [forEachSlot_apply, if_pos hr]

/-- What `advanceAsteroid` does to one slot of the pool: an active asteroid is moved, then
wrapped; the window is not changed. -/
theorem advanceAsteroid_slot (s : Game) (j : Nat) (hj : j < MAX_ASTEROIDS) :
    (advanceAsteroid s).xMax = s.xMax ∧ (advanceAsteroid s).yMax = s.yMax ∧
    (advanceAsteroid s).asteroids j =
      if (s.asteroids j).active ≠ 0 then
        wrapAsteroid s.xMax s.yMax (moveAsteroid (s.asteroids j))
      else s.asteroids j := by
  obtain ⟨h1, h2, h3⟩ := armLevelText_frame
    (cBool (∀ i, i < MAX_ASTEROIDS → (s.asteroids i).active = 0)) (moveAsteroids s)
  obtain ⟨m1, m2, m3⟩ := moveAsteroids_slot s j hj
  obtain ⟨w1, w2, w3⟩ := wrapAsteroids_slot
    (armLevelText (cBool (∀ i, i < MAX_ASTEROIDS → (s.asteroids i).active = 0))
      (moveAsteroids s)) j hj
  unfold advanceAsteroid
  dsimp only
  rw [w1, w2, w3, h1, h2, h3, m1, m2, m3]
  refine ⟨rfl, rfl, ?_⟩
  by_cases ha : (s.asteroids j).active ≠ 0
  · have ha' : (moveAsteroid (s.asteroids j)).active ≠ 0 := by
      rw [(moveAsteroid_fields _).1]; exact ha
    simp only [if_pos ha, if_pos ha']
  · simp only [if_neg ha]

/-- C17 (the code at the failing input): in `wideWindowGame` the upper bound of `y` is
`yMax + 15 = 115`; `advanceAsteroid` moves the asteroid of slot 0 to `y = 115.5` and leaves it
there, because the test for the upper edge compares `y` with `xMax + 15 = 215`. The window of
`wideWindowGame` is the one `myReshape(1000, 500)` sets. -/
theorem advanceAsteroid_upper_edge_reads_xMax :
    (myReshape 1000 500 wideWindowGame).xMax = wideWindowGame.xMax ∧
    (myReshape 1000 500 wideWindowGame).yMax = wideWindowGame.yMax ∧
    wideWindowGame.yMax + ((MAX_ASTEROID_VARIANCE * (wideWindowGame.asteroids 0).size : Int) : ℚ)
      = 115 ∧
    ((advanceAsteroid wideWindowGame).asteroids 0).active = 1 ∧
    ((advanceAsteroid wideWindowGame).asteroids 0).size = ASTEROID_LARGE ∧
    (advanceAsteroid wideWindowGame).yMax = 100 ∧
    ((advanceAsteroid wideWindowGame).asteroids 0).y = 231 / 2 := by
  obtain ⟨_, h2, h3⟩ := advanceAsteroid_slot wideWindowGame 0 (by decide)
  rw [h2, h3]
  refine ⟨?_, ?_, ?_⟩
  · show (100.0 * (if ((1000 : Int) : ℚ) < 500 then 500 else if ((1000 : Int) : ℚ) > 4000
        then 4000 else ((1000 : Int) : ℚ))
      / (if ((500 : Int) : ℚ) < 500 then 500 else if ((500 : Int) : ℚ) > 4000 then 4000
        else ((500 : Int) : ℚ)) : ℚ) = 200
    norm_num
  · show (100.0 : ℚ) = 100
    norm_num
  norm_num [wideWindowGame, moveAsteroid, wrapAsteroid, MAX_ASTEROID_VARIANCE, ASTEROID_LARGE,
    M_PI]

theorem turnShip0_frame (s : Game) :
    (turnShip0 s).ship.size = s.ship.size ∧ (turnShip0 s).xMax = s.xMax ∧
    (turnShip0 s).yMax = s.yMax := by
  unfold turnShip0
  dsimp only
  split_ifs <;> exact ⟨rfl, rfl, rfl⟩

theorem thrustShip0_frame (m : LibM) (s : Game) :
    (thrustShip0 m s).ship.size = s.ship.size ∧ (thrustShip0 m s).xMax = s.xMax ∧
    (thrustShip0 m s).yMax = s.yMax := by
  unfold thrustShip0
  split_ifs <;> exact ⟨rfl, rfl, rfl⟩

/-- A conditional assignment to the ship that keeps its size keeps the frame. -/
theorem frame_step (c : Prop) [Decidable c] (s0 s t : Game)
    (h : s.ship.size = s0.ship.size ∧ s.xMax = s0.xMax ∧ s.yMax = s0.yMax)
    (ht : t.ship.size = s.ship.size ∧ t.xMax = s.xMax ∧ t.yMax = s.yMax) :
    (if c then t else s).ship.size = s0.ship.size ∧ (if c then t else s).xMax = s0.xMax ∧
    (if c then t else s).yMax = s0.yMax := by
  split_ifs
  · exact ⟨ht.1.trans h.1, ht.2.1.trans h.2.1, ht.2.2.trans h.2.2⟩
  · exact h

theorem steerShip1_steps (s : Game) :
    ((strafeShip1 s).ship.size = s.ship.size ∧ (strafeShip1 s).xMax = s.xMax ∧
      (strafeShip1 s).yMax = s.yMax) ∧
    ((liftShip1 s).ship.size = s.ship.size ∧ (liftShip1 s).xMax = s.xMax ∧
      (liftShip1 s).yMax = s.yMax) ∧
    ((clampShipDx s).ship.size = s.ship.size ∧ (clampShipDx s).xMax = s.xMax ∧
      (clampShipDx s).yMax = s.yMax) ∧
    ((clampShipDy s).ship.size = s.ship.size ∧ (clampShipDy s).xMax = s.xMax ∧
      (clampShipDy s).yMax = s.yMax) := by
  unfold strafeShip1 liftShip1 clampShipDx clampShipDy
  refine ⟨?_, ?_, ?_, ?_⟩ <;> split_ifs <;> exact ⟨rfl, rfl, rfl⟩

theorem steerShip1_frame (s : Game) :
    (steerShip1 s).ship.size = s.ship.size ∧ (steerShip1 s).xMax = s.xMax ∧
    (steerShip1 s).yMax = s.yMax := by
  unfold steerShip1
  obtain ⟨a1, a2, a3⟩ := (steerShip1_steps s).1
  obtain ⟨b1, b2, b3⟩ := (steerShip1_steps (strafeShip1 s)).2.1
  obtain ⟨c1, c2, c3⟩ := (steerShip1_steps (liftShip1 (strafeShip1 s))).2.2.1
  obtain ⟨d1, d2, d3⟩ := (steerShip1_steps (clampShipDx (liftShip1 (strafeShip1 s)))).2.2.2
  exact ⟨d1.trans (c1.trans (b1.trans a1)), d2.trans (c2.trans (b2.trans a2)),
    d3.trans (c3.trans (b3.trans a3))⟩

theorem steerShip2_frame (m : LibM) (s : Game) :
    (steerShip2 m s).ship.size = s.ship.size ∧ (steerShip2 m s).xMax = s.xMax ∧
    (steerShip2 m s).yMax = s.yMax := by
  unfold steerShip2
  dsimp only
  split_ifs <;> exact ⟨rfl, rfl, rfl⟩

theorem steerShip_frame (m : LibM) (s : Game) :
    (steerShip m s).ship.size = s.ship.size ∧ (steerShip m s).xMax = s.xMax ∧
    (steerShip m s).yMax = s.yMax := by
  unfold steerShip
  split_ifs
  · obtain ⟨a1, a2, a3⟩ := thrustShip0_frame m (turnShip0 s)
    obtain ⟨b1, b2, b3⟩ := turnShip0_frame s
    exact ⟨a1.trans b1, a2.trans b2, a3.trans b3⟩
  · exact steerShip1_frame s
  · exact steerShip2_frame m s
  · exact ⟨rfl, rfl, rfl⟩

/-- The wrap at the end of `advanceShip`: the new position on each axis, and its bounds when the
size of the ship and the size of the window are not negative. -/
theorem wrapShip_spec (s : Game) :
    (wrapShip s).ship.x =
      (if s.ship.x < -s.ship.size then s.xMax + s.ship.size
       else if s.ship.x > s.xMax + s.ship.size then -s.ship.size else s.ship.x) ∧
    (wrapShip s).ship.y =
      (if s.ship.y < -s.ship.size then s.yMax + s.ship.size
       else if s.ship.y > s.yMax + s.ship.size then -s.ship.size else s.ship.y) := by
  unfold wrapShip
  dsimp only
  split_ifs <;> exact ⟨rfl, rfl⟩

/-- C18: for every ship type, with `size >= 0` and `xMax, yMax >= 0`, `advanceShip` ends with
`-size <= x <= xMax + size` and `-size <= y <= yMax + size`; with `(x1, y1)` the position after
the displacement of this call, the final `x` is `xMax + size` when `x1 < -size`, `-size` when
`x1 > xMax + size` and `x1` otherwise, and likewise for `y` with `yMax`. -/
theorem advanceShip_wraps_within_margin (m : LibM) (s : Game) (hs : 0 ≤ s.ship.size)
    (hx : 0 ≤ s.xMax) (hy : 0 ≤ s.yMax) :
    (advanceShip m s).ship.x =
      (if (moveShip (steerShip m s)).ship.x < -s.ship.size then s.xMax + s.ship.size
       else if (moveShip (steerShip m s)).ship.x > s.xMax + s.ship.size then -s.ship.size
       else (moveShip (steerShip m s)).ship.x) ∧
    (advanceShip m s).ship.y =
      (if (moveShip (steerShip m s)).ship.y < -s.ship.size then s.yMax + s.ship.size
       else if (moveShip (steerShip m s)).ship.y > s.yMax + s.ship.size then -s.ship.size
       else (moveShip (steerShip m s)).ship.y) ∧
    (-s.ship.size ≤ (advanceShip m s).ship.x ∧ (advanceShip m s).ship.x ≤ s.xMax + s.ship.size) ∧
    (-s.ship.size ≤ (advanceShip m s).ship.y ∧ (advanceShip m s).ship.y ≤ s.yMax + s.ship.size) ∧
    (advanceShip m s).ship.size = s.ship.size ∧ (advanceShip m s).xMax = s.xMax ∧
    (advanceShip m s).yMax = s.yMax := by
  obtain ⟨f1, f2, f3⟩ := steerShip_frame m s
  have g1 : (moveShip (steerShip m s)).ship.size = s.ship.size := f1
  have g2 : (moveShip (steerShip m s)).xMax = s.xMax := f2
  have g3 : (moveShip (steerShip m s)).yMax = s.yMax := f3
  obtain ⟨w1, w2⟩ := wrapShip_spec (moveShip (steerShip m s))
  rw [g1, g2] at w1
  rw [g1, g3] at w2
  have k1 : (advanceShip m s).ship.x = _ := w1
  have k2 : (advanceShip m s).ship.y = _ := w2
  refine ⟨k1, k2, ?_, ?_, ?_, ?_, ?_⟩
  · rw [k1]
    split_ifs <;> constructor <;> linarith
  · rw [k2]
    split_ifs <;> constructor <;> linarith
  · show (wrapShip (moveShip (steerShip m s))).ship.size = s.ship.size
    rw [← g1]
    unfold wrapShip
    dsimp only
    split_ifs <;> rfl
  · show (wrapShip (moveShip (steerShip m s))).xMax = s.xMax
    rw [← g2]
    unfold wrapShip
    dsimp only
    split_ifs <;> rfl
  · show (wrapShip (moveShip (steerShip m s))).yMax = s.yMax
    rw [← g3]
    unfold wrapShip
    dsimp only
    split_ifs <;> rfl

/-- Witness of C18: the ship of `edgeShipGame` flies past the right edge and reappears at
`x = -size` in the same call. -/
theorem advanceShip_wraps_within_margin_witness :
    (advanceShip demoLibM edgeShipGame).ship.x = -4 ∧
    (advanceShip demoLibM edgeShipGame).ship.y ≤ 104 := by
  have h := advanceShip_wraps_within_margin demoLibM edgeShipGame
    (by norm_num [edgeShipGame, exampleShip]) (by norm_num [edgeShipGame])
    (by norm_num [edgeShipGame])
  refine ⟨?_, le_trans h.2.2.2.1.2 (by norm_num [edgeShipGame, exampleShip])⟩
  rw [h.1]
  norm_num [edgeShipGame, exampleShip, moveShip, steerShip, thrustShip0, turnShip0]

/-! ### `firePhoton`: the cooldown of the volleys -/

theorem firePhotonLoop1_cooldown (m : LibM) (s : Game) (n : Nat) :
    ∀ (i : Nat) (photons : Nat → Photon) (cd : Int) (c : Nat), 1 ≤ c → c ≤ 4 →
      (firePhotonLoop1 m s n i (photons, cd, 4 - (c : Int))).2.1
        = cd + s.cooldown *
          ((min c (countFrom (fun j => decide ((photons j).active = 0)) i n) : Nat) : Int) := by
  induction n with
  | zero =>
    intro i photons cd c _ _
    simp [firePhotonLoop1, countFrom]
  | succ n ih =>
    intro i photons cd c h1 h4
    by_cases hf : (photons i).active = 0
    · have hd : decide ((photons i).active = 0) = true := by simp [hf]
      simp only [firePhotonLoop1, countFrom, if_pos hf, if_pos hd]
      by_cases hc : c = 1
      · subst hc
        have h : (4 : Int) - ((1 : Nat) : Int) + 1 ≥ 4 := by decide
        rw [if_pos h]
        have e : min 1 (1 + countFrom (fun j => decide ((photons j).active = 0)) (i + 1) n)
            = 1 := by omega
        rw [e]
        simp
      · have h : ¬ ((4 : Int) - (c : Int) + 1 ≥ 4) := by omega
        have e : (4 : Int) - (c : Int) + 1 = 4 - ((c - 1 : Nat) : Int) := by omega
        rw [if_neg h, e, ih (i + 1) _ _ (c - 1) (by omega) (by omega)]
        have e2 : countFrom (fun j => decide ((Function.update photons i
              (photonShot1 m s (4 - (c : Int)) (photons i)) j).active = 0)) (i + 1) n
            = countFrom (fun j => decide ((photons j).active = 0)) (i + 1) n := by
          apply countFrom_congr
          intro j hj _
          rw [Function.update_noteq (by omega : j ≠ i)]
        rw [e2]
        generalize countFrom (fun j => decide ((photons j).active = 0)) (i + 1) n = k
        have e3 : min c (1 + k) = 1 + min (c - 1) k := by omega
        rw [e3]
        push_cast
        ring
    · have hd : ¬ (decide ((photons i).active = 0) = true) := by simp [hf]
      simp only [firePhotonLoop1, countFrom, if_neg hf, if_neg hd, Nat.zero_add]
      exact ih (i + 1) photons cd c h1 h4

theorem firePhotonLoop2_cooldown (m : LibM) (s : Game) (n : Nat) :
    ∀ (i : Nat) (photons : Nat → Photon) (cd : Int) (c : Nat), 1 ≤ c → c ≤ 3 →
      (firePhotonLoop2 m s n i (photons, cd, 3 - (c : Int))).2.1
        = cd + s.cooldown *
          ((min c (countFrom (fun j => decide ((photons j).active = 0)) i n) : Nat) : Int) := by
  induction n with
  | zero =>
    intro i photons cd c _ _
    simp [firePhotonLoop2, countFrom]
  | succ n ih =>
    intro i photons cd c h1 h4
    by_cases hf : (photons i).active = 0
    · have hd : decide ((photons i).active = 0) = true := by simp [hf]
      simp only [firePhotonLoop2, countFrom, if_pos hf, if_pos hd]
      by_cases hc : c = 1
      · subst hc
        have h : (3 : Int) - ((1 : Nat) : Int) + 1 ≥ 3 := by decide
        rw [if_pos h]
        have e : min 1 (1 + countFrom (fun j => decide ((photons j).active = 0)) (i + 1) n)
            = 1 := by omega
        rw [e]
        simp
      · have h : ¬ ((3 : Int) - (c : Int) + 1 ≥ 3) := by omega
        have e : (3 : Int) - (c : Int) + 1 = 3 - ((c - 1 : Nat) : Int) := by omega
        rw [if_neg h, e, ih (i + 1) _ _ (c - 1) (by omega) (by omega)]
        have e2 : countFrom (fun j => decide ((Function.update photons i
              (photonShot2 m s (3 - (c : Int)) (photons i)) j).active = 0)) (i + 1) n
            = countFrom (fun j => decide ((photons j).active = 0)) (i + 1) n := by
          apply countFrom_congr
          intro j hj _
          rw [Function.update_noteq (by omega : j ≠ i)]
        rw [e2]
        generalize countFrom (fun j => decide ((photons j).active = 0)) (i + 1) n = k
        have e3 : min c (1 + k) = 1 + min (c - 1) k := by omega
        rw [e3]
        push_cast
        ring
    · have hd : ¬ (decide ((photons i).active = 0) = true) := by simp [hf]
      simp only [firePhotonLoop2, countFrom, if_neg hf, if_neg hd, Nat.zero_add]
      exact ih (i + 1) photons cd c h1 h4

/-- C19 (amended): for a ship of type 1 or 2 with `currentCooldown <= 0`, one `firePhoton` call
adds `cooldown` to `currentCooldown` once per photon it fires: the number of slots it turns
from inactive to active is `k = min n f` (`n` the volley size, 4 for type 1 and 3 for type 2,
and `f` the number of inactive slots), and `currentCooldown` grows by `k * cooldown`. -/
theorem firePhoton_cooldown_per_photon (m : LibM) (s : Game)
    (ht : s.ship.type = 1 ∨ s.ship.type = 2) (hc : s.currentCooldown ≤ 0) :
    countFrom (fun j => decide ((s.photons j).active = 0 ∧
        ((firePhoton m s).photons j).active ≠ 0)) 0 MAX_PHOTONS
      = min (volleySize s) (freePhotons s) ∧
    (firePhoton m s).currentCooldown
      = s.currentCooldown + s.cooldown * ((min (volleySize s) (freePhotons s) : Nat) : Int) ∧
    volleySize s = (if s.ship.type = 1 then 4 else 3) := by
  rcases ht with h1 | h2
  · have h0 : ¬ s.ship.type = 0 := by rw [h1]; decide
    have e : firePhoton m s =
        { s with
          photons := (firePhotonLoop1 m s MAX_PHOTONS 0 (s.photons, s.currentCooldown, 0)).1
          currentCooldown :=
            (firePhotonLoop1 m s MAX_PHOTONS 0 (s.photons, s.currentCooldown, 0)).2.1 } := by
      simp [firePhoton, h0, h1, hc]
    have hv : volleySize s = 4 := by simp [volleySize, h0, h1, hc]
    have hcd := firePhotonLoop1_cooldown m s MAX_PHOTONS 0 s.photons s.currentCooldown 4
      (by decide) (by decide)
    obtain ⟨_, hcnt⟩ := firePhotonLoop1_shape m s MAX_PHOTONS 0 s.photons s.currentCooldown
    rw [e, hv]
    refine ⟨hcnt, ?_, by simp [h1]⟩
    exact hcd
  · have h0 : ¬ s.ship.type = 0 := by rw [h2]; decide
    have h1 : ¬ s.ship.type = 1 := by rw [h2]; decide
    have e : firePhoton m s =
        { s with
          photons := (firePhotonLoop2 m s MAX_PHOTONS 0 (s.photons, s.currentCooldown, 0)).1
          currentCooldown :=
            (firePhotonLoop2 m s MAX_PHOTONS 0 (s.photons, s.currentCooldown, 0)).2.1 } := by
      simp [firePhoton, h0, h1, h2, hc]
    have hv : volleySize s = 3 := by simp [volleySize, h0, h1, h2, hc]
    have hcd := firePhotonLoop2_cooldown m s MAX_PHOTONS 0 s.photons s.currentCooldown 3
      (by decide) (by decide)
    obtain ⟨_, hcnt⟩ := firePhotonLoop2_shape m s MAX_PHOTONS 0 s.photons s.currentCooldown
    rw [e, hv]
    refine ⟨hcnt, ?_, by simp [h1]⟩
    exact hcd

/-- Witness of C19 (amended): the volley of `volleyGame` has four photons and adds four times
`cooldown`. -/
theorem firePhoton_cooldown_per_photon_witness :
    (firePhoton demoLibM volleyGame).currentCooldown = 0 + 10 * ((min 4 8 : Nat) : Int) := by
  have h := (firePhoton_cooldown_per_photon demoLibM volleyGame (Or.inl rfl) (by decide)).2.1
  have hv : volleySize volleyGame = 4 := by decide
  have hf : freePhotons volleyGame = 8 := by decide
  rw [hv, hf] at h
  exact h

/-- C19 (as stated, refuted): the ship of `volleyGame` is of type 1 with `currentCooldown = 0`,
`cooldown = 10` and free photon slots; one `firePhoton` call leaves `currentCooldown = 40`, not
`0 + 10`. -/
theorem firePhoton_volley_adds_cooldown_four_times :
    volleyGame.ship.type = 1 ∧ volleyGame.currentCooldown ≤ 0 ∧
    (volleyGame.photons 0).active = 0 ∧
    (firePhoton demoLibM volleyGame).currentCooldown = 40 ∧
    (firePhoton demoLibM volleyGame).currentCooldown
      ≠ volleyGame.currentCooldown + volleyGame.cooldown := by
  have h : (firePhoton demoLibM volleyGame).currentCooldown = 40 := by
    have h0 : ¬ volleyGame.ship.type = 0 := by decide
    have h1 : volleyGame.ship.type = 1 := by decide
    have hc : volleyGame.currentCooldown ≤ 0 := by decide
    have e : (firePhoton demoLibM volleyGame).currentCooldown =
        (firePhotonLoop1 demoLibM volleyGame MAX_PHOTONS 0
          (volleyGame.photons, volleyGame.currentCooldown, 0)).2.1 := by
      simp [firePhoton, h0, h1, hc]
    rw [e]
    have hcd := firePhotonLoop1_cooldown demoLibM volleyGame MAX_PHOTONS 0 volleyGame.photons
      volleyGame.currentCooldown 4 (by decide) (by decide)
    have hk : countFrom (fun j => decide ((volleyGame.photons j).active = 0)) 0 MAX_PHOTONS
        = 8 := by decide
    rw [hk] at hcd
    exact hcd
  refine ⟨by decide, by decide, by decide, h, ?_⟩
  rw [h]
  decide

/-! ### `updateDamage`: the three counters -/

theorem tick_ship (s : Game) :
    (tickLeft s).ship = { s.ship with
      LDmg := if s.ship.LDmg > 0 ∧ s.ship.LHp > 0 then s.ship.LDmg - 1 else s.ship.LDmg } ∧
    (tickRight s).ship = { s.ship with
      RDmg := if s.ship.RDmg > 0 ∧ s.ship.RHp > 0 then s.ship.RDmg - 1 else s.ship.RDmg } ∧
    (tickBack s).ship = { s.ship with
      BDmg := if s.ship.BDmg > 0 ∧ s.ship.BHp > 0 then s.ship.BDmg - 1 else s.ship.BDmg } := by
  unfold tickLeft tickRight tickBack
  refine ⟨?_, ?_, ?_⟩ <;> split_ifs <;> rfl

theorem shieldRegen_counters (s : Game) :
    (shieldRegen s).ship.LDmg = (if s.ship.LDmg > 0 then s.ship.LDmg - 1 else s.ship.LDmg) ∧
    (shieldRegen s).ship.RDmg = s.ship.RDmg ∧ (shieldRegen s).ship.BDmg = s.ship.BDmg := by
  unfold shieldRegen
  dsimp only
  split_ifs <;> exact ⟨rfl, rfl, rfl⟩

/-- The ship after the three statements that `updateDamage` applies to every type. -/
theorem ticks_ship (s : Game) :
    (tickBack (tickRight (tickLeft s))).ship = { s.ship with
      LDmg := if s.ship.LDmg > 0 ∧ s.ship.LHp > 0 then s.ship.LDmg - 1 else s.ship.LDmg
      RDmg := if s.ship.RDmg > 0 ∧ s.ship.RHp > 0 then s.ship.RDmg - 1 else s.ship.RDmg
      BDmg := if s.ship.BDmg > 0 ∧ s.ship.BHp > 0 then s.ship.BDmg - 1 else s.ship.BDmg } := by
  rw [(tick_ship (tickRight (tickLeft s))).2.2, (tick_ship (tickLeft s)).2.1, (tick_ship s).1]

/-- C20 (amended): `updateDamage` lowers `RDmg` and `BDmg`, and for a ship of a type other than
2 also `LDmg`, by exactly one when the counter and the `Hp` of its side are positive, and leaves
them alone otherwise; for a ship of type 2 a positive `LDmg` (the timer of the shield) is
lowered by one when `LHp <= 0` or `LDmg = 1`, and by two when `LHp > 0` and `LDmg > 1`; a
counter that is `<= 0` is never changed, for every type. -/
theorem updateDamage_counters (s : Game) :
    (updateDamage s).ship.RDmg
      = (if s.ship.RDmg > 0 ∧ s.ship.RHp > 0 then s.ship.RDmg - 1 else s.ship.RDmg) ∧
    (updateDamage s).ship.BDmg
      = (if s.ship.BDmg > 0 ∧ s.ship.BHp > 0 then s.ship.BDmg - 1 else s.ship.BDmg) ∧
    (s.ship.type ≠ 2 → (updateDamage s).ship.LDmg
      = (if s.ship.LDmg > 0 ∧ s.ship.LHp > 0 then s.ship.LDmg - 1 else s.ship.LDmg)) ∧
    (s.ship.type = 2 → (updateDamage s).ship.LDmg
      = (if s.ship.LDmg > 0 then
          (if s.ship.LHp > 0 ∧ s.ship.LDmg > 1 then s.ship.LDmg - 2 else s.ship.LDmg - 1)
         else s.ship.LDmg)) ∧
    (s.ship.LDmg ≤ 0 → (updateDamage s).ship.LDmg = s.ship.LDmg) ∧
    (s.ship.RDmg ≤ 0 → (updateDamage s).ship.RDmg = s.ship.RDmg) ∧
    (s.ship.BDmg ≤ 0 → (updateDamage s).ship.BDmg = s.ship.BDmg) := by
  have ht := ticks_ship s
  obtain ⟨r1, r2, r3⟩ := shieldRegen_counters (tickBack (tickRight (tickLeft s)))
  have hty : (tickBack (tickRight (tickLeft s))).ship.type = s.ship.type := by rw [ht]
  have tL : (tickBack (tickRight (tickLeft s))).ship.LDmg
      = (if s.ship.LDmg > 0 ∧ s.ship.LHp > 0 then s.ship.LDmg - 1 else s.ship.LDmg) := by
    rw [ht]
  have tR : (tickBack (tickRight (tickLeft s))).ship.RDmg
      = (if s.ship.RDmg > 0 ∧ s.ship.RHp > 0 then s.ship.RDmg - 1 else s.ship.RDmg) := by
    rw [ht]
  have tB : (tickBack (tickRight (tickLeft s))).ship.BDmg
      = (if s.ship.BDmg > 0 ∧ s.ship.BHp > 0 then s.ship.BDmg - 1 else s.ship.BDmg) := by
    rw [ht]
  have e2 : s.ship.type = 2 →
      updateDamage s = shieldRegen (tickBack (tickRight (tickLeft s))) := by
    intro h2
    unfold updateDamage
    dsimp only
    rw [if_pos (hty.trans h2)]
  have e0 : s.ship.type ≠ 2 → updateDamage s = tickBack (tickRight (tickLeft s)) := by
    intro hne
    unfold updateDamage
    dsimp only
    rw [if_neg (by rw [hty]; exact hne)]
  have hR : (updateDamage s).ship.RDmg
      = (if s.ship.RDmg > 0 ∧ s.ship.RHp > 0 then s.ship.RDmg - 1 else s.ship.RDmg) := by
    by_cases h2 : s.ship.type = 2
    · rw [e2 h2]; exact r2.trans tR
    · rw [e0 h2]; exact tR
  have hB : (updateDamage s).ship.BDmg
      = (if s.ship.BDmg > 0 ∧ s.ship.BHp > 0 then s.ship.BDmg - 1 else s.ship.BDmg) := by
    by_cases h2 : s.ship.type = 2
    · rw [e2 h2]; exact r3.trans tB
    · rw [e0 h2]; exact tB
  have hL0 : s.ship.type ≠ 2 → (updateDamage s).ship.LDmg
      = (if s.ship.LDmg > 0 ∧ s.ship.LHp > 0 then s.ship.LDmg - 1 else s.ship.LDmg) := by
    intro hne
    rw [e0 hne]
    exact tL
  have hL2 : s.ship.type = 2 → (updateDamage s).ship.LDmg
      = (if s.ship.LDmg > 0 then
          (if s.ship.LHp > 0 ∧ s.ship.LDmg > 1 then s.ship.LDmg - 2 else s.ship.LDmg - 1)
         else s.ship.LDmg) := by
    intro h2
    rw [e2 h2, r1, tL]
    by_cases hp : s.ship.LHp > 0
    · simp only [hp, and_true, true_and]
      split_ifs <;> omega
    · simp only [hp, and_false, false_and, if_false]
  refine ⟨hR, hB, hL0, hL2, ?_, ?_, ?_⟩
  · intro hle
    by_cases h2 : s.ship.type = 2
    · rw [hL2 h2, if_neg (by omega)]
    · rw [hL0 h2, if_neg (by omega)]
  · intro hle
    rw [hR, if_neg (by omega)]
  · intro hle
    rw [hB, if_neg (by omega)]

/-- Witness of C20 (amended): in `hitLeftSideGame` the left counter goes from 30 to 29 and the
counter `-1` of the destroyed right side stays. -/
theorem updateDamage_counters_witness :
    (updateDamage hitLeftSideGame).ship.LDmg = 29 ∧
    (updateDamage hitLeftSideGame).ship.RDmg = -1 := by
  have h := updateDamage_counters hitLeftSideGame
  refine ⟨?_, h.2.2.2.2.2.1 (by decide)⟩
  rw [h.2.2.1 (by decide)]
  norm_num [hitLeftSideGame, exampleShip]

/-- C20 (as stated, refuted): the ship of `shieldDownGame` is of type 2 with `LHp = 0` and
`LDmg = 100`; `updateDamage` lowers `LDmg` to 99 although the `Hp` of that side is not
positive. -/
theorem updateDamage_lowers_shield_timer_without_hp :
    shieldDownGame.ship.LHp ≤ 0 ∧ shieldDownGame.ship.LDmg = 100 ∧
    (updateDamage shieldDownGame).ship.LDmg = 99 := by
  refine ⟨by norm_num [shieldDownGame], rfl, ?_⟩
  norm_num [updateDamage, tickLeft, tickRight, tickBack, shieldRegen, shieldDownGame]

/-! ### `updateDamage`: the shield of a ship of type 2 -/

theorem shieldRegen_hp (s : Game) :
    ((shieldRegen s).ship.LDmg = 0 →
      (shieldRegen s).ship.LHp = min (s.ship.LHp + s.ship.RHp / 200) s.ship.RHp) ∧
    ((shieldRegen s).ship.LDmg ≠ 0 → (shieldRegen s).ship.LHp = s.ship.LHp) ∧
    (shieldRegen s).ship.RHp = s.ship.RHp ∧ (shieldRegen s).ship.BHp = s.ship.BHp := by
  unfold shieldRegen
  dsimp only
  split_ifs with h1 h2 h3 h4 h5 <;> refine ⟨?_, ?_, rfl, rfl⟩
  all_goals first
    | (intro h; exact absurd h (by assumption))
    | (intro h; exact absurd (by assumption) h)
    | (intro _; rfl)
    | (intro _; show s.ship.RHp = min (s.ship.LHp + s.ship.RHp / 200) s.ship.RHp
       rw [min_eq_right (le_of_lt (by assumption))])
    | (intro _; show s.ship.LHp + s.ship.RHp / 200 = min (s.ship.LHp + s.ship.RHp / 200) s.ship.RHp
       rw [min_eq_left (not_lt.mp (by assumption))])

/-- C21: for a ship of type 2, `updateDamage` sets `LHp` to `min (LHp + RHp/200) RHp` when
`LDmg` is `0` after the decrements of the call, and leaves `LHp` unchanged when `LDmg` is not
`0` then; `RHp` and `BHp` are unchanged; for a ship of any other type no `Hp` value changes. -/
theorem updateDamage_shield_recharge (s : Game) :
    (s.ship.type = 2 →
      ((updateDamage s).ship.LDmg = 0 →
        (updateDamage s).ship.LHp = min (s.ship.LHp + s.ship.RHp / 200) s.ship.RHp) ∧
      ((updateDamage s).ship.LDmg ≠ 0 → (updateDamage s).ship.LHp = s.ship.LHp) ∧
      (updateDamage s).ship.RHp = s.ship.RHp ∧ (updateDamage s).ship.BHp = s.ship.BHp) ∧
    (s.ship.type ≠ 2 →
      (updateDamage s).ship.LHp = s.ship.LHp ∧ (updateDamage s).ship.RHp = s.ship.RHp ∧
      (updateDamage s).ship.BHp = s.ship.BHp) := by
  have ht := ticks_ship s
  have hty : (tickBack (tickRight (tickLeft s))).ship.type = s.ship.type := by rw [ht]
  have hL : (tickBack (tickRight (tickLeft s))).ship.LHp = s.ship.LHp := by rw [ht]
  have hR : (tickBack (tickRight (tickLeft s))).ship.RHp = s.ship.RHp := by rw [ht]
  have hB : (tickBack (tickRight (tickLeft s))).ship.BHp = s.ship.BHp := by rw [ht]
  constructor
  · intro h2
    have e : updateDamage s = shieldRegen (tickBack (tickRight (tickLeft s))) := by
      unfold updateDamage
      dsimp only
      rw [if_pos (hty.trans h2)]
    obtain ⟨r1, r2, r3, r4⟩ := shieldRegen_hp (tickBack (tickRight (tickLeft s)))
    rw [hL, hR] at r1
    rw [hL] at r2
    rw [e]
    exact ⟨r1, r2, r3.trans hR, r4.trans hB⟩
  · intro hne
    have e : updateDamage s = tickBack (tickRight (tickLeft s)) := by
      unfold updateDamage
      dsimp only
      rw [if_neg (by rw [hty]; exact hne)]
    rw [e]
    exact ⟨hL, hR, hB⟩

/-- Witness of C21: the shield of `rechargingGame` (250 of 300, timer at 1) gains `300/200`. -/
theorem updateDamage_shield_recharge_witness :
    (updateDamage rechargingGame).ship.LHp = 503 / 2 := by
  have h := (updateDamage_shield_recharge rechargingGame).1 rfl
  have hd : (updateDamage rechargingGame).ship.LDmg = 0 := by
    norm_num [updateDamage, tickLeft, tickRight, tickBack, shieldRegen, rechargingGame]
  rw [h.1 hd]
  norm_num [rechargingGame]
/-! ### `advanceShip`: the controls of a ship of type 0 -/

theorem moveWrap_controls (s : Game) :
    (wrapShip (moveShip s)).ship.phi = s.ship.phi ∧
    (wrapShip (moveShip s)).ship.dx = s.ship.dx ∧
    (wrapShip (moveShip s)).ship.dy = s.ship.dy := by
  unfold wrapShip
  dsimp only
  split_ifs <;> exact ⟨rfl, rfl, rfl⟩

theorem thrustShip0_controls (m : LibM) (s : Game) :
    (thrustShip0 m s).ship.phi = s.ship.phi ∧
    (¬ ((s.up ≠ 0 ∨ s.down ≠ 0) ∧ s.ship.BHp > 0) →
      (thrustShip0 m s).ship.dx = s.ship.dx ∧ (thrustShip0 m s).ship.dy = s.ship.dy) := by
  unfold thrustShip0
  split_ifs with h
  · exact ⟨rfl, fun hn => absurd h hn⟩
  · exact ⟨rfl, fun _ => ⟨rfl, rfl⟩⟩

/-- A heading moved by a fifteenth of `M_PI` either way and wrapped is a different heading. -/
theorem wrapped_turn_ne (phi d : ℚ) (hd : d = M_PI / 15 ∨ d = -(M_PI / 15)) :
    (if phi + d > 2 * M_PI then phi + d - 2 * M_PI
      else if phi + d < 0 then phi + d + 2 * M_PI else phi + d) ≠ phi := by
  have hp : (0 : ℚ) < M_PI := by norm_num [M_PI]
  rcases hd with h | h <;> rw [h] <;> split_ifs <;> intro e <;> linarith

/-- The test of `turnShip0` holds exactly when one of the two turning keys acts and the other
does not. -/
theorem turn_test_iff (L R : Prop) :
    (¬ (L ∧ R) ∧ (L ∨ R)) ↔ ((L ∧ ¬ R) ∨ (R ∧ ¬ L)) := by
  tauto

theorem turnShip0_controls (s : Game) :
    (turnShip0 s).ship.dx = s.ship.dx ∧ (turnShip0 s).ship.dy = s.ship.dy ∧
    (turnShip0 s).up = s.up ∧ (turnShip0 s).down = s.down ∧
    (turnShip0 s).ship.BHp = s.ship.BHp ∧
    (¬ ((leftActs s ∧ ¬ rightActs s) ∨ (rightActs s ∧ ¬ leftActs s)) →
      (turnShip0 s).ship.phi = s.ship.phi) ∧
    (((leftActs s ∧ ¬ rightActs s) ∨ (rightActs s ∧ ¬ leftActs s)) →
      (turnShip0 s).ship.phi ≠ s.ship.phi) := by
  have hiff := turn_test_iff (leftActs s) (rightActs s)
  by_cases hC : ¬ (leftActs s ∧ rightActs s) ∧ (leftActs s ∨ rightActs s)
  · have hd : ((cBool (s.ship.RHp > 0 ∧ s.right ≠ 0) : Int) : ℚ) * 2 * M_PI / 30
          + -1 * (((cBool (s.ship.LHp > 0 ∧ s.left ≠ 0) : Int) : ℚ) * 2 * M_PI) / 30
          = M_PI / 15 ∨
        ((cBool (s.ship.RHp > 0 ∧ s.right ≠ 0) : Int) : ℚ) * 2 * M_PI / 30
          + -1 * (((cBool (s.ship.LHp > 0 ∧ s.left ≠ 0) : Int) : ℚ) * 2 * M_PI) / 30
          = -(M_PI / 15) := by
      rcases hiff.mp hC with ⟨hl, hr⟩ | ⟨hr, hl⟩
      · right
        have cl : s.ship.LHp > 0 ∧ s.left ≠ 0 := ⟨hl.2, hl.1⟩
        have cr : ¬ (s.ship.RHp > 0 ∧ s.right ≠ 0) := fun h => hr ⟨h.2, h.1⟩
        rw [cBool, cBool, if_pos cl, if_neg cr]
        push_cast
        ring
      · left
        have cl : ¬ (s.ship.LHp > 0 ∧ s.left ≠ 0) := fun h => hl ⟨h.2, h.1⟩
        have cr : s.ship.RHp > 0 ∧ s.right ≠ 0 := ⟨hr.2, hr.1⟩
        rw [cBool, cBool, if_neg cl, if_pos cr]
        push_cast
        ring
    have hne := wrapped_turn_ne s.ship.phi _ hd
    have hC' : ¬ ((s.left ≠ 0 ∧ s.ship.LHp > 0) ∧ (s.right ≠ 0 ∧ s.ship.RHp > 0)) ∧
        ((s.left ≠ 0 ∧ s.ship.LHp > 0) ∨ (s.right ≠ 0 ∧ s.ship.RHp > 0)) := hC
    unfold turnShip0
    rw [if_pos hC']
    dsimp only
    split_ifs with h1 h2
    · rw [if_pos h1] at hne
      exact ⟨rfl, rfl, rfl, rfl, rfl, fun h => absurd (hiff.mp hC) h, fun _ => hne⟩
    · rw [if_neg h1, if_pos h2] at hne
      exact ⟨rfl, rfl, rfl, rfl, rfl, fun h => absurd (hiff.mp hC) h, fun _ => hne⟩
    · rw [if_neg h1, if_neg h2] at hne
      exact ⟨rfl, rfl, rfl, rfl, rfl, fun h => absurd (hiff.mp hC) h, fun _ => hne⟩
  · have e : turnShip0 s = s := by
      unfold turnShip0
      exact if_neg hC
    rw [e]
    exact ⟨rfl, rfl, rfl, rfl, rfl, fun _ => rfl, fun h => absurd (hiff.mpr h) hC⟩

/-- The heading after `turnShip0` when exactly one turning key acts: the left key lowers it by
`2*M_PI/30`, the right key raises it by `2*M_PI/30`, and the result is wrapped once. -/
theorem turnShip0_heading (s : Game) :
    (leftActs s ∧ ¬ rightActs s →
      (turnShip0 s).ship.phi
        = (if s.ship.phi - 2 * M_PI / 30 > 2 * M_PI then s.ship.phi - 2 * M_PI / 30 - 2 * M_PI
           else if s.ship.phi - 2 * M_PI / 30 < 0 then s.ship.phi - 2 * M_PI / 30 + 2 * M_PI
           else s.ship.phi - 2 * M_PI / 30)) ∧
    (rightActs s ∧ ¬ leftActs s →
      (turnShip0 s).ship.phi
        = (if s.ship.phi + 2 * M_PI / 30 > 2 * M_PI then s.ship.phi + 2 * M_PI / 30 - 2 * M_PI
           else if s.ship.phi + 2 * M_PI / 30 < 0 then s.ship.phi + 2 * M_PI / 30 + 2 * M_PI
           else s.ship.phi + 2 * M_PI / 30)) := by
  constructor
  · rintro ⟨hl, hr⟩
    have hC' : ¬ ((s.left ≠ 0 ∧ s.ship.LHp > 0) ∧ (s.right ≠ 0 ∧ s.ship.RHp > 0)) ∧
        ((s.left ≠ 0 ∧ s.ship.LHp > 0) ∨ (s.right ≠ 0 ∧ s.ship.RHp > 0)) :=
      ⟨fun c => hr c.2, Or.inl hl⟩
    have cl : s.ship.LHp > 0 ∧ s.left ≠ 0 := ⟨hl.2, hl.1⟩
    have cr : ¬ (s.ship.RHp > 0 ∧ s.right ≠ 0) := fun h => hr ⟨h.2, h.1⟩
    have hval : s.ship.phi + (((cBool (s.ship.RHp > 0 ∧ s.right ≠ 0) : Int) : ℚ) * 2 * M_PI / 30
          + -1 * (((cBool (s.ship.LHp > 0 ∧ s.left ≠ 0) : Int) : ℚ) * 2 * M_PI) / 30)
        = s.ship.phi - 2 * M_PI / 30 := by
      rw [cBool, cBool, if_pos cl, if_neg cr]
      push_cast
      ring
    unfold turnShip0
    rw [if_pos hC']
    dsimp only
    simp only [hval]
    split_ifs <;> rfl
  · rintro ⟨hr, hl⟩
    have hC' : ¬ ((s.left ≠ 0 ∧ s.ship.LHp > 0) ∧ (s.right ≠ 0 ∧ s.ship.RHp > 0)) ∧
        ((s.left ≠ 0 ∧ s.ship.LHp > 0) ∨ (s.right ≠ 0 ∧ s.ship.RHp > 0)) :=
      ⟨fun c => hl c.1, Or.inr hr⟩
    have cl : ¬ (s.ship.LHp > 0 ∧ s.left ≠ 0) := fun h => hl ⟨h.2, h.1⟩
    have cr : s.ship.RHp > 0 ∧ s.right ≠ 0 := ⟨hr.2, hr.1⟩
    have hval : s.ship.phi + (((cBool (s.ship.RHp > 0 ∧ s.right ≠ 0) : Int) : ℚ) * 2 * M_PI / 30
          + -1 * (((cBool (s.ship.LHp > 0 ∧ s.left ≠ 0) : Int) : ℚ) * 2 * M_PI) / 30)
        = s.ship.phi + 2 * M_PI / 30 := by
      rw [cBool, cBool, if_neg cl, if_pos cr]
      push_cast
      ring
    unfold turnShip0
    rw [if_pos hC']
    dsimp only
    simp only [hval]
    split_ifs <;> rfl

/-- C22 (amended): for a ship of type 0, `advanceShip` changes the heading `phi` exactly when
one of the two turning keys acts and the other does not, where a key acts when it is held and
the side it belongs to (`LHp` for left, `RHp` for right) has positive hit points. When only the
left key acts the heading is lowered by `2*M_PI/30`, when only the right key acts it is raised
by `2*M_PI/30`, and the result is wrapped once into the range from `0` to `2*M_PI`. With both
keys held and both sides alive the heading stays; with both keys held and one side destroyed
the ship turns in the direction of the key whose side is alive. The velocity `(dx, dy)` is left
alone unless up or down is held and `BHp > 0`. -/
theorem advanceShip_type0_controls (m : LibM) (s : Game) (ht : s.ship.type = 0) :
    (¬ ((leftActs s ∧ ¬ rightActs s) ∨ (rightActs s ∧ ¬ leftActs s)) →
      (advanceShip m s).ship.phi = s.ship.phi) ∧
    (((leftActs s ∧ ¬ rightActs s) ∨ (rightActs s ∧ ¬ leftActs s)) →
      (advanceShip m s).ship.phi ≠ s.ship.phi) ∧
    ((s.left ≠ 0 ∧ s.right ≠ 0) → (s.ship.LHp > 0 ∧ s.ship.RHp > 0) →
      (advanceShip m s).ship.phi = s.ship.phi) ∧
    (¬ ((s.up ≠ 0 ∨ s.down ≠ 0) ∧ s.ship.BHp > 0) →
      (advanceShip m s).ship.dx = s.ship.dx ∧ (advanceShip m s).ship.dy = s.ship.dy) ∧
    (leftActs s ∧ ¬ rightActs s →
      (advanceShip m s).ship.phi
        = (if s.ship.phi - 2 * M_PI / 30 > 2 * M_PI then s.ship.phi - 2 * M_PI / 30 - 2 * M_PI
           else if s.ship.phi - 2 * M_PI / 30 < 0 then s.ship.phi - 2 * M_PI / 30 + 2 * M_PI
           else s.ship.phi - 2 * M_PI / 30)) ∧
    (rightActs s ∧ ¬ leftActs s →
      (advanceShip m s).ship.phi
        = (if s.ship.phi + 2 * M_PI / 30 > 2 * M_PI then s.ship.phi + 2 * M_PI / 30 - 2 * M_PI
           else if s.ship.phi + 2 * M_PI / 30 < 0 then s.ship.phi + 2 * M_PI / 30 + 2 * M_PI
           else s.ship.phi + 2 * M_PI / 30)) ∧
    ((s.left ≠ 0 ∧ s.right ≠ 0) → (s.ship.LHp > 0 ∧ ¬ s.ship.RHp > 0) →
      (advanceShip m s).ship.phi
        = (if s.ship.phi - 2 * M_PI / 30 > 2 * M_PI then s.ship.phi - 2 * M_PI / 30 - 2 * M_PI
           else if s.ship.phi - 2 * M_PI / 30 < 0 then s.ship.phi - 2 * M_PI / 30 + 2 * M_PI
           else s.ship.phi - 2 * M_PI / 30)) ∧
    ((s.left ≠ 0 ∧ s.right ≠ 0) → (s.ship.RHp > 0 ∧ ¬ s.ship.LHp > 0) →
      (advanceShip m s).ship.phi
        = (if s.ship.phi + 2 * M_PI / 30 > 2 * M_PI then s.ship.phi + 2 * M_PI / 30 - 2 * M_PI
           else if s.ship.phi + 2 * M_PI / 30 < 0 then s.ship.phi + 2 * M_PI / 30 + 2 * M_PI
           else s.ship.phi + 2 * M_PI / 30)) := by
  have e : advanceShip m s = wrapShip (moveShip (thrustShip0 m (turnShip0 s))) := by
    unfold advanceShip steerShip
    rw [if_pos ht]
  obtain ⟨w1, w2, w3⟩ := moveWrap_controls (thrustShip0 m (turnShip0 s))
  obtain ⟨t1, t2⟩ := thrustShip0_controls m (turnShip0 s)
  obtain ⟨u1, u2, u3, u4, u5, u6, u7⟩ := turnShip0_controls s
  obtain ⟨d1, d2⟩ := turnShip0_heading s
  rw [e, w1, w2, w3, t1]
  refine ⟨u6, u7, ?_, ?_, d1, d2, ?_, ?_⟩
  · intro hk hp
    apply u6
    intro h
    rcases h with ⟨_, hr⟩ | ⟨_, hl⟩
    · exact hr ⟨hk.2, hp.2⟩
    · exact hl ⟨hk.1, hp.1⟩
  · intro hn
    rw [u3, u4, u5] at t2
    obtain ⟨a, b⟩ := t2 hn
    exact ⟨a.trans u1, b.trans u2⟩
  · intro hk hp
    exact d1 ⟨⟨hk.1, hp.1⟩, fun c => hp.2 c.2⟩
  · intro hk hp
    exact d2 ⟨⟨hk.2, hp.1⟩, fun c => hp.2 c.2⟩

/-- Witness of C22 (amended): with both keys held and both sides alive the heading of
`bothKeysAliveGame` stays at `1`; with both keys held and the right side destroyed the heading
of `bothKeysGame` goes from `1` to `1 - 2*M_PI/30`, the turn of the left key. -/
theorem advanceShip_type0_controls_witness :
    (advanceShip demoLibM bothKeysAliveGame).ship.phi = 1 ∧
    (advanceShip demoLibM bothKeysGame).ship.phi = 1 - 2 * M_PI / 30 := by
  constructor
  · exact (advanceShip_type0_controls demoLibM bothKeysAliveGame rfl).2.2.1
      ⟨by decide, by decide⟩ ⟨by norm_num [bothKeysAliveGame, exampleShip],
        by norm_num [bothKeysAliveGame, exampleShip]⟩
  · have h := (advanceShip_type0_controls demoLibM bothKeysGame rfl).2.2.2.2.2.2.1
      ⟨by decide, by decide⟩ ⟨by norm_num [bothKeysGame, exampleShip],
        by norm_num [bothKeysGame, exampleShip]⟩
    rw [h]
    norm_num [bothKeysGame, exampleShip, M_PI]

/-- C22 (as stated, refuted): in `bothKeysGame` both turning keys are held (and the right side
of the ship of type 0 is destroyed), and `advanceShip` changes the heading, from `1` to
`1 - M_PI / 15`. -/
theorem advanceShip_turns_with_both_keys_held :
    bothKeysGame.ship.type = 0 ∧ bothKeysGame.left ≠ 0 ∧ bothKeysGame.right ≠ 0 ∧
    (advanceShip demoLibM bothKeysGame).ship.phi = 1 - M_PI / 15 ∧
    (advanceShip demoLibM bothKeysGame).ship.phi ≠ bothKeysGame.ship.phi := by
  have h : (advanceShip demoLibM bothKeysGame).ship.phi = 1 - M_PI / 15 := by
    have e : advanceShip demoLibM bothKeysGame
        = wrapShip (moveShip (thrustShip0 demoLibM (turnShip0 bothKeysGame))) := by
      unfold advanceShip steerShip
      rw [if_pos (by decide)]
    rw [e, (moveWrap_controls _).1, (thrustShip0_controls demoLibM _).1]
    norm_num [turnShip0, bothKeysGame, exampleShip, cBool, M_PI]
  refine ⟨by decide, by decide, by decide, h, ?_⟩
  rw [h]
  norm_num [bothKeysGame, exampleShip, M_PI]
/-! ### The number of vertices of an asteroid -/

theorem parent_nVertices_bounds (r : Nat) (sz : Int)
    (h : sz = ASTEROID_SMALL ∨ sz = ASTEROID_MEDIUM ∨ sz = ASTEROID_LARGE) :
    3 + sz ≤ 3 + sz + Int.tmod (r : Int) ((MAX_VERTICES : Int) - 3 - sz) ∧
    3 + sz + Int.tmod (r : Int) ((MAX_VERTICES : Int) - 3 - sz) ≤ (MAX_VERTICES : Int) - 1 := by
  have e : (MAX_VERTICES : Int) = 16 := rfl
  rw [e]
  rcases h with h | h | h <;> subst h
  · have e1 : (16 : Int) - 3 - ASTEROID_SMALL = 11 := by decide
    have e2 : ASTEROID_SMALL = 2 := rfl
    rw [e1, Int.tmod_eq_emod (by omega) (by omega), e2]
    omega
  · have e1 : (16 : Int) - 3 - ASTEROID_MEDIUM = 10 := by decide
    have e2 : ASTEROID_MEDIUM = 3 := rfl
    rw [e1, Int.tmod_eq_emod (by omega) (by omega), e2]
    omega
  · have e1 : (16 : Int) - 3 - ASTEROID_LARGE = 8 := by decide
    have e2 : ASTEROID_LARGE = 5 := rfl
    rw [e1, Int.tmod_eq_emod (by omega) (by omega), e2]
    omega

theorem initAsteroidValue_nVertices (m : LibM) (xMax yMax : ℚ) (sz : Int) (g : Rng)
    (old : Asteroid) :
    (initAsteroidValue m xMax yMax sz g old).1.nVertices
      = 3 + sz + Int.tmod (randAt g 7) ((MAX_VERTICES : Int) - 3 - sz) := by
  unfold initAsteroidValue
  dsimp only
  split_ifs <;> rfl

/-- The slot of the parent after `destroyAsteroidParent`: its `nVertices` comes from the draw of
the reconstruction and its reduced size. -/
theorem destroyAsteroidParent_nVertices (m : LibM) (a p : Nat) (s : Game) :
    ∃ r : Nat, ((destroyAsteroidParent m a p s).1.asteroids a).nVertices
      = 3 + ((destroyAsteroidParent m a p s).1.asteroids a).size
        + Int.tmod (r : Int)
            ((MAX_VERTICES : Int) - 3 - ((destroyAsteroidParent m a p s).1.asteroids a).size) := by
  unfold destroyAsteroidParent
  dsimp only
  rw [(nudgeParent_self a _ _).2.2, (nudgeParent_self a _ _).2.1, (rebuildParent_self m a _).2.2,
    (rebuildParent_self m a _).2.1]
  exact ⟨_, rfl⟩

/-- With no child to create, `destroyAsteroid` ends in the state of its first part. -/
theorem destroyAsteroid_no_children (m : LibM) (a p : Nat) (s : Game)
    (h : (destroyAsteroidParent m a p s).2 = 0) :
    destroyAsteroid m a p s = (destroyAsteroidParent m a p s).1 := by
  unfold destroyAsteroid
  dsimp only
  rw [h]
  have hn : ¬ ((0 : Int) > ((freeAsteroids (destroyAsteroidParent m a p s).1 : Nat) : Int)) := by
    omega
  rw [if_neg hn]
  dsimp only
  rw [childrenLoop_nonpos _ _ _ _ _ _ _ _ (le_refl 0)]

/-- The slot of an active asteroid after `destroyAsteroid` is the one its first part leaves. -/
theorem destroyAsteroid_self (m : LibM) (a p : Nat) (s : Game)
    (hact : (s.asteroids a).active ≠ 0)
    (hsz : (s.asteroids a).size = ASTEROID_SMALL ∨ (s.asteroids a).size = ASTEROID_MEDIUM ∨
      (s.asteroids a).size = ASTEROID_LARGE) :
    (destroyAsteroid m a p s).asteroids a = (destroyAsteroidParent m a p s).1.asteroids a := by
  rcases hsz with h | h
  · rw [destroyAsteroid_no_children m a p s (destroyAsteroidParent_small m a p s h).2.1]
  · obtain ⟨_, _, hfr, _, _⟩ := destroyAsteroid_split m a p s h
    rcases hfr a with e | e
    · exact e
    · exact absurd e.2.1 hact

/-- C25: for a size among `ASTEROID_SMALL`, `ASTEROID_MEDIUM`, `ASTEROID_LARGE` and every
outcome of `rand()`: the asteroid `initAsteroid` creates with that size has
`3 + size <= nVertices <= MAX_VERTICES - 1`; after `destroyAsteroid` on an active asteroid of
that size the parent's `nVertices` is between `3 +` its new size and `MAX_VERTICES - 1`, and
every slot the call activates holds a child with `6 <= nVertices <= MAX_VERTICES - 1`. The
vertex loops write the indices below `nVertices`, all of them below `MAX_VERTICES`. -/
theorem nVertices_within_vertex_array (m : LibM) (sz : Int)
    (hsz : sz = ASTEROID_SMALL ∨ sz = ASTEROID_MEDIUM ∨ sz = ASTEROID_LARGE) :
    (∀ (k : Nat) (s : Game),
      3 + sz ≤ ((initAsteroid m k sz s).asteroids k).nVertices ∧
      ((initAsteroid m k sz s).asteroids k).nVertices ≤ (MAX_VERTICES : Int) - 1 ∧
      ((initAsteroid m k sz s).asteroids k).nVertices.toNat < MAX_VERTICES) ∧
    (∀ (a p : Nat) (s : Game), (s.asteroids a).active ≠ 0 → (s.asteroids a).size = sz →
      (3 + ((destroyAsteroid m a p s).asteroids a).size
          ≤ ((destroyAsteroid m a p s).asteroids a).nVertices ∧
        ((destroyAsteroid m a p s).asteroids a).nVertices ≤ (MAX_VERTICES : Int) - 1 ∧
        ((destroyAsteroid m a p s).asteroids a).nVertices.toNat < MAX_VERTICES) ∧
      ∀ j, (s.asteroids j).active = 0 → ((destroyAsteroid m a p s).asteroids j).active ≠ 0 →
        6 ≤ ((destroyAsteroid m a p s).asteroids j).nVertices ∧
        ((destroyAsteroid m a p s).asteroids j).nVertices ≤ (MAX_VERTICES : Int) - 1 ∧
        ((destroyAsteroid m a p s).asteroids j).nVertices.toNat < MAX_VERTICES) := by
  have h16 : (MAX_VERTICES : Int) = 16 := rfl
  have h16n : MAX_VERTICES = 16 := rfl
  constructor
  · intro k s
    have e : ((initAsteroid m k sz s).asteroids k).nVertices
        = 3 + sz + Int.tmod (randAt s.rng 7) ((MAX_VERTICES : Int) - 3 - sz) := by
      show (Function.update s.asteroids k _ k).nVertices = _
      rw [Function.update_same, initAsteroidValue_nVertices]
    have hb := parent_nVertices_bounds (randAt s.rng 7) sz hsz
    rw [e]
    rw [h16] at hb ⊢
    rw [h16n]
    omega
  · intro a p s hact hsize
    have hsz' : (s.asteroids a).size = ASTEROID_SMALL ∨ (s.asteroids a).size = ASTEROID_MEDIUM ∨
        (s.asteroids a).size = ASTEROID_LARGE := by rw [hsize]; exact hsz
    have hself := destroyAsteroid_self m a p s hact hsz'
    obtain ⟨r, hr⟩ := destroyAsteroidParent_nVertices m a p s
    have hnew : ((destroyAsteroidParent m a p s).1.asteroids a).size = ASTEROID_SMALL ∨
        ((destroyAsteroidParent m a p s).1.asteroids a).size = ASTEROID_MEDIUM ∨
        ((destroyAsteroidParent m a p s).1.asteroids a).size = ASTEROID_LARGE := by
      rcases hsz' with h | h | h
      · left
        unfold destroyAsteroidParent
        dsimp only
        rw [(nudgeParent_self a _ _).2.1, (rebuildParent_self m a _).2.1]
        exact (destroyAsteroidSize_small m a (awardAsteroid a p s)
          (by rw [(awardAsteroid_facts a p s).1]; exact h)).2.1
      · left; exact (destroyAsteroidParent_medium m a p s h).2.1
      · right; left; exact (destroyAsteroidParent_large m a p s h).2.1
    have hb := parent_nVertices_bounds r _ hnew
    refine ⟨?_, ?_⟩
    · rw [hself, hr]
      rw [h16] at hb ⊢
      rw [h16n]
      omega
    · intro j hj0 hj1
      rcases hsz' with h | h
      · exfalso
        rw [destroyAsteroid_no_children m a p s (destroyAsteroidParent_small m a p s h).2.1]
          at hj1
        by_cases hja : j = a
        · subst hja; exact hact hj0
        · rw [destroyAsteroidParent_other m a p s j hja] at hj1
          exact hj1 hj0
      · obtain ⟨_, _, hfr, hall, _⟩ := destroyAsteroid_split m a p s h
        rcases hfr j with e | e
        · rw [e, hall j] at hj1
          exact absurd hj0 hj1
        · have h1 := e.2.2.2.2.1
          have h2 := e.2.2.2.2.2
          rw [h16] at h2 ⊢
          rw [h16n]
          omega

/-- Witness of C25: the parent of `oneMediumGame` after `destroyAsteroid` has between 5 and 15
vertices. -/
theorem nVertices_within_vertex_array_witness :
    ((destroyAsteroid demoLibM 0 0 oneMediumGame).asteroids 0).nVertices ≤ 15 ∧
    ((initAsteroid demoLibM 0 ASTEROID_LARGE oneMediumGame).asteroids 0).nVertices ≤ 15 := by
  have h := nVertices_within_vertex_array demoLibM ASTEROID_MEDIUM (Or.inr (Or.inl rfl))
  have g := nVertices_within_vertex_array demoLibM ASTEROID_LARGE (Or.inr (Or.inr rfl))
  exact ⟨((h.2 0 0 oneMediumGame (by decide) rfl).1).2.1, (g.1 0 oneMediumGame).2.1⟩
/-! ### `destroyAsteroid`: the velocity of the parent -/

theorem nudgeParent_velocity (a : Nat) (p : Photon) (s : Game) :
    ((nudgeParent a p s).asteroids a).dx
      = (if ((s.asteroids a).dx * (s.asteroids a).size + p.dx * s.photonSize / 2)
            / (s.asteroids a).size > 1 then 1
         else if ((s.asteroids a).dx * (s.asteroids a).size + p.dx * s.photonSize / 2)
            / (s.asteroids a).size < -1 then -1
         else ((s.asteroids a).dx * (s.asteroids a).size + p.dx * s.photonSize / 2)
            / (s.asteroids a).size) ∧
    ((nudgeParent a p s).asteroids a).dy
      = (if ((s.asteroids a).dy * (s.asteroids a).size + p.dy * s.photonSize / 2)
            / (s.asteroids a).size > 1 then -1
         else if ((s.asteroids a).dy * (s.asteroids a).size + p.dy * s.photonSize / 2)
            / (s.asteroids a).size < -1 then -1
         else ((s.asteroids a).dy * (s.asteroids a).size + p.dy * s.photonSize / 2)
            / (s.asteroids a).size) := by
  unfold nudgeParent
  simp only [Game.setAst, Function.update_same]
  by_cases hx1 : ((s.asteroids a).dx * (s.asteroids a).size + p.dx * s.photonSize / 2)
      / (s.asteroids a).size > 1 <;>
  by_cases hx2 : ((s.asteroids a).dx * (s.asteroids a).size + p.dx * s.photonSize / 2)
      / (s.asteroids a).size < -1 <;>
  by_cases hy1 : ((s.asteroids a).dy * (s.asteroids a).size + p.dy * s.photonSize / 2)
      / (s.asteroids a).size > 1 <;>
  by_cases hy2 : ((s.asteroids a).dy * (s.asteroids a).size + p.dy * s.photonSize / 2)
      / (s.asteroids a).size < -1 <;>
  simp only [hx1, hx2, hy1, hy2, if_true, if_false, Function.update_same, and_self]

theorem rebuildParent_velocity (m : LibM) (a : Nat) (s : Game) :
    ((rebuildParent m a s).asteroids a).dx = (s.asteroids a).dx ∧
    ((rebuildParent m a s).asteroids a).dy = (s.asteroids a).dy ∧
    (rebuildParent m a s).photonSize = s.photonSize ∧
    (rebuildParent m a s).photons = s.photons := by
  simp [rebuildParent, Game.setAst]

theorem destroyAsteroidSize_velocity (m : LibM) (a : Nat) (s : Game) :
    ((destroyAsteroidSize m a s).1.asteroids a).dx = (s.asteroids a).dx ∧
    ((destroyAsteroidSize m a s).1.asteroids a).dy = (s.asteroids a).dy ∧
    (destroyAsteroidSize m a s).1.photonSize = s.photonSize := by
  unfold destroyAsteroidSize
  simp only [Game.setAst, initDust]
  split_ifs <;> simp

theorem awardAsteroid_photonSize (a p : Nat) (s : Game) :
    (awardAsteroid a p s).photonSize = s.photonSize := by
  unfold awardAsteroid
  simp only [addScore]
  split_ifs <;> rfl

/-- The velocity of the parent after the first part of `destroyAsteroid`, from the velocities
and the photon size before the call and the size the parent ends with. -/
theorem destroyAsteroidParent_velocity (m : LibM) (a p : Nat) (s : Game) :
    ((destroyAsteroidParent m a p s).1.asteroids a).dx
      = (if ((s.asteroids a).dx * ((destroyAsteroidParent m a p s).1.asteroids a).size
              + (s.photons p).dx * s.photonSize / 2)
              / ((destroyAsteroidParent m a p s).1.asteroids a).size > 1 then 1
         else if ((s.asteroids a).dx * ((destroyAsteroidParent m a p s).1.asteroids a).size
              + (s.photons p).dx * s.photonSize / 2)
              / ((destroyAsteroidParent m a p s).1.asteroids a).size < -1 then -1
         else ((s.asteroids a).dx * ((destroyAsteroidParent m a p s).1.asteroids a).size
              + (s.photons p).dx * s.photonSize / 2)
              / ((destroyAsteroidParent m a p s).1.asteroids a).size) ∧
    ((destroyAsteroidParent m a p s).1.asteroids a).dy
      = (if ((s.asteroids a).dy * ((destroyAsteroidParent m a p s).1.asteroids a).size
              + (s.photons p).dy * s.photonSize / 2)
              / ((destroyAsteroidParent m a p s).1.asteroids a).size > 1 then -1
         else if ((s.asteroids a).dy * ((destroyAsteroidParent m a p s).1.asteroids a).size
              + (s.photons p).dy * s.photonSize / 2)
              / ((destroyAsteroidParent m a p s).1.asteroids a).size < -1 then -1
         else ((s.asteroids a).dy * ((destroyAsteroidParent m a p s).1.asteroids a).size
              + (s.photons p).dy * s.photonSize / 2)
              / ((destroyAsteroidParent m a p s).1.asteroids a).size) := by
  have hsize : ((destroyAsteroidParent m a p s).1.asteroids a).size
      = ((rebuildParent m a (destroyAsteroidSize m a (awardAsteroid a p s)).1).asteroids a).size := by
    unfold destroyAsteroidParent
    dsimp only
    rw [(nudgeParent_self a _ _).2.1]
  have hv := nudgeParent_velocity a
    ((rebuildParent m a (destroyAsteroidSize m a (awardAsteroid a p s)).1).photons p)
    (rebuildParent m a (destroyAsteroidSize m a (awardAsteroid a p s)).1)
  have hr := rebuildParent_velocity m a (destroyAsteroidSize m a (awardAsteroid a p s)).1
  have hd := destroyAsteroidSize_velocity m a (awardAsteroid a p s)
  have hf := awardAsteroid_facts a p s
  have hph : ((rebuildParent m a (destroyAsteroidSize m a (awardAsteroid a p s)).1).photons p).dx
        = (s.photons p).dx ∧
      ((rebuildParent m a (destroyAsteroidSize m a (awardAsteroid a p s)).1).photons p).dy
        = (s.photons p).dy := by
    rw [hr.2.2.2, (destroyAsteroidSize_counters m a (awardAsteroid a p s)).1, hf.2.2.2.2.1,
      Function.update_same]
    exact ⟨rfl, rfl⟩
  rw [hr.1, hr.2.1, hr.2.2.1, hd.1, hd.2.1, hd.2.2, hf.1, awardAsteroid_photonSize, hph.1, hph.2,
    ← hsize] at hv
  exact hv

/-- C26: after `destroyAsteroid` on an active asteroid of size `ASTEROID_MEDIUM` or
`ASTEROID_LARGE`, with `v = (a.v*s + p.v*photonSize/2)/s` computed from the reduced size `s`
and the velocity of the photon: the parent's `dx` is 1 when `v.x > 1`, -1 when `v.x < -1` and
`v.x` otherwise; the parent's `dy` is -1 when `v.y > 1`, -1 when `v.y < -1` and `v.y`
otherwise; both components end in `[-1, 1]`. -/
theorem destroyAsteroid_parent_velocity (m : LibM) (a p : Nat) (s : Game) (vx vy : ℚ)
    (hact : (s.asteroids a).active ≠ 0)
    (hsz : (s.asteroids a).size = ASTEROID_MEDIUM ∨ (s.asteroids a).size = ASTEROID_LARGE)
    (hvx : vx = ((s.asteroids a).dx * ((destroyAsteroid m a p s).asteroids a).size
      + (s.photons p).dx * s.photonSize / 2) / ((destroyAsteroid m a p s).asteroids a).size)
    (hvy : vy = ((s.asteroids a).dy * ((destroyAsteroid m a p s).asteroids a).size
      + (s.photons p).dy * s.photonSize / 2) / ((destroyAsteroid m a p s).asteroids a).size) :
    (((destroyAsteroid m a p s).asteroids a).size = ASTEROID_SMALL ∨
      ((destroyAsteroid m a p s).asteroids a).size = ASTEROID_MEDIUM) ∧
    (vx > 1 → ((destroyAsteroid m a p s).asteroids a).dx = 1) ∧
    (vx < -1 → ((destroyAsteroid m a p s).asteroids a).dx = -1) ∧
    (-1 ≤ vx → vx ≤ 1 → ((destroyAsteroid m a p s).asteroids a).dx = vx) ∧
    (vy > 1 → ((destroyAsteroid m a p s).asteroids a).dy = -1) ∧
    (vy < -1 → ((destroyAsteroid m a p s).asteroids a).dy = -1) ∧
    (-1 ≤ vy → vy ≤ 1 → ((destroyAsteroid m a p s).asteroids a).dy = vy) ∧
    -1 ≤ ((destroyAsteroid m a p s).asteroids a).dx ∧
    ((destroyAsteroid m a p s).asteroids a).dx ≤ 1 ∧
    -1 ≤ ((destroyAsteroid m a p s).asteroids a).dy ∧
    ((destroyAsteroid m a p s).asteroids a).dy ≤ 1 := by
  have hself := destroyAsteroid_self m a p s hact (Or.inr hsz)
  have hv := destroyAsteroidParent_velocity m a p s
  rw [← hself, ← hvx, ← hvy] at hv
  have hnew : ((destroyAsteroid m a p s).asteroids a).size = ASTEROID_SMALL ∨
      ((destroyAsteroid m a p s).asteroids a).size = ASTEROID_MEDIUM := by
    rw [hself]
    rcases hsz with h | h
    · left; exact (destroyAsteroidParent_medium m a p s h).2.1
    · right; exact (destroyAsteroidParent_large m a p s h).2.1
  obtain ⟨hx, hy⟩ := hv
  refine ⟨hnew, ?_, ?_, ?_, ?_, ?_, ?_, ?_, ?_, ?_, ?_⟩
  · intro h; rw [hx, if_pos h]
  · intro h
    have h1 : ¬ vx > 1 := by linarith
    rw [hx, if_neg h1, if_pos h]
  · intro h1 h2
    rw [hx, if_neg (by linarith), if_neg (by linarith)]
  · intro h; rw [hy, if_pos h]
  · intro h
    have h1 : ¬ vy > 1 := by linarith
    rw [hy, if_neg h1, if_pos h]
  · intro h1 h2
    rw [hy, if_neg (by linarith), if_neg (by linarith)]
  · rw [hx]; split_ifs <;> linarith
  · rw [hx]; split_ifs <;> linarith
  · rw [hy]; split_ifs <;> linarith
  · rw [hy]; split_ifs <;> linarith

/-- Witness of C26: a medium asteroid at rest hit by a photon of velocity `(8, 8)` has
`v = (2, 2)`; its parent ends with `dx = 1` and `dy = -1`. -/
theorem destroyAsteroid_parent_velocity_witness :
    ((destroyAsteroid demoLibM 0 0 fastPhotonGame).asteroids 0).dx = 1 ∧
    ((destroyAsteroid demoLibM 0 0 fastPhotonGame).asteroids 0).dy = -1 := by
  have hact : (fastPhotonGame.asteroids 0).active ≠ 0 := by decide
  have hsz : (fastPhotonGame.asteroids 0).size = ASTEROID_MEDIUM := rfl
  have hnew : ((destroyAsteroid demoLibM 0 0 fastPhotonGame).asteroids 0).size = 2 := by
    rw [destroyAsteroid_self demoLibM 0 0 fastPhotonGame hact (Or.inr (Or.inl hsz))]
    exact (destroyAsteroidParent_medium demoLibM 0 0 fastPhotonGame hsz).2.1
  have hv : (2 : ℚ) = ((fastPhotonGame.asteroids 0).dx
      * ((destroyAsteroid demoLibM 0 0 fastPhotonGame).asteroids 0).size
      + (fastPhotonGame.photons 0).dx * fastPhotonGame.photonSize / 2)
      / ((destroyAsteroid demoLibM 0 0 fastPhotonGame).asteroids 0).size := by
    rw [hnew]
    norm_num [fastPhotonGame]
  have hw : (2 : ℚ) = ((fastPhotonGame.asteroids 0).dy
      * ((destroyAsteroid demoLibM 0 0 fastPhotonGame).asteroids 0).size
      + (fastPhotonGame.photons 0).dy * fastPhotonGame.photonSize / 2)
      / ((destroyAsteroid demoLibM 0 0 fastPhotonGame).asteroids 0).size := by
    rw [hnew]
    norm_num [fastPhotonGame]
  have h := destroyAsteroid_parent_velocity demoLibM 0 0 fastPhotonGame 2 2 hact
    (Or.inl hsz) hv hw
  exact ⟨h.2.1 (by norm_num), h.2.2.2.2.1 (by norm_num)⟩

/-! ### A ship of type 1 and the top side of its square -/

theorem orientation_eval (v : ℚ) :
    orientation v = if 1 ≤ v then 1 else if v ≤ -1 then 2 else 0 := by
  split_ifs with h1 h2
  · exact orientation_of_one_le h1
  · exact orientation_of_le_neg_one h2
  · exact orientation_of_abs_lt_one (not_le.mp h2) (not_le.mp h1)

theorem lowAsteroid_vertices :
    asteroidVertex octantLibM lowAsteroid 0 = ⟨0, 1⟩ ∧
    asteroidVertex octantLibM lowAsteroid 1 = ⟨-7071 / 2500, 7929 / 2500⟩ ∧
    asteroidVertex octantLibM lowAsteroid 2 = ⟨-4, 6⟩ ∧
    asteroidVertex octantLibM lowAsteroid 3 = ⟨-7071 / 2500, 22071 / 2500⟩ ∧
    asteroidVertex octantLibM lowAsteroid 4 = ⟨0, 10⟩ ∧
    asteroidVertex octantLibM lowAsteroid 5 = ⟨7071 / 2500, 22071 / 2500⟩ ∧
    asteroidVertex octantLibM lowAsteroid 6 = ⟨4, 6⟩ ∧
    asteroidVertex octantLibM lowAsteroid 7 = ⟨7071 / 2500, 7929 / 2500⟩ := by
  refine ⟨?_, ?_, ?_, ?_, ?_, ?_, ?_, ?_⟩ <;>
  · simp [asteroidVertex, lowAsteroid, exampleAsteroid, octantLibM, octant, M_PI]
    try norm_num

/-- An edge that none of the four tests of the vertex loop finds (the right side from the top,
the bottom side, the left side, the right side from the bottom) leaves the state alone, whatever
it does to the top side of the square. -/
theorem shipEdgeStep1_tested_sides (x1 y1 x2 y2 : ℚ)
    (h1 : lineCollision 2 2 2 (-2) x1 y1 x2 y2 = 0)
    (h2 : lineCollision 2 (-2) (-2) (-2) x1 y1 x2 y2 = 0)
    (h3 : lineCollision (-2) (-2) (-2) 2 x1 y1 x2 y2 = 0)
    (h4 : lineCollision 2 (-2) 2 2 x1 y1 x2 y2 = 0) :
    shipEdgeStep1 octantLibM x1 y1 x2 y2 topHitGame = topHitGame := by
  have hr : octantLibM.sqrt topHitGame.ship.size = 2 := by
    simp [octantLibM, topHitGame, squareShip]
  have hx : topHitGame.ship.x = 0 := rfl
  have hy : topHitGame.ship.y = 0 := rfl
  have hp : topHitGame.ship.BHp > 0 := by
    show (0 : ℚ) < 100
    norm_num
  have hd : topHitGame.ship.BDmg = 0 := rfl
  have hn : ¬ topHitGame.ship.BHp ≤ 0 := not_le.mpr hp
  unfold shipEdgeStep1
  rw [if_pos hp]
  simp only [hr, hx, hy, hd, zero_add, zero_sub, if_true, h1, h2, h3, h4, ne_eq, not_true_eq_false,
    if_false, hn]

/-- The four tests of the vertex loop on the eight edges of `lowAsteroid`, edge `k` running
from vertex `k` to the vertex before it. -/
theorem lowAsteroid_edges :
    (lineCollision 2 2 2 (-2) 0 1 (7071 / 2500) (7929 / 2500) = 0 ∧
     lineCollision 2 (-2) (-2) (-2) 0 1 (7071 / 2500) (7929 / 2500) = 0 ∧
     lineCollision (-2) (-2) (-2) 2 0 1 (7071 / 2500) (7929 / 2500) = 0 ∧
     lineCollision 2 (-2) 2 2 0 1 (7071 / 2500) (7929 / 2500) = 0) ∧
    (lineCollision 2 2 2 (-2) (-7071 / 2500) (7929 / 2500) 0 1 = 0 ∧
     lineCollision 2 (-2) (-2) (-2) (-7071 / 2500) (7929 / 2500) 0 1 = 0 ∧
     lineCollision (-2) (-2) (-2) 2 (-7071 / 2500) (7929 / 2500) 0 1 = 0 ∧
     lineCollision 2 (-2) 2 2 (-7071 / 2500) (7929 / 2500) 0 1 = 0) ∧
    (lineCollision 2 2 2 (-2) (-4) 6 (-7071 / 2500) (7929 / 2500) = 0 ∧
     lineCollision 2 (-2) (-2) (-2) (-4) 6 (-7071 / 2500) (7929 / 2500) = 0 ∧
     lineCollision (-2) (-2) (-2) 2 (-4) 6 (-7071 / 2500) (7929 / 2500) = 0 ∧
     lineCollision 2 (-2) 2 2 (-4) 6 (-7071 / 2500) (7929 / 2500) = 0) ∧
    (lineCollision 2 2 2 (-2) (-7071 / 2500) (22071 / 2500) (-4) 6 = 0 ∧
     lineCollision 2 (-2) (-2) (-2) (-7071 / 2500) (22071 / 2500) (-4) 6 = 0 ∧
     lineCollision (-2) (-2) (-2) 2 (-7071 / 2500) (22071 / 2500) (-4) 6 = 0 ∧
     lineCollision 2 (-2) 2 2 (-7071 / 2500) (22071 / 2500) (-4) 6 = 0) ∧
    (lineCollision 2 2 2 (-2) 0 10 (-7071 / 2500) (22071 / 2500) = 0 ∧
     lineCollision 2 (-2) (-2) (-2) 0 10 (-7071 / 2500) (22071 / 2500) = 0 ∧
     lineCollision (-2) (-2) (-2) 2 0 10 (-7071 / 2500) (22071 / 2500) = 0 ∧
     lineCollision 2 (-2) 2 2 0 10 (-7071 / 2500) (22071 / 2500) = 0) ∧
    (lineCollision 2 2 2 (-2) (7071 / 2500) (22071 / 2500) 0 10 = 0 ∧
     lineCollision 2 (-2) (-2) (-2) (7071 / 2500) (22071 / 2500) 0 10 = 0 ∧
     lineCollision (-2) (-2) (-2) 2 (7071 / 2500) (22071 / 2500) 0 10 = 0 ∧
     lineCollision 2 (-2) 2 2 (7071 / 2500) (22071 / 2500) 0 10 = 0) ∧
    (lineCollision 2 2 2 (-2) 4 6 (7071 / 2500) (22071 / 2500) = 0 ∧
     lineCollision 2 (-2) (-2) (-2) 4 6 (7071 / 2500) (22071 / 2500) = 0 ∧
     lineCollision (-2) (-2) (-2) 2 4 6 (7071 / 2500) (22071 / 2500) = 0 ∧
     lineCollision 2 (-2) 2 2 4 6 (7071 / 2500) (22071 / 2500) = 0) ∧
    (lineCollision 2 2 2 (-2) (7071 / 2500) (7929 / 2500) 4 6 = 0 ∧
     lineCollision 2 (-2) (-2) (-2) (7071 / 2500) (7929 / 2500) 4 6 = 0 ∧
     lineCollision (-2) (-2) (-2) 2 (7071 / 2500) (7929 / 2500) 4 6 = 0 ∧
     lineCollision 2 (-2) 2 2 (7071 / 2500) (7929 / 2500) 4 6 = 0) := by
  refine ⟨⟨?_, ?_, ?_, ?_⟩, ⟨?_, ?_, ?_, ?_⟩, ⟨?_, ?_, ?_, ?_⟩, ⟨?_, ?_, ?_, ?_⟩,
    ⟨?_, ?_, ?_, ?_⟩, ⟨?_, ?_, ?_, ?_⟩, ⟨?_, ?_, ?_, ?_⟩, ⟨?_, ?_, ?_, ?_⟩⟩ <;>
  · simp only [lineCollision, orientation_eval]
    norm_num [onSegmentBox]

theorem edgeLoop1_succ (m : LibM) (i n k : Nat) (s : Game) (x1 y1 : ℚ) :
    edgeLoop1 m i (n + 1) k (s, x1, y1)
      = edgeLoop1 m i n (k + 1)
          (shipEdgeStep1 m (asteroidVertex m (s.asteroids i) k).x
            (asteroidVertex m (s.asteroids i) k).y x1 y1 s,
            (asteroidVertex m (s.asteroids i) k).x, (asteroidVertex m (s.asteroids i) k).y) := rfl

/-- The vertex loop of `topHitGame` against its asteroid ends in the state it starts from. -/
theorem topHitGame_edgeLoop :
    (edgeLoop1 octantLibM 0 8 0 (topHitGame, (asteroidVertex octantLibM lowAsteroid 7).x,
      (asteroidVertex octantLibM lowAsteroid 7).y)).1 = topHitGame := by
  obtain ⟨v0, v1, v2, v3, v4, v5, v6, v7⟩ := lowAsteroid_vertices
  obtain ⟨e0, e1, e2, e3, e4, e5, e6, e7⟩ := lowAsteroid_edges
  have ha : topHitGame.asteroids 0 = lowAsteroid := rfl
  have c1 : ((0 + 1 : Nat) : Int) = 1 := rfl
  have c2 : ((0 + 1 + 1 : Nat) : Int) = 2 := rfl
  have c3 : ((0 + 1 + 1 + 1 : Nat) : Int) = 3 := rfl
  have c4 : ((0 + 1 + 1 + 1 + 1 : Nat) : Int) = 4 := rfl
  have c5 : ((0 + 1 + 1 + 1 + 1 + 1 : Nat) : Int) = 5 := rfl
  have c6 : ((0 + 1 + 1 + 1 + 1 + 1 + 1 : Nat) : Int) = 6 := rfl
  have c7 : ((0 + 1 + 1 + 1 + 1 + 1 + 1 + 1 : Nat) : Int) = 7 := rfl
  rw [edgeLoop1_succ, ha, Nat.cast_zero, v0, v7,
    shipEdgeStep1_tested_sides _ _ _ _ e0.1 e0.2.1 e0.2.2.1 e0.2.2.2]
  rw [edgeLoop1_succ, ha, c1, v1,
    shipEdgeStep1_tested_sides _ _ _ _ e1.1 e1.2.1 e1.2.2.1 e1.2.2.2]
  rw [edgeLoop1_succ, ha, c2, v2,
    shipEdgeStep1_tested_sides _ _ _ _ e2.1 e2.2.1 e2.2.2.1 e2.2.2.2]
  rw [edgeLoop1_succ, ha, c3, v3,
    shipEdgeStep1_tested_sides _ _ _ _ e3.1 e3.2.1 e3.2.2.1 e3.2.2.2]
  rw [edgeLoop1_succ, ha, c4, v4,
    shipEdgeStep1_tested_sides _ _ _ _ e4.1 e4.2.1 e4.2.2.1 e4.2.2.2]
  rw [edgeLoop1_succ, ha, c5, v5,
    shipEdgeStep1_tested_sides _ _ _ _ e5.1 e5.2.1 e5.2.2.1 e5.2.2.2]
  rw [edgeLoop1_succ, ha, c6, v6,
    shipEdgeStep1_tested_sides _ _ _ _ e6.1 e6.2.1 e6.2.2.1 e6.2.2.2]
  rw [edgeLoop1_succ, ha, c7, v7,
    shipEdgeStep1_tested_sides _ _ _ _ e7.1 e7.2.1 e7.2.2.1 e7.2.2.2]
  rfl

theorem lowAsteroid_circles (ship : Ship) (hx : ship.x = 0) (hy : ship.y = 0)
    (hs : ship.size = 4) :
    inBroadCircle lowAsteroid ship ∧ ¬ inInnerCircle lowAsteroid ship := by
  constructor
  · simp only [inBroadCircle, distSq, hx, hy, hs, lowAsteroid, exampleAsteroid, ASTEROID_SMALL,
      MAX_ASTEROID_VARIANCE]
    norm_num
  · simp only [inInnerCircle, distSq, hx, hy, lowAsteroid, exampleAsteroid, ASTEROID_SMALL,
      MIN_ASTEROID_VARIANCE]
    norm_num

theorem topHitGame_shipAsteroid1 (i : Nat) :
    shipAsteroid1 octantLibM i topHitGame = topHitGame := by
  by_cases hi : i = 0
  · subst hi
    have ha : topHitGame.asteroids 0 = lowAsteroid := rfl
    have hc := lowAsteroid_circles topHitGame.ship rfl rfl rfl
    have hact : lowAsteroid.active ≠ 0 := by show (1 : Int) ≠ 0; decide
    have h8 : lowAsteroid.nVertices.toNat = 8 := rfl
    have h7 : lowAsteroid.nVertices - 1 = 7 := rfl
    have hin : ¬ inInnerCircle lowAsteroid topHitGame.ship := hc.2
    unfold shipAsteroid1
    simp only [ha, h8, h7, topHitGame_edgeLoop, ite_self, hin, and_false, if_false]
  · have ha : topHitGame.asteroids i = {} := by simp [topHitGame, hi]
    have hact : ¬ (({} : Asteroid).active ≠ 0) := fun c => c rfl
    unfold shipAsteroid1
    simp only [ha, hact, false_and, if_false]

theorem topHitGame_loop (n : Nat) :
    ∀ i : Nat, collisionAsteroidShipLoop octantLibM n i topHitGame = topHitGame := by
  induction n with
  | zero => intro i; rfl
  | succ n ih =>
    intro i
    have ht : topHitGame.ship.type = 1 := rfl
    have h0 : ¬ topHitGame.ship.type = 0 := by rw [ht]; decide
    simp only [collisionAsteroidShipLoop, h0, ht, if_false, if_true, topHitGame_shipAsteroid1]
    exact ih (i + 1)

/-- C27 (code bug): in `topHitGame` a ship of type 1 with `BHp = 100 > 0` and `BDmg = 0` is
inside the broad circle of the active asteroid in slot 0, and `lineCollision` reports that
edge 0 of that asteroid meets the top side of the ship's square, from
`(x - sqrt(size), y + sqrt(size))` to `(x + sqrt(size), y + sqrt(size))`; yet a pass of
`collisionAsteroidShip` returns the state unchanged, with `BHp = 100` and `BDmg = 0`: the
test that the source calls the top side runs along the right side again. -/
theorem collisionAsteroidShip_type1_top_side_untested :
    topHitGame.ship.type = 1 ∧ topHitGame.ship.BHp = 100 ∧ topHitGame.ship.BDmg = 0 ∧
    (topHitGame.asteroids 0).active ≠ 0 ∧
    inBroadCircle (topHitGame.asteroids 0) topHitGame.ship ∧
    lineCollision
      (topHitGame.ship.x - octantLibM.sqrt topHitGame.ship.size)
      (topHitGame.ship.y + octantLibM.sqrt topHitGame.ship.size)
      (topHitGame.ship.x + octantLibM.sqrt topHitGame.ship.size)
      (topHitGame.ship.y + octantLibM.sqrt topHitGame.ship.size)
      (asteroidVertex octantLibM (topHitGame.asteroids 0) 0).x
      (asteroidVertex octantLibM (topHitGame.asteroids 0) 0).y
      (asteroidEdgeStart octantLibM (topHitGame.asteroids 0) 0).x
      (asteroidEdgeStart octantLibM (topHitGame.asteroids 0) 0).y = 1 ∧
    collisionAsteroidShip octantLibM topHitGame = topHitGame ∧
    (collisionAsteroidShip octantLibM topHitGame).ship.BHp = 100 ∧
    (collisionAsteroidShip octantLibM topHitGame).ship.BDmg = 0 := by
  have hpass : collisionAsteroidShip octantLibM topHitGame = topHitGame :=
    topHitGame_loop MAX_ASTEROIDS 0
  have ha : topHitGame.asteroids 0 = lowAsteroid := rfl
  have hr : octantLibM.sqrt topHitGame.ship.size = 2 := by
    simp [octantLibM, topHitGame, squareShip]
  have hx : topHitGame.ship.x = 0 := rfl
  have hy : topHitGame.ship.y = 0 := rfl
  have he : asteroidEdgeStart octantLibM lowAsteroid 0
      = asteroidVertex octantLibM lowAsteroid 7 := by
    simp [asteroidEdgeStart, lowAsteroid, exampleAsteroid]
  refine ⟨rfl, rfl, rfl, by show (1 : Int) ≠ 0; decide,
    (lowAsteroid_circles topHitGame.ship rfl rfl rfl).1, ?_, hpass, ?_, ?_⟩
  · rw [ha, he, hr, hx, hy, lowAsteroid_vertices.1, lowAsteroid_vertices.2.2.2.2.2.2.2]
    simp only [lineCollision, orientation_eval]
    norm_num [onSegmentBox]
  · rw [hpass]; rfl
  · rw [hpass]; rfl

/-! ### One pass of `collisionAsteroidPhoton` -/

theorem destroyAsteroid_photons (m : LibM) (a p : Nat) (s : Game) :
    (destroyAsteroid m a p s).photons
      = Function.update s.photons p { s.photons p with active := 0 } := by
  rw [(frame_fields (destroyAsteroid_frame m a p s)).1]
  exact (destroyAsteroidParent_counters m a p s).2.2.2.2.2

/-- A photon loop that meets no pair of an active photon and an active asteroid inside the
broad circle changes nothing and lets the asteroid loop go on. -/
theorem photonLoop_idle (m : LibM) (i : Nat) (s : Game) (n : Nat) :
    ∀ j : Nat,
      (∀ j', j ≤ j' → j' < j + n → ¬ ((s.photons j').active ≠ 0 ∧ (s.asteroids i).active ≠ 0 ∧
        photonInBroadCircle (s.asteroids i) (s.photons j') s.photonSize)) →
      photonLoop m i n j s = (s, false) := by
  induction n with
  | zero => intro j _; rfl
  | succ n ih =>
    intro j h
    have hj := h j (le_refl j) (by omega)
    have hrest := ih (j + 1) (fun j' h1 h2 => h j' (by omega) (by omega))
    unfold photonLoop
    by_cases hact : (s.photons j).active ≠ 0 ∧ (s.asteroids i).active ≠ 0
    · have hb : ¬ photonInBroadCircle (s.asteroids i) (s.photons j) s.photonSize :=
        fun c => hj ⟨hact.1, hact.2, c⟩
      rw [if_pos hact, if_neg hb]
      exact hrest
    · rw [if_neg hact]
      exact hrest

/-- A photon loop whose first pair of an active photon and an active asteroid inside the broad
circle is also inside the tight circle destroys the asteroid with that photon and ends the
asteroid loop. -/
theorem photonLoop_tight (m : LibM) (i j0 : Nat) (s : Game)
    (hp : (s.photons j0).active ≠ 0) (ha : (s.asteroids i).active ≠ 0)
    (ht : photonInTightCircle (s.asteroids i) (s.photons j0) s.photonSize)
    (hb : photonInBroadCircle (s.asteroids i) (s.photons j0) s.photonSize) (n : Nat) :
    ∀ j : Nat, j ≤ j0 → j0 < j + n →
      (∀ j', j ≤ j' → j' < j0 → ¬ ((s.photons j').active ≠ 0 ∧
        photonInBroadCircle (s.asteroids i) (s.photons j') s.photonSize)) →
      photonLoop m i n j s = (destroyAsteroid m i j0 s, true) := by
  induction n with
  | zero => intro j h1 h2 _; omega
  | succ n ih =>
    intro j h1 h2 h
    unfold photonLoop
    by_cases hj : j = j0
    · subst hj
      rw [if_pos ⟨hp, ha⟩, if_pos hb, if_pos ht]
    · have hrest := ih (j + 1) (by omega) (by omega) (fun j' h3 h4 => h j' (by omega) h4)
      have hskip := h j (le_refl j) (by omega)
      by_cases hact : (s.photons j).active ≠ 0 ∧ (s.asteroids i).active ≠ 0
      · have hnb : ¬ photonInBroadCircle (s.asteroids i) (s.photons j) s.photonSize :=
          fun c => hskip ⟨hact.1, c⟩
        rw [if_pos hact, if_neg hnb]
        exact hrest
      · rw [if_neg hact]
        exact hrest

/-- An asteroid loop all of whose photon loops are idle changes nothing. -/
theorem asteroidPhotonLoop_idle (m : LibM) (s : Game) (n : Nat) :
    ∀ i : Nat,
      (∀ i' j', i ≤ i' → i' < i + n → j' < MAX_PHOTONS →
        ¬ ((s.photons j').active ≠ 0 ∧ (s.asteroids i').active ≠ 0 ∧
          photonInBroadCircle (s.asteroids i') (s.photons j') s.photonSize)) →
      asteroidPhotonLoop m n i s = s := by
  induction n with
  | zero => intro i _; rfl
  | succ n ih =>
    intro i h
    have h0 := photonLoop_idle m i s MAX_PHOTONS 0
      (fun j' _ h2 => h i j' (le_refl i) (by omega) (by omega))
    unfold asteroidPhotonLoop
    simp only [h0, Bool.false_eq_true, if_false]
    exact ih (i + 1) (fun i' j' h1 h2 h3 => h i' j' (by omega) (by omega) h3)

/-- An asteroid loop whose first pair inside a broad circle, in the order of the loops, is
inside the tight circle ends with the call of `destroyAsteroid` for that pair. -/
theorem asteroidPhotonLoop_tight (m : LibM) (i0 j0 : Nat) (s : Game) (hj0 : j0 < MAX_PHOTONS)
    (hp : (s.photons j0).active ≠ 0) (ha : (s.asteroids i0).active ≠ 0)
    (ht : photonInTightCircle (s.asteroids i0) (s.photons j0) s.photonSize)
    (hb : photonInBroadCircle (s.asteroids i0) (s.photons j0) s.photonSize)
    (hrow : ∀ j', j' < j0 → ¬ ((s.photons j').active ≠ 0 ∧
      photonInBroadCircle (s.asteroids i0) (s.photons j') s.photonSize)) (n : Nat) :
    ∀ i : Nat, i ≤ i0 → i0 < i + n →
      (∀ i' j', i ≤ i' → i' < i0 → j' < MAX_PHOTONS →
        ¬ ((s.photons j').active ≠ 0 ∧ (s.asteroids i').active ≠ 0 ∧
          photonInBroadCircle (s.asteroids i') (s.photons j') s.photonSize)) →
      asteroidPhotonLoop m n i s = destroyAsteroid m i0 j0 s := by
  induction n with
  | zero => intro i h1 h2 _; omega
  | succ n ih =>
    intro i h1 h2 h
    unfold asteroidPhotonLoop
    by_cases hi : i = i0
    · subst hi
      have h0 := photonLoop_tight m i j0 s hp ha ht hb MAX_PHOTONS 0 (Nat.zero_le _)
        (by omega) (fun j' _ h4 => hrow j' h4)
      simp only [h0, if_true]
    · have h0 := photonLoop_idle m i s MAX_PHOTONS 0
        (fun j' _ h4 => h i j' (le_refl i) (by omega) (by omega))
      simp only [h0, Bool.false_eq_true, if_false]
      exact ih (i + 1) (by omega) (by omega)
        (fun i' j' h3 h4 h5 => h i' j' (by omega) h4 h5)

theorem tight_in_broad (a : Asteroid) (p : Photon) (photonSize : ℚ) (hs : 0 ≤ a.size)
    (hps : 0 ≤ photonSize) (h : photonInTightCircle a p photonSize) :
    photonInBroadCircle a p photonSize := by
  unfold photonInTightCircle at h
  unfold photonInBroadCircle
  have hq : (0 : ℚ) ≤ (a.size : ℚ) := by exact_mod_cast hs
  have e2 : ((a.size * MIN_ASTEROID_VARIANCE : Int) : ℚ) = (a.size : ℚ) * 2 := by
    push_cast [MIN_ASTEROID_VARIANCE]; ring
  have e3 : ((a.size * MAX_ASTEROID_VARIANCE : Int) : ℚ) = (a.size : ℚ) * 3 := by
    push_cast [MAX_ASTEROID_VARIANCE]; ring
  rw [e2] at h
  rw [e3]
  nlinarith

/-- C23: in a state with exactly one active photon (slot `j0`) and exactly one active asteroid
(slot `i0`) whose size is `ASTEROID_SMALL`, `ASTEROID_MEDIUM` or `ASTEROID_LARGE`, and with
`photonSize >= 0`: if the squared distance of the two origins is at most
`(size*MIN_ASTEROID_VARIANCE + photonSize)^2`, the pass is the call of `destroyAsteroid` for
the pair, whatever the vertices and the rotation of the asteroid; it deactivates the photon,
leaves a large asteroid active with size `ASTEROID_MEDIUM`, a medium one active with size
`ASTEROID_SMALL`, and a small one inactive. If the squared distance exceeds
`(size*MAX_ASTEROID_VARIANCE + photonSize)^2`, the pass changes nothing. -/
theorem collisionAsteroidPhoton_single_pair (m : LibM) (s : Game) (i0 j0 : Nat)
    (hi0 : i0 < MAX_ASTEROIDS) (hj0 : j0 < MAX_PHOTONS)
    (hA : ∀ i, i < MAX_ASTEROIDS → ((s.asteroids i).active ≠ 0 ↔ i = i0))
    (hP : ∀ j, j < MAX_PHOTONS → ((s.photons j).active ≠ 0 ↔ j = j0))
    (hsz : (s.asteroids i0).size = ASTEROID_SMALL ∨ (s.asteroids i0).size = ASTEROID_MEDIUM ∨
      (s.asteroids i0).size = ASTEROID_LARGE)
    (hps : 0 ≤ s.photonSize) :
    (photonInTightCircle (s.asteroids i0) (s.photons j0) s.photonSize →
      collisionAsteroidPhoton m s = destroyAsteroid m i0 j0 s ∧
      ((collisionAsteroidPhoton m s).photons j0).active = 0 ∧
      ((s.asteroids i0).size = ASTEROID_LARGE →
        ((collisionAsteroidPhoton m s).asteroids i0).active ≠ 0 ∧
        ((collisionAsteroidPhoton m s).asteroids i0).size = ASTEROID_MEDIUM) ∧
      ((s.asteroids i0).size = ASTEROID_MEDIUM →
        ((collisionAsteroidPhoton m s).asteroids i0).active ≠ 0 ∧
        ((collisionAsteroidPhoton m s).asteroids i0).size = ASTEROID_SMALL) ∧
      ((s.asteroids i0).size = ASTEROID_SMALL →
        ((collisionAsteroidPhoton m s).asteroids i0).active = 0)) ∧
    (¬ photonInBroadCircle (s.asteroids i0) (s.photons j0) s.photonSize →
      collisionAsteroidPhoton m s = s) := by
  have ha : (s.asteroids i0).active ≠ 0 := (hA i0 hi0).mpr rfl
  have hp : (s.photons j0).active ≠ 0 := (hP j0 hj0).mpr rfl
  have hs0 : 0 ≤ (s.asteroids i0).size := by
    rcases hsz with h | h | h <;> rw [h] <;> decide
  constructor
  · intro ht
    have hb := tight_in_broad _ _ _ hs0 hps ht
    have hpass : collisionAsteroidPhoton m s = destroyAsteroid m i0 j0 s := by
      unfold collisionAsteroidPhoton
      refine asteroidPhotonLoop_tight m i0 j0 s hj0 hp ha ht hb ?_ MAX_ASTEROIDS 0
        (Nat.zero_le _) (by omega) ?_
      · intro j' hj' c
        have := (hP j' (by omega)).mp c.1
        omega
      · intro i' j' _ hi' _ c
        have := (hA i' (by omega)).mp c.2.1
        omega
    have hself := destroyAsteroid_self m i0 j0 s ha hsz
    refine ⟨hpass, ?_, ?_, ?_, ?_⟩
    · rw [hpass, destroyAsteroid_photons, Function.update_same]
    · intro h
      rw [hpass, hself]
      have hl := destroyAsteroidParent_large m i0 j0 s h
      exact ⟨by rw [hl.1]; exact ha, hl.2.1⟩
    · intro h
      rw [hpass, hself]
      have hl := destroyAsteroidParent_medium m i0 j0 s h
      exact ⟨by rw [hl.1]; exact ha, hl.2.1⟩
    · intro h
      rw [hpass, hself]
      exact (destroyAsteroidParent_small m i0 j0 s h).1
  · intro hnb
    unfold collisionAsteroidPhoton
    refine asteroidPhotonLoop_idle m s MAX_ASTEROIDS 0 ?_
    intro i' j' _ hi' hj' c
    have e1 := (hA i' (by omega)).mp c.2.1
    have e2 := (hP j' hj').mp c.1
    subst e1
    subst e2
    exact hnb c.2.2

/-- Witness of C23: in `fastPhotonGame` the photon is at the centre of the medium asteroid; the
pass deactivates the photon and leaves the asteroid active with size `ASTEROID_SMALL`. -/
theorem collisionAsteroidPhoton_single_pair_witness :
    ((collisionAsteroidPhoton demoLibM fastPhotonGame).photons 0).active = 0 ∧
    ((collisionAsteroidPhoton demoLibM fastPhotonGame).asteroids 0).active ≠ 0 ∧
    ((collisionAsteroidPhoton demoLibM fastPhotonGame).asteroids 0).size = ASTEROID_SMALL := by
  have hA : ∀ i, i < MAX_ASTEROIDS → ((fastPhotonGame.asteroids i).active ≠ 0 ↔ i = 0) := by
    intro i _
    by_cases hi : i = 0
    · subst hi; simp [fastPhotonGame]
    · simp [fastPhotonGame, hi]
  have hP : ∀ j, j < MAX_PHOTONS → ((fastPhotonGame.photons j).active ≠ 0 ↔ j = 0) := by
    intro j _
    by_cases hj : j = 0
    · subst hj; simp [fastPhotonGame]
    · simp [fastPhotonGame, hj]
  have ht : photonInTightCircle (fastPhotonGame.asteroids 0) (fastPhotonGame.photons 0)
      fastPhotonGame.photonSize := by
    simp only [photonInTightCircle, photonDistSq, fastPhotonGame, ASTEROID_MEDIUM,
      MIN_ASTEROID_VARIANCE]
    norm_num
  have h := (collisionAsteroidPhoton_single_pair demoLibM fastPhotonGame 0 0 (by decide)
    (by decide) hA hP (Or.inr (Or.inl rfl)) (by show (0 : ℚ) ≤ 1; norm_num)).1 ht
  exact ⟨h.2.1, (h.2.2.2.1 rfl).1, (h.2.2.2.1 rfl).2⟩

/-! ### Two photons inside two asteroids -/

/-- C28 (code bug): in `twoPairsGame` each of the photons 0 and 1 is active, inside the tight
circle of the active asteroid with the same slot number and outside the broad circle of the
other asteroid. The pass of `collisionAsteroidPhoton` is the single call
`destroyAsteroid(&asteroids[0], &photons[0])`: photon 0 ends inactive, photon 1 is still active
and asteroid 1 is untouched, because the hit inside the tight circle assigns
`i = MAX_ASTEROIDS` and so ends the asteroid loop, not only the loops of the pair. -/
theorem collisionAsteroidPhoton_tight_hit_ends_pass (m : LibM) :
    (∀ j, j < 2 →
      (twoPairsGame.photons j).active ≠ 0 ∧ (twoPairsGame.asteroids j).active ≠ 0 ∧
      photonInTightCircle (twoPairsGame.asteroids j) (twoPairsGame.photons j)
        twoPairsGame.photonSize ∧
      ∀ j', j' ≠ j → (twoPairsGame.photons j').active ≠ 0 →
        ¬ photonInBroadCircle (twoPairsGame.asteroids j) (twoPairsGame.photons j')
          twoPairsGame.photonSize) ∧
    collisionAsteroidPhoton m twoPairsGame = destroyAsteroid m 0 0 twoPairsGame ∧
    ((collisionAsteroidPhoton m twoPairsGame).photons 0).active = 0 ∧
    ((collisionAsteroidPhoton m twoPairsGame).photons 1).active ≠ 0 ∧
    (collisionAsteroidPhoton m twoPairsGame).asteroids 1 = twoPairsGame.asteroids 1 := by
  have ht0 : photonInTightCircle (twoPairsGame.asteroids 0) (twoPairsGame.photons 0)
      twoPairsGame.photonSize := by
    simp only [photonInTightCircle, photonDistSq, twoPairsGame, ASTEROID_MEDIUM,
      MIN_ASTEROID_VARIANCE]
    norm_num
  have ht1 : photonInTightCircle (twoPairsGame.asteroids 1) (twoPairsGame.photons 1)
      twoPairsGame.photonSize := by
    simp only [photonInTightCircle, photonDistSq, twoPairsGame, ASTEROID_MEDIUM,
      MIN_ASTEROID_VARIANCE]
    norm_num
  have hb0 : photonInBroadCircle (twoPairsGame.asteroids 0) (twoPairsGame.photons 0)
      twoPairsGame.photonSize := by
    simp only [photonInBroadCircle, photonDistSq, twoPairsGame, ASTEROID_MEDIUM,
      MAX_ASTEROID_VARIANCE]
    norm_num
  have hp : ∀ j', (twoPairsGame.photons j').active ≠ 0 → j' = 0 ∨ j' = 1 := by
    intro j' h
    by_contra hne
    have h0 : j' ≠ 0 := fun c => hne (Or.inl c)
    have h1 : j' ≠ 1 := fun c => hne (Or.inr c)
    have e : twoPairsGame.photons j' = {} := by simp [twoPairsGame, h0, h1]
    rw [e] at h
    exact h rfl
  have hfar01 : ¬ photonInBroadCircle (twoPairsGame.asteroids 0) (twoPairsGame.photons 1)
      twoPairsGame.photonSize := by
    simp only [photonInBroadCircle, photonDistSq, twoPairsGame, ASTEROID_MEDIUM,
      MAX_ASTEROID_VARIANCE]
    norm_num
  have hfar10 : ¬ photonInBroadCircle (twoPairsGame.asteroids 1) (twoPairsGame.photons 0)
      twoPairsGame.photonSize := by
    simp only [photonInBroadCircle, photonDistSq, twoPairsGame, ASTEROID_MEDIUM,
      MAX_ASTEROID_VARIANCE]
    norm_num
  have ha0 : (twoPairsGame.asteroids 0).active ≠ 0 := by show (1 : Int) ≠ 0; decide
  have ha1 : (twoPairsGame.asteroids 1).active ≠ 0 := by show (1 : Int) ≠ 0; decide
  have hp0 : (twoPairsGame.photons 0).active ≠ 0 := by show (1 : Int) ≠ 0; decide
  have hp1 : (twoPairsGame.photons 1).active ≠ 0 := by show (1 : Int) ≠ 0; decide
  have hpass : collisionAsteroidPhoton m twoPairsGame = destroyAsteroid m 0 0 twoPairsGame := by
    unfold collisionAsteroidPhoton
    exact asteroidPhotonLoop_tight m 0 0 twoPairsGame (by decide) hp0 ha0 ht0 hb0
      (fun j' h _ => absurd h (Nat.not_lt_zero j')) MAX_ASTEROIDS 0 (le_refl 0) (by decide)
      (fun i' j' _ h _ _ => absurd h (Nat.not_lt_zero i'))
  refine ⟨?_, hpass, ?_, ?_, ?_⟩
  · intro j hj
    have hj' : j = 0 ∨ j = 1 := by omega
    rcases hj' with e | e <;> subst e
    · refine ⟨hp0, ha0, ht0, ?_⟩
      intro j' hne hact
      rcases hp j' hact with e | e
      · exact absurd e hne
      · subst e; exact hfar01
    · refine ⟨hp1, ha1, ht1, ?_⟩
      intro j' hne hact
      rcases hp j' hact with e | e
      · subst e; exact hfar10
      · exact absurd e hne
  · rw [hpass, destroyAsteroid_photons, Function.update_same]
  · rw [hpass, destroyAsteroid_photons, Function.update_noteq (by decide)]
    exact hp1
  · rw [hpass]
    obtain ⟨_, _, hfr, _, _⟩ := destroyAsteroid_split m 0 0 twoPairsGame (Or.inl rfl)
    rcases hfr 1 with e | e
    · rw [e, destroyAsteroidParent_other m 0 0 twoPairsGame 1 (by decide)]
    · exact absurd e.2.1 ha1

/-! ### `lineCollision` on points with integer coordinates -/

theorem orientation_int (z : Int) :
    orientation (z : ℚ) = if 0 < z then 1 else if z < 0 then 2 else 0 := by
  rw [orientation_eval]
  by_cases h1 : 0 < z
  · have : (1 : ℚ) ≤ (z : ℚ) := by exact_mod_cast h1
    rw [if_pos this, if_pos h1]
  · by_cases h2 : z < 0
    · have a : ¬ (1 : ℚ) ≤ (z : ℚ) := by
        intro c
        have : (1 : Int) ≤ z := by exact_mod_cast c
        omega
      have b : (z : ℚ) ≤ -1 := by
        have : z ≤ -1 := by omega
        exact_mod_cast this
      rw [if_neg a, if_pos b, if_neg h1, if_pos h2]
    · have hz : z = 0 := by omega
      subst hz
      norm_num

/-- For whole numbers the codes of two orientations differ exactly when the two numbers are
not both positive, both negative or both zero; a code is `0` exactly for the number zero. -/
theorem orientation_int_facts (v w : ℚ) (hv : ∃ z : Int, v = z) (hw : ∃ z : Int, w = z) :
    (orientation v = 0 ↔ v = 0) ∧
    (orientation v ≠ orientation w ↔
      ¬ ((0 < v ∧ 0 < w) ∨ (v < 0 ∧ w < 0) ∨ (v = 0 ∧ w = 0))) := by
  obtain ⟨a, rfl⟩ := hv
  obtain ⟨b, rfl⟩ := hw
  rw [orientation_int, orientation_int]
  have e1 : ((0 : ℚ) < (a : ℚ)) ↔ 0 < a := by exact_mod_cast Iff.rfl
  have e2 : ((0 : ℚ) < (b : ℚ)) ↔ 0 < b := by exact_mod_cast Iff.rfl
  have e3 : ((a : ℚ) < 0) ↔ a < 0 := by exact_mod_cast Iff.rfl
  have e4 : ((b : ℚ) < 0) ↔ b < 0 := by exact_mod_cast Iff.rfl
  have e5 : ((a : ℚ) = 0) ↔ a = 0 := by exact_mod_cast Iff.rfl
  have e6 : ((b : ℚ) = 0) ↔ b = 0 := by exact_mod_cast Iff.rfl
  rw [e1, e2, e3, e4, e5, e6]
  constructor
  · split_ifs <;> omega
  · split_ifs <;> omega

/-- The value of `lineCollision` in terms of its five tests. -/
theorem lineCollision_tests (Ax Ay Bx By Cx Cy Dx Dy : ℚ) :
    (lineCollision Ax Ay Bx By Cx Cy Dx Dy = 1 ∨ lineCollision Ax Ay Bx By Cx Cy Dx Dy = 0) ∧
    (lineCollision Ax Ay Bx By Cx Cy Dx Dy = 1 ↔
      (orientation ((By - Ay) * (Cx - Bx) - (Bx - Ax) * (Cy - By))
          ≠ orientation ((By - Ay) * (Dx - Bx) - (Bx - Ax) * (Dy - By)) ∧
        orientation ((Dy - Cy) * (Ax - Dx) - (Dx - Cx) * (Ay - Dy))
          ≠ orientation ((Dy - Cy) * (Bx - Dx) - (Dx - Cx) * (By - Dy))) ∨
      (orientation ((By - Ay) * (Cx - Bx) - (Bx - Ax) * (Cy - By)) = 0 ∧
        onSegmentBox Cx Cy Ax Ay Bx By = true) ∨
      (orientation ((By - Ay) * (Dx - Bx) - (Bx - Ax) * (Dy - By)) = 0 ∧
        onSegmentBox Dx Dy Ax Ay Bx By = true) ∨
      (orientation ((Dy - Cy) * (Ax - Dx) - (Dx - Cx) * (Ay - Dy)) = 0 ∧
        onSegmentBox Ax Ay Cx Cy Dx Dy = true) ∨
      (orientation ((Dy - Cy) * (Bx - Dx) - (Dx - Cx) * (By - Dy)) = 0 ∧
        onSegmentBox Bx By Cx Cy Dx Dy = true)) := by
  unfold lineCollision
  dsimp only
  generalize orientation ((By - Ay) * (Cx - Bx) - (Bx - Ax) * (Cy - By)) = oD
  generalize orientation ((By - Ay) * (Dx - Bx) - (Bx - Ax) * (Dy - By)) = oC
  generalize orientation ((Dy - Cy) * (Ax - Dx) - (Dx - Cx) * (Ay - Dy)) = oB
  generalize orientation ((Dy - Cy) * (Bx - Dx) - (Dx - Cx) * (By - Dy)) = oA
  generalize onSegmentBox Cx Cy Ax Ay Bx By = b1
  generalize onSegmentBox Dx Dy Ax Ay Bx By = b2
  generalize onSegmentBox Ax Ay Cx Cy Dx Dy = b3
  generalize onSegmentBox Bx By Cx Cy Dx Dy = b4
  by_cases h5 : oA = 0 ∧ b4 = true
  · simp only [h5, and_self, if_true, or_true, true_or, iff_true]
  · rw [if_neg h5]
    by_cases h4 : oB = 0 ∧ b3 = true
    · simp only [h4, and_self, if_true, or_true, true_or, iff_true]
    · rw [if_neg h4]
      by_cases h3 : oC = 0 ∧ b2 = true
      · simp only [h3, and_self, if_true, or_true, true_or, iff_true]
      · rw [if_neg h3]
        by_cases h2 : oD = 0 ∧ b1 = true
        · simp only [h2, and_self, if_true, or_true, true_or, iff_true]
        · rw [if_neg h2]
          by_cases h1 : oD ≠ oC ∧ oB ≠ oA
          · rw [if_pos h1]
            exact ⟨Or.inl rfl, fun _ => Or.inl h1, fun _ => rfl⟩
          · rw [if_neg h1]
            refine ⟨Or.inr rfl, ?_, ?_⟩
            · intro c; exact absurd c (by decide)
            · intro c
              rcases c with c | c | c | c | c
              · exact absurd c h1
              · exact absurd c h2
              · exact absurd c h3
              · exact absurd c h4
              · exact absurd c h5

/-- The box test in terms of inequalities. -/
theorem onSegmentBox_iff (Px Py Qx Qy Rx Ry : ℚ) :
    onSegmentBox Px Py Qx Qy Rx Ry = true ↔
      (Px ≤ Qx ∨ Px ≤ Rx) ∧ (Qx ≤ Px ∨ Rx ≤ Px) ∧ (Py ≤ Qy ∨ Py ≤ Ry) ∧ (Qy ≤ Py ∨ Ry ≤ Py) := by
  simp only [onSegmentBox, Bool.and_eq_true, Bool.or_eq_true, decide_eq_true_eq, ge_iff_le]
  tauto

/-- A point of the segment `QR` passes the box test. -/
theorem onSegmentBox_of_param (Px Py Qx Qy Rx Ry s : ℚ) (h0 : 0 ≤ s) (h1 : s ≤ 1)
    (hx : Px = Qx + s * (Rx - Qx)) (hy : Py = Qy + s * (Ry - Qy)) :
    onSegmentBox Px Py Qx Qy Rx Ry = true := by
  rw [onSegmentBox_iff]
  subst hx
  subst hy
  refine ⟨?_, ?_, ?_, ?_⟩
  · rcases le_total Qx Rx with h | h
    · right; nlinarith
    · left; nlinarith
  · rcases le_total Qx Rx with h | h
    · left; nlinarith
    · right; nlinarith
  · rcases le_total Qy Ry with h | h
    · right; nlinarith
    · left; nlinarith
  · rcases le_total Qy Ry with h | h
    · left; nlinarith
    · right; nlinarith

/-- A point on the line through `Q` and `R` that passes the box test is a point of the segment
`QR`. -/
theorem param_of_collinear_box (Px Py Qx Qy Rx Ry : ℚ)
    (hc : (Ry - Qy) * (Px - Rx) - (Rx - Qx) * (Py - Ry) = 0)
    (hb : onSegmentBox Px Py Qx Qy Rx Ry = true) :
    ∃ s : ℚ, 0 ≤ s ∧ s ≤ 1 ∧ Px = Qx + s * (Rx - Qx) ∧ Py = Qy + s * (Ry - Qy) := by
  rw [onSegmentBox_iff] at hb
  obtain ⟨b1, b2, b3, b4⟩ := hb
  rcases lt_trichotomy Qx Rx with hx | hx | hx
  · have hd : 0 < Rx - Qx := by linarith
    have l1 : Qx ≤ Px := by rcases b2 with h | h <;> linarith
    have l2 : Px ≤ Rx := by rcases b1 with h | h <;> linarith
    refine ⟨(Px - Qx) / (Rx - Qx), div_nonneg (by linarith) hd.le,
      (div_le_one hd).mpr (by linarith), ?_, ?_⟩
    · field_simp
    · field_simp
      linear_combination -hc
  · subst hx
    rcases lt_trichotomy Qy Ry with hy | hy | hy
    · have hd : 0 < Ry - Qy := by linarith
      have l1 : Qy ≤ Py := by rcases b4 with h | h <;> linarith
      have l2 : Py ≤ Ry := by rcases b3 with h | h <;> linarith
      have hP : Px = Qx := by
        have : (Ry - Qy) * (Px - Qx) = 0 := by linear_combination hc
        rcases mul_eq_zero.mp this with h | h <;> linarith
      refine ⟨(Py - Qy) / (Ry - Qy), div_nonneg (by linarith) hd.le,
        (div_le_one hd).mpr (by linarith), ?_, ?_⟩
      · rw [hP]; ring
      · field_simp
    · subst hy
      have e1 : Px = Qx := by
        rcases b1 with h | h <;> rcases b2 with g | g <;> linarith
      have e2 : Py = Qy := by
        rcases b3 with h | h <;> rcases b4 with g | g <;> linarith
      exact ⟨0, le_refl 0, by norm_num, by rw [e1]; ring, by rw [e2]; ring⟩
    · have hd : 0 < Qy - Ry := by linarith
      have l1 : Ry ≤ Py := by rcases b4 with h | h <;> linarith
      have l2 : Py ≤ Qy := by rcases b3 with h | h <;> linarith
      have hP : Px = Qx := by
        have : (Ry - Qy) * (Px - Qx) = 0 := by linear_combination hc
        rcases mul_eq_zero.mp this with h | h <;> linarith
      refine ⟨(Qy - Py) / (Qy - Ry), div_nonneg (by linarith) hd.le,
        (div_le_one hd).mpr (by linarith), ?_, ?_⟩
      · rw [hP]; ring
      · field_simp
        ring
  · have hd : 0 < Qx - Rx := by linarith
    have l1 : Rx ≤ Px := by rcases b2 with h | h <;> linarith
    have l2 : Px ≤ Qx := by rcases b1 with h | h <;> linarith
    refine ⟨(Qx - Px) / (Qx - Rx), div_nonneg (by linarith) hd.le,
      (div_le_one hd).mpr (by linarith), ?_, ?_⟩
    · field_simp
      ring
    · field_simp
      linear_combination hc

/-- A ratio `p / (p - q)` of two numbers that are not both positive, both negative or both zero
lies between 0 and 1. -/
theorem ratio_mem (p q : ℚ) (h : ¬ ((0 < p ∧ 0 < q) ∨ (p < 0 ∧ q < 0) ∨ (p = 0 ∧ q = 0))) :
    p - q ≠ 0 ∧ 0 ≤ p / (p - q) ∧ p / (p - q) ≤ 1 := by
  have hne : p - q ≠ 0 := by
    intro c
    have e : p = q := by linarith
    subst e
    rcases lt_trichotomy p 0 with h1 | h1 | h1
    · exact h (Or.inr (Or.inl ⟨h1, h1⟩))
    · exact h (Or.inr (Or.inr ⟨h1, h1⟩))
    · exact h (Or.inl ⟨h1, h1⟩)
  refine ⟨hne, ?_, ?_⟩
  · rcases lt_or_gt_of_ne hne with hlt | hgt
    · have hp : p ≤ 0 := by
        by_contra c
        exact h (Or.inl ⟨by linarith, by linarith⟩)
      exact div_nonneg_of_nonpos hp hlt.le
    · have hp : 0 ≤ p := by
        by_contra c
        exact h (Or.inr (Or.inl ⟨by linarith, by linarith⟩))
      exact div_nonneg hp hgt.le
  · rcases lt_or_gt_of_ne hne with hlt | hgt
    · have hq : 0 ≤ q := by
        by_contra c
        exact h (Or.inr (Or.inl ⟨by linarith, by linarith⟩))
      rw [div_le_one_of_neg hlt]
      linarith
    · have hq : q ≤ 0 := by
        by_contra c
        exact h (Or.inl ⟨by linarith, by linarith⟩)
      rw [div_le_one hgt]
      linarith

/-- Two segments each of which has its end points on different sides of the other one, or on
it, without being on one line with it, have a point in common. -/
theorem segmentsMeet_of_sides (Ax Ay Bx By Cx Cy Dx Dy : ℚ)
    (h1 : ¬ ((0 < (By - Ay) * (Cx - Bx) - (Bx - Ax) * (Cy - By) ∧
          0 < (By - Ay) * (Dx - Bx) - (Bx - Ax) * (Dy - By)) ∨
        ((By - Ay) * (Cx - Bx) - (Bx - Ax) * (Cy - By) < 0 ∧
          (By - Ay) * (Dx - Bx) - (Bx - Ax) * (Dy - By) < 0) ∨
        ((By - Ay) * (Cx - Bx) - (Bx - Ax) * (Cy - By) = 0 ∧
          (By - Ay) * (Dx - Bx) - (Bx - Ax) * (Dy - By) = 0)))
    (h2 : ¬ ((0 < (Dy - Cy) * (Ax - Dx) - (Dx - Cx) * (Ay - Dy) ∧
          0 < (Dy - Cy) * (Bx - Dx) - (Dx - Cx) * (By - Dy)) ∨
        ((Dy - Cy) * (Ax - Dx) - (Dx - Cx) * (Ay - Dy) < 0 ∧
          (Dy - Cy) * (Bx - Dx) - (Dx - Cx) * (By - Dy) < 0) ∨
        ((Dy - Cy) * (Ax - Dx) - (Dx - Cx) * (Ay - Dy) = 0 ∧
          (Dy - Cy) * (Bx - Dx) - (Dx - Cx) * (By - Dy) = 0))) :
    segmentsMeet Ax Ay Bx By Cx Cy Dx Dy := by
  obtain ⟨n1, a1, b1⟩ := ratio_mem _ _ h1
  obtain ⟨n2, a2, b2⟩ := ratio_mem _ _ h2
  refine ⟨_, _, a2, b2, a1, b1, ?_, ?_⟩
  · field_simp
    ring
  · field_simp
    ring

/-- A point `P` on the line through the distinct points `A` and `B`, written with its
coordinate along `AB`. -/
theorem param_of_collinear (Ax Ay Bx By Px Py : ℚ) (hAB : ¬ (Ax = Bx ∧ Ay = By))
    (hc : (By - Ay) * (Px - Bx) - (Bx - Ax) * (Py - By) = 0) :
    ∃ σ : ℚ, Px = Ax + σ * (Bx - Ax) ∧ Py = Ay + σ * (By - Ay) := by
  have hL : (Bx - Ax) ^ 2 + (By - Ay) ^ 2 ≠ 0 := by
    intro c
    have h1 : (Bx - Ax) ^ 2 = 0 := by nlinarith [sq_nonneg (Bx - Ax), sq_nonneg (By - Ay)]
    have h2 : (By - Ay) ^ 2 = 0 := by nlinarith [sq_nonneg (Bx - Ax), sq_nonneg (By - Ay)]
    have h3 : Bx - Ax = 0 := pow_eq_zero_iff (by norm_num) |>.mp h1
    have h4 : By - Ay = 0 := pow_eq_zero_iff (by norm_num) |>.mp h2
    exact hAB ⟨by linarith, by linarith⟩
  refine ⟨((Px - Ax) * (Bx - Ax) + (Py - Ay) * (By - Ay)) / ((Bx - Ax) ^ 2 + (By - Ay) ^ 2),
    ?_, ?_⟩
  · field_simp
    linear_combination (By - Ay) * hc
  · field_simp
    linear_combination (-(Bx - Ax)) * hc

/-- Two segments on one line that have a point in common: an end point of one of them passes
the box test of the other. -/
theorem box_of_collinear_meet (Ax Ay Bx By Cx Cy Dx Dy : ℚ)
    (h : segmentsMeet Ax Ay Bx By Cx Cy Dx Dy)
    (hp : (By - Ay) * (Cx - Bx) - (Bx - Ax) * (Cy - By) = 0)
    (hq : (By - Ay) * (Dx - Bx) - (Bx - Ax) * (Dy - By) = 0) :
    onSegmentBox Cx Cy Ax Ay Bx By = true ∨ onSegmentBox Dx Dy Ax Ay Bx By = true ∨
    onSegmentBox Ax Ay Cx Cy Dx Dy = true := by
  obtain ⟨s, u, s0, s1, u0, u1, hx, hy⟩ := h
  by_cases hAB : Ax = Bx ∧ Ay = By
  · right; right
    refine onSegmentBox_of_param Ax Ay Cx Cy Dx Dy u u0 u1 ?_ ?_
    · rw [← hx, hAB.1]; ring
    · rw [← hy, hAB.2]; ring
  · obtain ⟨c, hcx, hcy⟩ := param_of_collinear Ax Ay Bx By Cx Cy hAB hp
    obtain ⟨d, hdx, hdy⟩ := param_of_collinear Ax Ay Bx By Dx Dy hAB hq
    have hs : s = (1 - u) * c + u * d := by
      have e1 : (s - ((1 - u) * c + u * d)) * (Bx - Ax) = 0 := by
        rw [hcx, hdx] at hx
        linear_combination hx
      have e2 : (s - ((1 - u) * c + u * d)) * (By - Ay) = 0 := by
        rw [hcy, hdy] at hy
        linear_combination hy
      rcases mul_eq_zero.mp e1 with g | g
      · linarith
      · rcases mul_eq_zero.mp e2 with g' | g'
        · linarith
        · exact absurd ⟨by linarith, by linarith⟩ hAB
    by_cases hc01 : 0 ≤ c ∧ c ≤ 1
    · left
      exact onSegmentBox_of_param Cx Cy Ax Ay Bx By c hc01.1 hc01.2 hcx hcy
    · by_cases hd01 : 0 ≤ d ∧ d ≤ 1
      · right; left
        exact onSegmentBox_of_param Dx Dy Ax Ay Bx By d hd01.1 hd01.2 hdx hdy
      · right; right
        have hcd : (c < 0 ∧ 1 < d) ∨ (1 < c ∧ d < 0) := by
          rcases lt_or_le c 0 with h1 | h1
          · left
            refine ⟨h1, ?_⟩
            by_contra c1
            have hd0 : d < 0 := by
              by_contra c2
              exact hd01 ⟨by linarith, by linarith⟩
            nlinarith [mul_nonneg (sub_nonneg.mpr u1) (neg_nonneg.mpr h1.le),
              mul_nonneg u0 (neg_nonneg.mpr hd0.le)]
          · right
            have hc1 : 1 < c := by
              by_contra c2
              exact hc01 ⟨h1, by linarith⟩
            refine ⟨hc1, ?_⟩
            by_contra c1
            have hd1 : 1 < d := by
              by_contra c2
              exact hd01 ⟨by linarith, by linarith⟩
            nlinarith [mul_nonneg (sub_nonneg.mpr u1) (sub_nonneg.mpr hc1.le),
              mul_nonneg u0 (sub_nonneg.mpr hd1.le)]
        have hne : d - c ≠ 0 := by
          rcases hcd with g | g <;> intro c0 <;> linarith [g.1, g.2]
        have ht0 : 0 ≤ (0 - c) / (d - c) := by
          rcases hcd with g | g
          · exact div_nonneg (by linarith [g.1]) (by linarith [g.1, g.2])
          · exact div_nonneg_of_nonpos (by linarith [g.1]) (by linarith [g.1, g.2])
        have ht1 : (0 - c) / (d - c) ≤ 1 := by
          rcases hcd with g | g
          · rw [div_le_one (by linarith [g.1, g.2])]
            linarith [g.1, g.2]
          · rw [div_le_one_of_neg (by linarith [g.1, g.2])]
            linarith [g.1, g.2]
        refine onSegmentBox_of_param Ax Ay Cx Cy Dx Dy ((0 - c) / (d - c)) ht0 ht1 ?_ ?_
        · rw [hcx, hdx]
          field_simp
          ring
        · rw [hcy, hdy]
          field_simp
          ring

/-- A weighted mean of two positive numbers is not zero. -/
theorem mean_pos (p q u : ℚ) (u0 : 0 ≤ u) (u1 : u ≤ 1) (hp : 0 < p) (hq : 0 < q) :
    0 < (1 - u) * p + u * q := by
  rcases le_total p q with h | h
  · nlinarith [mul_nonneg u0 (sub_nonneg.mpr h)]
  · nlinarith [mul_nonneg (sub_nonneg.mpr u1) (sub_nonneg.mpr h)]

/-- Two numbers that are both positive, both negative or both zero and have a weighted mean
of zero are zero. -/
theorem zero_of_mean (p q u : ℚ) (u0 : 0 ≤ u) (u1 : u ≤ 1) (he : (1 - u) * p + u * q = 0)
    (h : (0 < p ∧ 0 < q) ∨ (p < 0 ∧ q < 0) ∨ (p = 0 ∧ q = 0)) : p = 0 ∧ q = 0 := by
  rcases h with ⟨a, b⟩ | ⟨a, b⟩ | h
  · have := mean_pos p q u u0 u1 a b
    linarith
  · have := mean_pos (-p) (-q) u u0 u1 (by linarith) (by linarith)
    nlinarith
  · exact h

/-- Two segments with a point in common pass one of the five tests of `lineCollision`, stated
for the cross products themselves. -/
theorem tests_of_segmentsMeet (Ax Ay Bx By Cx Cy Dx Dy : ℚ)
    (h : segmentsMeet Ax Ay Bx By Cx Cy Dx Dy) :
    (¬ ((0 < (By - Ay) * (Cx - Bx) - (Bx - Ax) * (Cy - By) ∧
          0 < (By - Ay) * (Dx - Bx) - (Bx - Ax) * (Dy - By)) ∨
        ((By - Ay) * (Cx - Bx) - (Bx - Ax) * (Cy - By) < 0 ∧
          (By - Ay) * (Dx - Bx) - (Bx - Ax) * (Dy - By) < 0) ∨
        ((By - Ay) * (Cx - Bx) - (Bx - Ax) * (Cy - By) = 0 ∧
          (By - Ay) * (Dx - Bx) - (Bx - Ax) * (Dy - By) = 0)) ∧
      ¬ ((0 < (Dy - Cy) * (Ax - Dx) - (Dx - Cx) * (Ay - Dy) ∧
          0 < (Dy - Cy) * (Bx - Dx) - (Dx - Cx) * (By - Dy)) ∨
        ((Dy - Cy) * (Ax - Dx) - (Dx - Cx) * (Ay - Dy) < 0 ∧
          (Dy - Cy) * (Bx - Dx) - (Dx - Cx) * (By - Dy) < 0) ∨
        ((Dy - Cy) * (Ax - Dx) - (Dx - Cx) * (Ay - Dy) = 0 ∧
          (Dy - Cy) * (Bx - Dx) - (Dx - Cx) * (By - Dy) = 0))) ∨
    ((By - Ay) * (Cx - Bx) - (Bx - Ax) * (Cy - By) = 0 ∧
      onSegmentBox Cx Cy Ax Ay Bx By = true) ∨
    ((By - Ay) * (Dx - Bx) - (Bx - Ax) * (Dy - By) = 0 ∧
      onSegmentBox Dx Dy Ax Ay Bx By = true) ∨
    ((Dy - Cy) * (Ax - Dx) - (Dx - Cx) * (Ay - Dy) = 0 ∧
      onSegmentBox Ax Ay Cx Cy Dx Dy = true) ∨
    ((Dy - Cy) * (Bx - Dx) - (Dx - Cx) * (By - Dy) = 0 ∧
      onSegmentBox Bx By Cx Cy Dx Dy = true) := by
  have hbox := box_of_collinear_meet Ax Ay Bx By Cx Cy Dx Dy h
  obtain ⟨s, u, s0, s1, u0, u1, hx, hy⟩ := h
  have e1 : (1 - u) * ((By - Ay) * (Cx - Bx) - (Bx - Ax) * (Cy - By))
      + u * ((By - Ay) * (Dx - Bx) - (Bx - Ax) * (Dy - By)) = 0 := by
    linear_combination (-(By - Ay)) * hx + (Bx - Ax) * hy
  have e2 : (1 - s) * ((Dy - Cy) * (Ax - Dx) - (Dx - Cx) * (Ay - Dy))
      + s * ((Dy - Cy) * (Bx - Dx) - (Dx - Cx) * (By - Dy)) = 0 := by
    linear_combination (Dy - Cy) * hx - (Dx - Cx) * hy
  have e3 : ((Dy - Cy) * (Ax - Dx) - (Dx - Cx) * (Ay - Dy))
      - ((Dy - Cy) * (Bx - Dx) - (Dx - Cx) * (By - Dy))
      = ((By - Ay) * (Dx - Bx) - (Bx - Ax) * (Dy - By))
        - ((By - Ay) * (Cx - Bx) - (Bx - Ax) * (Cy - By)) := by ring
  by_cases g1 : (0 < (By - Ay) * (Cx - Bx) - (Bx - Ax) * (Cy - By) ∧
          0 < (By - Ay) * (Dx - Bx) - (Bx - Ax) * (Dy - By)) ∨
        ((By - Ay) * (Cx - Bx) - (Bx - Ax) * (Cy - By) < 0 ∧
          (By - Ay) * (Dx - Bx) - (Bx - Ax) * (Dy - By) < 0) ∨
        ((By - Ay) * (Cx - Bx) - (Bx - Ax) * (Cy - By) = 0 ∧
          (By - Ay) * (Dx - Bx) - (Bx - Ax) * (Dy - By) = 0)
  · obtain ⟨hp, hq⟩ := zero_of_mean _ _ u u0 u1 e1 g1
    rw [hp, hq, sub_zero] at e3
    have hrt := sub_eq_zero.mp e3
    rw [← hrt] at e2
    have hr : (Dy - Cy) * (Ax - Dx) - (Dx - Cx) * (Ay - Dy) = 0 := by linear_combination e2
    rcases hbox hp hq with b | b | b
    · exact Or.inr (Or.inl ⟨hp, b⟩)
    · exact Or.inr (Or.inr (Or.inl ⟨hq, b⟩))
    · exact Or.inr (Or.inr (Or.inr (Or.inl ⟨hr, b⟩)))
  · by_cases g2 : (0 < (Dy - Cy) * (Ax - Dx) - (Dx - Cx) * (Ay - Dy) ∧
          0 < (Dy - Cy) * (Bx - Dx) - (Dx - Cx) * (By - Dy)) ∨
        ((Dy - Cy) * (Ax - Dx) - (Dx - Cx) * (Ay - Dy) < 0 ∧
          (Dy - Cy) * (Bx - Dx) - (Dx - Cx) * (By - Dy) < 0) ∨
        ((Dy - Cy) * (Ax - Dx) - (Dx - Cx) * (Ay - Dy) = 0 ∧
          (Dy - Cy) * (Bx - Dx) - (Dx - Cx) * (By - Dy) = 0)
    · obtain ⟨hr, ht⟩ := zero_of_mean _ _ s s0 s1 e2 g2
      rw [hr, ht, sub_zero] at e3
      have hpq := sub_eq_zero.mp e3.symm
      rw [hpq] at e1
      have hp : (By - Ay) * (Cx - Bx) - (Bx - Ax) * (Cy - By) = 0 := by linear_combination e1
      have hq : (By - Ay) * (Dx - Bx) - (Bx - Ax) * (Dy - By) = 0 := hpq.trans hp
      rcases hbox hp hq with b | b | b
      · exact Or.inr (Or.inl ⟨hp, b⟩)
      · exact Or.inr (Or.inr (Or.inl ⟨hq, b⟩))
      · exact Or.inr (Or.inr (Or.inr (Or.inl ⟨hr, b⟩)))
    · exact Or.inl ⟨g1, g2⟩

theorem cInt_intCast (z : Int) : cInt (z : ℚ) = z := by
  unfold cInt
  split_ifs
  · exact Int.floor_intCast z
  · exact Int.ceil_intCast z

/-- A difference of two products of whole numbers of absolute value at most 32766 has absolute
value at most 2147221512, below `INT_MAX`. -/
theorem cross_bound (a b c d : Int) (ha : |a| ≤ 32766) (hb : |b| ≤ 32766) (hc : |c| ≤ 32766)
    (hd : |d| ≤ 32766) : |a * b - c * d| ≤ 2147221512 := by
  rw [abs_le] at ha hb hc hd ⊢
  obtain ⟨a1, a2⟩ := ha
  obtain ⟨b1, b2⟩ := hb
  obtain ⟨c1, c2⟩ := hc
  obtain ⟨d1, d2⟩ := hd
  have p1 := mul_nonneg (sub_nonneg.mpr a2) (sub_nonneg.mpr b2)
  have p2 := mul_nonneg (sub_nonneg.mpr a1) (sub_nonneg.mpr b1)
  have p3 := mul_nonneg (sub_nonneg.mpr a2) (sub_nonneg.mpr b1)
  have p4 := mul_nonneg (sub_nonneg.mpr a1) (sub_nonneg.mpr b2)
  have q1 := mul_nonneg (sub_nonneg.mpr c2) (sub_nonneg.mpr d2)
  have q2 := mul_nonneg (sub_nonneg.mpr c1) (sub_nonneg.mpr d1)
  have q3 := mul_nonneg (sub_nonneg.mpr c2) (sub_nonneg.mpr d1)
  have q4 := mul_nonneg (sub_nonneg.mpr c1) (sub_nonneg.mpr d2)
  constructor <;> nlinarith

/-- The cross product `lineCollision` computes from three points with integer coordinates of
absolute value at most 16383 is a whole number that the type `int` holds. -/
theorem cross_fitsInt (Px Py Qx Qy Rx Ry : Int)
    (hP : |Px| ≤ 16383 ∧ |Py| ≤ 16383) (hQ : |Qx| ≤ 16383 ∧ |Qy| ≤ 16383)
    (hR : |Rx| ≤ 16383 ∧ |Ry| ≤ 16383) :
    fitsInt (((Qy : ℚ) - Py) * (Rx - Qx) - (Qx - Px) * (Ry - Qy)) := by
  have e : ((Qy : ℚ) - Py) * (Rx - Qx) - (Qx - Px) * (Ry - Qy)
      = (((Qy - Py) * (Rx - Qx) - (Qx - Px) * (Ry - Qy) : Int) : ℚ) := by
    push_cast
    ring
  have p1 := abs_le.mp hP.1
  have p2 := abs_le.mp hP.2
  have q1 := abs_le.mp hQ.1
  have q2 := abs_le.mp hQ.2
  have r1 := abs_le.mp hR.1
  have r2 := abs_le.mp hR.2
  have hb := cross_bound (Qy - Py) (Rx - Qx) (Qx - Px) (Ry - Qy)
    (abs_le.mpr ⟨by omega, by omega⟩) (abs_le.mpr ⟨by omega, by omega⟩)
    (abs_le.mpr ⟨by omega, by omega⟩) (abs_le.mpr ⟨by omega, by omega⟩)
  rw [abs_le] at hb
  unfold fitsInt
  rw [e, cInt_intCast]
  exact ⟨rfl, by omega, by omega⟩

/-- On four cross products that are whole numbers in the range of `int`, `lineCollision`
returns 1 exactly when the closed segments `AB` and `CD` have a point in common, and 0
otherwise. -/
theorem lineCollision_of_exact_conversions (Ax Ay Bx By Cx Cy Dx Dy : ℚ)
    (f1 : fitsInt ((By - Ay) * (Cx - Bx) - (Bx - Ax) * (Cy - By)))
    (f2 : fitsInt ((By - Ay) * (Dx - Bx) - (Bx - Ax) * (Dy - By)))
    (f3 : fitsInt ((Dy - Cy) * (Ax - Dx) - (Dx - Cx) * (Ay - Dy)))
    (f4 : fitsInt ((Dy - Cy) * (Bx - Dx) - (Dx - Cx) * (By - Dy))) :
    (lineCollision Ax Ay Bx By Cx Cy Dx Dy = 1 ↔ segmentsMeet Ax Ay Bx By Cx Cy Dx Dy) ∧
    (¬ segmentsMeet Ax Ay Bx By Cx Cy Dx Dy → lineCollision Ax Ay Bx By Cx Cy Dx Dy = 0) := by
  have i1 : ∃ z : Int, (By - Ay) * (Cx - Bx) - (Bx - Ax) * (Cy - By) = z := ⟨_, f1.1.symm⟩
  have i2 : ∃ z : Int, (By - Ay) * (Dx - Bx) - (Bx - Ax) * (Dy - By) = z := ⟨_, f2.1.symm⟩
  have i3 : ∃ z : Int, (Dy - Cy) * (Ax - Dx) - (Dx - Cx) * (Ay - Dy) = z := ⟨_, f3.1.symm⟩
  have i4 : ∃ z : Int, (Dy - Cy) * (Bx - Dx) - (Dx - Cx) * (By - Dy) = z := ⟨_, f4.1.symm⟩
  obtain ⟨hval, htest⟩ := lineCollision_tests Ax Ay Bx By Cx Cy Dx Dy
  have hiff : lineCollision Ax Ay Bx By Cx Cy Dx Dy = 1 ↔
      segmentsMeet Ax Ay Bx By Cx Cy Dx Dy := by
    rw [htest, (orientation_int_facts _ _ i1 i2).1, (orientation_int_facts _ _ i1 i2).2,
      (orientation_int_facts _ _ i2 i1).1, (orientation_int_facts _ _ i3 i4).1,
      (orientation_int_facts _ _ i3 i4).2, (orientation_int_facts _ _ i4 i3).1]
    constructor
    · intro h
      rcases h with ⟨h1, h2⟩ | ⟨h0, hb⟩ | ⟨h0, hb⟩ | ⟨h0, hb⟩ | ⟨h0, hb⟩
      · exact segmentsMeet_of_sides _ _ _ _ _ _ _ _ h1 h2
      · obtain ⟨s, s0, s1, ex, ey⟩ := param_of_collinear_box _ _ _ _ _ _ h0 hb
        exact ⟨s, 0, s0, s1, le_refl 0, by norm_num, by rw [ex]; ring, by rw [ey]; ring⟩
      · obtain ⟨s, s0, s1, ex, ey⟩ := param_of_collinear_box _ _ _ _ _ _ h0 hb
        exact ⟨s, 1, s0, s1, by norm_num, le_refl 1, by rw [ex]; ring, by rw [ey]; ring⟩
      · obtain ⟨u, u0, u1, ex, ey⟩ := param_of_collinear_box _ _ _ _ _ _ h0 hb
        exact ⟨0, u, le_refl 0, by norm_num, u0, u1, by rw [ex]; ring, by rw [ey]; ring⟩
      · obtain ⟨u, u0, u1, ex, ey⟩ := param_of_collinear_box _ _ _ _ _ _ h0 hb
        exact ⟨1, u, by norm_num, le_refl 1, u0, u1, by rw [ex]; ring, by rw [ey]; ring⟩
    · exact tests_of_segmentsMeet _ _ _ _ _ _ _ _
  refine ⟨hiff, ?_⟩
  intro hn
  rcases hval with h | h
  · exact absurd (hiff.mp h) hn
  · exact h

/-- The bound on the coordinates cannot be dropped: the segment from `(0, 0)` to `(100000, 0)`
crosses the one from `(50000, -100000)` to `(50000, 100000)`, and the first cross product of
`lineCollision` is `10^10`, which no `int` holds; the conversion is undefined in C there. -/
theorem cross_product_beyond_int :
    segmentsMeet 0 0 100000 0 50000 (-100000) 50000 100000 ∧
    ¬ fitsInt (((0 : ℚ) - 0) * (50000 - 100000) - (100000 - 0) * (-100000 - 0)) := by
  constructor
  · exact ⟨1 / 2, 1 / 2, by norm_num, by norm_num, by norm_num, by norm_num, by norm_num,
      by norm_num⟩
  · have e : (((0 : ℚ) - 0) * (50000 - 100000) - (100000 - 0) * (-100000 - 0))
        = ((10000000000 : Int) : ℚ) := by norm_num
    rw [e]
    unfold fitsInt
    rw [cInt_intCast]
    intro c
    have := c.2.2
    omega

/-- C29: for points with integer coordinates of absolute value at most 16383 (every
difference, product and cross product is then computed exactly in `double` and lies in the
range of `int`, so that converting it to `int` loses nothing), `lineCollision` returns 1
exactly when the closed segments `AB` and `CD` have a point in common, and 0 otherwise. The
statement covers touching end points, segments on one line that overlap and segments of length
zero. -/
theorem lineCollision_integer_points (Ax Ay Bx By Cx Cy Dx Dy : Int)
    (hA : |Ax| ≤ 16383 ∧ |Ay| ≤ 16383) (hB : |Bx| ≤ 16383 ∧ |By| ≤ 16383)
    (hC : |Cx| ≤ 16383 ∧ |Cy| ≤ 16383) (hD : |Dx| ≤ 16383 ∧ |Dy| ≤ 16383) :
    (fitsInt (((By : ℚ) - Ay) * (Cx - Bx) - (Bx - Ax) * (Cy - By)) ∧
      fitsInt (((By : ℚ) - Ay) * (Dx - Bx) - (Bx - Ax) * (Dy - By)) ∧
      fitsInt (((Dy : ℚ) - Cy) * (Ax - Dx) - (Dx - Cx) * (Ay - Dy)) ∧
      fitsInt (((Dy : ℚ) - Cy) * (Bx - Dx) - (Dx - Cx) * (By - Dy))) ∧
    (lineCollision Ax Ay Bx By Cx Cy Dx Dy = 1 ↔ segmentsMeet Ax Ay Bx By Cx Cy Dx Dy) ∧
    (¬ segmentsMeet Ax Ay Bx By Cx Cy Dx Dy → lineCollision Ax Ay Bx By Cx Cy Dx Dy = 0) := by
  have f1 := cross_fitsInt Ax Ay Bx By Cx Cy hA hB hC
  have f2 := cross_fitsInt Ax Ay Bx By Dx Dy hA hB hD
  have f3 := cross_fitsInt Cx Cy Dx Dy Ax Ay hC hD hA
  have f4 := cross_fitsInt Cx Cy Dx Dy Bx By hC hD hB
  exact ⟨⟨f1, f2, f3, f4⟩, lineCollision_of_exact_conversions _ _ _ _ _ _ _ _ f1 f2 f3 f4⟩

/-- Witness of C29: the segment from `(0, 0)` to `(2, 0)` touches the one from `(2, 0)` to
`(2, 3)` in an end point, and `lineCollision` returns 1; it has no point in common with the one
from `(0, 1)` to `(2, 1)`, and `lineCollision` returns 0. -/
theorem lineCollision_integer_points_witness :
    lineCollision ((0 : Int) : ℚ) ((0 : Int) : ℚ) ((2 : Int) : ℚ) ((0 : Int) : ℚ)
      ((2 : Int) : ℚ) ((0 : Int) : ℚ) ((2 : Int) : ℚ) ((3 : Int) : ℚ) = 1 ∧
    lineCollision ((0 : Int) : ℚ) ((0 : Int) : ℚ) ((2 : Int) : ℚ) ((0 : Int) : ℚ)
      ((0 : Int) : ℚ) ((1 : Int) : ℚ) ((2 : Int) : ℚ) ((1 : Int) : ℚ) = 0 :=
  ⟨(lineCollision_integer_points 0 0 2 0 2 0 2 3 (by decide) (by decide) (by decide)
      (by decide)).2.1.mpr
      ⟨1, 0, by norm_num, by norm_num, by norm_num, by norm_num, by norm_num, by norm_num⟩,
    (lineCollision_integer_points 0 0 2 0 0 1 2 1 (by decide) (by decide) (by decide)
      (by decide)).2.2 (by
      rintro ⟨t, u, _, _, _, _, _, hy⟩
      norm_num at hy)⟩

/-! ### `collisionDebrisShip`: which pieces are collected and what they count -/

/-- What a step of the pickup code keeps: the view that decides the pickups, the debris pool
and the two pickup counters. -/
theorem upgrade_branches_keep (s : Game) :
    (pickupView (upgradeDeposit s) = pickupView s ∧ (upgradeDeposit s).debris = s.debris ∧
      (upgradeDeposit s).debrisA = s.debrisA ∧ (upgradeDeposit s).debrisM = s.debrisM) ∧
    (pickupView (upgradePhoton s) = pickupView s ∧ (upgradePhoton s).debris = s.debris ∧
      (upgradePhoton s).debrisA = s.debrisA ∧ (upgradePhoton s).debrisM = s.debrisM) ∧
    (pickupView (upgradeControl s) = pickupView s ∧ (upgradeControl s).debris = s.debris ∧
      (upgradeControl s).debrisA = s.debrisA ∧ (upgradeControl s).debrisM = s.debrisM) ∧
    (pickupView (upgradeHealth s) = pickupView s ∧ (upgradeHealth s).debris = s.debris ∧
      (upgradeHealth s).debrisA = s.debrisA ∧ (upgradeHealth s).debrisM = s.debrisM) := by
  refine ⟨⟨rfl, rfl, rfl, rfl⟩, ⟨rfl, rfl, rfl, rfl⟩, ?_, ?_⟩
  · unfold upgradeControl
    dsimp only
    split_ifs <;> exact ⟨rfl, rfl, rfl, rfl⟩
  · unfold upgradeHealth
    dsimp only
    split_ifs <;> exact ⟨rfl, rfl, rfl, rfl⟩

theorem applyUpgrade_keeps (rand : ℚ) (s : Game) :
    pickupView (applyUpgrade rand s) = pickupView s ∧ (applyUpgrade rand s).debris = s.debris ∧
    (applyUpgrade rand s).debrisA = s.debrisA ∧ (applyUpgrade rand s).debrisM = s.debrisM := by
  obtain ⟨h1, h2, h3, h4⟩ := upgrade_branches_keep s
  unfold applyUpgrade
  split_ifs
  · exact h1
  · exact h2
  · exact h3
  · exact h4
  · exact ⟨rfl, rfl, rfl, rfl⟩

theorem upgradeDraw_draws (pu su : Int) (n : Nat) :
    ∀ (g : Rng) (r : ℚ × Rng), upgradeDraw pu su n g = some r → r.2.draws = g.draws := by
  induction n with
  | zero => intro g r h; exact absurd h (by simp [upgradeDraw])
  | succ n ih =>
    intro g r h
    unfold upgradeDraw at h
    split_ifs at h
    · exact ih (myRandom 0.0 1.0 g).2 r h
    · cases h
      rfl

theorem upgradeShip_keeps (n : Nat) (s s' : Game) (h : upgradeShip n s = some s') :
    pickupView s' = pickupView s ∧ s'.debris = s.debris ∧
    s'.debrisA = s.debrisA ∧ s'.debrisM = s.debrisM := by
  unfold upgradeShip at h
  cases hd : upgradeDraw s.photonUpgrade s.ship.shipUpgrade n s.rng with
  | none => rw [hd] at h; exact absurd h (by simp)
  | some r =>
    rw [hd] at h
    have e : s' = applyUpgrade r.1 { s with rng := r.2 } := by
      simp only [Option.some.injEq] at h
      exact h.symm
    have hk := applyUpgrade_keeps r.1 { s with rng := r.2 }
    have hdr := upgradeDraw_draws _ _ n s.rng r hd
    rw [e]
    refine ⟨?_, hk.2.1, hk.2.2.1, hk.2.2.2⟩
    rw [hk.1]
    simp only [pickupView, hdr]

theorem rewardAlloy_keeps (i : Nat) (s : Game) :
    pickupView (rewardAlloy i s) = pickupView s ∧ (rewardAlloy i s).debris = s.debris ∧
    (rewardAlloy i s).debrisA = s.debrisA + 1 ∧ (rewardAlloy i s).debrisM = s.debrisM :=
  ⟨rfl, rfl, rfl, rfl⟩

theorem rewardMetal_keeps (i : Nat) (s : Game) :
    pickupView (rewardMetal i s) = pickupView s ∧ (rewardMetal i s).debris = s.debris ∧
    (rewardMetal i s).debrisA = s.debrisA ∧ (rewardMetal i s).debrisM = s.debrisM + 1 :=
  ⟨rfl, rfl, rfl, rfl⟩

theorem takeDebris_keeps (i : Nat) (s : Game) :
    pickupView (takeDebris i s) = pickupView s ∧
    (takeDebris i s).debris
      = Function.update s.debris i { s.debris i with active := 0, lifetime := 0 } ∧
    (takeDebris i s).debrisA = s.debrisA ∧ (takeDebris i s).debrisM = s.debrisM ∧
    ((takeDebris i s).debris i).type = (s.debris i).type := by
  refine ⟨rfl, ?_, rfl, rfl, ?_⟩
  · simp [takeDebris]
  · simp [takeDebris]

/-- One iteration of the loop of `collisionDebrisShip`, when it ends. -/
theorem collectDebris_spec (n i : Nat) (s s' : Game) (h : collectDebris n i s = some s') :
    pickupView s' = pickupView s ∧
    s'.debris = (if debrisInReach (s.debris i) s.ship then
        Function.update s.debris i { s.debris i with active := 0, lifetime := 0 }
      else s.debris) ∧
    s'.debrisA = s.debrisA
      + (if debrisInReach (s.debris i) s.ship ∧ (s.debris i).type = 2 then 1 else 0) ∧
    s'.debrisM = s.debrisM
      + (if debrisInReach (s.debris i) s.ship ∧ (s.debris i).type ≠ 2 then 1 else 0) := by
  obtain ⟨t1, t2, t3, t4, t5⟩ := takeDebris_keeps i s
  unfold collectDebris at h
  by_cases hr : debrisInReach (s.debris i) s.ship
  · rw [if_pos hr] at h
    dsimp only at h
    rw [t5] at h
    by_cases ht : (s.debris i).type = 2
    · rw [if_pos ht] at h
      cases hu : upgradeShip n (takeDebris i s) with
      | none => rw [hu] at h; exact absurd h (by simp)
      | some s1 =>
        rw [hu] at h
        have e : s' = rewardAlloy i s1 := by
          simp only [Option.some.injEq] at h
          exact h.symm
        obtain ⟨k1, k2, k3, k4⟩ := upgradeShip_keeps n _ s1 hu
        obtain ⟨r1, r2, r3, r4⟩ := rewardAlloy_keeps i s1
        rw [e, if_pos hr, if_pos ⟨hr, ht⟩, if_neg (fun c => c.2 ht)]
        exact ⟨r1.trans (k1.trans t1), r2.trans (k2.trans t2), by rw [r3, k3, t3],
          by rw [r4, k4, t4, add_zero]⟩
    · rw [if_neg ht] at h
      have e : s' = rewardMetal i (takeDebris i s) := by
        simp only [Option.some.injEq] at h
        exact h.symm
      obtain ⟨r1, r2, r3, r4⟩ := rewardMetal_keeps i (takeDebris i s)
      rw [e, if_pos hr, if_neg (fun c => ht c.2), if_pos ⟨hr, ht⟩]
      exact ⟨r1.trans t1, r2.trans t2, by rw [r3, t3, add_zero], by rw [r4, t4]⟩
  · rw [if_neg hr] at h
    have e : s' = s := by
      simp only [Option.some.injEq] at h
      exact h.symm
    rw [e, if_neg hr, if_neg (fun c => hr c.1), if_neg (fun c => hr c.1)]
    exact ⟨rfl, rfl, by rw [add_zero], by rw [add_zero]⟩

theorem pickupView_fields {s s' : Game} (h : pickupView s' = pickupView s) :
    s'.ship.x = s.ship.x ∧ s'.ship.y = s.ship.y ∧ s'.ship.size = s.ship.size ∧
    s'.respawn = s.respawn ∧ s'.scoreAL = s.scoreAL ∧ s'.scoreAM = s.scoreAM ∧
    s'.scoreAS = s.scoreAS ∧ s'.rng.draws = s.rng.draws := by
  simp only [pickupView, Prod.mk.injEq] at h
  exact h

theorem debrisInReach_congr (d : Debris) {s s' : Game} (h : pickupView s' = pickupView s) :
    debrisInReach d s'.ship ↔ debrisInReach d s.ship := by
  obtain ⟨h1, h2, h3, _⟩ := pickupView_fields h
  unfold debrisInReach
  rw [h1, h2, h3]

theorem countFrom_succ_cast (p : Nat → Prop) [DecidablePred p] (i k : Nat) :
    ((countFrom (fun j => decide (p j)) i (k + 1) : Nat) : Int)
      = (if p i then 1 else 0) + ((countFrom (fun j => decide (p j)) (i + 1) k : Nat) : Int) := by
  simp only [countFrom]
  by_cases h : p i <;> simp [h]

/-- The loop of `collisionDebrisShip` from slot `i` on, when it ends: the pieces it removes
and what it adds to the two counters. -/
theorem collisionDebrisShipLoop_spec (n : Nat) (k : Nat) :
    ∀ (i : Nat) (s s' : Game), collisionDebrisShipLoop n k i s = some s' →
      pickupView s' = pickupView s ∧
      (∀ j, s'.debris j = if i ≤ j ∧ j < i + k ∧ debrisInReach (s.debris j) s.ship then
          { s.debris j with active := 0, lifetime := 0 } else s.debris j) ∧
      s'.debrisA = s.debrisA + countFrom (fun j =>
        decide (debrisInReach (s.debris j) s.ship ∧ (s.debris j).type = 2)) i k ∧
      s'.debrisM = s.debrisM + countFrom (fun j =>
        decide (debrisInReach (s.debris j) s.ship ∧ (s.debris j).type ≠ 2)) i k := by
  induction k with
  | zero =>
    intro i s s' h
    have e : s' = s := by
      simp only [collisionDebrisShipLoop, Option.some.injEq] at h
      exact h.symm
    subst e
    refine ⟨rfl, ?_, by simp [countFrom], by simp [countFrom]⟩
    intro j
    have : ¬ (i ≤ j ∧ j < i + 0 ∧ debrisInReach (s'.debris j) s'.ship) := by
      intro c; omega
    rw [if_neg this]
  | succ k ih =>
    intro i s s' h
    unfold collisionDebrisShipLoop at h
    cases hc : collectDebris n i s with
    | none => rw [hc] at h; exact absurd h (by simp)
    | some s1 =>
      rw [hc] at h
      dsimp only at h
      obtain ⟨c1, c2, c3, c4⟩ := collectDebris_spec n i s s1 hc
      obtain ⟨l1, l2, l3, l4⟩ := ih (i + 1) s1 s' h
      have hother : ∀ j, j ≠ i → s1.debris j = s.debris j := by
        intro j hj
        rw [c2]
        split_ifs
        · rw [Function.update_noteq hj]
        · rfl
      have hcongr : ∀ (q : Debris → Prop) [DecidablePred q],
          countFrom (fun j => decide (debrisInReach (s1.debris j) s1.ship ∧ q (s1.debris j)))
            (i + 1) k
          = countFrom (fun j => decide (debrisInReach (s.debris j) s.ship ∧ q (s.debris j)))
            (i + 1) k := by
        intro q _
        refine countFrom_congr _ _ k (i + 1) ?_
        intro j h1 _
        have hj : j ≠ i := by omega
        simp only [hother j hj, debrisInReach_congr _ c1]
      refine ⟨l1.trans c1, ?_, ?_, ?_⟩
      · intro j
        rw [l2 j]
        by_cases hj : j = i
        · subst hj
          have hn : ¬ (j + 1 ≤ j ∧ j < j + 1 + k ∧ debrisInReach (s1.debris j) s1.ship) := by
            intro c; omega
          rw [if_neg hn, c2]
          by_cases hr : debrisInReach (s.debris j) s.ship
          · rw [if_pos hr, if_pos ⟨le_refl j, by omega, hr⟩, Function.update_same]
          · rw [if_neg hr, if_neg (fun c => hr c.2.2)]
        · rw [hother j hj]
          simp only [debrisInReach_congr _ c1]
          by_cases hr : i + 1 ≤ j ∧ j < i + 1 + k ∧ debrisInReach (s.debris j) s.ship
          · rw [if_pos hr, if_pos ⟨by omega, by omega, hr.2.2⟩]
          · rw [if_neg hr, if_neg (fun c => hr ⟨by omega, by omega, c.2.2⟩)]
      · have e := countFrom_succ_cast
          (fun j => debrisInReach (s.debris j) s.ship ∧ (s.debris j).type = 2) i k
        rw [l3, c3, hcongr (fun d => d.type = 2), e]
        ring
      · have e := countFrom_succ_cast
          (fun j => debrisInReach (s.debris j) s.ship ∧ (s.debris j).type ≠ 2) i k
        rw [l4, c4, hcongr (fun d => d.type ≠ 2), e]
        ring

theorem accepted_not_rejected (pu su : Int) (r : Nat) (h : upgradeAccepted r) :
    ¬ upgradeRejected pu su (myRandomOf 0.0 1.0 r) := by
  unfold upgradeAccepted at h
  unfold upgradeRejected
  rintro (⟨_, a, b⟩ | ⟨_, a, b⟩) <;> rcases h with h | h <;> norm_num at a b h <;> linarith

/-- The `while` loop of `upgradeShip` ends within `n` draws when one of the next `n` outcomes
of `rand()` is let through whatever upgrades were given. -/
theorem upgradeDraw_some (pu su : Int) (n : Nat) :
    ∀ g : Rng, (∃ j, j < n ∧ upgradeAccepted (g.draws (g.pos + j))) →
      ∃ r, upgradeDraw pu su n g = some r := by
  induction n with
  | zero => rintro g ⟨j, hj, _⟩; omega
  | succ n ih =>
    rintro g ⟨j, hj, hacc⟩
    unfold upgradeDraw
    by_cases hrej : upgradeRejected pu su (myRandom 0.0 1.0 g).1
    · rw [if_pos hrej]
      have hj0 : j ≠ 0 := by
        intro c
        subst c
        exact accepted_not_rejected pu su _ hacc hrej
      refine ih (myRandom 0.0 1.0 g).2 ⟨j - 1, by omega, ?_⟩
      have e : (myRandom 0.0 1.0 g).2.pos + (j - 1) = g.pos + j := by
        show g.pos + 1 + (j - 1) = g.pos + j
        omega
      rw [e]
      exact hacc
    · rw [if_neg hrej]
      exact ⟨_, rfl⟩

theorem collectDebris_some (n i : Nat) (s : Game)
    (hf : ∀ p, ∃ j, j < n ∧ upgradeAccepted (s.rng.draws (p + j))) :
    ∃ s', collectDebris n i s = some s' := by
  unfold collectDebris
  by_cases h1 : debrisInReach (s.debris i) s.ship
  · rw [if_pos h1]
    dsimp only
    by_cases h2 : ((takeDebris i s).debris i).type = 2
    · rw [if_pos h2]
      obtain ⟨r, hr⟩ := upgradeDraw_some (takeDebris i s).photonUpgrade
        (takeDebris i s).ship.shipUpgrade n (takeDebris i s).rng (hf _)
      simp only [upgradeShip, hr]
      exact ⟨_, rfl⟩
    · rw [if_neg h2]
      exact ⟨_, rfl⟩
  · rw [if_neg h1]
    exact ⟨_, rfl⟩

/-- The loop of `collisionDebrisShip` ends when every call of `upgradeShip` finds, among its
`n` draws, one that is let through whatever upgrades were given. -/
theorem collisionDebrisShipLoop_some (n : Nat) (k : Nat) :
    ∀ (i : Nat) (s : Game), (∀ p, ∃ j, j < n ∧ upgradeAccepted (s.rng.draws (p + j))) →
      ∃ s', collisionDebrisShipLoop n k i s = some s' := by
  induction k with
  | zero => intro i s _; exact ⟨s, rfl⟩
  | succ k ih =>
    intro i s hf
    obtain ⟨s1, h1⟩ := collectDebris_some n i s hf
    have hd := (pickupView_fields (collectDebris_spec n i s s1 h1).1).2.2.2.2.2.2.2
    obtain ⟨s2, h2⟩ := ih (i + 1) s1 (by rw [hd]; exact hf)
    refine ⟨s2, ?_⟩
    unfold collisionDebrisShipLoop
    rw [h1]
    exact h2

/-- C24: `collisionDebrisShip` changes nothing unless `respawn = -1`. With `respawn = -1` the
call ends when each run of the `while` loop of `upgradeShip` finds an acceptable value among
its `n` draws, and every state `s'` it ends in satisfies: exactly the pieces that were active,
of type other than 0 and within `size^2` of the ship are deactivated (their `lifetime` is 0,
every other slot is unchanged, so wreckage of type 0 stays); `debrisA` has risen by the number
of collected pieces of type 2 and `debrisM` by the number of the other collected pieces; the
session score has risen by 100 for each of the former and by 10 for each of the latter. -/
theorem collisionDebrisShip_collects (n : Nat) (s : Game) :
    (s.respawn ≠ -1 → collisionDebrisShip n s = some s) ∧
    (s.respawn = -1 →
      ((∀ p, ∃ j, j < n ∧ upgradeAccepted (s.rng.draws (p + j))) →
        ∃ s', collisionDebrisShip n s = some s') ∧
      ∀ s', collisionDebrisShip n s = some s' →
        (∀ j, j < MAX_DEBRIS → debrisInReach (s.debris j) s.ship →
          s'.debris j = { s.debris j with active := 0, lifetime := 0 }) ∧
        (∀ j, ¬ (j < MAX_DEBRIS ∧ debrisInReach (s.debris j) s.ship) →
          s'.debris j = s.debris j) ∧
        (∀ j, (s.debris j).type = 0 → s'.debris j = s.debris j) ∧
        s'.debrisA = s.debrisA + countFrom (fun j =>
          decide (debrisInReach (s.debris j) s.ship ∧ (s.debris j).type = 2)) 0 MAX_DEBRIS ∧
        s'.debrisM = s.debrisM + countFrom (fun j =>
          decide (debrisInReach (s.debris j) s.ship ∧ (s.debris j).type ≠ 2)) 0 MAX_DEBRIS ∧
        sessionScore s' = sessionScore s
          + 100 * countFrom (fun j =>
              decide (debrisInReach (s.debris j) s.ship ∧ (s.debris j).type = 2)) 0 MAX_DEBRIS
          + 10 * countFrom (fun j =>
              decide (debrisInReach (s.debris j) s.ship ∧ (s.debris j).type ≠ 2)) 0 MAX_DEBRIS)
    := by
  constructor
  · intro h
    unfold collisionDebrisShip
    rw [if_neg h]
  · intro h
    have hrun : collisionDebrisShip n s = collisionDebrisShipLoop n MAX_DEBRIS 0 s := by
      unfold collisionDebrisShip
      rw [if_pos h]
    rw [hrun]
    refine ⟨collisionDebrisShipLoop_some n MAX_DEBRIS 0 s, ?_⟩
    intro s' hs'
    obtain ⟨l1, l2, l3, l4⟩ := collisionDebrisShipLoop_spec n MAX_DEBRIS 0 s s' hs'
    obtain ⟨_, _, _, _, v1, v2, v3, _⟩ := pickupView_fields l1
    have hkeep : ∀ j, ¬ (j < MAX_DEBRIS ∧ debrisInReach (s.debris j) s.ship) →
        s'.debris j = s.debris j := by
      intro j hj
      rw [l2 j, if_neg (fun c => hj ⟨by omega, c.2.2⟩)]
    refine ⟨?_, hkeep, ?_, l3, l4, ?_⟩
    · intro j hj hr
      rw [l2 j, if_pos ⟨Nat.zero_le j, by omega, hr⟩]
    · intro j ht
      exact hkeep j (fun c => c.2.2.1 ht)
    · unfold sessionScore
      rw [l3, l4, v1, v2, v3]
      ring

theorem pickupGame_reach :
    debrisInReach (pickupGame.debris 0) pickupGame.ship ∧ (pickupGame.debris 0).type = 2 ∧
    debrisInReach (pickupGame.debris 1) pickupGame.ship ∧ (pickupGame.debris 1).type = 1 ∧
    ¬ debrisInReach (pickupGame.debris 2) pickupGame.ship ∧
    ∀ j, 3 ≤ j → ¬ debrisInReach (pickupGame.debris j) pickupGame.ship := by
  refine ⟨?_, rfl, ?_, rfl, ?_, ?_⟩
  · simp only [debrisInReach, pickupGame, exampleShip]
    norm_num
  · simp only [debrisInReach, pickupGame, exampleShip]
    norm_num
  · intro c
    exact c.2.1 rfl
  · intro j hj c
    have e : pickupGame.debris j = {} := by
      have h0 : j ≠ 0 := by omega
      have h1 : j ≠ 1 := by omega
      have h2 : j ≠ 2 := by omega
      simp [pickupGame, h0, h1, h2]
    rw [e] at c
    exact c.1 rfl

theorem countFrom_three (p : Nat → Bool) (n : Nat)
    (h : ∀ j, 3 ≤ j → j < 3 + n → p j = false) :
    countFrom p 0 (n + 3)
      = (if p 0 then 1 else 0) + ((if p 1 then 1 else 0) + (if p 2 then 1 else 0)) := by
  have e : countFrom p 0 (n + 3)
      = (if p 0 then 1 else 0) + ((if p 1 then 1 else 0)
        + ((if p 2 then 1 else 0) + countFrom p 3 n)) := rfl
  rw [e, countFrom_eq_zero p n 3 h, add_zero]

/-- Witness of C24: in `pickupGame` the stream of `rand()` is constant, so one draw is enough
for `upgradeShip`; the call ends, removes the pieces in slots 0 and 1, leaves the wreckage in
slot 2 active and counts one piece of type 2 and one other piece. -/
theorem collisionDebrisShip_collects_witness :
    ∃ s', collisionDebrisShip 1 pickupGame = some s' ∧
      (s'.debris 0).active = 0 ∧ (s'.debris 1).active = 0 ∧ (s'.debris 2).active = 1 ∧
      s'.debrisA = 1 ∧ s'.debrisM = 1 ∧ sessionScore s' = 110 := by
  obtain ⟨r0, t0, r1, t1, r2, r3⟩ := pickupGame_reach
  have h := (collisionDebrisShip_collects 1 pickupGame).2 rfl
  have hacc : ∀ p, ∃ j, j < 1 ∧ upgradeAccepted (pickupGame.rng.draws (p + j)) := by
    intro p
    refine ⟨0, by decide, ?_⟩
    show upgradeAccepted 0
    unfold upgradeAccepted myRandomOf
    norm_num
  obtain ⟨s', hs'⟩ := h.1 hacc
  obtain ⟨a1, a2, a3, a4, a5, a6⟩ := h.2 s' hs'
  have cA : countFrom (fun j => decide (debrisInReach (pickupGame.debris j) pickupGame.ship ∧
      (pickupGame.debris j).type = 2)) 0 MAX_DEBRIS = 1 := by
    show countFrom _ 0 (22 + 3) = 1
    rw [countFrom_three _ 22 (fun j h1 _ => by simp [r3 j h1])]
    simp [r0, t0, r1, t1, r2]
  have cM : countFrom (fun j => decide (debrisInReach (pickupGame.debris j) pickupGame.ship ∧
      (pickupGame.debris j).type ≠ 2)) 0 MAX_DEBRIS = 1 := by
    show countFrom _ 0 (22 + 3) = 1
    rw [countFrom_three _ 22 (fun j h1 _ => by simp [r3 j h1])]
    simp [r0, t0, r1, t1, r2]
  refine ⟨s', hs', ?_, ?_, ?_, ?_, ?_, ?_⟩
  · rw [a1 0 (by decide) r0]
  · rw [a1 1 (by decide) r1]
  · rw [a3 2 rfl]
    rfl
  · rw [a4, cA]
    rfl
  · rw [a5, cM]
    rfl
  · rw [a6, cA, cM]
    rfl

/-! ### Runs of `destroyAsteroid` from one large asteroid -/

theorem sum_indicator_countFrom (p : Nat → Bool) (c : Int) (n : Nat) :
    ∀ i, Finset.sum (Finset.range n) (fun j => if p (i + j) = true then c else 0)
      = c * countFrom p i n := by
  induction n with
  | zero => intro i; simp [countFrom]
  | succ n ih =>
    intro i
    rw [Finset.sum_range_succ']
    have e : Finset.sum (Finset.range n) (fun j => if p (i + (j + 1)) = true then c else 0)
        = Finset.sum (Finset.range n) (fun j => if p (i + 1 + j) = true then c else 0) := by
      refine Finset.sum_congr rfl ?_
      intro j _
      have : i + (j + 1) = i + 1 + j := by omega
      rw [this]
    rw [e, ih (i + 1)]
    simp only [countFrom, add_zero]
    by_cases h : p i = true
    · simp only [h, if_true]
      push_cast
      ring
    · simp only [h, if_false]
      push_cast
      ring

theorem weightSum_one (s : Game) : weightSum (fun _ => 1) s = activeAsteroids s := by
  unfold weightSum activeAsteroids
  have h := sum_indicator_countFrom (fun i => decide ((s.asteroids i).active ≠ 0)) 1
    MAX_ASTEROIDS 0
  simp only [zero_add, decide_eq_true_eq, one_mul] at h
  exact h

theorem free_add_active (s : Game) : freeAsteroids s + activeAsteroids s = MAX_ASTEROIDS := by
  unfold freeAsteroids activeAsteroids
  have h : ∀ n i, countFrom (fun i => decide ((s.asteroids i).active = 0)) i n
      + countFrom (fun i => decide ((s.asteroids i).active ≠ 0)) i n = n := by
    intro n
    induction n with
    | zero => intro i; rfl
    | succ n ih =>
      intro i
      simp only [countFrom]
      have := ih (i + 1)
      simp only [ne_eq] at this ⊢
      by_cases h0 : (s.asteroids i).active = 0
      · simp only [h0, decide_True, if_true, not_true_eq_false, decide_False,
          Bool.false_eq_true, if_false]
        omega
      · simp only [h0, decide_False, Bool.false_eq_true, if_false, not_false_eq_true,
          decide_True, if_true]
        omega
  exact h MAX_ASTEROIDS 0

/-- The weight of a pool that differs from another one in slot `a` and in the slots `N`. -/
theorem weightSum_step (w : Int → Int) (s r : Game) (a : Nat) (ha : a < MAX_ASTEROIDS)
    (N : Nat → Bool) (c d : Int)
    (h : ∀ j, j < MAX_ASTEROIDS →
      (if (r.asteroids j).active ≠ 0 then w (r.asteroids j).size else 0)
        = (if (s.asteroids j).active ≠ 0 then w (s.asteroids j).size else 0)
          + (if j = a then d else 0) + (if N j = true then c else 0)) :
    weightSum w r = weightSum w s + d + c * countFrom N 0 MAX_ASTEROIDS := by
  unfold weightSum
  rw [Finset.sum_congr rfl (fun j hj => h j (Finset.mem_range.mp hj)),
    Finset.sum_add_distrib, Finset.sum_add_distrib, Finset.sum_ite_eq',
    if_pos (Finset.mem_range.mpr ha)]
  have e := sum_indicator_countFrom N c MAX_ASTEROIDS 0
  simp only [zero_add] at e
  rw [e]

/-- The weight of the pool after `destroyAsteroid` on an active small asteroid. -/
theorem destroyAsteroid_weight_small (m : LibM) (a p : Nat) (s : Game) (w : Int → Int)
    (ha : a < MAX_ASTEROIDS) (hact : (s.asteroids a).active ≠ 0)
    (hsz : (s.asteroids a).size = ASTEROID_SMALL) (hall : AllSized s) :
    weightSum w (destroyAsteroid m a p s) = weightSum w s - w ASTEROID_SMALL ∧
    AllSized (destroyAsteroid m a p s) := by
  have hr := destroyAsteroid_no_children m a p s (destroyAsteroidParent_small m a p s hsz).2.1
  have hin := (destroyAsteroidParent_small m a p s hsz).1
  have hother := destroyAsteroidParent_other m a p s
  constructor
  · have h := weightSum_step w s (destroyAsteroid m a p s) a ha (fun _ => false) 0
      (-(w ASTEROID_SMALL)) (by
        intro j _
        rw [hr]
        by_cases hj : j = a
        · subst hj
          rw [if_neg (fun c => c hin), if_pos hact, hsz]
          simp
        · rw [hother j hj, if_neg hj]
          simp)
    rw [h]
    ring
  · intro j hj hja
    rw [hr] at hja ⊢
    by_cases hj' : j = a
    · subst hj'
      exact absurd hin hja
    · rw [hother j hj'] at hja ⊢
      exact hall j hj hja

/-- The weight of the pool after `destroyAsteroid` on an active medium or large asteroid. -/
theorem destroyAsteroid_weight_split (m : LibM) (a p : Nat) (s : Game) (w : Int → Int)
    (ha : a < MAX_ASTEROIDS) (hact : (s.asteroids a).active ≠ 0)
    (hsz : (s.asteroids a).size = ASTEROID_MEDIUM ∨ (s.asteroids a).size = ASTEROID_LARGE)
    (hall : AllSized s) :
    weightSum w (destroyAsteroid m a p s)
      = weightSum w s - w (s.asteroids a).size
        + w ((destroyAsteroidParent m a p s).1.asteroids a).size
          * (1 + (min (drawnChildren a s).toNat (freeAsteroids s) : Nat)) ∧
    AllSized (destroyAsteroid m a p s) := by
  obtain ⟨_, _, hfr, hsame, hcount⟩ := destroyAsteroid_split m a p s hsz
  have hself := destroyAsteroid_self m a p s hact (Or.inr hsz)
  have hother := destroyAsteroidParent_other m a p s
  have hPact : ((destroyAsteroidParent m a p s).1.asteroids a).active ≠ 0 := by
    rw [hsame a]; exact hact
  have hnew : ((destroyAsteroidParent m a p s).1.asteroids a).size = ASTEROID_SMALL ∨
      ((destroyAsteroidParent m a p s).1.asteroids a).size = ASTEROID_MEDIUM := by
    rcases hsz with h | h
    · left; exact (destroyAsteroidParent_medium m a p s h).2.1
    · right; exact (destroyAsteroidParent_large m a p s h).2.1
  constructor
  · have h := weightSum_step w s (destroyAsteroid m a p s) a ha
      (fun j => decide ((s.asteroids j).active = 0 ∧
        ((destroyAsteroid m a p s).asteroids j).active ≠ 0))
      (w ((destroyAsteroidParent m a p s).1.asteroids a).size)
      (w ((destroyAsteroidParent m a p s).1.asteroids a).size - w (s.asteroids a).size) (by
        intro j _
        simp only [decide_eq_true_eq]
        by_cases hj : j = a
        · subst hj
          have hN : ¬ ((s.asteroids j).active = 0 ∧
              ((destroyAsteroid m j p s).asteroids j).active ≠ 0) := fun c => hact c.1
          rw [if_neg hN, hself, if_pos hPact, if_pos hact, if_pos rfl]
          ring
        · rw [if_neg hj]
          rcases hfr j with e | e
          · have e' : (destroyAsteroid m a p s).asteroids j = s.asteroids j := by
              rw [e, hother j hj]
            have hN : ¬ ((s.asteroids j).active = 0 ∧
                ((destroyAsteroid m a p s).asteroids j).active ≠ 0) := by
              rw [e']
              exact fun c => c.2 c.1
            rw [if_neg hN, e']
            ring
          · have hN : (s.asteroids j).active = 0 ∧
                ((destroyAsteroid m a p s).asteroids j).active ≠ 0 := ⟨e.2.1, e.2.2.1⟩
            rw [if_pos hN, if_pos e.2.2.1, if_neg (fun c => c e.2.1), e.2.2.2.1]
            ring)
    rw [h, hcount]
    push_cast
    ring
  · intro j hj hja
    by_cases hj' : j = a
    · subst hj'
      rw [hself]
      rcases hnew with h | h
      · exact Or.inl h
      · exact Or.inr (Or.inl h)
    · rcases hfr j with e | e
      · rw [e, hother j hj'] at hja ⊢
        exact hall j hj hja
      · rw [e.2.2.2.1]
        rcases hnew with h | h
        · exact Or.inl h
        · exact Or.inr (Or.inl h)

theorem weightSum_mono (w1 w2 : Int → Int) (s : Game)
    (h : ∀ j, j < MAX_ASTEROIDS → (s.asteroids j).active ≠ 0 →
      w1 (s.asteroids j).size ≤ w2 (s.asteroids j).size) :
    weightSum w1 s ≤ weightSum w2 s := by
  unfold weightSum
  refine Finset.sum_le_sum ?_
  intro j hj
  by_cases ha : (s.asteroids j).active ≠ 0
  · rw [if_pos ha, if_pos ha]
    exact h j (Finset.mem_range.mp hj) ha
  · rw [if_neg ha, if_neg ha]

theorem weightSum_const (c : Int) (s : Game) :
    weightSum (fun _ => c) s = c * activeAsteroids s := by
  unfold weightSum activeAsteroids
  have h := sum_indicator_countFrom (fun i => decide ((s.asteroids i).active ≠ 0)) c
    MAX_ASTEROIDS 0
  simp only [zero_add, decide_eq_true_eq] at h
  exact h

theorem weights_of_sized (sz : Int)
    (h : sz = ASTEROID_SMALL ∨ sz = ASTEROID_MEDIUM ∨ sz = ASTEROID_LARGE) :
    1 ≤ leastCalls sz ∧ 1 ≤ mostCalls sz ∧ 1 ≤ mostPieces sz := by
  rcases h with h | h | h <;> subst h <;> decide

/-- At most 12 asteroids are active in a pool whose weight `mostPieces` is at most 12. -/
theorem active_le_pieces (s : Game) (hall : AllSized s) :
    (activeAsteroids s : Int) ≤ weightSum mostPieces s ∧
    (activeAsteroids s : Int) ≤ weightSum mostCalls s ∧
    weightSum leastCalls s ≤ 10 * activeAsteroids s := by
  have e := weightSum_const 1 s
  rw [one_mul] at e
  refine ⟨?_, ?_, ?_⟩
  · rw [← e]
    exact weightSum_mono _ _ s (fun j hj ha => (weights_of_sized _ (hall j hj ha)).2.2)
  · rw [← e]
    exact weightSum_mono _ _ s (fun j hj ha => (weights_of_sized _ (hall j hj ha)).2.1)
  · rw [← weightSum_const 10 s]
    refine weightSum_mono _ _ s ?_
    intro j _ _
    unfold leastCalls
    split_ifs <;> decide

/-- One call of `destroyAsteroid` on an active asteroid of the pool keeps the three bounds on
the weights of the pool, counts as one call, and finds room for all the children it draws. -/
theorem destroyAsteroid_inv (m : LibM) (a p : Nat) (s : Game) (n : Int)
    (ha : a < MAX_ASTEROIDS) (hact : (s.asteroids a).active ≠ 0) (hall : AllSized s)
    (h1 : 10 ≤ n + weightSum leastCalls s) (h2 : n + weightSum mostCalls s ≤ 17)
    (h3 : weightSum mostPieces s ≤ 12) :
    AllSized (destroyAsteroid m a p s) ∧
    10 ≤ n + 1 + weightSum leastCalls (destroyAsteroid m a p s) ∧
    n + 1 + weightSum mostCalls (destroyAsteroid m a p s) ≤ 17 ∧
    weightSum mostPieces (destroyAsteroid m a p s) ≤ 12 ∧
    (destroyAsteroidParent m a p s).2 ≤ (freeAsteroids (destroyAsteroidParent m a p s).1 : Int)
    := by
  have hact12 : (activeAsteroids s : Int) ≤ 12 := le_trans (active_le_pieces s hall).1 h3
  have hfree := free_add_active s
  have h16 : MAX_ASTEROIDS = 16 := rfl
  have hfree4 : 4 ≤ freeAsteroids s := by omega
  rcases hall a ha hact with hsz | hsz | hsz
  · have w1 := destroyAsteroid_weight_small m a p s leastCalls ha hact hsz hall
    have w2 := destroyAsteroid_weight_small m a p s mostCalls ha hact hsz hall
    have w3 := destroyAsteroid_weight_small m a p s mostPieces ha hact hsz hall
    have e1 : leastCalls ASTEROID_SMALL = 1 := by decide
    have e2 : mostCalls ASTEROID_SMALL = 1 := by decide
    have e3 : mostPieces ASTEROID_SMALL = 1 := by decide
    rw [w1.1, w2.1, w3.1, e1, e2, e3, (destroyAsteroidParent_small m a p s hsz).2.1]
    refine ⟨w1.2, by omega, by omega, by omega, by omega⟩
  · have w1 := destroyAsteroid_weight_split m a p s leastCalls ha hact (Or.inl hsz) hall
    have w2 := destroyAsteroid_weight_split m a p s mostCalls ha hact (Or.inl hsz) hall
    have w3 := destroyAsteroid_weight_split m a p s mostPieces ha hact (Or.inl hsz) hall
    obtain ⟨q1, q2, q3⟩ := destroyAsteroidParent_medium m a p s hsz
    have hd : drawnChildren a s = ⌊myRandomAt 1.2 2.2 s.rng 0⌋ := by
      unfold drawnChildren
      rw [if_pos hsz]
    have hk := floor_myRandomAt_medium s.rng 0
    rw [← hd] at hk
    have hfreeP : freeAsteroids (destroyAsteroidParent m a p s).1 = freeAsteroids s := by
      obtain ⟨_, _, _, hsame, _⟩ := destroyAsteroid_split m a p s (Or.inl hsz)
      unfold freeAsteroids
      exact countFrom_congr _ _ _ _ (fun j _ _ => by rw [hsame j])
    have e1 : leastCalls ASTEROID_SMALL = 1 ∧ leastCalls ASTEROID_MEDIUM = 3 := by decide
    have e2 : mostCalls ASTEROID_SMALL = 1 ∧ mostCalls ASTEROID_MEDIUM = 4 := by decide
    have e3 : mostPieces ASTEROID_SMALL = 1 ∧ mostPieces ASTEROID_MEDIUM = 3 := by decide
    rw [w1.1, w2.1, w3.1, q2, hsz, e1.1, e1.2, e2.1, e2.2, e3.1, e3.2, q3, ← hd, hfreeP]
    have hmin : ((min (drawnChildren a s).toNat (freeAsteroids s) : Nat) : Int)
        = drawnChildren a s := by
      rcases hk with k | k <;> rw [k] <;> omega
    rw [hmin]
    refine ⟨w1.2, ?_, ?_, ?_, ?_⟩ <;> rcases hk with k | k <;> rw [k] <;> omega
  · have w1 := destroyAsteroid_weight_split m a p s leastCalls ha hact (Or.inr hsz) hall
    have w2 := destroyAsteroid_weight_split m a p s mostCalls ha hact (Or.inr hsz) hall
    have w3 := destroyAsteroid_weight_split m a p s mostPieces ha hact (Or.inr hsz) hall
    obtain ⟨q1, q2, q3⟩ := destroyAsteroidParent_large m a p s hsz
    have hnm : ¬ ASTEROID_LARGE = ASTEROID_MEDIUM := by decide
    have hd : drawnChildren a s = ⌊myRandomAt 2.3 3.3 s.rng 0⌋ := by
      unfold drawnChildren
      rw [hsz, if_neg hnm]
    have hk := floor_myRandomAt_large s.rng 0
    rw [← hd] at hk
    have hfreeP : freeAsteroids (destroyAsteroidParent m a p s).1 = freeAsteroids s := by
      obtain ⟨_, _, _, hsame, _⟩ := destroyAsteroid_split m a p s (Or.inr hsz)
      unfold freeAsteroids
      exact countFrom_congr _ _ _ _ (fun j _ _ => by rw [hsame j])
    have e1 : leastCalls ASTEROID_MEDIUM = 3 ∧ leastCalls ASTEROID_LARGE = 10 := by decide
    have e2 : mostCalls ASTEROID_MEDIUM = 4 ∧ mostCalls ASTEROID_LARGE = 17 := by decide
    have e3 : mostPieces ASTEROID_MEDIUM = 3 ∧ mostPieces ASTEROID_LARGE = 12 := by decide
    rw [w1.1, w2.1, w3.1, q2, hsz, e1.1, e1.2, e2.1, e2.2, e3.1, e3.2, q3, ← hd, hfreeP]
    have hmin : ((min (drawnChildren a s).toNat (freeAsteroids s) : Nat) : Int)
        = drawnChildren a s := by
      rcases hk with k | k <;> rw [k] <;> omega
    rw [hmin]
    refine ⟨w1.2, ?_, ?_, ?_, ?_⟩ <;> rcases hk with k | k <;> rw [k] <;> omega

/-- A run of calls keeps the three bounds, each call counting as one. -/
theorem destroyRun_inv (m : LibM) (calls : List (Nat × Nat)) :
    ∀ (s s' : Game) (n : Int), AllSized s → 10 ≤ n + weightSum leastCalls s →
      n + weightSum mostCalls s ≤ 17 → weightSum mostPieces s ≤ 12 →
      destroyRun m calls s = some s' →
      AllSized s' ∧ 10 ≤ n + calls.length + weightSum leastCalls s' ∧
      n + calls.length + weightSum mostCalls s' ≤ 17 ∧ weightSum mostPieces s' ≤ 12 := by
  induction calls with
  | nil =>
    intro s s' n hall h1 h2 h3 hrun
    have e : s' = s := by
      simp only [destroyRun, Option.some.injEq] at hrun
      exact hrun.symm
    subst e
    simp only [List.length_nil, Nat.cast_zero, add_zero]
    exact ⟨hall, h1, h2, h3⟩
  | cons c rest ih =>
    intro s s' n hall h1 h2 h3 hrun
    unfold destroyRun at hrun
    by_cases hc : c.1 < MAX_ASTEROIDS ∧ (s.asteroids c.1).active ≠ 0
    · rw [if_pos hc] at hrun
      obtain ⟨i1, i2, i3, i4, _⟩ := destroyAsteroid_inv m c.1 c.2 s n hc.1 hc.2 hall h1 h2 h3
      obtain ⟨j1, j2, j3, j4⟩ := ih _ s' (n + 1) i1 i2 i3 i4 hrun
      refine ⟨j1, ?_, ?_, j4⟩
      · simp only [List.length_cons, Nat.cast_add, Nat.cast_one]
        linarith
      · simp only [List.length_cons, Nat.cast_add, Nat.cast_one]
        linarith
    · rw [if_neg hc] at hrun
      exact absurd hrun (by simp)

theorem weightSum_single (w : Int → Int) (s : Game) (i0 : Nat) (hi0 : i0 < MAX_ASTEROIDS)
    (hact : (s.asteroids i0).active ≠ 0)
    (hothers : ∀ j, j < MAX_ASTEROIDS → j ≠ i0 → (s.asteroids j).active = 0) :
    weightSum w s = w (s.asteroids i0).size := by
  unfold weightSum
  rw [Finset.sum_eq_single_of_mem i0 (Finset.mem_range.mpr hi0)]
  · rw [if_pos hact]
  · intro j hj hne
    rw [if_neg (fun c => c (hothers j (Finset.mem_range.mp hj) hne))]

theorem weightSum_nonneg (w : Int → Int) (hw : ∀ sz, 0 ≤ w sz) (s : Game) :
    0 ≤ weightSum w s := by
  unfold weightSum
  refine Finset.sum_nonneg ?_
  intro j _
  split_ifs
  · exact hw _
  · exact le_refl 0

/-- C30: from a pool with exactly one active asteroid, of size `ASTEROID_LARGE`, every run of
calls of `destroyAsteroid`, each on an asteroid of the pool that is active at its turn and with
any photon, for every state of `rand()`: has at most 17 calls; leaves at most 12 asteroids
active; has at least 10 calls when it leaves the pool empty; while it leaves an asteroid
active it has fewer than 17 calls and a further call is possible, so that every run that
cannot be continued ends with an empty pool after 10 to 17 calls; and in the next call the
number of children drawn never exceeds the number of free slots. -/
theorem destroyAsteroid_runs_from_one_large (m : LibM) (s : Game) (i0 : Nat)
    (hi0 : i0 < MAX_ASTEROIDS) (hact : (s.asteroids i0).active ≠ 0)
    (hsz : (s.asteroids i0).size = ASTEROID_LARGE)
    (hothers : ∀ j, j < MAX_ASTEROIDS → j ≠ i0 → (s.asteroids j).active = 0)
    (calls : List (Nat × Nat)) (s' : Game) (hrun : destroyRun m calls s = some s') :
    calls.length ≤ 17 ∧ activeAsteroids s' ≤ 12 ∧
    (activeAsteroids s' = 0 → 10 ≤ calls.length) ∧
    (0 < activeAsteroids s' →
      calls.length < 17 ∧ ∃ a, a < MAX_ASTEROIDS ∧ (s'.asteroids a).active ≠ 0) ∧
    (∀ a p, a < MAX_ASTEROIDS → (s'.asteroids a).active ≠ 0 →
      (destroyAsteroidParent m a p s').2
        ≤ (freeAsteroids (destroyAsteroidParent m a p s').1 : Int)) := by
  have hall : AllSized s := by
    intro j hj hja
    by_cases hji : j = i0
    · subst hji; exact Or.inr (Or.inr hsz)
    · exact absurd (hothers j hj hji) hja
  have e1 : weightSum leastCalls s = 10 := by
    rw [weightSum_single _ s i0 hi0 hact hothers, hsz]; decide
  have e2 : weightSum mostCalls s = 17 := by
    rw [weightSum_single _ s i0 hi0 hact hothers, hsz]; decide
  have e3 : weightSum mostPieces s = 12 := by
    rw [weightSum_single _ s i0 hi0 hact hothers, hsz]; decide
  obtain ⟨k1, k2, k3, k4⟩ := destroyRun_inv m calls s s' 0 hall (by rw [e1]; decide)
    (by rw [e2]; decide) (by rw [e3]) hrun
  obtain ⟨a1, a2, a3⟩ := active_le_pieces s' k1
  have hn2 : 0 ≤ weightSum mostCalls s' := by
    refine weightSum_nonneg _ ?_ s'
    intro sz
    unfold mostCalls
    split_ifs <;> decide
  have hn1 : 0 ≤ weightSum leastCalls s' := by
    refine weightSum_nonneg _ ?_ s'
    intro sz
    unfold leastCalls
    split_ifs <;> decide
  refine ⟨by omega, by omega, ?_, ?_, ?_⟩
  · intro h0
    rw [h0] at a3
    have : weightSum leastCalls s' ≤ 0 := by simpa using a3
    omega
  · intro hpos
    refine ⟨by omega, ?_⟩
    by_contra hne
    have hz : activeAsteroids s' = 0 := by
      unfold activeAsteroids
      refine countFrom_eq_zero _ _ 0 ?_
      intro j _ hj
      rw [decide_eq_false_iff_not]
      intro c
      exact hne ⟨j, by omega, c⟩
    omega
  · intro a p ha hact'
    exact (destroyAsteroid_inv m a p s' calls.length ha hact' k1 (by omega) (by omega) k4).2.2.2.2

/-- Witness of C30: from `oneLargeGame` the run that destroys the asteroid in slot 0 three
times (large, then medium, then small) leaves at most 12 asteroids active, and the pool is not
empty after these three calls. -/
theorem destroyAsteroid_runs_from_one_large_witness :
    ∃ s', destroyRun demoLibM [(0, 0), (0, 0), (0, 0)] oneLargeGame = some s' ∧
      activeAsteroids s' ≤ 12 ∧ activeAsteroids s' ≠ 0 := by
  have hA : ∀ j, j < MAX_ASTEROIDS → j ≠ 0 → (oneLargeGame.asteroids j).active = 0 := by
    intro j _ hj
    simp [oneLargeGame, hj]
  have hact : (oneLargeGame.asteroids 0).active ≠ 0 := by show (1 : Int) ≠ 0; decide
  have hself1 := destroyAsteroid_self demoLibM 0 0 oneLargeGame hact (Or.inr (Or.inr rfl))
  have hp1 := destroyAsteroidParent_large demoLibM 0 0 oneLargeGame rfl
  have hact1 : ((destroyAsteroid demoLibM 0 0 oneLargeGame).asteroids 0).active ≠ 0 := by
    rw [hself1, hp1.1]; exact hact
  have hsz1 : ((destroyAsteroid demoLibM 0 0 oneLargeGame).asteroids 0).size
      = ASTEROID_MEDIUM := by
    rw [hself1]; exact hp1.2.1
  have hself2 := destroyAsteroid_self demoLibM 0 0 _ hact1 (Or.inr (Or.inl hsz1))
  have hp2 := destroyAsteroidParent_medium demoLibM 0 0 _ hsz1
  have hact2 : ((destroyAsteroid demoLibM 0 0
      (destroyAsteroid demoLibM 0 0 oneLargeGame)).asteroids 0).active ≠ 0 := by
    rw [hself2, hp2.1]; exact hact1
  have hrun : destroyRun demoLibM [(0, 0), (0, 0), (0, 0)] oneLargeGame
      = some (destroyAsteroid demoLibM 0 0 (destroyAsteroid demoLibM 0 0
          (destroyAsteroid demoLibM 0 0 oneLargeGame))) := by
    have h16 : (0 : Nat) < MAX_ASTEROIDS := by decide
    simp only [destroyRun, h16, hact, hact1, hact2, ne_eq, not_false_eq_true, and_self, if_true]
  have h := destroyAsteroid_runs_from_one_large demoLibM oneLargeGame 0 (by decide) hact rfl hA
    _ _ hrun
  refine ⟨_, hrun, h.2.1, ?_⟩
  intro h0
  have := h.2.2.1 h0
  simp at this

end Asteroids
